import Mathlib

/-!
# XCSoar OpenGL canvas and airspace renderer

A shallow embedding of the OpenGL drawing core of XCSoar
(`src/ui/canvas/opengl/*`, `src/Renderer/AirspaceRendererGL.cpp`).

* The GL context is an explicit state `GLState`; every GL entry point the
  sources call is a constructor of `GLCall` whose effect on the state is
  `GLState.apply`.
* C++ code is state passing over `Ctx`: the GL context, the canvas
  selection (pen, brush), the values the coming `glGetError` calls return,
  and the trace of events issued so far.
* Machine integers are `Nat`/`Int` with explicit wrap-around.
-/

namespace XCSoar

/-! ## Basic types -/

/-- Screen pixel coordinates (`PixelPoint`). -/
structure PixelPoint where
  x : Int
  y : Int
deriving DecidableEq

/-- Unsigned pixel size (`PixelSize`). -/
structure PixelSize where
  width : Nat
  height : Nat
deriving DecidableEq

/-- Rectangle in pixel coordinates (`PixelRect`). -/
structure PixelRect where
  left : Int
  top : Int
  right : Int
  bottom : Int
deriving DecidableEq

/-- Reduction of a natural number to `unsigned` (32 bit). -/
def u32 (n : Nat) : Nat := n % 2 ^ 32

/-- Subtraction of two `unsigned` values, wrapping modulo `2^32`. -/
def usub (a b : Nat) : Nat := (a % 2 ^ 32 + 2 ^ 32 - b % 2 ^ 32) % 2 ^ 32

/-- Multiplication of two `unsigned` values, wrapping modulo `2^32`. -/
def umul (a b : Nat) : Nat := (a * b) % 2 ^ 32

/-- `GLfloat` values handed to the GL are kept as exact rationals. -/
abbrev GLfloat := Rat

/-- An RGBA colour with 8 bit channels (`Color`). -/
structure Color where
  r : Nat
  g : Nat
  b : Nat
  a : Nat
deriving DecidableEq

/-- `Color::WithAlpha`. -/
def Color.WithAlpha (c : Color) (alpha : Nat) : Color := { c with a := alpha }

/-- `COLOR_BLACK`. -/
def COLOR_BLACK : Color := ⟨0, 0, 0, 255⟩

/-- `GLenum` error code `GL_NO_ERROR`. -/
def GL_NO_ERROR : Nat := 0

/-! ## GL enumerations -/

/-- The capabilities toggled by `glEnable`/`glDisable` in the sources. -/
inductive Cap where
  | GL_BLEND
  | GL_STENCIL_TEST
  | GL_SCISSOR_TEST
deriving DecidableEq

/-- Stencil comparison functions. -/
inductive StencilFunc where
  | GL_NEVER
  | GL_LESS
  | GL_LEQUAL
  | GL_GREATER
  | GL_GEQUAL
  | GL_EQUAL
  | GL_NOTEQUAL
  | GL_ALWAYS
deriving DecidableEq

/-- Stencil update operations. -/
inductive StencilOp where
  | GL_KEEP
  | GL_ZERO
  | GL_REPLACE
  | GL_INCR
  | GL_DECR
  | GL_INVERT
  | GL_INCR_WRAP
  | GL_DECR_WRAP
deriving DecidableEq

/-- Blend factors used by the sources (and the GL defaults). -/
inductive BlendFactor where
  | GL_ZERO
  | GL_ONE
  | GL_SRC_ALPHA
  | GL_ONE_MINUS_SRC_ALPHA
  | GL_ONE_MINUS_DST_COLOR
  | GL_CONSTANT_ALPHA
  | GL_ONE_MINUS_CONSTANT_ALPHA
deriving DecidableEq

/-- Primitive modes of the draw calls. -/
inductive Prim where
  | GL_TRIANGLES
  | GL_TRIANGLE_STRIP
  | GL_TRIANGLE_FAN
  | GL_LINE_STRIP
  | GL_LINE_LOOP
deriving DecidableEq

/-- The process-wide shader programs (`OpenGL::*_shader`). -/
inductive Shader where
  | solid_shader
  | texture_shader
  | invert_shader
  | alpha_shader
  | combine_texture_shader
  | dashed_shader
  | circle_outline_shader
  | filled_circle_shader
deriving DecidableEq

/-- Uniform locations of the shaders (`OpenGL::circle_outline_center`, ...). -/
inductive Uniform where
  | dashed_period
  | dashed_ratio
  | dashed_start
  | circle_outline_color
  | circle_outline_center
  | circle_outline_radius1
  | circle_outline_radius2
  | filled_circle_color1
  | filled_circle_color2
  | filled_circle_center
  | filled_circle_radius1
  | filled_circle_radius2
deriving DecidableEq

/-- Vertex attribute slots (`OpenGL::Attribute`). -/
inductive Attribute where
  | POSITION
  | TEXCOORD
  | COLOR
deriving DecidableEq

/-- A vertex handed to the GL through the position pointer. -/
abbrev Vertex := GLfloat × GLfloat

/-- Conversion of a pixel point to a vertex. -/
def PixelPoint.toVertex (p : PixelPoint) : Vertex := ((p.x : Rat), (p.y : Rat))

/-- The colour write mask (`glColorMask`). -/
structure ColorMask where
  r : Bool
  g : Bool
  b : Bool
  a : Bool
deriving DecidableEq

/-- All four channels writable. -/
def ColorMask.all : ColorMask := ⟨true, true, true, true⟩

/-- No channel writable. -/
def ColorMask.none : ColorMask := ⟨false, false, false, false⟩

/-- Whether some channel is writable. -/
def ColorMask.any (m : ColorMask) : Bool := m.r || m.g || m.b || m.a

/-- One write to a pixel of the colour buffer: the source colour of the
fragment is left abstract, the record keeps the state under which it was
written. The colour of a pixel is the history of the writes made to it, so a
pixel whose history is unchanged has an unchanged colour. -/
structure ColorWrite where
  mask : ColorMask
  program : Option Shader
  blended : Bool
  sfactor : BlendFactor
  dfactor : BlendFactor
deriving DecidableEq

/-- Where in the sources a GL call is made: inside the constructor or
destructor of a `GLEnable` guard, or directly. -/
inductive Site where
  | guard
  | direct
deriving DecidableEq

/-- The component types of a vertex array (`GL_VALUE`, `GL_EXACT`, `GL_FLOAT`). -/
inductive VType where
  | GL_VALUE
  | GL_EXACT
  | GL_FLOAT
deriving DecidableEq

/-- A byte of host or GPU memory (the value of an `unsigned char`). -/
abbrev Byte := Nat

/-- A `GLenum` or `GLint` constant of the GL headers. -/
abbrev GLenum := Nat

def GL_ALPHA : GLenum := 0x1906

def GL_RGB : GLenum := 0x1907

def GL_RGBA : GLenum := 0x1908

def GL_LUMINANCE : GLenum := 0x1909

def GL_UNSIGNED_BYTE : GLenum := 0x1401

def GL_UNPACK_ALIGNMENT : GLenum := 0x0CF5

def GL_TEXTURE_MAG_FILTER : GLenum := 0x2800

def GL_TEXTURE_MIN_FILTER : GLenum := 0x2801

def GL_TEXTURE_WRAP_S : GLenum := 0x2802

def GL_TEXTURE_WRAP_T : GLenum := 0x2803

def GL_CLAMP_TO_EDGE : GLenum := 0x812F

def GL_LINEAR : GLenum := 0x2601

/-- The GL entry points called by the sources. -/
inductive GLCall where
  | glEnable (cap : Cap)
  | glDisable (cap : Cap)
  | glStencilMask (mask : Nat)
  | glStencilFunc (func : StencilFunc) (ref : Nat) (mask : Nat)
  | glStencilOp (sfail : StencilOp) (dpfail : StencilOp) (dppass : StencilOp)
  | glClear_STENCIL_BUFFER_BIT
  | glColorMask (r g b a : Bool)
  | glBlendFunc (sfactor dfactor : BlendFactor)
  | glBlendColor (r g b a : GLfloat)
  | glUseProgram (p : Shader)
  | glUniform1f (loc : Uniform) (v : GLfloat)
  | glUniform2f (loc : Uniform) (v0 v1 : GLfloat)
  | glUniform4f (loc : Uniform) (c : Color)
  | glVertexAttrib4f (index : Attribute) (r g b a : GLfloat)
  | glEnableVertexAttribArray (index : Attribute)
  | glDisableVertexAttribArray (index : Attribute)
  | glVertexAttribPointer (index : Attribute) (type : VType) (data : List Vertex)
  | glLineWidth (w : Nat)
  | glDrawArrays (mode : Prim) (first count : Nat)
  | glDrawElements (mode : Prim) (count : Nat) (indices : List Nat)
  | glCopyTexSubImage2D (x y : Int) (width height : Nat)
  | glScissor (x y : Int) (width height : Nat)
  | glGetError (result : Nat)
  | glPixelStorei (pname : GLenum) (param : Int)
  | glGenTextures (id : Nat)
  | glTexParameteri (pname : GLenum) (param : GLenum)
  | glTexImage2D (internal_format : GLenum) (width height : Int) (format type : GLenum)
      (pixels : Option (List Byte))
  | glTexSubImage2D (xoffset yoffset : Int) (width height : Int) (format type : GLenum)
      (pixels : List Byte)
deriving DecidableEq

/-- What the rasteriser of the GL implementation sees of a draw call: the
program with its uniforms, the position array, the line width and the
arguments of the call. -/
structure RasterInput where
  program : Option Shader
  uniform1 : Uniform → GLfloat
  uniform2 : Uniform → GLfloat × GLfloat
  position : List Vertex
  line_width : Nat
  mode : Prim
  first : Nat
  count : Nat
  indices : List Nat

/-! ## The GL context -/

/-- The per-fragment state of the GL context: capabilities, colour write
mask, stencil function, stencil write mask, stencil operations and blend
function. The stencil buffer has 8 bits per pixel; the depth test is never
enabled by the program and is not part of the state. -/
structure FragState where
  caps : Cap → Bool
  color_mask : ColorMask
  stencil_func : StencilFunc
  stencil_ref : Nat
  stencil_value_mask : Nat
  stencil_writemask : Nat
  stencil_fail : StencilOp
  stencil_zfail : StencilOp
  stencil_zpass : StencilOp
  blend_src : BlendFactor
  blend_dst : BlendFactor

/-- The vertex-processing state of the GL context: the program in use, its
uniforms, the position array and the line width. -/
structure VertexState where
  program : Option Shader
  uniform1 : Uniform → GLfloat
  uniform2 : Uniform → GLfloat × GLfloat
  position : List Vertex
  line_width : Nat

/-- The part of the GL context the drawing code reads or writes. Pixels are
those of the current drawable region. `raster` is the rasteriser of the GL
implementation: the pixels for which a draw call generates a fragment that
survives the fragment shader; no GL call changes it. -/
structure GLState where
  raster : RasterInput → PixelPoint → Bool
  frag : FragState
  vtx : VertexState
  stencil : PixelPoint → Nat
  color : PixelPoint → List ColorWrite

/-- The state of a freshly created GL context with rasteriser `raster`. -/
def GLState.initial (raster : RasterInput → PixelPoint → Bool) : GLState where
  raster := raster
  frag :=
    { caps := fun _ => false
      color_mask := ColorMask.all
      stencil_func := StencilFunc.GL_ALWAYS
      stencil_ref := 0
      stencil_value_mask := 255
      stencil_writemask := 255
      stencil_fail := StencilOp.GL_KEEP
      stencil_zfail := StencilOp.GL_KEEP
      stencil_zpass := StencilOp.GL_KEEP
      blend_src := BlendFactor.GL_ONE
      blend_dst := BlendFactor.GL_ZERO }
  vtx :=
    { program := none
      uniform1 := fun _ => 0
      uniform2 := fun _ => (0, 0)
      position := []
      line_width := 1 }
  stencil := fun _ => 0
  color := fun _ => []

/-- The stencil reference value, clamped to the range of the 8 bit buffer. -/
def clampRef (ref : Nat) : Nat := min ref 255

/-- The stencil test of a fragment against the stored value `s`:
`(ref & mask) func (s & mask)`. -/
def FragState.stencilPasses (f : FragState) (s : Nat) : Bool :=
  let r := clampRef f.stencil_ref &&& f.stencil_value_mask
  let v := s &&& f.stencil_value_mask
  match f.stencil_func with
  | StencilFunc.GL_NEVER => false
  | StencilFunc.GL_LESS => decide (r < v)
  | StencilFunc.GL_LEQUAL => decide (r ≤ v)
  | StencilFunc.GL_GREATER => decide (r > v)
  | StencilFunc.GL_GEQUAL => decide (r ≥ v)
  | StencilFunc.GL_EQUAL => decide (r = v)
  | StencilFunc.GL_NOTEQUAL => decide (r ≠ v)
  | StencilFunc.GL_ALWAYS => true

/-- The value a stencil operation proposes for a pixel holding `s`. -/
def stencilOpValue (op : StencilOp) (ref : Nat) (s : Nat) : Nat :=
  match op with
  | StencilOp.GL_KEEP => s
  | StencilOp.GL_ZERO => 0
  | StencilOp.GL_REPLACE => clampRef ref
  | StencilOp.GL_INCR => min (s + 1) 255
  | StencilOp.GL_DECR => s - 1
  | StencilOp.GL_INVERT => 255 ^^^ s
  | StencilOp.GL_INCR_WRAP => (s + 1) % 256
  | StencilOp.GL_DECR_WRAP => (s + 255) % 256

/-- Writing `v` over `s` through the write mask: bits of the mask take the
bit of `v`, the others keep the bit of `s`. -/
def maskedWrite (mask s v : Nat) : Nat := s ^^^ ((s ^^^ v) &&& mask)

/-- The stencil value of a pixel after a fragment was processed. With the
stencil test disabled the buffer is not modified. -/
def FragState.stencilAfter (f : FragState) (s : Nat) : Nat :=
  if f.caps Cap.GL_STENCIL_TEST then
    let op := if f.stencilPasses s then f.stencil_zpass else f.stencil_fail
    maskedWrite f.stencil_writemask s (stencilOpValue op f.stencil_ref s)
  else s

/-- Whether a fragment reaches the colour buffer of a pixel holding stencil
value `s`: always with the stencil test disabled, else when the test passes. -/
def FragState.fragmentPasses (f : FragState) (s : Nat) : Bool :=
  !f.caps Cap.GL_STENCIL_TEST || f.stencilPasses s

/-- The record of a colour write under the current state. -/
def GLState.colorWrite (g : GLState) : ColorWrite :=
  ⟨g.frag.color_mask, g.vtx.program, g.frag.caps Cap.GL_BLEND, g.frag.blend_src,
    g.frag.blend_dst⟩

/-- Processing the fragments of one draw call. -/
def GLState.draw (g : GLState) (frags : PixelPoint → Bool) : GLState :=
  { g with
    stencil := fun p => if frags p then g.frag.stencilAfter (g.stencil p) else g.stencil p
    color := fun p =>
      if frags p && g.frag.fragmentPasses (g.stencil p) && g.frag.color_mask.any then
        g.colorWrite :: g.color p
      else g.color p }

/-- The fragments of a draw call under the current state. -/
def GLState.frags (g : GLState) (mode : Prim) (first count : Nat) (indices : List Nat) :
    PixelPoint → Bool :=
  g.raster ⟨g.vtx.program, g.vtx.uniform1, g.vtx.uniform2, g.vtx.position, g.vtx.line_width,
    mode, first, count, indices⟩

/-- The effect of a GL call on the per-fragment state. -/
def FragState.apply (f : FragState) : GLCall → FragState
  | GLCall.glEnable cap => { f with caps := fun c => if c = cap then true else f.caps c }
  | GLCall.glDisable cap => { f with caps := fun c => if c = cap then false else f.caps c }
  | GLCall.glStencilMask mask => { f with stencil_writemask := mask }
  | GLCall.glStencilFunc func ref mask =>
      { f with stencil_func := func, stencil_ref := ref, stencil_value_mask := mask }
  | GLCall.glStencilOp sfail dpfail dppass =>
      { f with stencil_fail := sfail, stencil_zfail := dpfail, stencil_zpass := dppass }
  | GLCall.glColorMask r g b a => { f with color_mask := ⟨r, g, b, a⟩ }
  | GLCall.glBlendFunc s d => { f with blend_src := s, blend_dst := d }
  | _ => f

/-- The effect of a GL call on the vertex-processing state. -/
def VertexState.apply (v : VertexState) : GLCall → VertexState
  | GLCall.glUseProgram p => { v with program := some p }
  | GLCall.glUniform1f loc x =>
      { v with uniform1 := fun l => if l = loc then x else v.uniform1 l }
  | GLCall.glUniform2f loc x y =>
      { v with uniform2 := fun l => if l = loc then (x, y) else v.uniform2 l }
  | GLCall.glVertexAttribPointer index _ data =>
      if index = Attribute.POSITION then { v with position := data } else v
  | GLCall.glLineWidth w => { v with line_width := w }
  | _ => v

/-- The effect of one GL call on the context: state-setting calls change the
per-fragment or the vertex-processing state, the stencil clear writes the
clear value 0 (the GL default, the program never calls `glClearStencil`)
through the stencil write mask, draw calls process their fragments. -/
def GLState.apply (g : GLState) (call : GLCall) : GLState :=
  match call with
  | GLCall.glClear_STENCIL_BUFFER_BIT =>
      { g with stencil := fun p => maskedWrite g.frag.stencil_writemask (g.stencil p) 0 }
  | GLCall.glDrawArrays mode first count => g.draw (g.frags mode first count [])
  | GLCall.glDrawElements mode count indices => g.draw (g.frags mode 0 count indices)
  | _ => { g with frag := g.frag.apply call, vtx := g.vtx.apply call }

/-- The fill-mask bit (bit 0) of the stencil value of a pixel. -/
def GLState.fillBit (g : GLState) (p : PixelPoint) : Bool := (g.stencil p).testBit 0

/-- The outline-mask bit (bit 1) of the stencil value of a pixel. -/
def GLState.outlineBit (g : GLState) (p : PixelPoint) : Bool := (g.stencil p).testBit 1

/-! ## Canvas selection, events and the execution context -/

/-- Line styles of a pen (`Pen::Style`). -/
inductive PenStyle where
  | SOLID
  | DASH1
  | DASH2
  | DASH3
deriving DecidableEq

/-- Modelled from the spec: `Pen` (Pen.hpp is not part of the sources), a
stroke style with colour, width and dash pattern. -/
structure Pen where
  width : Nat
  color : Color
  style : PenStyle
deriving DecidableEq

/-- Modelled from the spec: `Pen::IsDefined` (Pen.hpp is not part of the
sources), a pen of width 0 is the null pen. -/
def Pen.IsDefined (p : Pen) : Bool := decide (0 < p.width)

/-- Modelled from the spec: `Brush` (Brush.hpp is not part of the sources), a
fill colour or hollow (no fill). -/
structure Brush where
  hollow : Bool
  color : Color
deriving DecidableEq

/-- `Brush::IsHollow`. -/
def Brush.IsHollow (b : Brush) : Bool := b.hollow

/-- An angle (`Angle`), in its native unit. -/
abbrev Angle := Rat

/-- A text: the code units of a `tstring_view`. -/
abbrev Text := List Char

/-- Modelled from the spec: `GLTexture` (Texture.hpp is not part of the
sources) holds a logical size, an allocated (possibly padded) GPU size and a
flipped-origin flag, and owns one GPU texture object. -/
structure GLTexture where
  id : Nat
  size : PixelSize
  allocated_size : PixelSize
  flipped : Bool
deriving DecidableEq

/-- Modelled from the spec: `Bitmap` (Bitmap.hpp is not part of the sources),
a texture with its size. -/
structure Bitmap where
  texture : GLTexture
  size : PixelSize
deriving DecidableEq

/-- The attributes read by `glXQueryDrawable`. -/
inductive GLXAttribute where
  | GLX_WIDTH
  | GLX_HEIGHT
deriving DecidableEq

/-- The attributes set by `SDL_GL_SetAttribute`. -/
inductive SDLAttribute where
  | SDL_GL_CONTEXT_PROFILE_MASK
  | SDL_GL_CONTEXT_MAJOR_VERSION
  | SDL_GL_CONTEXT_MINOR_VERSION
  | SDL_GL_DOUBLEBUFFER
  | SDL_GL_STENCIL_SIZE
deriving DecidableEq

/-- Calls of the window system, of SDL and of the screen and window classes,
made by `TopCanvas.cpp` (GLX), `TopWindow.cpp` and `Display.cpp` (SDL). -/
inductive SysCall where
  | glXCreateWindow
  | XSync
  | glXMakeContextCurrent
  | glXQueryDrawable (attrib : GLXAttribute)
  | SetupViewport (size : PixelSize)
  | glXDestroyWindow
  | glXSwapBuffers
  | ScopeLockCPU_ctor
  | ScopeLockCPU_dtor
  | Screen_Lock
  | Screen_Unlock
  | Screen_Flip
  | OnPaint
  | DrawMouseCursor
  | discard_framebuffer
  | SDL_Init (flags : Nat)
  | SDL_GL_SetAttribute (attr : SDLAttribute) (value : Nat)
  | SDL_SetHint
  | SDL_ShowCursor
deriving DecidableEq

/-- Calls into parts of the repository that are not among the sources: the
colour, pen and brush classes, binding a texture, clearing the canvas, and
the generic shape routines of `ui/canvas/Util.hpp` (which draw through other
canvas operations); and the calls of the window system. Their own GL calls
are not part of the trace. -/
inductive LibCall where
  | Color_Bind (c : Color)
  | Color_Uniform (loc : Uniform) (c : Color)
  | Pen_Bind (p : Pen)
  | Pen_Unbind (p : Pen)
  | Brush_Bind (b : Brush)
  | Brush_BindUniform (loc : Uniform) (b : Brush)
  | Texture_Bind (id : Nat)
  | Canvas_Clear (c : Color)
  | Segment (center : PixelPoint) (radius : Nat) (start stop : Angle) (horizon : Bool)
  | Arc (center : PixelPoint) (radius : Nat) (start stop : Angle)
  | Annulus (center : PixelPoint) (big_radius : Nat) (start stop : Angle) (small_radius : Nat)
  | KeyHole (center : PixelPoint) (big_radius : Nat) (start stop : Angle) (small_radius : Nat)
  | RoundRect (r : PixelRect) (radius : Nat)
  | DonutVertices_Bind (center : PixelPoint) (small_radius big_radius : Nat)
  | DonutVertices_BindInnerCircle (center : PixelPoint) (small_radius big_radius : Nat)
  | DonutVertices_BindOuterCircle (center : PixelPoint) (small_radius big_radius : Nat)
  | System (call : SysCall)
deriving DecidableEq

/-- An airspace class or type (`AirspaceClass`), the index of the per-class
settings and look. -/
abbrev AirspaceClass := Nat

/-- A geographic location (`GeoPoint`), left abstract. -/
abbrev GeoPoint := Int × Int

/-- `AbstractAirspace::Shape`. -/
inductive Shape where
  | CIRCLE
  | POLYGON
deriving DecidableEq

/-- What the renderers read of an airspace (`AbstractAirspace`,
`AirspaceCircle`, `AirspacePolygon`). -/
structure AbstractAirspace where
  shape : Shape
  type_or_class : AirspaceClass
  asclass : AirspaceClass
  reference_location : GeoPoint
  radius : Nat
  points : List GeoPoint
deriving DecidableEq

/-- `AbstractAirspace::GetShape`. -/
def AbstractAirspace.GetShape (a : AbstractAirspace) : Shape := a.shape

/-- `AbstractAirspace::GetTypeOrClass`. -/
def AbstractAirspace.GetTypeOrClass (a : AbstractAirspace) : AirspaceClass := a.type_or_class

/-- `AbstractAirspace::GetClass`. -/
def AbstractAirspace.GetClass (a : AbstractAirspace) : AirspaceClass := a.asclass

/-- Source functions whose entry is recorded in the trace. -/
inductive Fn where
  | SetFillStencil
  | ClearFillStencil
  | Visit (airspace : AbstractAirspace)
deriving DecidableEq

/-- One observable event of an execution. -/
inductive Ev where
  | gl (site : Site) (call : GLCall)
  | log (tag : String) (code : Nat)
  | lib (call : LibCall)
  | enter (fn : Fn)
deriving DecidableEq

/-- The effect of an event on the GL context: a GL call acts through
`GLState.apply`, binding a pen sets the line width, everything else leaves the
modelled state alone. -/
def GLState.step (g : GLState) : Ev → GLState
  | Ev.gl _ call => g.apply call
  | Ev.lib (LibCall.Pen_Bind p) => { g with vtx := { g.vtx with line_width := p.width } }
  | _ => g

/-- The GL context after a sequence of events. -/
def GLState.run (g : GLState) (evs : List Ev) : GLState := evs.foldl GLState.step g

/-- Modelled from the spec: `Font` (Font.hpp is not part of the sources); the
canvas reads its height. -/
structure Font where
  height : Nat
deriving DecidableEq

/-- The background mode of text drawing (`Canvas::background_mode`). -/
inductive BackgroundMode where
  | OPAQUE
  | TRANSPARENT
deriving DecidableEq

/-- The text state of a canvas: the selected font (none for `nullptr`), the
text and background colours, the background mode and the canvas size. -/
structure TextState where
  font : Option Font
  text_color : Color
  background_color : Color
  background_mode : BackgroundMode
  size : PixelSize

/-- The text state of a new canvas of size 640 x 480. -/
def TextState.initial : TextState :=
  ⟨none, COLOR_BLACK, ⟨255, 255, 255, 255⟩, BackgroundMode.TRANSPARENT, ⟨640, 480⟩⟩

/-- The execution context of the drawing code: the GL context, the pen and
brush selected into the canvas, the values the coming `glGetError` calls
return (`GL_NO_ERROR` once the list is used up), the events so far, and the
text state of the canvas. -/
structure Ctx where
  gl : GLState
  pen : Pen
  brush : Brush
  errs : List Nat
  trace : List Ev
  text : TextState

/-- Issue one event. -/
def Ctx.emit (e : Ev) (c : Ctx) : Ctx :=
  { c with gl := c.gl.step e, trace := c.trace ++ [e] }

/-- A GL call made directly by the code. -/
def Ctx.call (call : GLCall) (c : Ctx) : Ctx := c.emit (Ev.gl Site.direct call)

/-- A call into a part of the repository outside the sources. -/
def Ctx.lib (call : LibCall) (c : Ctx) : Ctx := c.emit (Ev.lib call)

/-- The code the next `glGetError` call returns. -/
def Ctx.nextError (c : Ctx) : Nat := c.errs.headD GL_NO_ERROR

/-- `glGetError()`: returns the next error code. -/
def glGetError (c : Ctx) : Nat × Ctx :=
  (c.nextError, Ctx.call (GLCall.glGetError c.nextError) { c with errs := c.errs.tail })

/-- `LogFormat("<tag> OpenGL error 0x%X", code)`. -/
def LogFormat (tag : String) (code : Nat) (c : Ctx) : Ctx := c.emit (Ev.log tag code)

/-- The line `GLenum err = glGetError(); if (err != GL_NO_ERROR)
LogFormat("<tag> OpenGL error 0x%X", err);` that follows most GL calls. -/
def checkError (tag : String) (c : Ctx) : Ctx :=
  let r := glGetError c
  if r.1 ≠ GL_NO_ERROR then LogFormat tag r.1 r.2 else r.2

/-! ## Scope.hpp -/

/-- `GLEnable<cap>::GLEnable()`. -/
def GLEnable.ctor (cap : Cap) (c : Ctx) : Ctx :=
  checkError "FMAFMA" (c.emit (Ev.gl Site.guard (GLCall.glEnable cap)))

/-- `GLEnable<cap>::~GLEnable()`. -/
def GLEnable.dtor (cap : Cap) (c : Ctx) : Ctx :=
  checkError "FMBFMB" (c.emit (Ev.gl Site.guard (GLCall.glDisable cap)))

/-- `GLBlend::GLBlend(sfactor, dfactor)`: the base `GLEnable<GL_BLEND>` is
constructed first. -/
def GLBlend.ctor (sfactor dfactor : BlendFactor) (c : Ctx) : Ctx :=
  checkError "FMFM" (Ctx.call (GLCall.glBlendFunc sfactor dfactor) (GLEnable.ctor Cap.GL_BLEND c))

/-- `GLBlend::~GLBlend()`: the destructor of the base class. -/
def GLBlend.dtor (c : Ctx) : Ctx := GLEnable.dtor Cap.GL_BLEND c

/-- `ScopeAlphaBlend::ScopeAlphaBlend()`. -/
def ScopeAlphaBlend.ctor (c : Ctx) : Ctx :=
  GLBlend.ctor BlendFactor.GL_SRC_ALPHA BlendFactor.GL_ONE_MINUS_SRC_ALPHA c

/-- `ScopeAlphaBlend::~ScopeAlphaBlend()`. -/
def ScopeAlphaBlend.dtor (c : Ctx) : Ctx := GLBlend.dtor c

/-- `GLBlend::GLBlend(GLclampf alpha)`. -/
def GLBlend.ctorAlpha (alpha : GLfloat) (c : Ctx) : Ctx :=
  let c := GLEnable.ctor Cap.GL_BLEND c
  let c := Ctx.call
    (GLCall.glBlendFunc BlendFactor.GL_CONSTANT_ALPHA BlendFactor.GL_ONE_MINUS_CONSTANT_ALPHA) c
  let c := checkError "FNFN" c
  let c := Ctx.call (GLCall.glBlendColor 0 0 0 alpha) c
  checkError "FNFN" c

/-- `GLScissor::GLScissor(x, y, width, height)`. -/
def GLScissor.ctor (x y : Int) (width height : Nat) (c : Ctx) : Ctx :=
  checkError "FOFO" (Ctx.call (GLCall.glScissor x y width height)
    (GLEnable.ctor Cap.GL_SCISSOR_TEST c))

/-- `GLScissor::~GLScissor()`: the destructor of the base class. -/
def GLScissor.dtor (c : Ctx) : Ctx := GLEnable.dtor Cap.GL_SCISSOR_TEST c

/-! ## Program.hpp, VertexPointer.hpp -/

/-- `GLProgram::Use()` of the program `p`. -/
def GLProgram.Use (p : Shader) (c : Ctx) : Ctx :=
  checkError "FEFE" (Ctx.call (GLCall.glUseProgram p) (checkError "FEFEbefore" c))

/-- `ScopeVertexPointer::Update(type, p)`. -/
def ScopeVertexPointer.Update (type : VType) (data : List Vertex) (c : Ctx) : Ctx :=
  checkError "GEGE" (Ctx.call (GLCall.glVertexAttribPointer Attribute.POSITION type data) c)

/-- `ScopeVertexPointer::ScopeVertexPointer(const T *p)`. -/
def ScopeVertexPointer.ctor (type : VType) (data : List Vertex) (c : Ctx) : Ctx :=
  ScopeVertexPointer.Update type data
    (checkError "GDGD" (Ctx.call (GLCall.glEnableVertexAttribArray Attribute.POSITION) c))

/-- `ScopeVertexPointer::~ScopeVertexPointer()`. -/
def ScopeVertexPointer.dtor (c : Ctx) : Ctx :=
  checkError "GBGB" (Ctx.call (GLCall.glDisableVertexAttribArray Attribute.POSITION) c)

/-- The default constructor `ScopeVertexPointer::ScopeVertexPointer()`. -/
def ScopeVertexPointer.ctorDefault (c : Ctx) : Ctx :=
  checkError "GAGA" (Ctx.call (GLCall.glEnableVertexAttribArray Attribute.POSITION) c)

/-! ## Canvas.cpp -/

/-- Geometry conversion routines that are not part of the sources
(Triangulate.hpp): `PolygonToTriangles` returns the index list it wrote to
the triangle buffer, `LineToTriangles points num_points width loop tcap`
the strip it wrote to the vertex buffer. -/
structure Geometry where
  PolygonToTriangles : List PixelPoint → Nat → List Nat
  LineToTriangles : List PixelPoint → Nat → Nat → Bool → Bool → List Vertex

/-- Modelled from the spec: `Canvas::SelectHollowBrush` (Canvas.hpp is not
part of the sources), the brush becomes hollow. -/
def Canvas.SelectHollowBrush (c : Ctx) : Ctx := { c with brush := { c.brush with hollow := true } }

/-- Modelled from the spec: `Canvas::Select(const Brush &)` (Canvas.hpp is not
part of the sources). -/
def Canvas.SelectBrush (b : Brush) (c : Ctx) : Ctx := { c with brush := b }

/-- Modelled from the spec: `Canvas::Select(const Pen &)` (Canvas.hpp is not
part of the sources). -/
def Canvas.SelectPen (p : Pen) (c : Ctx) : Ctx := { c with pen := p }

/-- Modelled from the spec: `Canvas::SelectNullPen` (Canvas.hpp is not part of
the sources), the pen becomes undefined (width 0). -/
def Canvas.SelectNullPen (c : Ctx) : Ctx := { c with pen := ⟨0, COLOR_BLACK, PenStyle.SOLID⟩ }

/-- Modelled from the spec: `Canvas::SelectBlackPen` (Canvas.hpp is not part
of the sources), a solid black pen of width 1. -/
def Canvas.SelectBlackPen (c : Ctx) : Ctx := { c with pen := ⟨1, COLOR_BLACK, PenStyle.SOLID⟩ }

/-- Modelled from the spec: `Canvas::IsPenOverBrush` (Canvas.hpp is not part
of the sources): the pen is defined and is not hidden by a brush of the same
colour. -/
def Canvas.IsPenOverBrush (c : Ctx) : Bool :=
  c.pen.IsDefined && (c.brush.IsHollow || decide (c.brush.color ≠ c.pen.color))

/-- `PixelRect{center}.WithMargin(radius)`. -/
def PixelRect.aroundWithMargin (center : PixelPoint) (radius : Nat) : PixelRect :=
  ⟨center.x - radius, center.y - radius, center.x + radius, center.y + radius⟩

/-- `GLDrawRectangle(r)`. -/
def GLDrawRectangle (r : PixelRect) (c : Ctx) : Ctx :=
  let vertices : List Vertex :=
    [((r.left : Rat), (r.top : Rat)), ((r.right : Rat), (r.top : Rat)),
     ((r.left : Rat), (r.bottom : Rat)), ((r.right : Rat), (r.bottom : Rat))]
  let c := ScopeVertexPointer.ctor VType.GL_VALUE vertices c
  let c := Ctx.call (GLCall.glDrawArrays Prim.GL_TRIANGLE_STRIP 0 4) c
  let c := checkError "CKCK" c
  ScopeVertexPointer.dtor c

/-- `Canvas::DrawFilledRectangle(r, color)`. -/
def Canvas.DrawFilledRectangle (r : PixelRect) (color : Color) (c : Ctx) : Ctx :=
  let c := GLProgram.Use Shader.solid_shader c
  let c := Ctx.lib (LibCall.Color_Bind color) c
  GLDrawRectangle r c

/-- `Canvas::InvertRectangle(r)`. -/
def Canvas.InvertRectangle (r : PixelRect) (c : Ctx) : Ctx :=
  let c := Ctx.call (GLCall.glColorMask true true true false) c
  let c := checkError "CLCL" c
  let c := Ctx.call (GLCall.glEnable Cap.GL_BLEND) c
  let c := checkError "CMCM" c
  let c := Ctx.call (GLCall.glBlendFunc BlendFactor.GL_ONE_MINUS_DST_COLOR BlendFactor.GL_ZERO) c
  let c := checkError "CNCN" c
  let c := Canvas.DrawFilledRectangle r ⟨255, 255, 255, 255⟩ c
  let c := Ctx.call (GLCall.glDisable Cap.GL_BLEND) c
  let c := checkError "COCO" c
  let c := Ctx.call (GLCall.glColorMask true true true true) c
  checkError "CPCP" c

/-- `Canvas::DrawPolygon(points, num_points)`. -/
def Canvas.DrawPolygon (G : Geometry) (points : List PixelPoint) (num_points : Nat)
    (c : Ctx) : Ctx :=
  if c.brush.IsHollow && !c.pen.IsDefined then c
  else
    let c := GLProgram.Use Shader.solid_shader c
    let c := ScopeVertexPointer.ctor VType.GL_VALUE (points.map PixelPoint.toVertex) c
    let c :=
      if !c.brush.IsHollow && decide (num_points ≥ 3) then
        let c := Ctx.lib (LibCall.Brush_Bind c.brush) c
        let triangle_buffer := G.PolygonToTriangles points num_points
        let idx_count := triangle_buffer.length
        let c :=
          if idx_count > 0 then
            Ctx.call (GLCall.glDrawElements Prim.GL_TRIANGLES idx_count triangle_buffer) c
          else c
        checkError "CTCT" c
      else c
    let c :=
      if Canvas.IsPenOverBrush c then
        let c := Ctx.lib (LibCall.Pen_Bind c.pen) c
        let c :=
          if c.pen.width ≤ 2 then
            checkError "CUCU" (Ctx.call (GLCall.glDrawArrays Prim.GL_LINE_LOOP 0 num_points) c)
          else
            let vertex_buffer := G.LineToTriangles points num_points c.pen.width true false
            let vertices := vertex_buffer.length
            if vertices > 0 then
              let c := ScopeVertexPointer.Update VType.GL_VALUE vertex_buffer c
              let c := Ctx.call (GLCall.glDrawArrays Prim.GL_TRIANGLE_STRIP 0 vertices) c
              checkError "CVCV" c
            else c
        Ctx.lib (LibCall.Pen_Unbind c.pen) c
      else c
    ScopeVertexPointer.dtor c

/-- `Canvas::DrawCircle(center, radius)`. -/
def Canvas.DrawCircle (center : PixelPoint) (radius : Nat) (c : Ctx) : Ctx :=
  if c.brush.IsHollow then
    let c := GLProgram.Use Shader.circle_outline_shader c
    let c := Ctx.lib (LibCall.Color_Uniform Uniform.circle_outline_color c.pen.color) c
    let c := Ctx.call (GLCall.glUniform2f Uniform.circle_outline_center center.x center.y) c
    let c := checkError "DKDK" c
    let c := Ctx.call (GLCall.glUniform1f Uniform.circle_outline_radius2 radius) c
    let c := checkError "DKDK" c
    let c := Ctx.call
      (GLCall.glUniform1f Uniform.circle_outline_radius1 (usub radius c.pen.width)) c
    let c := checkError "DKDK" c
    GLDrawRectangle (PixelRect.aroundWithMargin center radius) c
  else
    let c := GLProgram.Use Shader.filled_circle_shader c
    let c := Ctx.lib (LibCall.Color_Uniform Uniform.filled_circle_color2 c.pen.color) c
    let c := Ctx.lib (LibCall.Brush_BindUniform Uniform.filled_circle_color1 c.brush) c
    let c := Ctx.call (GLCall.glUniform2f Uniform.filled_circle_center center.x center.y) c
    let c := checkError "DLDL" c
    let c := Ctx.call (GLCall.glUniform1f Uniform.filled_circle_radius2 radius) c
    let c := checkError "DLDL" c
    let c := Ctx.call
      (GLCall.glUniform1f Uniform.filled_circle_radius1 (usub radius c.pen.width)) c
    let c := checkError "DLDL" c
    GLDrawRectangle (PixelRect.aroundWithMargin center radius) c

/-! ## Texture.cpp, ConstantAlpha.cpp and the rest of Canvas.cpp -/

/-- `PixelRect(origin, size)`. -/
def PixelRect.ofOriginSize (p : PixelPoint) (size : PixelSize) : PixelRect :=
  ⟨p.x, p.y, p.x + size.width, p.y + size.height⟩

/-- `PixelRect(size)`. -/
def PixelRect.ofSize (size : PixelSize) : PixelRect := ⟨0, 0, size.width, size.height⟩

/-- `PixelRect::GetTopLeft`. -/
def PixelRect.GetTopLeft (r : PixelRect) : PixelPoint := ⟨r.left, r.top⟩

/-- `PixelRect::GetTopRight`. -/
def PixelRect.GetTopRight (r : PixelRect) : PixelPoint := ⟨r.right, r.top⟩

/-- `PixelRect::GetBottomLeft`. -/
def PixelRect.GetBottomLeft (r : PixelRect) : PixelPoint := ⟨r.left, r.bottom⟩

/-- `PixelRect::GetBottomRight`. -/
def PixelRect.GetBottomRight (r : PixelRect) : PixelPoint := ⟨r.right, r.bottom⟩

/-- Conversion of an `unsigned` to `int` (two's complement, 32 bit). -/
def toInt (n : Nat) : Int := if n % 2 ^ 32 < 2 ^ 31 then (n % 2 ^ 32 : Nat) else (n % 2 ^ 32 : Nat) - 2 ^ 32

/-- Conversion of an `int` to `unsigned` (modulo `2^32`). -/
def ofInt (x : Int) : Nat := (x % 2 ^ 32).toNat

/-- `GLTexture::Draw(dest, src)`. -/
def GLTexture.Draw (t : GLTexture) (dest src : PixelRect) (c : Ctx) : Ctx :=
  let vertices : List Vertex :=
    [dest.GetTopLeft.toVertex, dest.GetTopRight.toVertex, dest.GetBottomLeft.toVertex,
     dest.GetBottomRight.toVertex]
  let c := ScopeVertexPointer.ctor VType.GL_VALUE vertices c
  let x0 : GLfloat := (src.left : Rat) / t.allocated_size.width
  let y0 : GLfloat := (src.top : Rat) / t.allocated_size.height
  let x1 : GLfloat := (src.right : Rat) / t.allocated_size.width
  let y1 : GLfloat := (src.bottom : Rat) / t.allocated_size.height
  let coord : List Vertex :=
    [(x0, if t.flipped then y1 else y0), (x1, if t.flipped then y1 else y0),
     (x0, if t.flipped then y0 else y1), (x1, if t.flipped then y0 else y1)]
  let c := Ctx.call (GLCall.glEnableVertexAttribArray Attribute.TEXCOORD) c
  let c := checkError "FXFXV" c
  let c := Ctx.call (GLCall.glVertexAttribPointer Attribute.TEXCOORD VType.GL_FLOAT coord) c
  let c := checkError "FXFXB" c
  let c := Ctx.call (GLCall.glDrawArrays Prim.GL_TRIANGLE_STRIP 0 4) c
  let c := checkError "FXFXA" c
  let c := Ctx.call (GLCall.glDisableVertexAttribArray Attribute.TEXCOORD) c
  let c := checkError "FXFX" c
  ScopeVertexPointer.dtor c

/-- Modelled from the spec: `GLTexture::Draw(PixelPoint)` (Texture.hpp is not
part of the sources), the whole texture drawn at its logical size. -/
def GLTexture.DrawAt (t : GLTexture) (p : PixelPoint) (c : Ctx) : Ctx :=
  t.Draw (PixelRect.ofOriginSize p t.size) (PixelRect.ofSize t.size) c

/-- Modelled from the spec: `GLTexture::Bind` (Texture.hpp is not part of the
sources). -/
def GLTexture.Bind (t : GLTexture) (c : Ctx) : Ctx := Ctx.lib (LibCall.Texture_Bind t.id) c

/-- `CombineAlpha(alpha)`. -/
def CombineAlpha (alpha : GLfloat) (c : Ctx) : Ctx :=
  let c := Ctx.call (GLCall.glVertexAttrib4f Attribute.COLOR 1 1 1 alpha) c
  let c := checkError "DXDX" c
  GLProgram.Use Shader.combine_texture_shader c

/-- The member `enabled` of `ScopeTextureConstantAlpha`. -/
def ScopeTextureConstantAlpha.enabled (use_texture_alpha : Bool) (alpha : GLfloat) : Bool :=
  use_texture_alpha || decide (alpha < 1)

/-- `ScopeTextureConstantAlpha::ScopeTextureConstantAlpha(use_texture_alpha,
alpha)`. -/
def ScopeTextureConstantAlpha.ctor (use_texture_alpha : Bool) (alpha : GLfloat) (c : Ctx) : Ctx :=
  let c := GLProgram.Use Shader.texture_shader c
  if !ScopeTextureConstantAlpha.enabled use_texture_alpha alpha then c
  else
    let c := Ctx.call (GLCall.glEnable Cap.GL_BLEND) c
    let c := checkError "DXDX" c
    let c :=
      if use_texture_alpha then
        if alpha ≥ 1 then
          checkError "DXDX" (Ctx.call
            (GLCall.glBlendFunc BlendFactor.GL_SRC_ALPHA BlendFactor.GL_ONE_MINUS_SRC_ALPHA) c)
        else CombineAlpha alpha c
      else
        let c := Ctx.call (GLCall.glBlendFunc BlendFactor.GL_CONSTANT_ALPHA
          BlendFactor.GL_ONE_MINUS_CONSTANT_ALPHA) c
        let c := checkError "DYDY" c
        let c := Ctx.call (GLCall.glBlendColor 0 0 0 alpha) c
        checkError "DYDY" c
    checkError "DYDY" c

/-- `ScopeTextureConstantAlpha::~ScopeTextureConstantAlpha()`, of an object
whose member `enabled` has the given value. -/
def ScopeTextureConstantAlpha.dtor (enabled : Bool) (c : Ctx) : Ctx :=
  let c := if enabled then Ctx.call (GLCall.glDisable Cap.GL_BLEND) c else c
  let c := checkError "DZDZ" c
  GLProgram.Use Shader.solid_shader c

/-- What the donut code of `Canvas.cpp` uses of the rest of the repository
(Math/Angle.hpp, Math/FastTrig.hpp and VertexArray.hpp are not part of the
sources). Angles are kept in their native unit as exact rationals:
`FullCircle` and `HalfCircle` are `Angle::FullCircle()` and
`Angle::HalfCircle()`, `AsDelta` is `Angle::AsDelta`. `NATIVE_TO_INT` is the
macro of that name and `ISINETABLE_size` is `ISINETABLE.size()`. Of
`GLDonutVertices` there are the `unsigned` constants `CIRCLE_SIZE` and
`MAX_ANGLE` and the functions `ImportAngle`, `PreviousAngle` and
`NextAngle`. -/
structure DonutLib where
  FullCircle : Angle
  HalfCircle : Angle
  AsDelta : Angle → Angle
  NATIVE_TO_INT : Angle → Nat
  ISINETABLE_size : Nat
  CIRCLE_SIZE : Nat
  MAX_ANGLE : Nat
  ImportAngle : Nat → Nat → Nat
  PreviousAngle : Nat → Nat
  NextAngle : Nat → Nat

/-- What `Canvas.cpp` uses of the rest of the repository: the geometry
routines, `TruncateStringUTF8`, the text cache, the colour constant
`COLOR_DARK_GRAY`, the globals `OpenGL::translate` and
`OpenGL::viewport_size`, the projection of
`ToNormalisedDeviceCoordinates` and the donut table. -/
structure CanvasLib where
  geometry : Geometry
  TruncateStringUTF8 : Text → Nat → Nat
  TextCache_Get : Font → Text → Option GLTexture
  TextCache_LookupSize : Font → Text → PixelSize
  TextCache_GetSize : Font → Text → PixelSize
  COLOR_DARK_GRAY : Color
  translate : PixelPoint
  viewport_size : PixelPoint
  ToNormalisedDeviceCoordinates : PixelPoint → GLfloat × GLfloat
  donut : DonutLib

/-- `ClipText(font, text, x, canvas_width)`. -/
def ClipText (L : CanvasLib) (font : Font) (text : Text) (x : Int) (canvas_width : Nat) : Text :=
  if text.isEmpty || decide (x ≥ toInt canvas_width) then []
  else
    let font_width := max (u32 font.height / 4) 1
    let max_width := usub canvas_width (ofInt x)
    let max_chars := max_width / font_width
    text.take (L.TruncateStringUTF8 text max_chars)

/-- `Canvas::DrawOutlineRectangleGL(r)`. -/
def Canvas.DrawOutlineRectangleGL (r : PixelRect) (c : Ctx) : Ctx :=
  let r : PixelRect := { r with right := r.right - 1, bottom := r.bottom - 1 }
  let vertices : List Vertex :=
    [r.GetTopLeft.toVertex, r.GetTopRight.toVertex, r.GetBottomRight.toVertex,
     r.GetBottomLeft.toVertex]
  let c := ScopeVertexPointer.ctor VType.GL_EXACT vertices c
  let c := Ctx.call (GLCall.glDrawArrays Prim.GL_LINE_LOOP 0 4) c
  let c := checkError "CQCQ" c
  ScopeVertexPointer.dtor c

/-- `Canvas::DrawOutlineRectangle(r)`. -/
def Canvas.DrawOutlineRectangle (r : PixelRect) (c : Ctx) : Ctx :=
  let c := GLProgram.Use Shader.solid_shader c
  let c := Ctx.lib (LibCall.Pen_Bind c.pen) c
  let c := Canvas.DrawOutlineRectangleGL r c
  Ctx.lib (LibCall.Pen_Unbind c.pen) c

/-- `Canvas::DrawOutlineRectangle(r, color)`. -/
def Canvas.DrawOutlineRectangleColor (r : PixelRect) (color : Color) (c : Ctx) : Ctx :=
  let c := GLProgram.Use Shader.solid_shader c
  let c := Ctx.lib (LibCall.Color_Bind color) c
  let c := Ctx.call (GLCall.glLineWidth 1) c
  let c := checkError "CRCR" c
  Canvas.DrawOutlineRectangleGL r c

/-- `Canvas::FadeToWhite(alpha)`. -/
def Canvas.FadeToWhite (alpha : Nat) (c : Ctx) : Ctx :=
  let c := ScopeAlphaBlend.ctor c
  let c := Ctx.lib (LibCall.Canvas_Clear ⟨255, 255, 255, alpha⟩) c
  ScopeAlphaBlend.dtor c

/-- `Canvas::FadeToWhite(rc, alpha)`. -/
def Canvas.FadeToWhiteRect (rc : PixelRect) (alpha : Nat) (c : Ctx) : Ctx :=
  let c := ScopeAlphaBlend.ctor c
  let c := Canvas.DrawFilledRectangle rc ⟨255, 255, 255, alpha⟩ c
  ScopeAlphaBlend.dtor c

/-- `Canvas::DrawPolyline(points, num_points)`. -/
def Canvas.DrawPolyline (points : List PixelPoint) (num_points : Nat) (c : Ctx) : Ctx :=
  let c := GLProgram.Use Shader.solid_shader c
  let c := Ctx.lib (LibCall.Pen_Bind c.pen) c
  let c := ScopeVertexPointer.ctor VType.GL_VALUE (points.map PixelPoint.toVertex) c
  let c := Ctx.call (GLCall.glDrawArrays Prim.GL_LINE_STRIP 0 num_points) c
  let c := checkError "CSCS" c
  let c := Ctx.lib (LibCall.Pen_Unbind c.pen) c
  ScopeVertexPointer.dtor c

/-- `Canvas::DrawTriangleFan(points, num_points)`. -/
def Canvas.DrawTriangleFan (G : Geometry) (points : List PixelPoint) (num_points : Nat)
    (c : Ctx) : Ctx :=
  if c.brush.IsHollow && !c.pen.IsDefined then c
  else
    let c := GLProgram.Use Shader.solid_shader c
    let c := ScopeVertexPointer.ctor VType.GL_VALUE (points.map PixelPoint.toVertex) c
    let c :=
      if !c.brush.IsHollow && decide (num_points ≥ 3) then
        let c := Ctx.lib (LibCall.Brush_Bind c.brush) c
        let c := Ctx.call (GLCall.glDrawArrays Prim.GL_TRIANGLE_FAN 0 num_points) c
        checkError "CWCW" c
      else c
    let c :=
      if Canvas.IsPenOverBrush c then
        let c := Ctx.lib (LibCall.Pen_Bind c.pen) c
        let c :=
          if c.pen.width ≤ 2 then
            checkError "CXCX" (Ctx.call (GLCall.glDrawArrays Prim.GL_LINE_LOOP 0 num_points) c)
          else
            let vertex_buffer := G.LineToTriangles points num_points c.pen.width true false
            let vertices := vertex_buffer.length
            if vertices > 0 then
              let c := ScopeVertexPointer.Update VType.GL_VALUE vertex_buffer c
              let c := Ctx.call (GLCall.glDrawArrays Prim.GL_TRIANGLE_STRIP 0 vertices) c
              checkError "CYCY" c
            else c
        Ctx.lib (LibCall.Pen_Unbind c.pen) c
      else c
    ScopeVertexPointer.dtor c

/-- `Canvas::DrawHLine(x1, x2, y, color)`. -/
def Canvas.DrawHLine (x1 x2 y : Int) (color : Color) (c : Ctx) : Ctx :=
  let c := Ctx.lib (LibCall.Color_Bind color) c
  let v : List Vertex := [((x1 : Rat), (y : Rat)), ((x2 : Rat), (y : Rat))]
  let c := ScopeVertexPointer.ctor VType.GL_VALUE v c
  let c := Ctx.call (GLCall.glDrawArrays Prim.GL_LINE_STRIP 0 2) c
  let c := checkError "CZCZ" c
  ScopeVertexPointer.dtor c

/-- `Canvas::DrawLine(a, b)`. -/
def Canvas.DrawLine (L : CanvasLib) (a b : PixelPoint) (c : Ctx) : Ctx :=
  let c := GLProgram.Use Shader.solid_shader c
  let c := Ctx.lib (LibCall.Pen_Bind c.pen) c
  let c :=
    if c.pen.style ≠ PenStyle.SOLID then
      let c := GLProgram.Use Shader.dashed_shader c
      let period : GLfloat := match c.pen.style with
        | PenStyle.SOLID => 1
        | _ => 32
      let ratio : GLfloat := match c.pen.style with
        | PenStyle.SOLID => 1
        | _ => 6 / 10
      let c := Ctx.call (GLCall.glUniform1f Uniform.dashed_period period) c
      let c := checkError "DADA" c
      let c := Ctx.call (GLCall.glUniform1f Uniform.dashed_ratio ratio) c
      let c := checkError "DBDB" c
      let start := L.ToNormalisedDeviceCoordinates a
      let c := Ctx.call (GLCall.glUniform2f Uniform.dashed_start start.1 start.2) c
      checkError "DCDC" c
    else c
  let v : List Vertex := [a.toVertex, b.toVertex]
  let c := ScopeVertexPointer.ctor VType.GL_VALUE v c
  let c := Ctx.call (GLCall.glDrawArrays Prim.GL_LINE_STRIP 0 2) c
  let c := checkError "DEDE" c
  let c := Ctx.lib (LibCall.Pen_Unbind c.pen) c
  ScopeVertexPointer.dtor c

/-- `Canvas::DrawExactLine(a, b)`. -/
def Canvas.DrawExactLine (a b : PixelPoint) (c : Ctx) : Ctx :=
  let c := GLProgram.Use Shader.solid_shader c
  let c := Ctx.lib (LibCall.Pen_Bind c.pen) c
  let c := ScopeVertexPointer.ctor VType.GL_EXACT [a.toVertex, b.toVertex] c
  let c := Ctx.call (GLCall.glDrawArrays Prim.GL_LINE_STRIP 0 2) c
  let c := checkError "DFDF" c
  let c := Ctx.lib (LibCall.Pen_Unbind c.pen) c
  ScopeVertexPointer.dtor c

/-- `Canvas::DrawLinePiece(a, b)`. -/
def Canvas.DrawLinePiece (G : Geometry) (a b : PixelPoint) (c : Ctx) : Ctx :=
  let c := GLProgram.Use Shader.solid_shader c
  let c := Ctx.lib (LibCall.Pen_Bind c.pen) c
  let v : List PixelPoint := [⟨a.x, a.y⟩, ⟨b.x, b.y⟩]
  let c :=
    if c.pen.width > 2 then
      let vertex_buffer := G.LineToTriangles v 2 c.pen.width false true
      let strip_len := vertex_buffer.length
      if strip_len > 0 then
        let c := ScopeVertexPointer.ctor VType.GL_VALUE vertex_buffer c
        let c := Ctx.call (GLCall.glDrawArrays Prim.GL_TRIANGLE_STRIP 0 strip_len) c
        let c := checkError "DGDG" c
        ScopeVertexPointer.dtor c
      else c
    else
      let c := ScopeVertexPointer.ctor VType.GL_VALUE (v.map PixelPoint.toVertex) c
      let c := Ctx.call (GLCall.glDrawArrays Prim.GL_LINE_STRIP 0 2) c
      let c := checkError "DHDH" c
      ScopeVertexPointer.dtor c
  Ctx.lib (LibCall.Pen_Unbind c.pen) c

/-- `Canvas::DrawTwoLines(a, b, c)`. -/
def Canvas.DrawTwoLines (a b d : PixelPoint) (c : Ctx) : Ctx :=
  let c := GLProgram.Use Shader.solid_shader c
  let c := Ctx.lib (LibCall.Pen_Bind c.pen) c
  let c := ScopeVertexPointer.ctor VType.GL_VALUE [a.toVertex, b.toVertex, d.toVertex] c
  let c := Ctx.call (GLCall.glDrawArrays Prim.GL_LINE_STRIP 0 3) c
  let c := checkError "DIDI" c
  let c := Ctx.lib (LibCall.Pen_Unbind c.pen) c
  ScopeVertexPointer.dtor c

/-- `Canvas::DrawTwoLinesExact(a, b, c)`. -/
def Canvas.DrawTwoLinesExact (a b d : PixelPoint) (c : Ctx) : Ctx :=
  let c := GLProgram.Use Shader.solid_shader c
  let c := Ctx.lib (LibCall.Pen_Bind c.pen) c
  let c := ScopeVertexPointer.ctor VType.GL_EXACT [a.toVertex, b.toVertex, d.toVertex] c
  let c := Ctx.call (GLCall.glDrawArrays Prim.GL_LINE_STRIP 0 3) c
  let c := checkError "DJDJ" c
  let c := Ctx.lib (LibCall.Pen_Unbind c.pen) c
  ScopeVertexPointer.dtor c

/-- `Canvas::DrawSegment`: the generic `::Segment` routine. -/
def Canvas.DrawSegment (center : PixelPoint) (radius : Nat) (start stop : Angle) (horizon : Bool)
    (c : Ctx) : Ctx :=
  Ctx.lib (LibCall.Segment center radius start stop horizon) c

/-- `Canvas::DrawArc`: the generic `::Arc` routine. -/
def Canvas.DrawArc (center : PixelPoint) (radius : Nat) (start stop : Angle) (c : Ctx) : Ctx :=
  Ctx.lib (LibCall.Arc center radius start stop) c

/-- `AngleToDonutVertex(angle)`. -/
def AngleToDonutVertex (D : DonutLib) (angle : Angle) : Nat :=
  D.ImportAngle (D.NATIVE_TO_INT angle + D.ISINETABLE_size * 3 / 4) D.ISINETABLE_size

/-- `AngleToDonutVertices(start, end)`. -/
def AngleToDonutVertices (D : DonutLib) (start stop : Angle) : Nat × Nat :=
  let epsilon : Angle := D.FullCircle / ((D.CIRCLE_SIZE * 4 : Nat) : Rat)
  let delta : Angle := stop - start
  if |D.AsDelta delta| ≤ epsilon then (0, D.MAX_ANGLE)
  else
    let istart := AngleToDonutVertex D start
    let iend := AngleToDonutVertex D stop
    let iend :=
      if istart = iend ∧ delta > epsilon then
        if stop - start ≥ D.HalfCircle then D.PreviousAngle iend else D.NextAngle iend
      else iend
    (istart, iend)

/-- The code of `Canvas::DrawAnnulus` after the test `if (1 == 1)`: the fill
and the outline of the annulus drawn from the donut vertex table. -/
def Canvas.DrawAnnulus.donut (D : DonutLib) (center : PixelPoint)
    (small_radius big_radius : Nat) (start stop : Angle) (c : Ctx) : Ctx :=
  let c := ScopeVertexPointer.ctorDefault c
  let i := AngleToDonutVertices D start stop
  let istart := i.1
  let iend := i.2
  let c :=
    if !c.brush.IsHollow then
      let c := Ctx.lib (LibCall.Brush_Bind c.brush) c
      let c := Ctx.lib (LibCall.DonutVertices_Bind center small_radius big_radius) c
      if istart > iend then
        let c := Ctx.call (GLCall.glDrawArrays Prim.GL_TRIANGLE_STRIP istart
          (u32 (usub D.MAX_ANGLE istart + 2))) c
        let c := checkError "BVBV" c
        let c := Ctx.call (GLCall.glDrawArrays Prim.GL_TRIANGLE_STRIP 0 (u32 (iend + 2))) c
        checkError "BVBV" c
      else
        let c := Ctx.call (GLCall.glDrawArrays Prim.GL_TRIANGLE_STRIP istart
          (u32 (usub iend istart + 2))) c
        checkError "BVBV" c
    else c
  let c := checkError "DMDM" c
  let c :=
    if Canvas.IsPenOverBrush c then
      let c := Ctx.lib (LibCall.Pen_Bind c.pen) c
      let c :=
        if istart ≠ iend ∧ iend ≠ D.MAX_ANGLE then
          let c :=
            if c.brush.IsHollow then
              Ctx.lib (LibCall.DonutVertices_Bind center small_radius big_radius) c
            else c
          let c := Ctx.call (GLCall.glDrawArrays Prim.GL_LINE_STRIP istart 2) c
          let c := checkError "BVBV" c
          let c := Ctx.call (GLCall.glDrawArrays Prim.GL_LINE_STRIP iend 2) c
          checkError "DNDN" c
        else c
      let pstart := istart / 2
      let pend := iend / 2
      let c := Ctx.lib (LibCall.DonutVertices_BindInnerCircle center small_radius big_radius) c
      let c :=
        if pstart < pend then
          let c := Ctx.call (GLCall.glDrawArrays Prim.GL_LINE_STRIP pstart
            (u32 (usub pend pstart + 1))) c
          checkError "BVBV" c
        else
          let c := Ctx.call (GLCall.glDrawArrays Prim.GL_LINE_STRIP pstart
            (u32 (usub D.CIRCLE_SIZE pstart + 1))) c
          let c := checkError "BVBV" c
          let c := Ctx.call (GLCall.glDrawArrays Prim.GL_LINE_STRIP 0 (u32 (pend + 1))) c
          checkError "BVBV" c
      let c := checkError "DODO" c
      let c := Ctx.lib (LibCall.DonutVertices_BindOuterCircle center small_radius big_radius) c
      let c :=
        if pstart < pend then
          let c := Ctx.call (GLCall.glDrawArrays Prim.GL_LINE_STRIP pstart
            (u32 (usub pend pstart + 1))) c
          checkError "BVBV" c
        else
          let c := Ctx.call (GLCall.glDrawArrays Prim.GL_LINE_STRIP pstart
            (u32 (usub D.CIRCLE_SIZE pstart + 1))) c
          let c := checkError "BVBV" c
          let c := Ctx.call (GLCall.glDrawArrays Prim.GL_LINE_STRIP 0 (u32 (pend + 1))) c
          checkError "BVBV" c
      let c := checkError "DPDP" c
      Ctx.lib (LibCall.Pen_Unbind c.pen) c
    else c
  ScopeVertexPointer.dtor c

/-- `Canvas::DrawAnnulus`: the condition `1 == 1` always selects the generic
`::Annulus` routine and returns; the donut code after it is never reached. -/
def Canvas.DrawAnnulus (D : DonutLib) (center : PixelPoint) (small_radius big_radius : Nat)
    (start stop : Angle) (c : Ctx) : Ctx :=
  if (1 : Nat) = 1 then Ctx.lib (LibCall.Annulus center big_radius start stop small_radius) c
  else Canvas.DrawAnnulus.donut D center small_radius big_radius start stop c

/-- `Canvas::DrawKeyhole`: the generic `::KeyHole` routine. -/
def Canvas.DrawKeyhole (center : PixelPoint) (small_radius big_radius : Nat)
    (start stop : Angle) (c : Ctx) : Ctx :=
  Ctx.lib (LibCall.KeyHole center big_radius start stop small_radius) c

/-- `Canvas::DrawFocusRectangle(rc)`. -/
def Canvas.DrawFocusRectangle (L : CanvasLib) (rc : PixelRect) (c : Ctx) : Ctx :=
  Canvas.DrawOutlineRectangleColor rc L.COLOR_DARK_GRAY c

/-- `Canvas::CalcTextSize(text)`. -/
def Canvas.CalcTextSize (L : CanvasLib) (text : Text) (c : Ctx) : PixelSize :=
  match c.text.font with
  | none => ⟨0, 0⟩
  | some font =>
    let size := L.TextCache_LookupSize font text
    if size.height > 0 then size else L.TextCache_GetSize font text

/-- `PrepareColoredAlphaTexture(color)`. -/
def PrepareColoredAlphaTexture (color : Color) (c : Ctx) : Ctx :=
  Ctx.lib (LibCall.Color_Bind color) (GLProgram.Use Shader.alpha_shader c)

/-- `Canvas::DrawText(p, text)`. -/
def Canvas.DrawText (L : CanvasLib) (p : PixelPoint) (text : Text) (c : Ctx) : Ctx :=
  match c.text.font with
  | none => c
  | some font =>
    let text3 := ClipText L font text p.x c.text.size.width
    if text3.isEmpty then c
    else
      match L.TextCache_Get font text3 with
      | none => c
      | some texture =>
        let c :=
          if c.text.background_mode = BackgroundMode.OPAQUE then
            Canvas.DrawFilledRectangle (PixelRect.ofOriginSize p texture.size)
              c.text.background_color c
          else c
        let c := PrepareColoredAlphaTexture c.text.text_color c
        let c := ScopeAlphaBlend.ctor c
        let c := texture.Bind c
        let c := texture.DrawAt p c
        ScopeAlphaBlend.dtor c

/-- `Canvas::DrawTransparentText(p, text)`. -/
def Canvas.DrawTransparentText (L : CanvasLib) (p : PixelPoint) (text : Text) (c : Ctx) : Ctx :=
  match c.text.font with
  | none => c
  | some font =>
    let text3 := ClipText L font text p.x c.text.size.width
    if text3.isEmpty then c
    else
      match L.TextCache_Get font text3 with
      | none => c
      | some texture =>
        let c := PrepareColoredAlphaTexture c.text.text_color c
        let c := ScopeAlphaBlend.ctor c
        let c := texture.Bind c
        let c := texture.DrawAt p c
        ScopeAlphaBlend.dtor c

/-- `Canvas::DrawClippedText(p, size, text)`. -/
def Canvas.DrawClippedText (L : CanvasLib) (p : PixelPoint) (size : PixelSize) (text : Text)
    (c : Ctx) : Ctx :=
  match c.text.font with
  | none => c
  | some font =>
    let text3 := ClipText L font text 0 size.width
    if text3.isEmpty then c
    else
      match L.TextCache_Get font text3 with
      | none => c
      | some texture =>
        let size : PixelSize :=
          if texture.size.height < size.height then { size with height := texture.size.height }
          else size
        let size : PixelSize :=
          if texture.size.width < size.width then { size with width := texture.size.width }
          else size
        let c := PrepareColoredAlphaTexture c.text.text_color c
        let c := ScopeAlphaBlend.ctor c
        let c := texture.Bind c
        let c := texture.Draw (PixelRect.ofOriginSize p size) (PixelRect.ofSize size) c
        ScopeAlphaBlend.dtor c

/-- `Canvas::Stretch(dest_position, dest_size, texture, src_position,
src_size)`. -/
def Canvas.StretchTexturePart (dest_position : PixelPoint) (dest_size : PixelSize)
    (texture : GLTexture) (src_position : PixelPoint) (src_size : PixelSize) (c : Ctx) : Ctx :=
  let c := GLProgram.Use Shader.texture_shader c
  texture.Draw (PixelRect.ofOriginSize dest_position dest_size)
    (PixelRect.ofOriginSize src_position src_size) c

/-- `Canvas::Stretch(dest_position, dest_size, texture)`. -/
def Canvas.StretchTexture (dest_position : PixelPoint) (dest_size : PixelSize)
    (texture : GLTexture) (c : Ctx) : Ctx :=
  Canvas.StretchTexturePart dest_position dest_size texture ⟨0, 0⟩ texture.size c

/-- `Canvas::Stretch(dest_position, dest_size, src, src_position, src_size)`
of a bitmap. -/
def Canvas.StretchBitmapPart (dest_position : PixelPoint) (dest_size : PixelSize)
    (src : Bitmap) (src_position : PixelPoint) (src_size : PixelSize) (c : Ctx) : Ctx :=
  let c := GLProgram.Use Shader.texture_shader c
  let c := src.texture.Bind c
  src.texture.Draw (PixelRect.ofOriginSize dest_position dest_size)
    (PixelRect.ofOriginSize src_position src_size) c

/-- `Canvas::Stretch(dest_position, dest_size, src)` of a bitmap. -/
def Canvas.StretchBitmap (dest_position : PixelPoint) (dest_size : PixelSize)
    (src : Bitmap) (c : Ctx) : Ctx :=
  let c := GLProgram.Use Shader.texture_shader c
  let c := src.texture.Bind c
  src.texture.Draw (PixelRect.ofOriginSize dest_position dest_size) (PixelRect.ofSize src.size) c

/-- `Canvas::Copy(dest_position, dest_size, src, src_position)`. -/
def Canvas.CopyPart (dest_position : PixelPoint) (dest_size : PixelSize) (src : Bitmap)
    (src_position : PixelPoint) (c : Ctx) : Ctx :=
  Canvas.StretchBitmapPart dest_position dest_size src src_position dest_size c

/-- `Canvas::Copy(src)`. -/
def Canvas.Copy (src : Bitmap) (c : Ctx) : Ctx :=
  Canvas.CopyPart ⟨0, 0⟩ src.size src ⟨0, 0⟩ c

/-- `Canvas::StretchNot(src)`. -/
def Canvas.StretchNot (src : Bitmap) (c : Ctx) : Ctx :=
  let c := GLProgram.Use Shader.invert_shader c
  let c := src.texture.Bind c
  src.texture.Draw (PixelRect.ofSize c.text.size) (PixelRect.ofSize src.size) c

/-- `Canvas::StretchMono(dest_position, dest_size, src, src_position,
src_size, fg_color, bg_color)`. -/
def Canvas.StretchMono (dest_position : PixelPoint) (dest_size : PixelSize) (src : Bitmap)
    (src_position : PixelPoint) (src_size : PixelSize) (fg_color : Color) (c : Ctx) : Ctx :=
  let c := PrepareColoredAlphaTexture fg_color c
  let c := ScopeAlphaBlend.ctor c
  let c := src.texture.Bind c
  let c := src.texture.Draw (PixelRect.ofOriginSize dest_position dest_size)
    (PixelRect.ofOriginSize src_position src_size) c
  ScopeAlphaBlend.dtor c

/-- `Canvas::CopyToTexture(texture, src_rc)`. -/
def Canvas.CopyToTexture (L : CanvasLib) (texture : GLTexture) (src_rc : PixelRect)
    (c : Ctx) : Ctx :=
  let c := texture.Bind c
  let c := Ctx.call (GLCall.glCopyTexSubImage2D (L.translate.x + src_rc.left)
    (L.viewport_size.y - L.translate.y - src_rc.bottom)
    (ofInt (src_rc.right - src_rc.left)) (ofInt (src_rc.bottom - src_rc.top))) c
  checkError "DQDQ" c

/-- `Canvas::DrawRoundRectangle(r, ellipse_size)`. -/
def Canvas.DrawRoundRectangle (r : PixelRect) (ellipse_size : PixelSize) (c : Ctx) : Ctx :=
  let radius := min (min ellipse_size.width ellipse_size.height)
    (min (ofInt (r.right - r.left)) (ofInt (r.bottom - r.top))) / 2
  Ctx.lib (LibCall.RoundRect r radius) c

/-- The drawing operations of `Canvas.cpp`, with their arguments. -/
inductive CanvasOp where
  | InvertRectangle (r : PixelRect)
  | DrawFilledRectangle (r : PixelRect) (color : Color)
  | DrawOutlineRectangle (r : PixelRect)
  | DrawOutlineRectangleColor (r : PixelRect) (color : Color)
  | FadeToWhite (alpha : Nat)
  | FadeToWhiteRect (rc : PixelRect) (alpha : Nat)
  | DrawPolyline (points : List PixelPoint) (num_points : Nat)
  | DrawPolygon (points : List PixelPoint) (num_points : Nat)
  | DrawTriangleFan (points : List PixelPoint) (num_points : Nat)
  | DrawHLine (x1 x2 y : Int) (color : Color)
  | DrawLine (a b : PixelPoint)
  | DrawExactLine (a b : PixelPoint)
  | DrawLinePiece (a b : PixelPoint)
  | DrawTwoLines (a b d : PixelPoint)
  | DrawTwoLinesExact (a b d : PixelPoint)
  | DrawCircle (center : PixelPoint) (radius : Nat)
  | DrawSegment (center : PixelPoint) (radius : Nat) (start stop : Angle) (horizon : Bool)
  | DrawArc (center : PixelPoint) (radius : Nat) (start stop : Angle)
  | DrawAnnulus (center : PixelPoint) (small_radius big_radius : Nat) (start stop : Angle)
  | DrawKeyhole (center : PixelPoint) (small_radius big_radius : Nat) (start stop : Angle)
  | DrawFocusRectangle (rc : PixelRect)
  | DrawText (p : PixelPoint) (text : Text)
  | DrawTransparentText (p : PixelPoint) (text : Text)
  | DrawClippedText (p : PixelPoint) (size : PixelSize) (text : Text)
  | StretchTexturePart (dest_position : PixelPoint) (dest_size : PixelSize)
      (texture : GLTexture) (src_position : PixelPoint) (src_size : PixelSize)
  | StretchTexture (dest_position : PixelPoint) (dest_size : PixelSize) (texture : GLTexture)
  | StretchBitmapPart (dest_position : PixelPoint) (dest_size : PixelSize) (src : Bitmap)
      (src_position : PixelPoint) (src_size : PixelSize)
  | StretchBitmap (dest_position : PixelPoint) (dest_size : PixelSize) (src : Bitmap)
  | CopyPart (dest_position : PixelPoint) (dest_size : PixelSize) (src : Bitmap)
      (src_position : PixelPoint)
  | Copy (src : Bitmap)
  | StretchNot (src : Bitmap)
  | StretchMono (dest_position : PixelPoint) (dest_size : PixelSize) (src : Bitmap)
      (src_position : PixelPoint) (src_size : PixelSize) (fg_color : Color)
  | CopyToTexture (texture : GLTexture) (src_rc : PixelRect)
  | DrawRoundRectangle (r : PixelRect) (ellipse_size : PixelSize)

/-- Running a drawing operation of the canvas. -/
def Canvas.perform (L : CanvasLib) : CanvasOp → Ctx → Ctx
  | CanvasOp.InvertRectangle r => Canvas.InvertRectangle r
  | CanvasOp.DrawFilledRectangle r color => Canvas.DrawFilledRectangle r color
  | CanvasOp.DrawOutlineRectangle r => Canvas.DrawOutlineRectangle r
  | CanvasOp.DrawOutlineRectangleColor r color => Canvas.DrawOutlineRectangleColor r color
  | CanvasOp.FadeToWhite alpha => Canvas.FadeToWhite alpha
  | CanvasOp.FadeToWhiteRect rc alpha => Canvas.FadeToWhiteRect rc alpha
  | CanvasOp.DrawPolyline points n => Canvas.DrawPolyline points n
  | CanvasOp.DrawPolygon points n => Canvas.DrawPolygon L.geometry points n
  | CanvasOp.DrawTriangleFan points n => Canvas.DrawTriangleFan L.geometry points n
  | CanvasOp.DrawHLine x1 x2 y color => Canvas.DrawHLine x1 x2 y color
  | CanvasOp.DrawLine a b => Canvas.DrawLine L a b
  | CanvasOp.DrawExactLine a b => Canvas.DrawExactLine a b
  | CanvasOp.DrawLinePiece a b => Canvas.DrawLinePiece L.geometry a b
  | CanvasOp.DrawTwoLines a b d => Canvas.DrawTwoLines a b d
  | CanvasOp.DrawTwoLinesExact a b d => Canvas.DrawTwoLinesExact a b d
  | CanvasOp.DrawCircle center radius => Canvas.DrawCircle center radius
  | CanvasOp.DrawSegment center radius start stop horizon =>
      Canvas.DrawSegment center radius start stop horizon
  | CanvasOp.DrawArc center radius start stop => Canvas.DrawArc center radius start stop
  | CanvasOp.DrawAnnulus center small big start stop =>
      Canvas.DrawAnnulus L.donut center small big start stop
  | CanvasOp.DrawKeyhole center small big start stop =>
      Canvas.DrawKeyhole center small big start stop
  | CanvasOp.DrawFocusRectangle rc => Canvas.DrawFocusRectangle L rc
  | CanvasOp.DrawText p text => Canvas.DrawText L p text
  | CanvasOp.DrawTransparentText p text => Canvas.DrawTransparentText L p text
  | CanvasOp.DrawClippedText p size text => Canvas.DrawClippedText L p size text
  | CanvasOp.StretchTexturePart dp ds texture sp ss => Canvas.StretchTexturePart dp ds texture sp ss
  | CanvasOp.StretchTexture dp ds texture => Canvas.StretchTexture dp ds texture
  | CanvasOp.StretchBitmapPart dp ds src sp ss => Canvas.StretchBitmapPart dp ds src sp ss
  | CanvasOp.StretchBitmap dp ds src => Canvas.StretchBitmap dp ds src
  | CanvasOp.CopyPart dp ds src sp => Canvas.CopyPart dp ds src sp
  | CanvasOp.Copy src => Canvas.Copy src
  | CanvasOp.StretchNot src => Canvas.StretchNot src
  | CanvasOp.StretchMono dp ds src sp ss fg => Canvas.StretchMono dp ds src sp ss fg
  | CanvasOp.CopyToTexture texture src_rc => Canvas.CopyToTexture L texture src_rc
  | CanvasOp.DrawRoundRectangle r ellipse_size => Canvas.DrawRoundRectangle r ellipse_size

/-! ## AirspaceRendererGL.cpp -/

/-- `AirspaceClassRendererSettings::FillMode`. -/
inductive ClassFillMode where
  | ALL
  | PADDING
  | NONE
deriving DecidableEq

/-- `AirspaceClassRendererSettings` (the fields the renderers read). -/
structure AirspaceClassRendererSettings where
  display : Bool
  border_width : Nat
  fill_mode : ClassFillMode

/-- `AirspaceRendererSettings::FillMode`. -/
inductive FillMode where
  | DEFAULT
  | ALL
  | PADDING
  | NONE
deriving DecidableEq

/-- `AirspaceRendererSettings` (the fields the renderers read). -/
structure AirspaceRendererSettings where
  black_outline : Bool
  fill_mode : FillMode
  classes : AirspaceClass → AirspaceClassRendererSettings

/-- `AirspaceClassLook`. -/
structure AirspaceClassLook where
  border_pen : Pen
  fill_color : Color

/-- `AirspaceLook`. -/
structure AirspaceLook where
  thick_pen : Pen
  classes : AirspaceClass → AirspaceClassLook

/-- `AirspaceWarningCopy`: the answers of the warning manager. -/
structure AirspaceWarningCopy where
  HasWarning : AbstractAirspace → Bool
  IsAcked : AbstractAirspace → Bool
  IsInside : AbstractAirspace → Bool

/-- Modelled from the spec: `MapCanvas` with its `WindowProjection`
(MapCanvas.hpp and the projection are not part of the sources).
`PreparePolygon` projects and clips the points of a polygon and answers
whether something is left to draw (`none` is `false`); `DrawPrepared` hands
the prepared screen points to `Canvas::DrawPolygon`. -/
structure MapCanvas where
  geometry : Geometry
  GeoToScreen : GeoPoint → PixelPoint
  GeoToScreenDistance : Nat → Nat
  PreparePolygon : List GeoPoint → Option (List PixelPoint)

/-- Modelled from the spec: `MapCanvas::DrawPrepared` (MapCanvas.hpp is not
part of the sources), `canvas.DrawPolygon` of the prepared points. -/
def MapCanvas.DrawPrepared (m : MapCanvas) (raster_points : List PixelPoint) (c : Ctx) : Ctx :=
  Canvas.DrawPolygon m.geometry raster_points raster_points.length c

/-- The members of `AirspaceVisitorRenderer` and of `AirspaceFillRenderer`. -/
structure Renderer where
  map : MapCanvas
  look : AirspaceLook
  warning_manager : AirspaceWarningCopy
  settings : AirspaceRendererSettings

/-- The class whose settings and look an airspace is drawn with:
`settings.classes[airspace.GetTypeOrClass()].display ?
airspace.GetTypeOrClass() : airspace.GetClass()`. -/
def Renderer.as_type_or_class (self : Renderer) (airspace : AbstractAirspace) : AirspaceClass :=
  if (self.settings.classes airspace.GetTypeOrClass).display then airspace.GetTypeOrClass
  else airspace.GetClass

namespace AirspaceVisitorRenderer

/-- `AirspaceVisitorRenderer::AirspaceVisitorRenderer(...)`. -/
def ctor (c : Ctx) : Ctx :=
  let c := Ctx.call (GLCall.glStencilMask 0xff) c
  let c := checkError "AEAE" c
  let c := Ctx.call GLCall.glClear_STENCIL_BUFFER_BIT c
  let c := checkError "AFAF" c
  let c := Ctx.call
    (GLCall.glBlendFunc BlendFactor.GL_SRC_ALPHA BlendFactor.GL_ONE_MINUS_SRC_ALPHA) c
  checkError "AGAG" c

/-- `AirspaceVisitorRenderer::~AirspaceVisitorRenderer()`. -/
def dtor (c : Ctx) : Ctx :=
  checkError "AHAH" (Ctx.call (GLCall.glStencilMask 0xff) c)

/-- `AirspaceVisitorRenderer::SetupOutline(airspace)`. -/
def SetupOutline (self : Renderer) (airspace : AbstractAirspace) (c : Ctx) : Bool × Ctx :=
  let as_type_or_class := self.as_type_or_class airspace
  let selected : Option Ctx :=
    if self.settings.black_outline then some (Canvas.SelectBlackPen c)
    else if (self.settings.classes as_type_or_class).border_width = 0 then none
    else some (Canvas.SelectPen (self.look.classes as_type_or_class).border_pen c)
  match selected with
  | none => (false, c)
  | some c =>
    let c := Canvas.SelectHollowBrush c
    let c := Ctx.call (GLCall.glStencilFunc StencilFunc.GL_ALWAYS 3 3) c
    let c := checkError "AKAK" c
    let c := Ctx.call (GLCall.glStencilMask 2) c
    let c := checkError "ALAL" c
    let c := Ctx.call
      (GLCall.glStencilOp StencilOp.GL_KEEP StencilOp.GL_KEEP StencilOp.GL_REPLACE) c
    (true, checkError "AMAM" c)

/-- `AirspaceVisitorRenderer::SetupInterior(airspace, check_fillstencil)`.
In the source the error check that follows `glStencilFunc(GL_EQUAL, 1, 3)`
stands between the `if` and its `else`, so the `else` belongs to
`if (err1 != GL_NO_ERROR)`: `glStencilFunc(GL_EQUAL, 0, 2)` is called whenever
the first `glGetError` reports no error. -/
def SetupInterior (self : Renderer) (airspace : AbstractAirspace) (check_fillstencil : Bool)
    (c : Ctx) : Ctx :=
  let as_type_or_class := self.as_type_or_class airspace
  let class_look := self.look.classes as_type_or_class
  let c := if check_fillstencil then Ctx.call (GLCall.glStencilFunc StencilFunc.GL_EQUAL 1 3) c
    else c
  let r1 := glGetError c
  let c := if r1.1 ≠ GL_NO_ERROR then LogFormat "ANAN" r1.1 r1.2
    else Ctx.call (GLCall.glStencilFunc StencilFunc.GL_EQUAL 0 2) r1.2
  let c := checkError "AOAO" c
  let c := Ctx.call (GLCall.glStencilOp StencilOp.GL_KEEP StencilOp.GL_KEEP StencilOp.GL_KEEP) c
  let c := checkError "APAP" c
  let c := Canvas.SelectBrush ⟨false, class_look.fill_color.WithAlpha 90⟩ c
  Canvas.SelectNullPen c

/-- `AirspaceVisitorRenderer::SetFillStencil()`. -/
def SetFillStencil (self : Renderer) (c : Ctx) : Ctx :=
  let c := c.emit (Ev.enter Fn.SetFillStencil)
  let c := Ctx.call (GLCall.glColorMask false false false false) c
  let c := checkError "AQAQ" c
  let c := Ctx.call (GLCall.glStencilFunc StencilFunc.GL_ALWAYS 3 3) c
  let c := checkError "ARAR" c
  let c := Ctx.call (GLCall.glStencilMask 1) c
  let c := checkError "ASAS" c
  let c := Ctx.call
    (GLCall.glStencilOp StencilOp.GL_KEEP StencilOp.GL_KEEP StencilOp.GL_REPLACE) c
  let c := checkError "ATAT" c
  let c := Canvas.SelectHollowBrush c
  Canvas.SelectPen self.look.thick_pen c

/-- `AirspaceVisitorRenderer::ClearFillStencil()`. -/
def ClearFillStencil (self : Renderer) (c : Ctx) : Ctx :=
  let c := c.emit (Ev.enter Fn.ClearFillStencil)
  let c := Ctx.call (GLCall.glColorMask false false false false) c
  let c := checkError "AUAU" c
  let c := Ctx.call (GLCall.glStencilFunc StencilFunc.GL_ALWAYS 3 3) c
  let c := checkError "AVAV" c
  let c := Ctx.call (GLCall.glStencilMask 1) c
  let c := checkError "AWAW" c
  let c := Ctx.call
    (GLCall.glStencilOp StencilOp.GL_KEEP StencilOp.GL_KEEP StencilOp.GL_ZERO) c
  let c := checkError "AXAX" c
  let c := Canvas.SelectHollowBrush c
  Canvas.SelectPen self.look.thick_pen c

/-- `AirspaceVisitorRenderer::VisitCircle(airspace)`. -/
def VisitCircle (self : Renderer) (airspace : AbstractAirspace) (c : Ctx) : Ctx :=
  let as_type_or_class := self.as_type_or_class airspace
  let class_settings := self.settings.classes as_type_or_class
  let class_look := self.look.classes as_type_or_class
  let screen_center := self.map.GeoToScreen airspace.reference_location
  let screen_radius := u32 (self.map.GeoToScreenDistance airspace.radius)
  let c :=
    if !self.warning_manager.IsAcked airspace &&
        decide (class_settings.fill_mode ≠ ClassFillMode.NONE) then
      let c := GLEnable.ctor Cap.GL_STENCIL_TEST c
      let c := GLEnable.ctor Cap.GL_BLEND c
      let c := SetupInterior self airspace false c
      let c :=
        if self.warning_manager.HasWarning airspace ||
            self.warning_manager.IsInside airspace ||
            decide (u32 self.look.thick_pen.width ≥ umul 2 screen_radius) ||
            decide (class_settings.fill_mode = ClassFillMode.ALL) then
          Canvas.DrawCircle screen_center screen_radius c
        else
          let color := class_look.fill_color
          let pen_donut : Pen := ⟨self.look.thick_pen.width / 2, color.WithAlpha 90, PenStyle.SOLID⟩
          let c := Canvas.SelectHollowBrush c
          let c := Canvas.SelectPen pen_donut c
          Canvas.DrawCircle screen_center (usub screen_radius (self.look.thick_pen.width / 4)) c
      let c := GLEnable.dtor Cap.GL_BLEND c
      GLEnable.dtor Cap.GL_STENCIL_TEST c
    else c
  let r := SetupOutline self airspace c
  if r.1 then Canvas.DrawCircle screen_center screen_radius r.2 else r.2

/-- `AirspaceVisitorRenderer::VisitPolygon(airspace)`. -/
def VisitPolygon (self : Renderer) (airspace : AbstractAirspace) (c : Ctx) : Ctx :=
  let as_type_or_class := self.as_type_or_class airspace
  match self.map.PreparePolygon airspace.points with
  | none => c
  | some raster_points =>
    let class_settings := self.settings.classes as_type_or_class
    let fill_airspace := self.warning_manager.HasWarning airspace ||
      self.warning_manager.IsInside airspace ||
      decide (class_settings.fill_mode = ClassFillMode.ALL)
    let c :=
      if !self.warning_manager.IsAcked airspace &&
          decide (class_settings.fill_mode ≠ ClassFillMode.NONE) then
        let c := GLEnable.ctor Cap.GL_STENCIL_TEST c
        let c :=
          if !fill_airspace then
            let c := SetFillStencil self c
            let c := self.map.DrawPrepared raster_points c
            let c := Ctx.call (GLCall.glColorMask true true true true) c
            checkError "AIAI" c
          else c
        let c := SetupInterior self airspace (!fill_airspace) c
        let c := GLEnable.ctor Cap.GL_BLEND c
        let c := self.map.DrawPrepared raster_points c
        let c := GLEnable.dtor Cap.GL_BLEND c
        let c :=
          if !fill_airspace then
            let c := ClearFillStencil self c
            let c := self.map.DrawPrepared raster_points c
            let c := Ctx.call (GLCall.glColorMask true true true true) c
            checkError "AJAJ" c
          else c
        GLEnable.dtor Cap.GL_STENCIL_TEST c
      else c
    let r := SetupOutline self airspace c
    if r.1 then self.map.DrawPrepared raster_points r.2 else r.2

/-- `AirspaceVisitorRenderer::Visit(airspace)`. -/
def Visit (self : Renderer) (airspace : AbstractAirspace) (c : Ctx) : Ctx :=
  let c := c.emit (Ev.enter (Fn.Visit airspace))
  match airspace.GetShape with
  | Shape.CIRCLE => VisitCircle self airspace c
  | Shape.POLYGON => VisitPolygon self airspace c

end AirspaceVisitorRenderer

namespace AirspaceFillRenderer

/-- `AirspaceFillRenderer::AirspaceFillRenderer(...)`. -/
def ctor (c : Ctx) : Ctx :=
  checkError "AYAY" (Ctx.call
    (GLCall.glBlendFunc BlendFactor.GL_SRC_ALPHA BlendFactor.GL_ONE_MINUS_SRC_ALPHA) c)

/-- `AirspaceFillRenderer::SetupOutline(airspace)`. -/
def SetupOutline (self : Renderer) (airspace : AbstractAirspace) (c : Ctx) : Bool × Ctx :=
  let as_type_or_class := self.as_type_or_class airspace
  let selected : Option Ctx :=
    if self.settings.black_outline then some (Canvas.SelectBlackPen c)
    else if (self.settings.classes as_type_or_class).border_width = 0 then none
    else some (Canvas.SelectPen (self.look.classes as_type_or_class).border_pen c)
  match selected with
  | none => (false, c)
  | some c => (true, Canvas.SelectHollowBrush c)

/-- `AirspaceFillRenderer::SetupInterior(airspace)`. -/
def SetupInterior (self : Renderer) (airspace : AbstractAirspace) (c : Ctx) : Bool × Ctx :=
  let as_type_or_class := self.as_type_or_class airspace
  if self.settings.fill_mode = FillMode.NONE then (false, c)
  else
    let class_look := self.look.classes as_type_or_class
    let c := Canvas.SelectBrush ⟨false, class_look.fill_color.WithAlpha 48⟩ c
    (true, Canvas.SelectNullPen c)

/-- `AirspaceFillRenderer::VisitCircle(airspace)`. -/
def VisitCircle (self : Renderer) (airspace : AbstractAirspace) (c : Ctx) : Ctx :=
  let screen_center := self.map.GeoToScreen airspace.reference_location
  let screen_radius := u32 (self.map.GeoToScreenDistance airspace.radius)
  let c :=
    if self.warning_manager.IsAcked airspace then c
    else
      let r := SetupInterior self airspace c
      if r.1 then
        let c := GLEnable.ctor Cap.GL_BLEND r.2
        let c := Canvas.DrawCircle screen_center screen_radius c
        GLEnable.dtor Cap.GL_BLEND c
      else r.2
  let r := SetupOutline self airspace c
  if r.1 then Canvas.DrawCircle screen_center screen_radius r.2 else r.2

/-- `AirspaceFillRenderer::VisitPolygon(airspace)`. -/
def VisitPolygon (self : Renderer) (airspace : AbstractAirspace) (c : Ctx) : Ctx :=
  match self.map.PreparePolygon airspace.points with
  | none => c
  | some raster_points =>
    let c :=
      if self.warning_manager.IsAcked airspace then c
      else
        let r := SetupInterior self airspace c
        if r.1 then
          let c := GLEnable.ctor Cap.GL_BLEND r.2
          let c := self.map.DrawPrepared raster_points c
          GLEnable.dtor Cap.GL_BLEND c
        else r.2
    let r := SetupOutline self airspace c
    if r.1 then self.map.DrawPrepared raster_points r.2 else r.2

/-- `AirspaceFillRenderer::Visit(airspace)`. -/
def Visit (self : Renderer) (airspace : AbstractAirspace) (c : Ctx) : Ctx :=
  let c := c.emit (Ev.enter (Fn.Visit airspace))
  match airspace.GetShape with
  | Shape.CIRCLE => VisitCircle self airspace c
  | Shape.POLYGON => VisitPolygon self airspace c

end AirspaceFillRenderer

/-- `AirspaceRenderer::DrawInternal(canvas, projection, settings, awc,
visible)`; `range` is the result of `airspaces->QueryWithinRange(...)`. -/
def AirspaceRenderer.DrawInternal (self : Renderer) (range : List AbstractAirspace)
    (visible : AbstractAirspace → Bool) (c : Ctx) : Ctx :=
  if self.settings.fill_mode = FillMode.ALL ∨ self.settings.fill_mode = FillMode.NONE then
    let c := AirspaceFillRenderer.ctor c
    range.foldl (fun c airspace =>
      if visible airspace then AirspaceFillRenderer.Visit self airspace c else c) c
  else
    let c := AirspaceVisitorRenderer.ctor c
    let c := range.foldl (fun c airspace =>
      if visible airspace then AirspaceVisitorRenderer.Visit self airspace c else c) c
    AirspaceVisitorRenderer.dtor c

/-- One pass of the precise renderer over a sequence of shapes: the renderer
is constructed, `Visit` is called for each shape, the renderer is destroyed. -/
def AirspaceVisitorRenderer.pass (self : Renderer) (shapes : List AbstractAirspace)
    (c : Ctx) : Ctx :=
  AirspaceVisitorRenderer.dtor
    (shapes.foldl (fun c airspace => AirspaceVisitorRenderer.Visit self airspace c)
      (AirspaceVisitorRenderer.ctor c))

/-- One pass of the cheap renderer over a sequence of shapes (its destructor
is trivial). -/
def AirspaceFillRenderer.pass (self : Renderer) (shapes : List AbstractAirspace)
    (c : Ctx) : Ctx :=
  shapes.foldl (fun c airspace => AirspaceFillRenderer.Visit self airspace c)
    (AirspaceFillRenderer.ctor c)

/-- The events a piece of code issues when started in context `c`. -/
def Ctx.issued (f : Ctx → Ctx) (c : Ctx) : List Ev := (f { c with trace := [] }).trace

/-! ## Notions used by the statements -/

/-- Per-fragment state under which processing a fragment leaves the stencil
buffer alone: the stencil test is disabled, or the operations in force keep
the value. -/
def FragState.inert (f : FragState) : Prop :=
  f.caps Cap.GL_STENCIL_TEST = false ∨
    (f.stencil_fail = StencilOp.GL_KEEP ∧ f.stencil_zpass = StencilOp.GL_KEEP)

/-- The fragments of the one draw call `Canvas::DrawPolygon` issues for the
given points when the brush is hollow and the pen is `pen`: the line loop of a
thin pen, the triangle strip of a thick pen, nothing when the pen is undefined
or the strip is empty. -/
def Canvas.hollowPolygonFrags (G : Geometry) (points : List PixelPoint) (n : Nat) (pen : Pen)
    (g : GLState) : PixelPoint → Bool :=
  if !pen.IsDefined then fun _ => false
  else if pen.width ≤ 2 then
    g.raster ⟨some Shader.solid_shader, g.vtx.uniform1, g.vtx.uniform2,
      points.map PixelPoint.toVertex, pen.width, Prim.GL_LINE_LOOP, 0, n, []⟩
  else if (G.LineToTriangles points n pen.width true false).length > 0 then
    g.raster ⟨some Shader.solid_shader, g.vtx.uniform1, g.vtx.uniform2,
      G.LineToTriangles points n pen.width true false, pen.width, Prim.GL_TRIANGLE_STRIP, 0,
      (G.LineToTriangles points n pen.width true false).length, []⟩
  else fun _ => false

/-- The later context extends the trace of the earlier one by events that all
satisfy `P`. -/
def TraceExt (P : Ev → Bool) (c c' : Ctx) : Prop :=
  ∃ evs : List Ev, c'.trace = c.trace ++ evs ∧ evs.all P = true

/-- Events of plain drawing code: direct GL calls that set up the program,
uniforms and vertex arrays, draw or read the error flag, log lines and calls
into the colour, pen and brush classes. -/
def Ev.isPlain : Ev → Bool
  | Ev.gl Site.direct (GLCall.glUseProgram _) => true
  | Ev.gl Site.direct (GLCall.glUniform1f _ _) => true
  | Ev.gl Site.direct (GLCall.glUniform2f _ _ _) => true
  | Ev.gl Site.direct (GLCall.glUniform4f _ _) => true
  | Ev.gl Site.direct (GLCall.glVertexAttrib4f _ _ _ _ _) => true
  | Ev.gl Site.direct (GLCall.glEnableVertexAttribArray _) => true
  | Ev.gl Site.direct (GLCall.glDisableVertexAttribArray _) => true
  | Ev.gl Site.direct (GLCall.glVertexAttribPointer _ _ _) => true
  | Ev.gl Site.direct (GLCall.glLineWidth _) => true
  | Ev.gl Site.direct (GLCall.glDrawArrays _ _ _) => true
  | Ev.gl Site.direct (GLCall.glDrawElements _ _ _) => true
  | Ev.gl Site.direct (GLCall.glCopyTexSubImage2D _ _ _ _) => true
  | Ev.gl Site.direct (GLCall.glGetError _) => true
  | Ev.log _ _ => true
  | Ev.lib _ => true
  | _ => false

/-- GL calls that touch stencil state: the stencil function, write mask and
operations, the stencil clear, and switching the stencil test. -/
def GLCall.touchesStencil : GLCall → Bool
  | GLCall.glStencilFunc _ _ _ => true
  | GLCall.glStencilMask _ => true
  | GLCall.glStencilOp _ _ _ => true
  | GLCall.glClear_STENCIL_BUFFER_BIT => true
  | GLCall.glEnable Cap.GL_STENCIL_TEST => true
  | GLCall.glDisable Cap.GL_STENCIL_TEST => true
  | _ => false

/-- Events that touch stencil state. -/
def Ev.touchesStencil : Ev → Bool
  | Ev.gl _ call => call.touchesStencil
  | _ => false

/-- Events that are not the entry of a recorded source function. -/
def Ev.notEnter : Ev → Bool
  | Ev.enter _ => false
  | _ => true

/-- The recorded source functions entered, in order. -/
def entered (evs : List Ev) : List Fn :=
  evs.filterMap (fun e => match e with
    | Ev.enter fn => some fn
    | _ => none)

/-- The airspaces `Visit` was called for, in order. -/
def visited (evs : List Ev) : List AbstractAirspace :=
  evs.filterMap (fun e => match e with
    | Ev.enter (Fn.Visit a) => some a
    | _ => none)

/-- The `SetFillStencil` and `ClearFillStencil` entries, in order. -/
def stencilPasses (evs : List Ev) : List Fn :=
  (entered evs).filter (fun fn => decide (fn = Fn.SetFillStencil ∨ fn = Fn.ClearFillStencil))

/-- Two GL contexts that rasterise alike: the same rasteriser and the same
uniform values. -/
def GLState.SameScene (g g' : GLState) : Prop :=
  g'.raster = g.raster ∧ g'.vtx.uniform1 = g.vtx.uniform1 ∧ g'.vtx.uniform2 = g.vtx.uniform2

namespace AirspaceVisitorRenderer

/-- The local `fill_airspace` of `VisitPolygon`. -/
def fill_airspace (self : Renderer) (airspace : AbstractAirspace) : Bool :=
  self.warning_manager.HasWarning airspace || self.warning_manager.IsInside airspace ||
    decide ((self.settings.classes (self.as_type_or_class airspace)).fill_mode = ClassFillMode.ALL)

/-- Whether `VisitCircle`/`VisitPolygon` enter their fill block. -/
def fillBlockEntered (self : Renderer) (airspace : AbstractAirspace) : Bool :=
  !self.warning_manager.IsAcked airspace &&
    decide ((self.settings.classes (self.as_type_or_class airspace)).fill_mode ≠ ClassFillMode.NONE)

/-- Whether `VisitPolygon` reserves the thick border in the fill-mask bit: the
polygon could be prepared, the fill block is entered and the polygon is not
fully filled. -/
def reserves (self : Renderer) (airspace : AbstractAirspace) : Bool :=
  (self.map.PreparePolygon airspace.points).isSome && fillBlockEntered self airspace &&
    !fill_airspace self airspace

/-- The pixels of the thick border of the prepared polygon: the fragments of
the draw of the prepared points with a hollow brush and the thick pen. -/
def reservation (self : Renderer) (airspace : AbstractAirspace) (g : GLState) :
    PixelPoint → Bool :=
  match self.map.PreparePolygon airspace.points with
  | none => fun _ => false
  | some raster_points =>
    Canvas.hollowPolygonFrags self.map.geometry raster_points raster_points.length
      self.look.thick_pen g

end AirspaceVisitorRenderer

/-- A predicate on events that holds of reading the error flag and of log
lines. -/
def AcceptsDiag (P : Ev → Bool) : Prop :=
  (∀ r, P (Ev.gl Site.direct (GLCall.glGetError r)) = true) ∧ ∀ tag code, P (Ev.log tag code) = true

/-- Events of the cheap renderer below `Visit`: plain drawing, the blend
function and blend guards. -/
def Ev.isCheap : Ev → Bool
  | Ev.gl Site.guard (GLCall.glEnable Cap.GL_BLEND) => true
  | Ev.gl Site.guard (GLCall.glDisable Cap.GL_BLEND) => true
  | Ev.gl Site.direct (GLCall.glBlendFunc _ _) => true
  | e => e.isPlain

/-- Events of the renderers below `Visit`, `SetFillStencil` and
`ClearFillStencil`: plain drawing, guards, and direct calls that set the
stencil function, write mask and operations, clear the stencil buffer, or set
the colour mask or the blend function. -/
def Ev.isSetup : Ev → Bool
  | Ev.gl Site.guard (GLCall.glEnable _) => true
  | Ev.gl Site.guard (GLCall.glDisable _) => true
  | Ev.gl Site.direct (GLCall.glStencilFunc _ _ _) => true
  | Ev.gl Site.direct (GLCall.glStencilMask _) => true
  | Ev.gl Site.direct (GLCall.glStencilOp _ _ _) => true
  | Ev.gl Site.direct GLCall.glClear_STENCIL_BUFFER_BIT => true
  | Ev.gl Site.direct (GLCall.glColorMask _ _ _ _) => true
  | Ev.gl Site.direct (GLCall.glBlendFunc _ _) => true
  | e => e.isPlain

/-- Events that are not the entry of `Visit`. -/
def Ev.notVisit : Ev → Bool
  | Ev.enter (Fn.Visit _) => false
  | _ => true

/-- Events other than a direct `glEnable` or `glDisable` of a capability. -/
def Ev.noDirectCapChange : Ev → Bool
  | Ev.gl Site.direct (GLCall.glEnable _) => false
  | Ev.gl Site.direct (GLCall.glDisable _) => false
  | _ => true

/-- Events of the precise renderer below `Visit`. -/
def Ev.isPrecise : Ev → Bool
  | Ev.enter Fn.SetFillStencil => true
  | Ev.enter Fn.ClearFillStencil => true
  | e => e.isSetup

/-! ## Concrete inputs -/

/-- A rasteriser under which every draw call produces exactly one fragment,
at the pixel (0, 0). -/
def exRaster : RasterInput → PixelPoint → Bool := fun _ p => decide (p = ⟨0, 0⟩)

/-- Geometry routines returning one triangle and a four-vertex strip. -/
def exGeometry : Geometry :=
  ⟨fun _ _ => [0, 1, 2], fun _ _ _ _ _ => [(0, 0), (4, 0), (0, 4), (4, 4)]⟩

/-- A donut table of 32 steps (64 vertices, even indices 0 to 62 and the
closing index 64) over a sine table of 4096 entries, with angles in degrees:
`AsDelta` brings an angle into the range from -180 (excluded) to 180,
`NATIVE_TO_INT` rounds an angle to the nearest of the 4096 steps of a turn,
`ImportAngle` scales a step of another table down to the 32 steps and doubles
it, and `PreviousAngle` and `NextAngle` move by one step around the table. -/
def exDonut : DonutLib :=
  { FullCircle := 360
    HalfCircle := 180
    AsDelta := fun a => a - 360 * ((⌈(a - 180) / 360⌉ : Int) : Rat)
    NATIVE_TO_INT := fun a => (⌊a * 4096 / 360 + 1 / 2⌋ % 4096).toNat
    ISINETABLE_size := 4096
    CIRCLE_SIZE := 32
    MAX_ANGLE := 64
    ImportAngle := fun other_angle other_circle_size =>
      ((other_angle * 32 / other_circle_size) % 32) * 2
    PreviousAngle := fun angle => (usub angle 2) &&& 62
    NextAngle := fun angle => (u32 (angle + 2)) &&& 62 }

/-- A map canvas that projects a location to the pixel of the same
coordinates and prepares every polygon of at least three points. -/
def exMap : MapCanvas :=
  ⟨exGeometry, fun g => ⟨g.1, g.2⟩, fun r => r,
    fun pts => if pts.length ≥ 3 then some (pts.map (fun g => ⟨g.1, g.2⟩)) else none⟩

/-- A look with a thick pen of width 5 and border pens of width 1. -/
def exLook : AirspaceLook :=
  ⟨⟨5, COLOR_BLACK, PenStyle.SOLID⟩, fun _ => ⟨⟨1, ⟨0, 0, 255, 255⟩, PenStyle.SOLID⟩, ⟨255, 0, 0, 255⟩⟩⟩

/-- No airspace has a warning, is acknowledged or contains the aircraft. -/
def exWarnings : AirspaceWarningCopy := ⟨fun _ => false, fun _ => false, fun _ => false⟩

/-- Settings with the given global fill mode and border width; every class
is displayed and fills its padding only. -/
def exSettings (mode : FillMode) (border_width : Nat) : AirspaceRendererSettings :=
  ⟨false, mode, fun _ => ⟨true, border_width, ClassFillMode.PADDING⟩⟩

/-- A renderer over the concrete map, look and warnings. -/
def exRenderer (mode : FillMode) (border_width : Nat) : Renderer :=
  ⟨exMap, exLook, exWarnings, exSettings mode border_width⟩

/-- A circle of radius 10 around (0, 0). -/
def exCircle : AbstractAirspace := ⟨Shape.CIRCLE, 1, 1, (0, 0), 10, []⟩

/-- A triangle. -/
def exPolygon : AbstractAirspace := ⟨Shape.POLYGON, 2, 2, (0, 0), 0, [(0, 0), (8, 0), (0, 8)]⟩

/-- A context with a fresh GL state, a black pen and a hollow brush, in which
`glGetError` returns the given codes. -/
def exCtx (errs : List Nat) : Ctx :=
  ⟨GLState.initial exRaster, ⟨1, COLOR_BLACK, PenStyle.SOLID⟩, ⟨true, COLOR_BLACK⟩, errs, [],
    TextState.initial⟩

/-- A context like `exCtx` in which the stencil value of every pixel is 2
(outline bit set, fill-mask bit clear). -/
def exOutlinedCtx (errs : List Nat) : Ctx :=
  { exCtx errs with gl := { (exCtx errs).gl with stencil := fun _ => 2 } }

/-- Events that do not touch stencil state. -/
def Ev.leavesStencil (e : Ev) : Bool := !e.touchesStencil

/-- The stencil clear of the constructor of the precise renderer. -/
def Ev.isStencilClear (e : Ev) : Bool :=
  decide (e = Ev.gl Site.direct GLCall.glClear_STENCIL_BUFFER_BIT)

/-- Whether a canvas operation is `InvertRectangle`. -/
def CanvasOp.isInvertRectangle : CanvasOp → Bool
  | CanvasOp.InvertRectangle _ => true
  | _ => false

/-- Geometry routines, text cache and globals for the concrete inputs: every
text is cached as a 16 x 8 texture. -/
def exLib : CanvasLib :=
  ⟨exGeometry, fun _ n => n, fun _ _ => some ⟨7, ⟨16, 8⟩, ⟨16, 8⟩, false⟩, fun _ _ => ⟨16, 8⟩,
    fun _ _ => ⟨16, 8⟩, ⟨128, 128, 128, 255⟩, ⟨0, 0⟩, ⟨640, 480⟩, fun p => (p.x, p.y), exDonut⟩

/-- Events by which a `GLEnable` guard switches a capability. -/
def Ev.isGuardChange : Ev → Bool
  | Ev.gl Site.guard (GLCall.glEnable _) => true
  | Ev.gl Site.guard (GLCall.glDisable _) => true
  | _ => false

/-! ## Buffer.hpp, Program.hpp: GPU objects and their wrappers -/

/-- The pointers `BeginWrite` hands out: null, the address of a `malloc`
block, or the mapping of the data store of a buffer object. -/
inductive Ptr where
  | null
  | host (addr : Nat)
  | mapped (buffer : Nat)
deriving DecidableEq

/-- The state of a buffer object: its data store and `GL_BUFFER_MAPPED`. -/
structure BufferObject where
  data : List Byte
  mapped : Bool
deriving DecidableEq

def GL_INVALID_VALUE : Nat := 0x501

def GL_INVALID_OPERATION : Nat := 0x502

/-- The valid arguments of `glCreateShader`. -/
inductive ShaderType where
  | GL_VERTEX_SHADER
  | GL_FRAGMENT_SHADER
deriving DecidableEq

/-- The GL context as far as `Buffer.hpp` and `Program.hpp` reach it, the host
heap and the log file. `buffers` lists the buffer names in use with the state
of their objects (a name acquires its state when first bound; before that the
state recorded here is the initial one), newest first; `shaders` and `programs`
list the shader and program names in use; `error` is the error flag read by
`glGetError`. The counters record the objects the context has created, the
objects it has deleted, and the delete calls that named no object. -/
structure Machine where
  buffers : List (Nat × BufferObject)
  array_buffer_binding : Nat
  shaders : List Nat
  programs : List Nat
  error : Nat
  created : Nat
  deleted : Nat
  ignored : Nat
  heap : List (Nat × List Byte)
  log : List (String × Option Nat)
deriving DecidableEq

/-- What the platform fixes: the width of `size_t` and `GLsizeiptr`, and the
contents of uninitialised memory (a fresh data store, a fresh `malloc` block),
by offset. -/
structure MachineEnv where
  bits : Nat
  store_junk : Nat → Byte
  host_junk : Nat → Byte

/-- A context without objects, an empty heap and an empty log. -/
def Machine.initial : Machine := ⟨[], 0, [], [], GL_NO_ERROR, 0, 0, 0, [], []⟩

/-- A name not in use: GL hands out unused non-zero names. -/
def freshName (used : List Nat) : Nat := used.foldr max 0 + 1

/-- Memory of `n` bytes whose first bytes are `d` and whose remaining bytes
are uninitialised. -/
def fillBlock (junk : Nat → Byte) (n : Nat) (d : List Byte) : List Byte :=
  d.take n ++ (List.range (n - d.length)).map (fun i => junk (d.length + i))

/-- Writing the bytes `new` to the start of the memory `old`. -/
def overwrite (old new : List Byte) : List Byte := new.take old.length ++ old.drop new.length

/-- Replaces the state of the buffer object `id`. -/
def setBuffer (id : Nat) (o : BufferObject) (l : List (Nat × BufferObject)) :
    List (Nat × BufferObject) :=
  l.map (fun e => if e.1 = id then (e.1, o) else e)

/-- The conversion `GLsizeiptr(size)` of a `size_t`. -/
def GLsizeiptr.ofSize (bits : Nat) (size : Nat) : Int :=
  let v := size % 2 ^ bits
  if v < 2 ^ (bits - 1) then (v : Int) else (v : Int) - 2 ^ bits

/-- Records an error: the flag keeps the first error until it is read. -/
def Machine.raise (code : Nat) (s : Machine) : Machine :=
  if s.error = GL_NO_ERROR then { s with error := code } else s

/-- `glGetError()`: returns the error flag and clears it. -/
def Machine.glGetError (s : Machine) : Nat × Machine := (s.error, { s with error := GL_NO_ERROR })

/-- `LogFormat(...)`: a line of the log file. -/
def Machine.LogFormat (text : String) (code : Option Nat) (s : Machine) : Machine :=
  { s with log := s.log ++ [(text, code)] }

/-- The line
`GLenum err = glGetError(); if (err != GL_NO_ERROR) LogFormat("<tag> OpenGL error 0x%X", err);`
that follows the GL calls. -/
def Machine.checkError (tag : String) (s : Machine) : Machine :=
  let (err, s) := s.glGetError
  if err ≠ GL_NO_ERROR then s.LogFormat tag (some err) else s

/-- `glGenBuffers(1, &id)`: an unused name is marked as used. -/
def Machine.glGenBuffers (s : Machine) : Nat × Machine :=
  let id := freshName (s.buffers.map Prod.fst)
  (id, { s with buffers := (id, ⟨[], false⟩) :: s.buffers, created := s.created + 1 })

/-- `glDeleteBuffers(1, &id)`: zero and names of no buffer object are silently
ignored; a deleted buffer that is bound is unbound. -/
def Machine.glDeleteBuffers (id : Nat) (s : Machine) : Machine :=
  if id = 0 ∨ s.buffers.lookup id = none then { s with ignored := s.ignored + 1 }
  else
    { s with
      buffers := s.buffers.filter (fun e => e.1 ≠ id)
      array_buffer_binding := if s.array_buffer_binding = id then 0 else s.array_buffer_binding
      deleted := s.deleted + 1 }

/-- `glBindBuffer(target, id)`: binding a name that is not in use creates the
buffer object. -/
def Machine.glBindBuffer (id : Nat) (s : Machine) : Machine :=
  if id = 0 then { s with array_buffer_binding := 0 }
  else if s.buffers.lookup id = none then
    { s with
      buffers := (id, ⟨[], false⟩) :: s.buffers
      created := s.created + 1
      array_buffer_binding := id }
  else { s with array_buffer_binding := id }

/-- The bytes a pointer of the caller points to. -/
def Machine.deref (s : Machine) : Ptr → Option (List Byte)
  | Ptr.host a => s.heap.lookup a
  | _ => none

/-- `glBufferData(target, size, data, usage)`: a new data store of `size`
bytes for the bound buffer, copied from `data` unless that is null; an
existing mapping is dropped. -/
def Machine.glBufferData (E : MachineEnv) (size : Int) (data : Ptr) (s : Machine) : Machine :=
  if size < 0 then s.raise GL_INVALID_VALUE
  else if s.array_buffer_binding = 0 then s.raise GL_INVALID_OPERATION
  else
    { s with
      buffers := setBuffer s.array_buffer_binding
        ⟨fillBlock E.store_junk size.toNat ((s.deref data).getD []), false⟩ s.buffers }

/-- `glMapBuffer(target, GL_WRITE_ONLY)`. -/
def Machine.glMapBuffer (s : Machine) : Ptr × Machine :=
  if s.array_buffer_binding = 0 then (Ptr.null, s.raise GL_INVALID_OPERATION)
  else
    match s.buffers.lookup s.array_buffer_binding with
    | none => (Ptr.null, s.raise GL_INVALID_OPERATION)
    | some o =>
      if o.mapped then (Ptr.null, s.raise GL_INVALID_OPERATION)
      else
        (Ptr.mapped s.array_buffer_binding,
          { s with buffers := setBuffer s.array_buffer_binding { o with mapped := true } s.buffers })

/-- `glUnmapBuffer(target)`. -/
def Machine.glUnmapBuffer (s : Machine) : Machine :=
  if s.array_buffer_binding = 0 then s.raise GL_INVALID_OPERATION
  else
    match s.buffers.lookup s.array_buffer_binding with
    | none => s.raise GL_INVALID_OPERATION
    | some o =>
      if o.mapped then
        { s with buffers := setBuffer s.array_buffer_binding { o with mapped := false } s.buffers }
      else s.raise GL_INVALID_OPERATION

/-- `malloc(size)`: a fresh block of uninitialised memory. -/
def Machine.malloc (E : MachineEnv) (size : Nat) (s : Machine) : Ptr × Machine :=
  let a := freshName (s.heap.map Prod.fst)
  (Ptr.host a, { s with heap := (a, fillBlock E.host_junk size []) :: s.heap })

/-- `free(ptr)`. -/
def Machine.free (ptr : Ptr) (s : Machine) : Machine :=
  match ptr with
  | Ptr.host a => { s with heap := s.heap.filter (fun e => e.1 ≠ a) }
  | _ => s

/-- The caller writes `bytes` through a pointer obtained from `BeginWrite`. -/
def Machine.writeThrough (ptr : Ptr) (bytes : List Byte) (s : Machine) : Machine :=
  match ptr with
  | Ptr.null => s
  | Ptr.host a =>
    { s with heap := s.heap.map (fun e => if e.1 = a then (e.1, overwrite e.2 bytes) else e) }
  | Ptr.mapped id =>
    { s with
      buffers := s.buffers.map (fun e =>
        if e.1 = id ∧ e.2.mapped = true then (e.1, { e.2 with data := overwrite e.2.data bytes })
        else e) }

/-- `glCreateShader(type)`; shader and program names come from one name space. -/
def Machine.glCreateShader (_type : ShaderType) (s : Machine) : Nat × Machine :=
  let id := freshName (s.shaders ++ s.programs)
  (id, { s with shaders := id :: s.shaders, created := s.created + 1 })

/-- `glDeleteShader(id)`: zero is silently ignored, other values that name no
shader are errors. -/
def Machine.glDeleteShader (id : Nat) (s : Machine) : Machine :=
  if id = 0 then { s with ignored := s.ignored + 1 }
  else if id ∈ s.shaders then
    { s with shaders := s.shaders.filter (fun x => x ≠ id), deleted := s.deleted + 1 }
  else if id ∈ s.programs then { s.raise GL_INVALID_OPERATION with ignored := s.ignored + 1 }
  else { s.raise GL_INVALID_VALUE with ignored := s.ignored + 1 }

/-- `glCreateProgram()`. -/
def Machine.glCreateProgram (s : Machine) : Nat × Machine :=
  let id := freshName (s.shaders ++ s.programs)
  (id, { s with programs := id :: s.programs, created := s.created + 1 })

/-- `glDeleteProgram(id)`. -/
def Machine.glDeleteProgram (id : Nat) (s : Machine) : Machine :=
  if id = 0 then { s with ignored := s.ignored + 1 }
  else if id ∈ s.programs then
    { s with programs := s.programs.filter (fun x => x ≠ id), deleted := s.deleted + 1 }
  else if id ∈ s.shaders then { s.raise GL_INVALID_OPERATION with ignored := s.ignored + 1 }
  else { s.raise GL_INVALID_VALUE with ignored := s.ignored + 1 }

/-- `GLBuffer<target, usage>` in the instance `GLArrayBuffer`, debug build: the
name and the pointer `p` of the pending write. -/
structure GLBuffer where
  id : Nat
  p : Ptr
deriving DecidableEq

/-- `GLBuffer::GLBuffer()`. -/
def GLBuffer.ctor (s : Machine) : GLBuffer × Machine :=
  let (id, s) := s.glGenBuffers
  let s := s.checkError "BYBY"
  (⟨id, Ptr.null⟩, s)

/-- `GLBuffer::~GLBuffer()`; `none` is the failure of `assert(p == nullptr)`. -/
def GLBuffer.dtor (b : GLBuffer) (s : Machine) : Option Machine :=
  if b.p ≠ Ptr.null then none
  else some ((s.glDeleteBuffers b.id).checkError "BZBZ")

/-- `GLBuffer::Bind()`; `none` is the failure of `assert(p == nullptr)`. -/
def GLBuffer.Bind (b : GLBuffer) (s : Machine) : Option Machine :=
  if b.p ≠ Ptr.null then none
  else some ((s.glBindBuffer b.id).checkError "CACA")

/-- `GLBuffer::Unbind()`. -/
def GLBuffer.Unbind (s : Machine) : Machine := (s.glBindBuffer 0).checkError "CBCB"

/-- `GLBuffer::Data(size, data)`. -/
def GLBuffer.Data (E : MachineEnv) (size : Int) (data : Ptr) (s : Machine) : Machine :=
  (s.glBufferData E size data).checkError "CDCD"

/-- `GLBuffer::Load(size, data)`. -/
def GLBuffer.Load (E : MachineEnv) (b : GLBuffer) (size : Int) (data : Ptr) (s : Machine) :
    Option Machine :=
  match b.Bind s with
  | none => none
  | some s =>
    let s := GLBuffer.Data E size data s
    some (GLBuffer.Unbind s)

/-- `GLBuffer::MapWrite()`, the branch that calls `glMapBuffer`. -/
def GLBuffer.MapWrite (s : Machine) : Ptr × Machine :=
  let (ptr2, s) := s.glMapBuffer
  (ptr2, s.checkError "CFCF")

/-- `GLBuffer::Unmap()`, the branch that calls `glUnmapBuffer`. -/
def GLBuffer.Unmap (s : Machine) : Machine := s.glUnmapBuffer.checkError "CHCH"

/-- `GLBuffer::BeginWrite(size)`; `mapbuffer` is the global
`OpenGL::mapbuffer`. Returns the pointer, the object and the machine. -/
def GLBuffer.BeginWrite (E : MachineEnv) (mapbuffer : Bool) (size : Nat) (b : GLBuffer)
    (s : Machine) : Option (Ptr × GLBuffer × Machine) :=
  match b.Bind s with
  | none => none
  | some s =>
    let (result, s) :=
      if mapbuffer then
        let s := GLBuffer.Data E (GLsizeiptr.ofSize E.bits size) Ptr.null s
        GLBuffer.MapWrite s
      else s.malloc E size
    some (result, { b with p := result }, s)

/-- `GLBuffer::CommitWrite(size, data)`; `none` is the failure of
`assert(data == p)`. -/
def GLBuffer.CommitWrite (E : MachineEnv) (mapbuffer : Bool) (size : Nat) (data : Ptr)
    (b : GLBuffer) (s : Machine) : Option (GLBuffer × Machine) :=
  if data ≠ b.p then none
  else
    let b := { b with p := Ptr.null }
    let s :=
      if mapbuffer then GLBuffer.Unmap s
      else (GLBuffer.Data E (GLsizeiptr.ofSize E.bits size) data s).free data
    some (b, GLBuffer.Unbind s)

/-- A write cycle: `BeginWrite(size)`, the caller writes `bytes` through the
pointer returned, `CommitWrite(size, ptr)`. -/
def GLBuffer.writeCycle (E : MachineEnv) (mapbuffer : Bool) (size : Nat) (bytes : List Byte)
    (b : GLBuffer) (s : Machine) : Option (GLBuffer × Machine) :=
  match b.BeginWrite E mapbuffer size s with
  | none => none
  | some (ptr, b, s) => b.CommitWrite E mapbuffer size ptr (s.writeThrough ptr bytes)

/-- `GLShader`: the name of the shader object. -/
structure GLShader where
  id : Nat
deriving DecidableEq

/-- `GLShader::GLShader(type)`. -/
def GLShader.ctor (type : ShaderType) (s : Machine) : GLShader × Machine :=
  let (id, s) := s.glCreateShader type
  let s := s.LogFormat "EPEP SAFTY CHECK" none
  (⟨id⟩, s.checkError "EPEP")

/-- `GLShader::~GLShader()`. -/
def GLShader.dtor (sh : GLShader) (s : Machine) : Machine :=
  (s.glDeleteShader sh.id).checkError "EQEQ"

/-- `GLProgram`: the name of the program object. -/
structure GLProgram where
  id : Nat
deriving DecidableEq

/-- `GLProgram::GLProgram()`. -/
def GLProgram.ctor (s : Machine) : GLProgram × Machine :=
  let (id, s) := s.glCreateProgram
  let s := s.LogFormat "EWEW CHECK" none
  (⟨id⟩, s.checkError "EWEW")

/-- `GLProgram::~GLProgram()`. -/
def GLProgram.dtor (p : GLProgram) (s : Machine) : Machine :=
  (s.glDeleteProgram p.id).checkError "EXEX"

/-- The machine together with the wrapper objects alive on the host side,
newest first. -/
structure World where
  machine : Machine
  buffers : List GLBuffer
  shaders : List GLShader
  programs : List GLProgram
deriving DecidableEq

def World.initial : World := ⟨Machine.initial, [], [], []⟩

/-- The operations a client performs on the wrappers; `i` is the position of
the wrapper among the live wrappers of its class, `Write` is a complete write
cycle. -/
inductive Cmd where
  | newBuffer
  | newShader (type : ShaderType)
  | newProgram
  | deleteBuffer (i : Nat)
  | deleteShader (i : Nat)
  | deleteProgram (i : Nat)
  | Bind (i : Nat)
  | Unbind
  | Load (i : Nat) (size : Int) (data : Ptr)
  | Write (i : Nat) (size : Nat) (bytes : List Byte)

/-- One operation; an operation on a wrapper that does not exist is not
executed, `none` is a failed assertion. -/
def World.exec (E : MachineEnv) (mapbuffer : Bool) (w : World) : Cmd → Option World
  | Cmd.newBuffer =>
    let (b, m) := GLBuffer.ctor w.machine
    some { w with machine := m, buffers := b :: w.buffers }
  | Cmd.newShader type =>
    let (sh, m) := GLShader.ctor type w.machine
    some { w with machine := m, shaders := sh :: w.shaders }
  | Cmd.newProgram =>
    let (p, m) := GLProgram.ctor w.machine
    some { w with machine := m, programs := p :: w.programs }
  | Cmd.deleteBuffer i =>
    match w.buffers.get? i with
    | none => some w
    | some b =>
      match b.dtor w.machine with
      | none => none
      | some m => some { w with machine := m, buffers := w.buffers.eraseIdx i }
  | Cmd.deleteShader i =>
    match w.shaders.get? i with
    | none => some w
    | some sh => some { w with machine := sh.dtor w.machine, shaders := w.shaders.eraseIdx i }
  | Cmd.deleteProgram i =>
    match w.programs.get? i with
    | none => some w
    | some p => some { w with machine := p.dtor w.machine, programs := w.programs.eraseIdx i }
  | Cmd.Bind i =>
    match w.buffers.get? i with
    | none => some w
    | some b =>
      match b.Bind w.machine with
      | none => none
      | some m => some { w with machine := m }
  | Cmd.Unbind => some { w with machine := GLBuffer.Unbind w.machine }
  | Cmd.Load i size data =>
    match w.buffers.get? i with
    | none => some w
    | some b =>
      match b.Load E size data w.machine with
      | none => none
      | some m => some { w with machine := m }
  | Cmd.Write i size bytes =>
    match w.buffers.get? i with
    | none => some w
    | some b =>
      match b.writeCycle E mapbuffer size bytes w.machine with
      | none => none
      | some (b, m) => some { w with machine := m, buffers := w.buffers.set i b }

/-- A sequence of operations. -/
def World.run (E : MachineEnv) (mapbuffer : Bool) : List Cmd → World → Option World
  | [], w => some w
  | cmd :: rest, w =>
    match w.exec E mapbuffer cmd with
    | none => none
    | some w => World.run E mapbuffer rest w

/-- The names of the GPU objects alive in the context: buffers, shaders,
programs. -/
def World.live (w : World) : List Nat × List Nat × List Nat :=
  (w.machine.buffers.map Prod.fst, w.machine.shaders, w.machine.programs)

/-- The names held by the live wrappers: buffers, shaders, programs. -/
def World.held (w : World) : List Nat × List Nat × List Nat :=
  (w.buffers.map GLBuffer.id, w.shaders.map GLShader.id, w.programs.map GLProgram.id)

/-- The same objects are alive in two machine states, and none has been
created or deleted in between. -/
def Machine.SameObjects (s t : Machine) : Prop :=
  t.buffers.map Prod.fst = s.buffers.map Prod.fst ∧ t.shaders = s.shaders ∧
    t.programs = s.programs ∧ t.created = s.created ∧ t.deleted = s.deleted ∧
    t.ignored = s.ignored

/-- Wrappers and GPU objects are paired: the live names are the held names, no
name is held twice or is zero, no write is pending, no delete call has missed
an object, and the objects created are the objects deleted and the objects
held. -/
structure World.Paired (w : World) : Prop where
  live_eq_held : w.live = w.held
  nodup_buffers : (w.buffers.map GLBuffer.id).Nodup
  nodup_shaders : (w.shaders.map GLShader.id ++ w.programs.map GLProgram.id).Nodup
  nonzero_buffers : ∀ id ∈ w.buffers.map GLBuffer.id, id ≠ 0
  nonzero_shaders : ∀ id ∈ w.shaders.map GLShader.id ++ w.programs.map GLProgram.id, id ≠ 0
  idle : ∀ b ∈ w.buffers, b.p = Ptr.null
  ignored : w.machine.ignored = 0
  count : w.machine.created =
    w.machine.deleted + w.buffers.length + w.shaders.length + w.programs.length

/-- What an operation does to the GPU objects, from world `w` to world `t`: a
construction adds one new name of its class and counts one creation; the
destruction of a wrapper removes the name the wrapper holds, which was alive,
and counts one deletion; every other operation leaves the objects and the
counts alone. -/
def Cmd.effect (cmd : Cmd) (w t : World) : Prop :=
  match cmd with
  | Cmd.newBuffer =>
    ∃ id, id ∉ w.live.1 ∧ t.live = (id :: w.live.1, w.live.2.1, w.live.2.2) ∧
      t.held = (id :: w.held.1, w.held.2.1, w.held.2.2) ∧
      t.machine.created = w.machine.created + 1 ∧ t.machine.deleted = w.machine.deleted
  | Cmd.newShader _ =>
    ∃ id, id ∉ w.live.2.1 ∧ t.live = (w.live.1, id :: w.live.2.1, w.live.2.2) ∧
      t.held = (w.held.1, id :: w.held.2.1, w.held.2.2) ∧
      t.machine.created = w.machine.created + 1 ∧ t.machine.deleted = w.machine.deleted
  | Cmd.newProgram =>
    ∃ id, id ∉ w.live.2.2 ∧ t.live = (w.live.1, w.live.2.1, id :: w.live.2.2) ∧
      t.held = (w.held.1, w.held.2.1, id :: w.held.2.2) ∧
      t.machine.created = w.machine.created + 1 ∧ t.machine.deleted = w.machine.deleted
  | Cmd.deleteBuffer i =>
    match w.buffers.get? i with
    | none => t = w
    | some b =>
      b.id ∈ w.live.1 ∧
        t.live = (w.live.1.filter (fun x => x ≠ b.id), w.live.2.1, w.live.2.2) ∧
        t.buffers = w.buffers.eraseIdx i ∧ t.shaders = w.shaders ∧ t.programs = w.programs ∧
        t.machine.created = w.machine.created ∧ t.machine.deleted = w.machine.deleted + 1
  | Cmd.deleteShader i =>
    match w.shaders.get? i with
    | none => t = w
    | some sh =>
      sh.id ∈ w.live.2.1 ∧
        t.live = (w.live.1, w.live.2.1.filter (fun x => x ≠ sh.id), w.live.2.2) ∧
        t.buffers = w.buffers ∧ t.shaders = w.shaders.eraseIdx i ∧ t.programs = w.programs ∧
        t.machine.created = w.machine.created ∧ t.machine.deleted = w.machine.deleted + 1
  | Cmd.deleteProgram i =>
    match w.programs.get? i with
    | none => t = w
    | some p =>
      p.id ∈ w.live.2.2 ∧
        t.live = (w.live.1, w.live.2.1, w.live.2.2.filter (fun x => x ≠ p.id)) ∧
        t.buffers = w.buffers ∧ t.shaders = w.shaders ∧ t.programs = w.programs.eraseIdx i ∧
        t.machine.created = w.machine.created ∧ t.machine.deleted = w.machine.deleted + 1
  | _ =>
    t.live = w.live ∧ t.held = w.held ∧ t.machine.created = w.machine.created ∧
      t.machine.deleted = w.machine.deleted

/-- Platform of the concrete inputs: 64-bit sizes, uninitialised memory reads
as 0xAA in data stores and as 0x55 on the heap. -/
def exEnv : MachineEnv := ⟨64, fun _ => 0xAA, fun _ => 0x55⟩

/-- A freshly constructed buffer wrapper. -/
def exBuffer : GLBuffer := (GLBuffer.ctor Machine.initial).1

/-- The machine after the construction of `exBuffer`. -/
def exMachine : Machine := (GLBuffer.ctor Machine.initial).2

/-! ## UncompressedImage.cpp and the texture construction of Texture.cpp -/

/-- `UncompressedImage::Format`. -/
inductive UncompressedImage.Format where
  | INVALID
  | RGB
  | RGBA
  | GRAY
deriving DecidableEq

/-- Modelled from the spec: `UncompressedImage` (its header is not part of the
sources), as far as `ImportTexture` reads it: `GetFormat()`, `GetSize()`,
`IsFlipped()` and the pixel buffer `GetData()` points to. -/
structure UncompressedImage where
  format : UncompressedImage.Format
  size : PixelSize
  flipped : Bool
  data : List Byte

/-- What the texture code reads of the GL globals and of the driver:
`OpenGL::texture_non_power_of_two`, and the name `glGenTextures` returns after
the events issued so far. -/
structure OpenGLGlobals where
  texture_non_power_of_two : Bool
  glGenTextures : List Ev → Nat

/-- The loop `while (p < i) p <<= 1;` of `NextPowerOfTwo` on `unsigned`, with
fuel for the at most 32 doublings that change `p`. Once `p` is 0 it stays 0
and the loop never ends: `none`. -/
def NextPowerOfTwo.loop (i : Nat) : Nat → Nat → Option Nat
  | 0, _ => none
  | fuel + 1, p =>
    if p < i then
      if p = 0 then none else NextPowerOfTwo.loop i fuel (u32 (p <<< 1))
    else some p

/-- `NextPowerOfTwo(i)`; `none` when the loop does not terminate. -/
def NextPowerOfTwo (i : Nat) : Option Nat := NextPowerOfTwo.loop i 33 1

/-- `ValidateTextureSize(unsigned i)`. -/
def ValidateTextureSize (G : OpenGLGlobals) (i : Nat) : Option Nat :=
  if G.texture_non_power_of_two then some i else NextPowerOfTwo i

/-- `ValidateTextureSize(PixelSize size)`. -/
def ValidateTextureSize.ofSize (G : OpenGLGlobals) (size : PixelSize) : Option PixelSize :=
  match ValidateTextureSize G size.width with
  | none => none
  | some width =>
    match ValidateTextureSize G size.height with
    | none => none
    | some height => some ⟨width, height⟩

/-- `LoadTextureAutoAlign(internal_format, size, format, type, pixels)`; the
pixel buffer is not null, so the assertion holds. The `else` belongs to the
test of the error code: the padded upload runs whenever `glGetError` returns
`GL_NO_ERROR`. `none` when `ValidateTextureSize` does not return. -/
def LoadTextureAutoAlign (G : OpenGLGlobals) (internal_format : GLenum) (size : PixelSize)
    (format type : GLenum) (pixels : List Byte) (c : Ctx) : Option Ctx :=
  match ValidateTextureSize.ofSize G size with
  | none => none
  | some validated_size =>
    let c :=
      if validated_size = size then
        Ctx.call (GLCall.glTexImage2D internal_format (toInt size.width) (toInt size.height)
          format type (some pixels)) c
      else c
    let r := glGetError c
    if r.1 ≠ GL_NO_ERROR then some (LogFormat "AAA" r.1 r.2)
    else
      let c := Ctx.call (GLCall.glTexImage2D internal_format (toInt validated_size.width)
        (toInt validated_size.height) format type none) r.2
      let c := checkError "BBB" c
      let c := Ctx.call (GLCall.glTexSubImage2D 0 0 (toInt size.width) (toInt size.height)
        format type pixels) c
      some (checkError "CCC" c)

/-- `GLTexture::Configure()`. -/
def GLTexture.Configure (c : Ctx) : Ctx :=
  let c := Ctx.call (GLCall.glTexParameteri GL_TEXTURE_WRAP_S GL_CLAMP_TO_EDGE) c
  let c := checkError "FWCFWC" c
  let c := Ctx.call (GLCall.glTexParameteri GL_TEXTURE_WRAP_T GL_CLAMP_TO_EDGE) c
  let c := checkError "FWBFWB" c
  let c := Ctx.call (GLCall.glTexParameteri GL_TEXTURE_MIN_FILTER GL_LINEAR) c
  let c := checkError "FWAFWA" c
  let c := Ctx.call (GLCall.glTexParameteri GL_TEXTURE_MAG_FILTER GL_LINEAR) c
  checkError "FWFW" c

/-- `GLTexture::Initialise()`: returns the name stored in `id`. -/
def GLTexture.Initialise (G : OpenGLGlobals) (c : Ctx) : Nat × Ctx :=
  let id := G.glGenTextures c.trace
  let c := Ctx.call (GLCall.glGenTextures id) c
  let c := checkError "FWAFWA" c
  let c := Ctx.lib (LibCall.Texture_Bind id) c
  (id, GLTexture.Configure c)

/-- The constructor
`GLTexture::GLTexture(internal_format, _size, format, type, data, _flipped)`;
`none` when it does not return. -/
def GLTexture.ctorData (G : OpenGLGlobals) (internal_format : GLenum) (_size : PixelSize)
    (format type : GLenum) (data : List Byte) (_flipped : Bool) (c : Ctx) :
    Option (GLTexture × Ctx) :=
  match ValidateTextureSize.ofSize G _size with
  | none => none
  | some allocated_size =>
    let r := GLTexture.Initialise G c
    match LoadTextureAutoAlign G internal_format _size format type data r.2 with
    | none => none
    | some c => some (⟨r.1, _size, allocated_size, _flipped⟩, c)

/-- `ImportTexture(image)`: the outer `none` is a call that does not return,
`some (none, c)` the return of `nullptr`. -/
def ImportTexture (G : OpenGLGlobals) (image : UncompressedImage) (c : Ctx) :
    Option (Option GLTexture × Ctx) :=
  let formats : Option (GLenum × GLenum × GLenum) :=
    match image.format with
    | UncompressedImage.Format.GRAY => some (GL_LUMINANCE, GL_LUMINANCE, GL_UNSIGNED_BYTE)
    | UncompressedImage.Format.RGB => some (GL_RGB, GL_RGB, GL_UNSIGNED_BYTE)
    | UncompressedImage.Format.RGBA => some (GL_RGBA, GL_RGBA, GL_UNSIGNED_BYTE)
    | UncompressedImage.Format.INVALID => none
  match formats with
  | none => some (none, c)
  | some (internal_format, format, type) =>
    let c := checkError "JJJbefore" c
    let c := Ctx.call (GLCall.glPixelStorei GL_UNPACK_ALIGNMENT 1) c
    let c := checkError "JJJ" c
    match GLTexture.ctorData G internal_format image.size format type image.data image.flipped
      c with
    | none => none
    | some (t, c) => some (some t, c)

/-- Events other than a texture image call (`glTexImage2D`,
`glTexSubImage2D`) whose internal format or pixel format is not `format` or
whose component type is not `type`. -/
def Ev.texImageWith (format type : GLenum) : Ev → Bool
  | Ev.gl _ (GLCall.glTexImage2D i _ _ f t _) => i = format && f = format && t = type
  | Ev.gl _ (GLCall.glTexSubImage2D _ _ _ _ f t _) => f = format && t = type
  | _ => true

/-- Globals of the concrete inputs: `supported` is
`OpenGL::texture_non_power_of_two`, texture names count up from 1. -/
def exGlobals (supported : Bool) : OpenGLGlobals :=
  ⟨supported, fun evs => evs.length + 1⟩

/-- The diagnostic events: a `glGetError` call and a line of the log. -/
def Ev.isDiag : Ev → Bool
  | Ev.gl _ (GLCall.glGetError _) => true
  | Ev.log _ _ => true
  | _ => false

/-- A trace without its diagnostic events. -/
def essential (evs : List Ev) : List Ev := evs.filter (fun e => !e.isDiag)

/-- The draw call an event makes, if it is one. -/
def Ev.drawCall : Ev → Option GLCall
  | Ev.gl _ (GLCall.glDrawArrays mode first count) => some (GLCall.glDrawArrays mode first count)
  | Ev.gl _ (GLCall.glDrawElements mode count indices) =>
      some (GLCall.glDrawElements mode count indices)
  | _ => none

/-- The draw calls of a trace, in order. -/
def draws (evs : List Ev) : List GLCall := evs.filterMap Ev.drawCall

/-- The line primitives. -/
def Prim.isLine : Prim → Bool
  | Prim.GL_LINE_STRIP => true
  | Prim.GL_LINE_LOOP => true
  | _ => false

/-- Draw calls with a line primitive. -/
def GLCall.isLineDraw : GLCall → Bool
  | GLCall.glDrawArrays mode _ _ => mode.isLine
  | GLCall.glDrawElements mode _ _ => mode.isLine
  | _ => false

/-- Draw calls with the primitive `GL_TRIANGLE_STRIP`. -/
def GLCall.isStripDraw : GLCall → Bool
  | GLCall.glDrawArrays Prim.GL_TRIANGLE_STRIP _ _ => true
  | GLCall.glDrawElements Prim.GL_TRIANGLE_STRIP _ _ => true
  | _ => false

/-- The draw calls of the outline of `Canvas::DrawPolygon` and
`Canvas::DrawTriangleFan`, for a pen that is over the brush. -/
def Canvas.outlineDraws (G : Geometry) (points : List PixelPoint) (n : Nat) (c : Ctx) : List GLCall :=
  if c.pen.width ≤ 2 then [GLCall.glDrawArrays Prim.GL_LINE_LOOP 0 n]
  else if 0 < (G.LineToTriangles points n c.pen.width true false).length then
    [GLCall.glDrawArrays Prim.GL_TRIANGLE_STRIP 0
      (G.LineToTriangles points n c.pen.width true false).length]
  else []

/-- Modelled from the spec: `LineToTriangles` (Triangulate.hpp is not part of
the sources) at a width above 2 "always produces a non-empty triangle strip
for any two distinct points". -/
def Geometry.NonEmptyStrip (G : Geometry) : Prop :=
  ∀ (a b : PixelPoint) (width : Nat) (loop tcap : Bool), a ≠ b → 2 < width →
    0 < (G.LineToTriangles [a, b] 2 width loop tcap).length

/-- A triangulation that finds no triangle and no strip. -/
def exFlatGeometry : Geometry := ⟨fun _ _ => [], fun _ _ _ _ _ => []⟩

/-- A context like `exCtx` with a pen of width 5. -/
def exThickCtx (errs : List Nat) : Ctx :=
  Canvas.SelectPen ⟨5, COLOR_BLACK, PenStyle.SOLID⟩ (exCtx errs)

/-- A solid white brush. -/
def exWhiteBrush : Brush := ⟨false, ⟨255, 255, 255, 255⟩⟩

/-! ## Text that is not drawn -/

/-- Modelled from the spec: `TruncateStringUTF8` (util/UTF8.hpp is not part of
the sources) keeps nothing of the text when fewer than one character fits: for
a limit of 0 characters it returns the length 0. -/
def CanvasLib.TruncatesToNothing (L : CanvasLib) : Prop :=
  ∀ text : Text, L.TruncateStringUTF8 text 0 = 0

/-- The cases in which a text operation has nothing to draw, for the start
`x` and the clipping width `width` it hands to `ClipText`: no font is
selected, or `ClipText` yields the empty string, or the glyph cache returns
no texture for the clipped text. -/
def Canvas.NothingToDraw (L : CanvasLib) (c : Ctx) (x : Int) (width : Nat) (text : Text) : Prop :=
  c.text.font = none ∨
  ∃ font, c.text.font = some font ∧
    (ClipText L font text x width = [] ∨ L.TextCache_Get font (ClipText L font text x width) = none)

/-- A context like `exCtx` with a font of height 16 selected. -/
def exTextCtx (errs : List Nat) : Ctx :=
  { exCtx errs with text := { (exCtx errs).text with font := some ⟨16⟩ } }

/-! ## The allocated size of a texture -/

/-- The constructor
`GLTexture::GLTexture(internal_format, _size, format, type, _flipped)`, which
allocates the texture without loading data; `none` when it does not return. -/
def GLTexture.ctor (G : OpenGLGlobals) (internal_format : GLenum) (_size : PixelSize)
    (format type : GLenum) (_flipped : Bool) (c : Ctx) : Option (GLTexture × Ctx) :=
  match ValidateTextureSize.ofSize G _size with
  | none => none
  | some allocated_size =>
    let r := GLTexture.Initialise G c
    let c := Ctx.call (GLCall.glTexImage2D internal_format (toInt allocated_size.width)
      (toInt allocated_size.height) format type none) r.2
    some (⟨r.1, _size, allocated_size, _flipped⟩, checkError "DDD" c)

/-- The least power of two greater than or equal to `i`. -/
def IsLeastPowerOfTwo (p i : Nat) : Prop :=
  (∃ k, p = 2 ^ k) ∧ i ≤ p ∧ ∀ j, i ≤ 2 ^ j → p ≤ 2 ^ j

/-! ## TopCanvas.cpp (GLX), TopWindow.cpp and Display.cpp (SDL) -/

/-- A call of the window system or of SDL. -/
def Ctx.sys (call : SysCall) (c : Ctx) : Ctx := Ctx.lib (LibCall.System call) c

/-- What `TopCanvas.cpp` gets from the X server: whether
`glXMakeContextCurrent` succeeds, and the values the two `glXQueryDrawable`
calls write to their `unsigned` result (`none` when a call writes nothing and
the variable keeps its initial 0). -/
structure GLXServer where
  glXMakeContextCurrent : Bool
  width : Option Nat
  height : Option Nat

/-- `TopCanvas::GetNativeSize()`. -/
def TopCanvas.GetNativeSize (X : GLXServer) (c : Ctx) : PixelSize × Ctx :=
  let c := Ctx.sys (SysCall.glXQueryDrawable GLXAttribute.GLX_WIDTH) c
  let w := u32 (X.width.getD 0)
  let c := checkError "BVBV" c
  let c := Ctx.sys (SysCall.glXQueryDrawable GLXAttribute.GLX_HEIGHT) c
  let h := u32 (X.height.getD 0)
  let c := checkError "BWBW" c
  if w ≤ 0 ∨ h ≤ 0 then (⟨0, 0⟩, c) else (⟨w, h⟩, c)

/-- `TopCanvas::TopCanvas(display, x_window)`: `Except.error` is the
`std::runtime_error` thrown, with its message and the context in which it is
thrown. -/
def TopCanvas.ctor (X : GLXServer) (c : Ctx) : Except (String × Ctx) Ctx :=
  let c := Ctx.sys SysCall.glXCreateWindow c
  let c := checkError "BVABVA" c
  let c := Ctx.sys SysCall.XSync c
  let c := Ctx.sys SysCall.glXMakeContextCurrent c
  if !X.glXMakeContextCurrent then
    Except.error ("Failed to attach GLX context to GLX window", c)
  else
    let c := checkError "BVBBVB" c
    let r := TopCanvas.GetNativeSize X c
    let effective_size := r.1
    if effective_size.width = 0 ∨ effective_size.height = 0 then
      Except.error ("Failed to query GLX drawable size", r.2)
    else Except.ok (Ctx.sys (SysCall.SetupViewport effective_size) r.2)

/-- `TopCanvas::~TopCanvas()`. -/
def TopCanvas.dtor (c : Ctx) : Ctx :=
  checkError "BVCBVC" (Ctx.sys SysCall.glXDestroyWindow c)

/-- `TopCanvas::Flip()`. -/
def TopCanvas.Flip (c : Ctx) : Ctx :=
  checkError "BXBX" (Ctx.sys SysCall.glXSwapBuffers c)

/-- What `TopWindow::Expose` and `TopWindow::Refresh` depend on: the
preprocessor symbols `HAVE_CPU_FREQUENCY`, `DRAW_MOUSE_CURSOR`, `USE_X11` and
`GL_EXT_discard_framebuffer` (with `ENABLE_OPENGL`), the answers of
`screen->IsReady()` and `IsVisible()`, whether the canvas `screen->Lock()`
returns is defined, whether the mouse cursor is still visible
(`steady_clock::now() < cursor_visible_until`) and whether
`GLExt::discard_framebuffer` is not null. -/
structure TopWindowEnv where
  HAVE_CPU_FREQUENCY : Bool
  DRAW_MOUSE_CURSOR : Bool
  USE_X11 : Bool
  GL_EXT_discard_framebuffer : Bool
  IsReady : Bool
  IsVisible : Bool
  LockDefined : Bool
  cursor_visible : Bool
  discard_framebuffer : Bool

/-- `TopWindow::Expose()`. The log lines of this file read
`<tag> SDL error 0x%X`; the event keeps the tag and the code. -/
def TopWindow.Expose (E : TopWindowEnv) (c : Ctx) : Ctx :=
  let c := checkError "8888" c
  let c := if E.HAVE_CPU_FREQUENCY then Ctx.sys SysCall.ScopeLockCPU_ctor c else c
  let c := Ctx.sys SysCall.Screen_Lock c
  let c :=
    if E.LockDefined then
      let c := Ctx.sys SysCall.OnPaint c
      let c := checkError "9999" c
      let c :=
        if E.DRAW_MOUSE_CURSOR then
          if E.cursor_visible then
            let c := checkError "10" c
            let c := Ctx.sys SysCall.DrawMouseCursor c
            checkError "11" c
          else c
        else c
      let c := checkError "12" c
      let c := Ctx.sys SysCall.Screen_Unlock c
      checkError "13" c
    else c
  let c := checkError "14" c
  let c := Ctx.sys SysCall.Screen_Flip c
  let c := checkError "15" c
  let c :=
    if E.GL_EXT_discard_framebuffer then
      if E.discard_framebuffer then
        let c := checkError "16" c
        let c := checkError "17" c
        let c := Ctx.sys SysCall.discard_framebuffer c
        checkError "16" c
      else c
    else c
  if E.HAVE_CPU_FREQUENCY then Ctx.sys SysCall.ScopeLockCPU_dtor c else c

/-- `TopWindow::Refresh()`, with the member `invalidated` as argument and
first component of the result. -/
def TopWindow.Refresh (E : TopWindowEnv) (invalidated : Bool) (c : Ctx) : Bool × Ctx :=
  let c := checkError "5555" c
  if !E.IsReady then (invalidated, c)
  else if E.USE_X11 && !E.IsVisible then (invalidated, c)
  else if !invalidated then (invalidated, c)
  else
    let c := checkError "6666" c
    let c := TopWindow.Expose E c
    (false, checkError "7777" c)

/-- `SDL_INIT_VIDEO`. -/
def SDL_INIT_VIDEO : Nat := 0x20

/-- `SDL_INIT_AUDIO`. -/
def SDL_INIT_AUDIO : Nat := 0x10

/-- `SDL_GL_CONTEXT_PROFILE_ES`. -/
def SDL_GL_CONTEXT_PROFILE_ES : Nat := 0x4

/-- What the constructor of `SDL::Display` depends on: `IsKobo()`, the result
of `SDL_Init`, the text of `SDL_GetError()`, the preprocessor symbol
`ENABLE_OPENGL` and `HasTouchScreen()`. -/
structure SDLEnv where
  IsKobo : Bool
  SDL_Init : Nat → Int
  SDL_GetError : String
  ENABLE_OPENGL : Bool
  HasTouchScreen : Bool

/-- `SDL::Display::Display()`: `Except.error` is the runtime error thrown, with
its message and the context in which it is thrown. The test after
`SDL_GL_SetAttribute(SDL_GL_CONTEXT_MAJOR_VERSION, 2)` reads
`if (err0 != GL_NO_ERROR) LogFormat("BB SDL error 0x%X", err2)`. -/
def SDL.Display.ctor (E : SDLEnv) (c : Ctx) : Except (String × Ctx) Ctx :=
  let flags := if !E.IsKobo then SDL_INIT_VIDEO ||| SDL_INIT_AUDIO else SDL_INIT_VIDEO
  let c := Ctx.sys (SysCall.SDL_Init flags) c
  if E.SDL_Init flags ≠ 0 then
    Except.error ("SDL_Init() has failed: " ++ E.SDL_GetError, c)
  else
    let c :=
      if E.ENABLE_OPENGL then
        let c := Ctx.sys (SysCall.SDL_GL_SetAttribute SDLAttribute.SDL_GL_CONTEXT_PROFILE_MASK
          SDL_GL_CONTEXT_PROFILE_ES) c
        let err0 := glGetError c
        let c := if err0.1 ≠ GL_NO_ERROR then LogFormat "AA" err0.1 err0.2 else err0.2
        let c := Ctx.sys (SysCall.SDL_GL_SetAttribute SDLAttribute.SDL_GL_CONTEXT_MAJOR_VERSION
          2) c
        let err2 := glGetError c
        let c := if err0.1 ≠ GL_NO_ERROR then LogFormat "BB" err2.1 err2.2 else err2.2
        let c := Ctx.sys (SysCall.SDL_GL_SetAttribute SDLAttribute.SDL_GL_CONTEXT_MINOR_VERSION
          0) c
        checkError "CC" c
      else c
    let c := Ctx.sys SysCall.SDL_SetHint c
    let c := if E.HasTouchScreen then Ctx.sys SysCall.SDL_ShowCursor c else c
    let c :=
      if E.ENABLE_OPENGL then
        let c := Ctx.sys (SysCall.SDL_GL_SetAttribute SDLAttribute.SDL_GL_DOUBLEBUFFER 1) c
        let c := checkError "DD" c
        let c := Ctx.sys (SysCall.SDL_GL_SetAttribute SDLAttribute.SDL_GL_STENCIL_SIZE 1) c
        checkError "EE" c
      else c
    Except.ok c

/-- The calls of the window system in a trace, in order. -/
def sysCalls (evs : List Ev) : List SysCall :=
  evs.filterMap (fun e => match e with
    | Ev.lib (LibCall.System call) => some call
    | _ => none)

/-- The log lines of a trace, in order: tag and code. -/
def logged (evs : List Ev) : List (String × Nat) :=
  evs.filterMap (fun e => match e with
    | Ev.log tag code => some (tag, code)
    | _ => none)

/-- The codes the `glGetError` calls of a trace returned, in order. -/
def errorsRead (evs : List Ev) : List Nat :=
  evs.filterMap (fun e => match e with
    | Ev.gl _ (GLCall.glGetError code) => some code
    | _ => none)

/-- The context in which a constructor returns or throws. -/
def finalCtx (r : Except (String × Ctx) Ctx) : Ctx :=
  match r with
  | Except.ok c => c
  | Except.error e => e.2

/-- An X server on which the context can be attached and the drawable is
640 x 480. -/
def exServer : GLXServer := ⟨true, some 640, some 480⟩

/-- A window without CPU lock, mouse cursor, X11 or frame buffer discard,
ready and visible, whose screen yields a canvas that is defined or not. -/
def exWindow (lockDefined : Bool) : TopWindowEnv :=
  ⟨false, false, false, false, true, true, lockDefined, false, false⟩

/-- An OpenGL build on a device that is no Kobo and has no touch screen, on
which `SDL_Init` succeeds. -/
def exSDL : SDLEnv := ⟨false, fun _ => 0, "", true, false⟩

/-! ## Clean capability state -/

/-- The capability state between shapes: stencil test and blending disabled,
colour writes enabled on all four channels. -/
def FragState.clean (f : FragState) : Prop :=
  f.caps Cap.GL_STENCIL_TEST = false ∧ f.caps Cap.GL_BLEND = false ∧ f.color_mask = ColorMask.all

/-! ## The fill blocks of the renderers -/

namespace AirspaceVisitorRenderer

/-- The part of `AirspaceVisitorRenderer::VisitCircle` before `// draw
outline`: the block that fills the circle or draws the ring. -/
def VisitCircle.interior (self : Renderer) (airspace : AbstractAirspace) (c : Ctx) : Ctx :=
  let as_type_or_class := self.as_type_or_class airspace
  let class_settings := self.settings.classes as_type_or_class
  let class_look := self.look.classes as_type_or_class
  let screen_center := self.map.GeoToScreen airspace.reference_location
  let screen_radius := u32 (self.map.GeoToScreenDistance airspace.radius)
  if !self.warning_manager.IsAcked airspace &&
      decide (class_settings.fill_mode ≠ ClassFillMode.NONE) then
    let c := GLEnable.ctor Cap.GL_STENCIL_TEST c
    let c := GLEnable.ctor Cap.GL_BLEND c
    let c := SetupInterior self airspace false c
    let c :=
      if self.warning_manager.HasWarning airspace ||
          self.warning_manager.IsInside airspace ||
          decide (u32 self.look.thick_pen.width ≥ umul 2 screen_radius) ||
          decide (class_settings.fill_mode = ClassFillMode.ALL) then
        Canvas.DrawCircle screen_center screen_radius c
      else
        let color := class_look.fill_color
        let pen_donut : Pen := ⟨self.look.thick_pen.width / 2, color.WithAlpha 90, PenStyle.SOLID⟩
        let c := Canvas.SelectHollowBrush c
        let c := Canvas.SelectPen pen_donut c
        Canvas.DrawCircle screen_center (usub screen_radius (self.look.thick_pen.width / 4)) c
    let c := GLEnable.dtor Cap.GL_BLEND c
    GLEnable.dtor Cap.GL_STENCIL_TEST c
  else c

/-- The part of `AirspaceVisitorRenderer::VisitPolygon` between
`PreparePolygon` and `// draw outline`: the block that fills the prepared
polygon. -/
def VisitPolygon.interior (self : Renderer) (airspace : AbstractAirspace)
    (raster_points : List PixelPoint) (c : Ctx) : Ctx :=
  let as_type_or_class := self.as_type_or_class airspace
  let class_settings := self.settings.classes as_type_or_class
  let fill_airspace := self.warning_manager.HasWarning airspace ||
    self.warning_manager.IsInside airspace ||
    decide (class_settings.fill_mode = ClassFillMode.ALL)
  if !self.warning_manager.IsAcked airspace &&
      decide (class_settings.fill_mode ≠ ClassFillMode.NONE) then
    let c := GLEnable.ctor Cap.GL_STENCIL_TEST c
    let c :=
      if !fill_airspace then
        let c := SetFillStencil self c
        let c := self.map.DrawPrepared raster_points c
        let c := Ctx.call (GLCall.glColorMask true true true true) c
        checkError "AIAI" c
      else c
    let c := SetupInterior self airspace (!fill_airspace) c
    let c := GLEnable.ctor Cap.GL_BLEND c
    let c := self.map.DrawPrepared raster_points c
    let c := GLEnable.dtor Cap.GL_BLEND c
    let c :=
      if !fill_airspace then
        let c := ClearFillStencil self c
        let c := self.map.DrawPrepared raster_points c
        let c := Ctx.call (GLCall.glColorMask true true true true) c
        checkError "AJAJ" c
      else c
    GLEnable.dtor Cap.GL_STENCIL_TEST c
  else c

end AirspaceVisitorRenderer

namespace AirspaceFillRenderer

/-- The part of `AirspaceFillRenderer::VisitCircle` before `// draw outline`. -/
def VisitCircle.interior (self : Renderer) (airspace : AbstractAirspace) (c : Ctx) : Ctx :=
  let screen_center := self.map.GeoToScreen airspace.reference_location
  let screen_radius := u32 (self.map.GeoToScreenDistance airspace.radius)
  if self.warning_manager.IsAcked airspace then c
  else
    let r := SetupInterior self airspace c
    if r.1 then
      let c := GLEnable.ctor Cap.GL_BLEND r.2
      let c := Canvas.DrawCircle screen_center screen_radius c
      GLEnable.dtor Cap.GL_BLEND c
    else r.2

/-- The part of `AirspaceFillRenderer::VisitPolygon` between `PreparePolygon`
and `// draw outline`. -/
def VisitPolygon.interior (self : Renderer) (airspace : AbstractAirspace)
    (raster_points : List PixelPoint) (c : Ctx) : Ctx :=
  if self.warning_manager.IsAcked airspace then c
  else
    let r := SetupInterior self airspace c
    if r.1 then
      let c := GLEnable.ctor Cap.GL_BLEND r.2
      let c := self.map.DrawPrepared raster_points c
      GLEnable.dtor Cap.GL_BLEND c
    else r.2

end AirspaceFillRenderer

/-- For each draw call of a trace run from the GL context `g`, in order,
whether the capability is enabled when the call is made. -/
def GLState.capAtDraws (cap : Cap) : GLState → List Ev → List Bool
  | _, [] => []
  | g, e :: rest =>
    (if (Ev.drawCall e).isSome then [g.frag.caps cap] else []) ++
      GLState.capAtDraws cap (g.step e) rest

/-- The image of the bound texture: its dimensions and, once pixels were
loaded, the size of the sub-rectangle from (0, 0) that holds them and the
pixels. -/
structure TexImage where
  width : Int
  height : Int
  loaded : Option (Int × Int × List Byte)
deriving DecidableEq

/-- The effect of an event on the image of the bound texture: `glTexImage2D`
replaces the image, with undefined contents for a null pointer;
`glTexSubImage2D` at (0, 0) loads pixels into an existing image that is large
enough and has no effect otherwise. -/
def TexImage.step (img : Option TexImage) : Ev → Option TexImage
  | Ev.gl _ (GLCall.glTexImage2D _ w h _ _ (some pixels)) => some ⟨w, h, some (w, h, pixels)⟩
  | Ev.gl _ (GLCall.glTexImage2D _ w h _ _ none) => some ⟨w, h, none⟩
  | Ev.gl _ (GLCall.glTexSubImage2D x y w h _ _ pixels) =>
      match img with
      | some i =>
        if x = 0 ∧ y = 0 ∧ w ≤ i.width ∧ h ≤ i.height then
          some { i with loaded := some (w, h, pixels) }
        else some i
      | none => none
  | _ => img

/-- The image of the bound texture after a trace that starts without one. -/
def boundImage (evs : List Ev) : Option TexImage := evs.foldl TexImage.step none

/-- The texture image calls of a trace, in order. -/
def texCalls (evs : List Ev) : List GLCall :=
  evs.filterMap (fun e => match e with
    | Ev.gl _ (GLCall.glTexImage2D f w h fmt t p) => some (GLCall.glTexImage2D f w h fmt t p)
    | Ev.gl _ (GLCall.glTexSubImage2D x y w h fmt t p) =>
        some (GLCall.glTexSubImage2D x y w h fmt t p)
    | _ => none)

/-- A rasteriser under which only the triangles of a fill produce a
fragment, at the pixel (0, 0): the strips and lines of borders and outlines do
not reach that pixel. -/
def exFillRaster : RasterInput → PixelPoint → Bool :=
  fun i p => decide (p = ⟨0, 0⟩) && decide (i.mode = Prim.GL_TRIANGLES)

/-- A context like `exCtx` over the rasteriser `exFillRaster`. -/
def exFillCtx (errs : List Nat) : Ctx :=
  { exCtx errs with gl := GLState.initial exFillRaster }

/-- A renderer like `exRenderer` with black outlines switched on and border
width 0 in every class. -/
def exBlackRenderer : Renderer :=
  ⟨exMap, exLook, exWarnings, ⟨true, FillMode.ALL, fun _ => ⟨true, 0, ClassFillMode.PADDING⟩⟩⟩

/-- A renderer like `exRenderer` with a thick pen of width 11, without
outlines. -/
def exThickRenderer : Renderer :=
  ⟨exMap, ⟨⟨11, COLOR_BLACK, PenStyle.SOLID⟩, exLook.classes⟩, exWarnings,
    exSettings FillMode.PADDING 0⟩

/-- A circle of radius 6 around (0, 0). -/
def exSmallCircle : AbstractAirspace := ⟨Shape.CIRCLE, 1, 1, (0, 0), 6, []⟩

/-! ## Frame lemmas for the primitives -/

@[simp] theorem Ctx.emit_gl (e : Ev) (c : Ctx) : (c.emit e).gl = c.gl.step e := rfl

@[simp] theorem Ctx.emit_pen (e : Ev) (c : Ctx) : (c.emit e).pen = c.pen := rfl

@[simp] theorem Ctx.emit_brush (e : Ev) (c : Ctx) : (c.emit e).brush = c.brush := rfl

@[simp] theorem Ctx.emit_errs (e : Ev) (c : Ctx) : (c.emit e).errs = c.errs := rfl

@[simp] theorem Ctx.emit_trace (e : Ev) (c : Ctx) : (c.emit e).trace = c.trace ++ [e] := rfl

@[simp] theorem Ctx.call_gl (k : GLCall) (c : Ctx) : (Ctx.call k c).gl = c.gl.apply k := rfl

@[simp] theorem Ctx.call_pen (k : GLCall) (c : Ctx) : (Ctx.call k c).pen = c.pen := rfl

@[simp] theorem Ctx.call_brush (k : GLCall) (c : Ctx) : (Ctx.call k c).brush = c.brush := rfl

@[simp] theorem Ctx.call_errs (k : GLCall) (c : Ctx) : (Ctx.call k c).errs = c.errs := rfl

@[simp] theorem Ctx.emit_nextError (e : Ev) (c : Ctx) : (c.emit e).nextError = c.nextError := rfl

@[simp] theorem Ctx.call_nextError (k : GLCall) (c : Ctx) :
    (Ctx.call k c).nextError = c.nextError := rfl

@[simp] theorem Ctx.lib_nextError (k : LibCall) (c : Ctx) :
    (Ctx.lib k c).nextError = c.nextError := rfl

@[simp] theorem glGetError_fst (c : Ctx) : (glGetError c).1 = c.nextError := rfl

@[simp] theorem Ctx.call_trace (k : GLCall) (c : Ctx) :
    (Ctx.call k c).trace = c.trace ++ [Ev.gl Site.direct k] := rfl

@[simp] theorem Ctx.lib_gl (k : LibCall) (c : Ctx) : (Ctx.lib k c).gl = c.gl.step (Ev.lib k) := rfl

@[simp] theorem Ctx.lib_pen (k : LibCall) (c : Ctx) : (Ctx.lib k c).pen = c.pen := rfl

@[simp] theorem Ctx.lib_brush (k : LibCall) (c : Ctx) : (Ctx.lib k c).brush = c.brush := rfl

@[simp] theorem Ctx.lib_errs (k : LibCall) (c : Ctx) : (Ctx.lib k c).errs = c.errs := rfl

@[simp] theorem Ctx.lib_trace (k : LibCall) (c : Ctx) :
    (Ctx.lib k c).trace = c.trace ++ [Ev.lib k] := rfl

@[simp] theorem GLState.apply_glGetError (g : GLState) (r : Nat) :
    g.apply (GLCall.glGetError r) = g := rfl

@[simp] theorem glGetError_gl (c : Ctx) : (glGetError c).2.gl = c.gl := rfl

@[simp] theorem glGetError_pen (c : Ctx) : (glGetError c).2.pen = c.pen := rfl

@[simp] theorem glGetError_brush (c : Ctx) : (glGetError c).2.brush = c.brush := rfl

@[simp] theorem glGetError_errs (c : Ctx) : (glGetError c).2.errs = c.errs.tail := rfl

@[simp] theorem LogFormat_gl (tag : String) (code : Nat) (c : Ctx) :
    (LogFormat tag code c).gl = c.gl := rfl

@[simp] theorem LogFormat_pen (tag : String) (code : Nat) (c : Ctx) :
    (LogFormat tag code c).pen = c.pen := rfl

@[simp] theorem LogFormat_brush (tag : String) (code : Nat) (c : Ctx) :
    (LogFormat tag code c).brush = c.brush := rfl

@[simp] theorem checkError_gl (tag : String) (c : Ctx) : (checkError tag c).gl = c.gl := by
  unfold checkError; dsimp only; split <;> rfl

@[simp] theorem checkError_pen (tag : String) (c : Ctx) : (checkError tag c).pen = c.pen := by
  unfold checkError; dsimp only; split <;> rfl

@[simp] theorem checkError_brush (tag : String) (c : Ctx) :
    (checkError tag c).brush = c.brush := by
  unfold checkError; dsimp only; split <;> rfl

@[simp] theorem checkError_errs (tag : String) (c : Ctx) :
    (checkError tag c).errs = c.errs.tail := by
  unfold checkError; dsimp only; split <;> rfl

/-! ## Stencil arithmetic -/

theorem maskedWrite_self (m s : Nat) : maskedWrite m s s = s := by
  simp [maskedWrite]

theorem maskedWrite_testBit (m s v i : Nat) :
    (maskedWrite m s v).testBit i = if m.testBit i then v.testBit i else s.testBit i := by
  simp only [maskedWrite, Nat.testBit_xor, Nat.testBit_and]
  cases m.testBit i <;> cases s.testBit i <;> cases v.testBit i <;> rfl

theorem FragState.stencilAfter_of_inert (f : FragState) (h : f.inert) (s : Nat) :
    f.stencilAfter s = s := by
  unfold FragState.stencilAfter
  rcases h with h | ⟨h1, h2⟩
  · simp [h]
  · split
    · simp [h1, h2, stencilOpValue, maskedWrite_self]
    · rfl

theorem FragState.stencilAfter_testBit_of_mask (f : FragState) (s i : Nat)
    (h : f.stencil_writemask.testBit i = false) :
    (f.stencilAfter s).testBit i = s.testBit i := by
  unfold FragState.stencilAfter
  split
  · simp [maskedWrite_testBit, h]
  · rfl

@[simp] theorem GLState.draw_frag (g : GLState) (F : PixelPoint → Bool) :
    (g.draw F).frag = g.frag := rfl

@[simp] theorem GLState.draw_raster (g : GLState) (F : PixelPoint → Bool) :
    (g.draw F).raster = g.raster := rfl

@[simp] theorem GLState.draw_vtx (g : GLState) (F : PixelPoint → Bool) :
    (g.draw F).vtx = g.vtx := rfl

theorem GLState.draw_stencil_of_inert (g : GLState) (h : g.frag.inert) (F : PixelPoint → Bool) :
    (g.draw F).stencil = g.stencil := by
  funext p
  simp [GLState.draw, FragState.stencilAfter_of_inert _ h]

theorem GLState.draw_testBit_of_mask (g : GLState) (F : PixelPoint → Bool) (p : PixelPoint)
    (i : Nat) (h : g.frag.stencil_writemask.testBit i = false) :
    ((g.draw F).stencil p).testBit i = (g.stencil p).testBit i := by
  simp only [GLState.draw]
  split
  · exact FragState.stencilAfter_testBit_of_mask _ _ _ h
  · rfl

/-! ## Drawing operations and the GL context -/

theorem GLDrawRectangle_frag (r : PixelRect) (c : Ctx) :
    (GLDrawRectangle r c).gl.frag = c.gl.frag := by
  simp [GLDrawRectangle, ScopeVertexPointer.ctor, ScopeVertexPointer.Update,
    ScopeVertexPointer.dtor, GLState.apply, FragState.apply]

theorem Canvas.DrawCircle_frag (center : PixelPoint) (radius : Nat) (c : Ctx) :
    (Canvas.DrawCircle center radius c).gl.frag = c.gl.frag := by
  unfold Canvas.DrawCircle
  split <;>
  simp [GLDrawRectangle, GLProgram.Use, ScopeVertexPointer.ctor, ScopeVertexPointer.Update,
    ScopeVertexPointer.dtor, GLState.apply, GLState.step, FragState.apply]

theorem Canvas.DrawCircle_pen (center : PixelPoint) (radius : Nat) (c : Ctx) :
    (Canvas.DrawCircle center radius c).pen = c.pen := by
  unfold Canvas.DrawCircle
  split <;>
  simp [GLDrawRectangle, GLProgram.Use, ScopeVertexPointer.ctor, ScopeVertexPointer.Update,
    ScopeVertexPointer.dtor]

theorem Canvas.DrawCircle_stencil (center : PixelPoint) (radius : Nat) (c : Ctx)
    (h : c.gl.frag.inert) :
    (Canvas.DrawCircle center radius c).gl.stencil = c.gl.stencil := by
  unfold Canvas.DrawCircle
  split <;>
  simp [GLDrawRectangle, GLProgram.Use, ScopeVertexPointer.ctor, ScopeVertexPointer.Update,
    ScopeVertexPointer.dtor, GLState.apply, GLState.step, FragState.apply] <;>
  rw [GLState.draw_stencil_of_inert] <;> simpa using h

theorem Canvas.DrawCircle_testBit (center : PixelPoint) (radius : Nat) (c : Ctx)
    (p : PixelPoint) (i : Nat) (h : c.gl.frag.stencil_writemask.testBit i = false) :
    ((Canvas.DrawCircle center radius c).gl.stencil p).testBit i = (c.gl.stencil p).testBit i := by
  unfold Canvas.DrawCircle
  split <;>
  simp [GLDrawRectangle, GLProgram.Use, ScopeVertexPointer.ctor, ScopeVertexPointer.Update,
    ScopeVertexPointer.dtor, GLState.apply, GLState.step, FragState.apply] <;>
  rw [GLState.draw_testBit_of_mask] <;> simpa using h

theorem Canvas.DrawPolygon_frag (G : Geometry) (points : List PixelPoint) (n : Nat) (c : Ctx) :
    (Canvas.DrawPolygon G points n c).gl.frag = c.gl.frag := by
  unfold Canvas.DrawPolygon
  simp only [GLProgram.Use, ScopeVertexPointer.ctor, ScopeVertexPointer.Update,
    ScopeVertexPointer.dtor]
  repeat' split
  all_goals simp [GLState.apply, GLState.step, FragState.apply]

theorem Canvas.DrawPolygon_raster (G : Geometry) (points : List PixelPoint) (n : Nat) (c : Ctx) :
    (Canvas.DrawPolygon G points n c).gl.raster = c.gl.raster := by
  unfold Canvas.DrawPolygon
  simp only [GLProgram.Use, ScopeVertexPointer.ctor, ScopeVertexPointer.Update,
    ScopeVertexPointer.dtor]
  repeat' split
  all_goals simp [GLState.apply, GLState.step, FragState.apply]

theorem Canvas.DrawPolygon_uniform1 (G : Geometry) (points : List PixelPoint) (n : Nat)
    (c : Ctx) : (Canvas.DrawPolygon G points n c).gl.vtx.uniform1 = c.gl.vtx.uniform1 := by
  unfold Canvas.DrawPolygon
  simp only [GLProgram.Use, ScopeVertexPointer.ctor, ScopeVertexPointer.Update,
    ScopeVertexPointer.dtor]
  repeat' split
  all_goals simp [GLState.apply, GLState.step, VertexState.apply]

theorem Canvas.DrawPolygon_uniform2 (G : Geometry) (points : List PixelPoint) (n : Nat)
    (c : Ctx) : (Canvas.DrawPolygon G points n c).gl.vtx.uniform2 = c.gl.vtx.uniform2 := by
  unfold Canvas.DrawPolygon
  simp only [GLProgram.Use, ScopeVertexPointer.ctor, ScopeVertexPointer.Update,
    ScopeVertexPointer.dtor]
  repeat' split
  all_goals simp [GLState.apply, GLState.step, VertexState.apply]

theorem Canvas.DrawPolygon_pen (G : Geometry) (points : List PixelPoint) (n : Nat) (c : Ctx) :
    (Canvas.DrawPolygon G points n c).pen = c.pen := by
  unfold Canvas.DrawPolygon
  simp only [GLProgram.Use, ScopeVertexPointer.ctor, ScopeVertexPointer.Update,
    ScopeVertexPointer.dtor]
  repeat' split
  all_goals simp

theorem Canvas.DrawPolygon_brush (G : Geometry) (points : List PixelPoint) (n : Nat) (c : Ctx) :
    (Canvas.DrawPolygon G points n c).brush = c.brush := by
  unfold Canvas.DrawPolygon
  simp only [GLProgram.Use, ScopeVertexPointer.ctor, ScopeVertexPointer.Update,
    ScopeVertexPointer.dtor]
  repeat' split
  all_goals simp

theorem Canvas.DrawPolygon_stencil (G : Geometry) (points : List PixelPoint) (n : Nat) (c : Ctx)
    (h : c.gl.frag.inert) :
    (Canvas.DrawPolygon G points n c).gl.stencil = c.gl.stencil := by
  unfold Canvas.DrawPolygon
  simp only [GLProgram.Use, ScopeVertexPointer.ctor, ScopeVertexPointer.Update,
    ScopeVertexPointer.dtor]
  repeat' split
  all_goals simp [GLState.apply, GLState.step, FragState.apply]
  all_goals (repeat rw [GLState.draw_stencil_of_inert])
  all_goals simpa using h

theorem Canvas.DrawPolygon_testBit (G : Geometry) (points : List PixelPoint) (n : Nat) (c : Ctx)
    (p : PixelPoint) (i : Nat) (h : c.gl.frag.stencil_writemask.testBit i = false) :
    ((Canvas.DrawPolygon G points n c).gl.stencil p).testBit i = (c.gl.stencil p).testBit i := by
  unfold Canvas.DrawPolygon
  simp only [GLProgram.Use, ScopeVertexPointer.ctor, ScopeVertexPointer.Update,
    ScopeVertexPointer.dtor]
  repeat' split
  all_goals simp [GLState.apply, GLState.step, FragState.apply]
  all_goals (repeat rw [GLState.draw_testBit_of_mask])
  all_goals simpa using h

theorem Canvas.DrawPolygon_hollow (G : Geometry) (points : List PixelPoint) (n : Nat) (c : Ctx)
    (h : c.brush.hollow = true) :
    (Canvas.DrawPolygon G points n c).gl.stencil = fun p =>
      if Canvas.hollowPolygonFrags G points n c.pen c.gl p then
        c.gl.frag.stencilAfter (c.gl.stencil p)
      else c.gl.stencil p := by
  unfold Canvas.DrawPolygon Canvas.hollowPolygonFrags
  simp only [GLProgram.Use, ScopeVertexPointer.ctor, ScopeVertexPointer.Update,
    ScopeVertexPointer.dtor, Brush.IsHollow, Canvas.IsPenOverBrush]
  by_cases hp : c.pen.IsDefined = true
  · by_cases hw : c.pen.width ≤ 2
    · simp [h, hp, hw, GLState.apply, GLState.step, VertexState.apply, FragState.apply,
        GLState.draw, GLState.frags]
    · by_cases hv : (G.LineToTriangles points n c.pen.width true false).length > 0
      · simp [h, hp, hw, hv, GLState.apply, GLState.step, VertexState.apply, FragState.apply,
          GLState.draw, GLState.frags]
      · simp [h, hp, hw, hv, GLState.apply, GLState.step, VertexState.apply, FragState.apply,
          GLState.draw, GLState.frags]
  · simp [h, hp]

/-! ## The set-up functions of the precise renderer and the GL context -/

namespace AirspaceVisitorRenderer

theorem SetFillStencil_gl (self : Renderer) (c : Ctx) :
    (SetFillStencil self c).gl = { c.gl with frag := { c.gl.frag with
      color_mask := ColorMask.none
      stencil_func := StencilFunc.GL_ALWAYS
      stencil_ref := 3
      stencil_value_mask := 3
      stencil_writemask := 1
      stencil_fail := StencilOp.GL_KEEP
      stencil_zfail := StencilOp.GL_KEEP
      stencil_zpass := StencilOp.GL_REPLACE } } := by
  simp [SetFillStencil, Canvas.SelectHollowBrush, Canvas.SelectPen, GLState.apply, GLState.step,
    FragState.apply, VertexState.apply, ColorMask.none]

theorem SetFillStencil_pen (self : Renderer) (c : Ctx) :
    (SetFillStencil self c).pen = self.look.thick_pen := by
  simp [SetFillStencil, Canvas.SelectHollowBrush, Canvas.SelectPen]

theorem SetFillStencil_brush (self : Renderer) (c : Ctx) :
    (SetFillStencil self c).brush.hollow = true := by
  simp [SetFillStencil, Canvas.SelectHollowBrush, Canvas.SelectPen]

theorem ClearFillStencil_gl (self : Renderer) (c : Ctx) :
    (ClearFillStencil self c).gl = { c.gl with frag := { c.gl.frag with
      color_mask := ColorMask.none
      stencil_func := StencilFunc.GL_ALWAYS
      stencil_ref := 3
      stencil_value_mask := 3
      stencil_writemask := 1
      stencil_fail := StencilOp.GL_KEEP
      stencil_zfail := StencilOp.GL_KEEP
      stencil_zpass := StencilOp.GL_ZERO } } := by
  simp [ClearFillStencil, Canvas.SelectHollowBrush, Canvas.SelectPen, GLState.apply, GLState.step,
    FragState.apply, VertexState.apply, ColorMask.none]

theorem ClearFillStencil_pen (self : Renderer) (c : Ctx) :
    (ClearFillStencil self c).pen = self.look.thick_pen := by
  simp [ClearFillStencil, Canvas.SelectHollowBrush, Canvas.SelectPen]

theorem ClearFillStencil_brush (self : Renderer) (c : Ctx) :
    (ClearFillStencil self c).brush.hollow = true := by
  simp [ClearFillStencil, Canvas.SelectHollowBrush, Canvas.SelectPen]

/-- The stencil function `SetupInterior` leaves in force, as a function of
its argument, the code the first `glGetError` returns and the function in
force before. -/
theorem SetupInterior_gl (self : Renderer) (airspace : AbstractAirspace) (check : Bool)
    (c : Ctx) :
    (SetupInterior self airspace check c).gl = { c.gl with frag :=
      if c.nextError ≠ GL_NO_ERROR then
        if check then { c.gl.frag with
          stencil_func := StencilFunc.GL_EQUAL
          stencil_ref := 1
          stencil_value_mask := 3
          stencil_fail := StencilOp.GL_KEEP
          stencil_zfail := StencilOp.GL_KEEP
          stencil_zpass := StencilOp.GL_KEEP }
        else { c.gl.frag with
          stencil_fail := StencilOp.GL_KEEP
          stencil_zfail := StencilOp.GL_KEEP
          stencil_zpass := StencilOp.GL_KEEP }
      else { c.gl.frag with
        stencil_func := StencilFunc.GL_EQUAL
        stencil_ref := 0
        stencil_value_mask := 2
        stencil_fail := StencilOp.GL_KEEP
        stencil_zfail := StencilOp.GL_KEEP
        stencil_zpass := StencilOp.GL_KEEP } } := by
  unfold SetupInterior
  cases check <;> by_cases h : c.nextError = GL_NO_ERROR <;>
    simp [h, glGetError, Canvas.SelectBrush, Canvas.SelectNullPen, GLState.apply, GLState.step,
      FragState.apply, VertexState.apply]

theorem SetupOutline_gl (self : Renderer) (airspace : AbstractAirspace) (c : Ctx) :
    (SetupOutline self airspace c).2.gl =
      if (SetupOutline self airspace c).1 then { c.gl with frag := { c.gl.frag with
        stencil_func := StencilFunc.GL_ALWAYS
        stencil_ref := 3
        stencil_value_mask := 3
        stencil_writemask := 2
        stencil_fail := StencilOp.GL_KEEP
        stencil_zfail := StencilOp.GL_KEEP
        stencil_zpass := StencilOp.GL_REPLACE } }
      else c.gl := by
  unfold SetupOutline
  by_cases hb : self.settings.black_outline = true
  · simp [hb, Canvas.SelectBlackPen, Canvas.SelectHollowBrush, GLState.apply, GLState.step,
      FragState.apply, VertexState.apply]
  · by_cases hw : (self.settings.classes (self.as_type_or_class airspace)).border_width = 0
    · simp [hb, hw]
    · simp [hb, hw, Canvas.SelectPen, Canvas.SelectHollowBrush, GLState.apply, GLState.step,
        FragState.apply, VertexState.apply]

end AirspaceVisitorRenderer

@[simp] theorem Canvas.SelectPen_gl (p : Pen) (c : Ctx) : (Canvas.SelectPen p c).gl = c.gl := rfl

@[simp] theorem Canvas.SelectBrush_gl (b : Brush) (c : Ctx) :
    (Canvas.SelectBrush b c).gl = c.gl := rfl

@[simp] theorem Canvas.SelectHollowBrush_gl (c : Ctx) : (Canvas.SelectHollowBrush c).gl = c.gl :=
  rfl

@[simp] theorem Canvas.SelectNullPen_gl (c : Ctx) : (Canvas.SelectNullPen c).gl = c.gl := rfl

@[simp] theorem Canvas.SelectBlackPen_gl (c : Ctx) : (Canvas.SelectBlackPen c).gl = c.gl := rfl

theorem GLEnable.ctor_gl (cap : Cap) (c : Ctx) :
    (GLEnable.ctor cap c).gl = { c.gl with frag := { c.gl.frag with
      caps := fun k => if k = cap then true else c.gl.frag.caps k } } := by
  simp [GLEnable.ctor, GLState.step, GLState.apply, FragState.apply, VertexState.apply]

theorem GLEnable.dtor_gl (cap : Cap) (c : Ctx) :
    (GLEnable.dtor cap c).gl = { c.gl with frag := { c.gl.frag with
      caps := fun k => if k = cap then false else c.gl.frag.caps k } } := by
  simp [GLEnable.dtor, GLState.step, GLState.apply, FragState.apply, VertexState.apply]

@[simp] theorem GLEnable.ctor_pen (cap : Cap) (c : Ctx) : (GLEnable.ctor cap c).pen = c.pen := by
  simp [GLEnable.ctor]

@[simp] theorem GLEnable.ctor_brush (cap : Cap) (c : Ctx) :
    (GLEnable.ctor cap c).brush = c.brush := by
  simp [GLEnable.ctor]

@[simp] theorem GLEnable.dtor_pen (cap : Cap) (c : Ctx) : (GLEnable.dtor cap c).pen = c.pen := by
  simp [GLEnable.dtor]

@[simp] theorem GLEnable.dtor_brush (cap : Cap) (c : Ctx) :
    (GLEnable.dtor cap c).brush = c.brush := by
  simp [GLEnable.dtor]

namespace AirspaceVisitorRenderer

theorem SetupInterior_inert (self : Renderer) (airspace : AbstractAirspace) (check : Bool)
    (c : Ctx) : (SetupInterior self airspace check c).gl.frag.inert := by
  right
  rw [SetupInterior_gl]
  dsimp only
  split
  · split <;> exact ⟨rfl, rfl⟩
  · exact ⟨rfl, rfl⟩

@[simp] theorem SetupInterior_stencil (self : Renderer) (airspace : AbstractAirspace)
    (check : Bool) (c : Ctx) : (SetupInterior self airspace check c).gl.stencil = c.gl.stencil := by
  rw [SetupInterior_gl]

@[simp] theorem SetupInterior_caps (self : Renderer) (airspace : AbstractAirspace)
    (check : Bool) (c : Ctx) :
    (SetupInterior self airspace check c).gl.frag.caps = c.gl.frag.caps := by
  rw [SetupInterior_gl]
  dsimp only
  split
  · split <;> rfl
  · rfl

/-- The outline step of `VisitCircle` with the stencil test disabled. -/
theorem outline_circle_stencil (self : Renderer) (airspace : AbstractAirspace)
    (center : PixelPoint) (radius : Nat) (c : Ctx)
    (h : c.gl.frag.caps Cap.GL_STENCIL_TEST = false) :
    (if (SetupOutline self airspace c).1 then
        Canvas.DrawCircle center radius (SetupOutline self airspace c).2
      else (SetupOutline self airspace c).2).gl.stencil = c.gl.stencil ∧
    (if (SetupOutline self airspace c).1 then
        Canvas.DrawCircle center radius (SetupOutline self airspace c).2
      else (SetupOutline self airspace c).2).gl.frag.caps Cap.GL_STENCIL_TEST = false := by
  have hg := SetupOutline_gl self airspace c
  generalize SetupOutline self airspace c = r at hg
  split
  · rename_i h1
    rw [h1] at hg
    simp at hg
    rw [Canvas.DrawCircle_stencil, Canvas.DrawCircle_frag]
    · simp [hg, h]
    · left; simp [hg, h]
  · rename_i h1
    simp [h1] at hg
    simp [hg, h]

theorem VisitCircle_stencil (self : Renderer) (airspace : AbstractAirspace) (c : Ctx)
    (h : c.gl.frag.caps Cap.GL_STENCIL_TEST = false) :
    (VisitCircle self airspace c).gl.stencil = c.gl.stencil ∧
      (VisitCircle self airspace c).gl.frag.caps Cap.GL_STENCIL_TEST = false := by
  unfold VisitCircle
  dsimp only
  split
  · have key : ∀ x : Ctx, x.gl.frag.inert → x.gl.stencil = c.gl.stencil →
        (GLEnable.dtor Cap.GL_STENCIL_TEST (GLEnable.dtor Cap.GL_BLEND x)).gl.stencil
          = c.gl.stencil ∧
        (GLEnable.dtor Cap.GL_STENCIL_TEST (GLEnable.dtor Cap.GL_BLEND x)).gl.frag.caps
          Cap.GL_STENCIL_TEST = false := by
      intro x _ hx
      simp [GLEnable.dtor_gl, hx]
    have hin := SetupInterior_inert self airspace false
      (GLEnable.ctor Cap.GL_BLEND (GLEnable.ctor Cap.GL_STENCIL_TEST c))
    have hst : (SetupInterior self airspace false
      (GLEnable.ctor Cap.GL_BLEND (GLEnable.ctor Cap.GL_STENCIL_TEST c))).gl.stencil
        = c.gl.stencil := by simp [GLEnable.ctor_gl]
    generalize SetupInterior self airspace false
      (GLEnable.ctor Cap.GL_BLEND (GLEnable.ctor Cap.GL_STENCIL_TEST c)) = x at hin hst
    have hdraw : ∀ (ctr : PixelPoint) (rad : Nat) (y : Ctx), y.gl.frag.inert →
        y.gl.stencil = c.gl.stencil →
        (Canvas.DrawCircle ctr rad y).gl.frag.inert ∧
          (Canvas.DrawCircle ctr rad y).gl.stencil = c.gl.stencil := by
      intro ctr rad y hy hys
      rw [Canvas.DrawCircle_frag, Canvas.DrawCircle_stencil _ _ _ hy]
      exact ⟨hy, hys⟩
    have hblock := fun y hy hys => key y hy hys
    split
    · obtain ⟨h1, h2⟩ := hdraw _ _ x hin hst
      obtain ⟨h3, h4⟩ := key _ h1 h2
      exact outline_circle_stencil self airspace _ _ _ h4 |>.imp (fun e => e.trans h3) id
    · have hy : (Canvas.SelectPen
          ⟨self.look.thick_pen.width / 2,
            (self.look.classes (self.as_type_or_class airspace)).fill_color.WithAlpha 90,
            PenStyle.SOLID⟩ (Canvas.SelectHollowBrush x)).gl = x.gl := rfl
      obtain ⟨h1, h2⟩ := hdraw (self.map.GeoToScreen airspace.reference_location)
        (usub (u32 (self.map.GeoToScreenDistance airspace.radius))
          (self.look.thick_pen.width / 4)) _ (by rw [hy]; exact hin) (by rw [hy]; exact hst)
      obtain ⟨h3, h4⟩ := key _ h1 h2
      exact outline_circle_stencil self airspace _ _ _ h4 |>.imp (fun e => e.trans h3) id
  · exact outline_circle_stencil self airspace _ _ c h

/-! ### The passes of `VisitPolygon` -/

theorem stencilAfter_replace (f : FragState) (s : Nat)
    (hc : f.caps Cap.GL_STENCIL_TEST = true) (hf : f.stencil_func = StencilFunc.GL_ALWAYS)
    (hz : f.stencil_zpass = StencilOp.GL_REPLACE) (hr : f.stencil_ref = 3)
    (hm : f.stencil_writemask = 1) : f.stencilAfter s = maskedWrite 1 s 3 := by
  simp [FragState.stencilAfter, FragState.stencilPasses, hc, hf, hz, hr, hm, stencilOpValue,
    clampRef]

theorem stencilAfter_zero (f : FragState) (s : Nat)
    (hc : f.caps Cap.GL_STENCIL_TEST = true) (hf : f.stencil_func = StencilFunc.GL_ALWAYS)
    (hz : f.stencil_zpass = StencilOp.GL_ZERO)
    (hm : f.stencil_writemask = 1) : f.stencilAfter s = maskedWrite 1 s 0 := by
  simp [FragState.stencilAfter, FragState.stencilPasses, hc, hf, hz, hm, stencilOpValue]

theorem hollowPolygonFrags_congr (G : Geometry) (points : List PixelPoint) (n : Nat) (pen : Pen)
    (g g' : GLState) (h : g.SameScene g') :
    Canvas.hollowPolygonFrags G points n pen g' = Canvas.hollowPolygonFrags G points n pen g := by
  obtain ⟨h1, h2, h3⟩ := h
  simp [Canvas.hollowPolygonFrags, h1, h2, h3]

theorem DrawPrepared_scene (m : MapCanvas) (pts : List PixelPoint) (c : Ctx) :
    c.gl.SameScene (m.DrawPrepared pts c).gl :=
  ⟨Canvas.DrawPolygon_raster _ _ _ _, Canvas.DrawPolygon_uniform1 _ _ _ _,
    Canvas.DrawPolygon_uniform2 _ _ _ _⟩

/-- The reservation pass: `SetFillStencil(); DrawPrepared(); glColorMask(...)`. -/
theorem setPass (self : Renderer) (pts : List PixelPoint) (c : Ctx)
    (hc : c.gl.frag.caps Cap.GL_STENCIL_TEST = true) :
    (checkError "AIAI" (Ctx.call (GLCall.glColorMask true true true true)
      (self.map.DrawPrepared pts (SetFillStencil self c)))).gl.stencil =
      (fun p => if Canvas.hollowPolygonFrags self.map.geometry pts pts.length
          self.look.thick_pen c.gl p then maskedWrite 1 (c.gl.stencil p) 3 else c.gl.stencil p) ∧
    c.gl.SameScene (checkError "AIAI" (Ctx.call (GLCall.glColorMask true true true true)
      (self.map.DrawPrepared pts (SetFillStencil self c)))).gl ∧
    (checkError "AIAI" (Ctx.call (GLCall.glColorMask true true true true)
      (self.map.DrawPrepared pts (SetFillStencil self c)))).gl.frag.caps = c.gl.frag.caps := by
  have hs := Canvas.DrawPolygon_hollow self.map.geometry pts pts.length (SetFillStencil self c)
    (SetFillStencil_brush self c)
  have hscene := DrawPrepared_scene self.map pts (SetFillStencil self c)
  have hfrag := Canvas.DrawPolygon_frag self.map.geometry pts pts.length (SetFillStencil self c)
  rw [SetFillStencil_pen] at hs
  have e : Canvas.hollowPolygonFrags self.map.geometry pts pts.length self.look.thick_pen
      (SetFillStencil self c).gl = Canvas.hollowPolygonFrags self.map.geometry pts pts.length
      self.look.thick_pen c.gl := by
    apply hollowPolygonFrags_congr
    rw [SetFillStencil_gl]
    exact ⟨rfl, rfl, rfl⟩
  rw [e] at hs
  unfold MapCanvas.DrawPrepared at *
  refine ⟨?_, ?_, ?_⟩
  · simp only [checkError_gl, Ctx.call_gl, GLState.apply]
    rw [hs]
    funext p
    split
    · rw [stencilAfter_replace] <;> simp [SetFillStencil_gl, hc]
    · simp [SetFillStencil_gl]
  · obtain ⟨h1, h2, h3⟩ := hscene
    simp only [checkError_gl, Ctx.call_gl, GLState.apply, GLState.SameScene, VertexState.apply]
    rw [h1, h2, h3, SetFillStencil_gl]
    exact ⟨rfl, rfl, rfl⟩
  · simp only [checkError_gl, Ctx.call_gl, GLState.apply, FragState.apply]
    rw [hfrag, SetFillStencil_gl]

/-- The clearing pass: `ClearFillStencil(); DrawPrepared(); glColorMask(...)`. -/
theorem clearPass (self : Renderer) (pts : List PixelPoint) (c : Ctx)
    (hc : c.gl.frag.caps Cap.GL_STENCIL_TEST = true) :
    (checkError "AJAJ" (Ctx.call (GLCall.glColorMask true true true true)
      (self.map.DrawPrepared pts (ClearFillStencil self c)))).gl.stencil =
      (fun p => if Canvas.hollowPolygonFrags self.map.geometry pts pts.length
          self.look.thick_pen c.gl p then maskedWrite 1 (c.gl.stencil p) 0 else c.gl.stencil p) ∧
    c.gl.SameScene (checkError "AJAJ" (Ctx.call (GLCall.glColorMask true true true true)
      (self.map.DrawPrepared pts (ClearFillStencil self c)))).gl ∧
    (checkError "AJAJ" (Ctx.call (GLCall.glColorMask true true true true)
      (self.map.DrawPrepared pts (ClearFillStencil self c)))).gl.frag.caps = c.gl.frag.caps := by
  have hs := Canvas.DrawPolygon_hollow self.map.geometry pts pts.length (ClearFillStencil self c)
    (ClearFillStencil_brush self c)
  have hscene := DrawPrepared_scene self.map pts (ClearFillStencil self c)
  have hfrag := Canvas.DrawPolygon_frag self.map.geometry pts pts.length (ClearFillStencil self c)
  rw [ClearFillStencil_pen] at hs
  have e : Canvas.hollowPolygonFrags self.map.geometry pts pts.length self.look.thick_pen
      (ClearFillStencil self c).gl = Canvas.hollowPolygonFrags self.map.geometry pts pts.length
      self.look.thick_pen c.gl := by
    apply hollowPolygonFrags_congr
    rw [ClearFillStencil_gl]
    exact ⟨rfl, rfl, rfl⟩
  rw [e] at hs
  unfold MapCanvas.DrawPrepared at *
  refine ⟨?_, ?_, ?_⟩
  · simp only [checkError_gl, Ctx.call_gl, GLState.apply]
    rw [hs]
    funext p
    split
    · rw [stencilAfter_zero] <;> simp [ClearFillStencil_gl, hc]
    · simp [ClearFillStencil_gl]
  · obtain ⟨h1, h2, h3⟩ := hscene
    simp only [checkError_gl, Ctx.call_gl, GLState.apply, GLState.SameScene, VertexState.apply]
    rw [h1, h2, h3, ClearFillStencil_gl]
    exact ⟨rfl, rfl, rfl⟩
  · simp only [checkError_gl, Ctx.call_gl, GLState.apply, FragState.apply]
    rw [hfrag, ClearFillStencil_gl]

/-- The fill step: `SetupInterior(...)`, then `DrawPrepared()` under a blend
guard. It leaves the stencil buffer alone. -/
theorem fillStep (self : Renderer) (airspace : AbstractAirspace) (check : Bool)
    (pts : List PixelPoint) (c : Ctx) :
    (GLEnable.dtor Cap.GL_BLEND (self.map.DrawPrepared pts (GLEnable.ctor Cap.GL_BLEND
      (SetupInterior self airspace check c)))).gl.stencil = c.gl.stencil ∧
    c.gl.SameScene (GLEnable.dtor Cap.GL_BLEND (self.map.DrawPrepared pts
      (GLEnable.ctor Cap.GL_BLEND (SetupInterior self airspace check c)))).gl ∧
    (GLEnable.dtor Cap.GL_BLEND (self.map.DrawPrepared pts (GLEnable.ctor Cap.GL_BLEND
      (SetupInterior self airspace check c)))).gl.frag.caps Cap.GL_STENCIL_TEST =
        c.gl.frag.caps Cap.GL_STENCIL_TEST := by
  have hin : (GLEnable.ctor Cap.GL_BLEND (SetupInterior self airspace check c)).gl.frag.inert := by
    have := SetupInterior_inert self airspace check c
    rcases this with h | ⟨h1, h2⟩
    · left; simpa [GLEnable.ctor_gl] using h
    · right; simpa [GLEnable.ctor_gl] using And.intro h1 h2
  have hs := Canvas.DrawPolygon_stencil self.map.geometry pts pts.length _ hin
  have hscene := DrawPrepared_scene self.map pts
    (GLEnable.ctor Cap.GL_BLEND (SetupInterior self airspace check c))
  have hfrag := Canvas.DrawPolygon_frag self.map.geometry pts pts.length
    (GLEnable.ctor Cap.GL_BLEND (SetupInterior self airspace check c))
  unfold MapCanvas.DrawPrepared at *
  refine ⟨?_, ?_, ?_⟩
  · rw [GLEnable.dtor_gl]
    dsimp only
    rw [hs, GLEnable.ctor_gl]
    simp
  · obtain ⟨h1, h2, h3⟩ := hscene
    rw [GLEnable.dtor_gl]
    simp only [GLState.SameScene]
    rw [h1, h2, h3, GLEnable.ctor_gl, SetupInterior_gl]
    exact ⟨rfl, rfl, rfl⟩
  · rw [GLEnable.dtor_gl]
    dsimp only
    rw [hfrag, GLEnable.ctor_gl]
    simp

/-- The outline step of `VisitPolygon` never changes the fill-mask bit. -/
theorem outline_polygon_fillBit (self : Renderer) (airspace : AbstractAirspace)
    (pts : List PixelPoint) (c : Ctx) (p : PixelPoint) :
    ((if (SetupOutline self airspace c).1 then
        self.map.DrawPrepared pts (SetupOutline self airspace c).2
      else (SetupOutline self airspace c).2).gl.stencil p).testBit 0 =
      (c.gl.stencil p).testBit 0 := by
  have hg := SetupOutline_gl self airspace c
  generalize SetupOutline self airspace c = r at hg
  unfold MapCanvas.DrawPrepared
  split
  · rename_i h1
    rw [h1] at hg
    simp at hg
    rw [Canvas.DrawPolygon_testBit]
    · simp [hg]
    · simp [hg]
  · rename_i h1
    simp [h1] at hg
    simp [hg]

/-- The outline step of `VisitPolygon` with the stencil test disabled. -/
theorem outline_polygon_stencil (self : Renderer) (airspace : AbstractAirspace)
    (pts : List PixelPoint) (c : Ctx)
    (h : c.gl.frag.caps Cap.GL_STENCIL_TEST = false) :
    (if (SetupOutline self airspace c).1 then
        self.map.DrawPrepared pts (SetupOutline self airspace c).2
      else (SetupOutline self airspace c).2).gl.stencil = c.gl.stencil ∧
    (if (SetupOutline self airspace c).1 then
        self.map.DrawPrepared pts (SetupOutline self airspace c).2
      else (SetupOutline self airspace c).2).gl.frag.caps Cap.GL_STENCIL_TEST = false := by
  have hg := SetupOutline_gl self airspace c
  generalize SetupOutline self airspace c = r at hg
  unfold MapCanvas.DrawPrepared
  split
  · rename_i h1
    rw [h1] at hg
    simp at hg
    rw [Canvas.DrawPolygon_stencil, Canvas.DrawPolygon_frag]
    · simp [hg, h]
    · left; simp [hg, h]
  · rename_i h1
    simp [h1] at hg
    simp [hg, h]

theorem SameScene_trans {g1 g2 g3 : GLState} (h12 : g1.SameScene g2) (h23 : g2.SameScene g3) :
    g1.SameScene g3 :=
  ⟨h23.1.trans h12.1, h23.2.1.trans h12.2.1, h23.2.2.trans h12.2.2⟩

theorem ctor_scene (cap : Cap) (c : Ctx) : c.gl.SameScene (GLEnable.ctor cap c).gl := by
  rw [GLEnable.ctor_gl]
  exact ⟨rfl, rfl, rfl⟩

/-- The fill block of `VisitPolygon`, for either value of `fill_airspace`:
the stencil value of every pixel and the state of the stencil test after it. -/
theorem polygonBlock (self : Renderer) (airspace : AbstractAirspace) (fill : Bool)
    (pts : List PixelPoint) (c : Ctx) :
    ∃ B : Ctx, B = GLEnable.dtor Cap.GL_STENCIL_TEST
      (if (!fill) = true then
        checkError "AJAJ" (Ctx.call (GLCall.glColorMask true true true true)
          (self.map.DrawPrepared pts (ClearFillStencil self
            (GLEnable.dtor Cap.GL_BLEND (self.map.DrawPrepared pts (GLEnable.ctor Cap.GL_BLEND
              (SetupInterior self airspace (!fill)
                (if (!fill) = true then
                  checkError "AIAI" (Ctx.call (GLCall.glColorMask true true true true)
                    (self.map.DrawPrepared pts
                      (SetFillStencil self (GLEnable.ctor Cap.GL_STENCIL_TEST c))))
                else GLEnable.ctor Cap.GL_STENCIL_TEST c))))))))
      else
        GLEnable.dtor Cap.GL_BLEND (self.map.DrawPrepared pts (GLEnable.ctor Cap.GL_BLEND
          (SetupInterior self airspace (!fill)
            (if (!fill) = true then
              checkError "AIAI" (Ctx.call (GLCall.glColorMask true true true true)
                (self.map.DrawPrepared pts
                  (SetFillStencil self (GLEnable.ctor Cap.GL_STENCIL_TEST c))))
            else GLEnable.ctor Cap.GL_STENCIL_TEST c))))) ∧
      B.gl.frag.caps Cap.GL_STENCIL_TEST = false ∧
      ∀ p, B.gl.stencil p =
        if (!fill && Canvas.hollowPolygonFrags self.map.geometry pts pts.length
            self.look.thick_pen c.gl p) = true then
          maskedWrite 1 (maskedWrite 1 (c.gl.stencil p) 3) 0
        else c.gl.stencil p := by
  refine ⟨_, rfl, ?_, ?_⟩
  · rw [GLEnable.dtor_gl]
    simp
  intro p
  have hc1 : (GLEnable.ctor Cap.GL_STENCIL_TEST c).gl.frag.caps Cap.GL_STENCIL_TEST = true := by
    simp [GLEnable.ctor_gl]
  have hs1 : (GLEnable.ctor Cap.GL_STENCIL_TEST c).gl.stencil = c.gl.stencil := by
    simp [GLEnable.ctor_gl]
  have hsc1 := ctor_scene Cap.GL_STENCIL_TEST c
  generalize GLEnable.ctor Cap.GL_STENCIL_TEST c = c1 at hc1 hs1 hsc1
  cases fill
  · simp only [Bool.not_false, if_true, Bool.true_and]
    obtain ⟨hsY, hscY, hcY⟩ := setPass self pts c1 hc1
    generalize checkError "AIAI" (Ctx.call (GLCall.glColorMask true true true true)
      (self.map.DrawPrepared pts (SetFillStencil self c1))) = cY at hsY hscY hcY
    obtain ⟨hsX, hscX, hcX⟩ := fillStep self airspace true pts cY
    generalize GLEnable.dtor Cap.GL_BLEND (self.map.DrawPrepared pts (GLEnable.ctor Cap.GL_BLEND
      (SetupInterior self airspace true cY))) = cX at hsX hscX hcX
    have hcX1 : cX.gl.frag.caps Cap.GL_STENCIL_TEST = true := by rw [hcX, hcY, hc1]
    obtain ⟨hsZ, -, -⟩ := clearPass self pts cX hcX1
    rw [GLEnable.dtor_gl]
    dsimp only
    rw [hsZ]
    have e1 := hollowPolygonFrags_congr self.map.geometry pts pts.length self.look.thick_pen
      c.gl cX.gl (SameScene_trans hsc1 (SameScene_trans hscY hscX))
    have e2 := hollowPolygonFrags_congr self.map.geometry pts pts.length self.look.thick_pen
      c.gl c1.gl hsc1
    rw [e1, hsX, hsY, e2, hs1]
    by_cases hF : Canvas.hollowPolygonFrags self.map.geometry pts pts.length
        self.look.thick_pen c.gl p = true
    · simp only [hF, if_true]
    · simp only [hF, Bool.false_eq_true, if_false]
  · simp only [Bool.not_true, Bool.false_eq_true, if_false, Bool.false_and]
    obtain ⟨hsX, -, -⟩ := fillStep self airspace false pts c1
    rw [GLEnable.dtor_gl]
    dsimp only
    rw [hsX, hs1]

theorem testBit0_set_clear (s : Nat) :
    (maskedWrite 1 (maskedWrite 1 s 3) 0).testBit 0 = false := by
  have t1 : Nat.testBit 1 0 = true := by decide
  have t0 : Nat.testBit 0 0 = false := by decide
  simp only [maskedWrite_testBit, t1, t0, if_true]

theorem testBit1_set_clear (s : Nat) :
    (maskedWrite 1 (maskedWrite 1 s 3) 0).testBit 1 = s.testBit 1 := by
  have t1 : Nat.testBit 1 1 = false := by decide
  simp only [maskedWrite_testBit, t1, Bool.false_eq_true, if_false]

/-- The fill-mask bit after `VisitPolygon`, from any context: cleared on the
thick border when the reservation was made, unchanged elsewhere. -/
theorem VisitPolygon_fillBit (self : Renderer) (airspace : AbstractAirspace) (c : Ctx)
    (p : PixelPoint) :
    (VisitPolygon self airspace c).gl.fillBit p =
      (c.gl.fillBit p && !(reserves self airspace && reservation self airspace c.gl p)) := by
  unfold VisitPolygon reserves reservation GLState.fillBit
  dsimp only
  cases hp : self.map.PreparePolygon airspace.points with
  | none => simp
  | some pts =>
    dsimp only
    rw [outline_polygon_fillBit]
    by_cases hb : fillBlockEntered self airspace = true
    · have hb2 := hb
      unfold fillBlockEntered at hb2
      rw [if_pos hb2]
      obtain ⟨B, hB, -, hst⟩ := polygonBlock self airspace (fill_airspace self airspace) pts c
      unfold fill_airspace at hB
      rw [← hB, hst p]
      simp only [Option.isSome_some, Bool.true_and, hb]
      by_cases hr : (!fill_airspace self airspace &&
          Canvas.hollowPolygonFrags self.map.geometry pts pts.length
            self.look.thick_pen c.gl p) = true
      · rw [if_pos hr, testBit0_set_clear, hr]
        simp
      · rw [if_neg hr]
        simp only [Bool.not_eq_true] at hr
        rw [hr]
        simp
    · have hb2 := hb
      unfold fillBlockEntered at hb2
      rw [if_neg hb2]
      simp only [Bool.not_eq_true] at hb
      simp [hb]

/-- The stencil buffer after `VisitPolygon` from a context with the stencil
test disabled: the outline bit of every pixel is unchanged and the test is
disabled again. -/
theorem VisitPolygon_outlineBit (self : Renderer) (airspace : AbstractAirspace) (c : Ctx)
    (h : c.gl.frag.caps Cap.GL_STENCIL_TEST = false) :
    (∀ p, (VisitPolygon self airspace c).gl.outlineBit p = c.gl.outlineBit p) ∧
      (VisitPolygon self airspace c).gl.frag.caps Cap.GL_STENCIL_TEST = false := by
  unfold VisitPolygon GLState.outlineBit
  dsimp only
  cases hp : self.map.PreparePolygon airspace.points with
  | none => exact ⟨fun _ => rfl, h⟩
  | some pts =>
    dsimp only
    by_cases hb : fillBlockEntered self airspace = true
    · have hb2 := hb
      unfold fillBlockEntered at hb2
      rw [if_pos hb2]
      obtain ⟨B, hB, hcaps, hst⟩ := polygonBlock self airspace (fill_airspace self airspace) pts c
      unfold fill_airspace at hB
      rw [← hB]
      obtain ⟨h1, h2⟩ := outline_polygon_stencil self airspace pts B hcaps
      refine ⟨fun p => ?_, h2⟩
      rw [h1, hst p]
      split
      · exact testBit1_set_clear _
      · rfl
    · have hb2 := hb
      unfold fillBlockEntered at hb2
      rw [if_neg hb2]
      obtain ⟨h1, h2⟩ := outline_polygon_stencil self airspace pts c h
      exact ⟨fun p => by rw [h1], h2⟩

end AirspaceVisitorRenderer

/-! ## Traces -/

theorem TraceExt.refl (P : Ev → Bool) (c : Ctx) : TraceExt P c c := ⟨[], by simp, rfl⟩

theorem TraceExt.trans {P : Ev → Bool} {a b c : Ctx} (h1 : TraceExt P a b) (h2 : TraceExt P b c) :
    TraceExt P a c := by
  obtain ⟨e1, t1, p1⟩ := h1
  obtain ⟨e2, t2, p2⟩ := h2
  exact ⟨e1 ++ e2, by rw [t2, t1, List.append_assoc], by simp [List.all_append, p1, p2]⟩

theorem TraceExt.mono {P Q : Ev → Bool} (hPQ : ∀ e, P e = true → Q e = true) {a b : Ctx}
    (h : TraceExt P a b) : TraceExt Q a b := by
  obtain ⟨evs, t, p⟩ := h
  refine ⟨evs, t, ?_⟩
  rw [List.all_eq_true] at p ⊢
  exact fun e he => hPQ e (p e he)

theorem TraceExt.step_emit {P : Ev → Bool} {e : Ev} (hP : P e = true) {a b : Ctx}
    (h : TraceExt P a b) : TraceExt P a (b.emit e) :=
  h.trans ⟨[e], rfl, by simp [hP]⟩

theorem TraceExt.step_call {P : Ev → Bool} {k : GLCall} (hP : P (Ev.gl Site.direct k) = true)
    {a b : Ctx} (h : TraceExt P a b) : TraceExt P a (Ctx.call k b) :=
  TraceExt.step_emit hP h

theorem TraceExt.step_lib {P : Ev → Bool} {k : LibCall} (hP : P (Ev.lib k) = true)
    {a b : Ctx} (h : TraceExt P a b) : TraceExt P a (Ctx.lib k b) :=
  TraceExt.step_emit hP h

theorem TraceExt.step_check {P : Ev → Bool} (hP : AcceptsDiag P) (tag : String) {a b : Ctx}
    (h : TraceExt P a b) : TraceExt P a (checkError tag b) := by
  refine h.trans ?_
  unfold checkError
  dsimp only
  split
  · exact ⟨[Ev.gl Site.direct (GLCall.glGetError b.nextError), Ev.log tag b.nextError],
      by simp [LogFormat, glGetError], by simp [hP.1, hP.2]⟩
  · exact ⟨[Ev.gl Site.direct (GLCall.glGetError b.nextError)], by simp [glGetError],
      by simp [hP.1]⟩

theorem TraceExt.of_trace_eq {P : Ev → Bool} {a b b' : Ctx} (e : b'.trace = b.trace)
    (h : TraceExt P a b) : TraceExt P a b' := by
  obtain ⟨evs, t, p⟩ := h
  exact ⟨evs, by rw [e, t], p⟩

theorem isPlain_diag : AcceptsDiag Ev.isPlain := ⟨fun _ => rfl, fun _ _ => rfl⟩

theorem TraceExt.step_Use {P : Ev → Bool} (hP : AcceptsDiag P) (p : Shader)
    (hp : P (Ev.gl Site.direct (GLCall.glUseProgram p)) = true) {a b : Ctx}
    (h : TraceExt P a b) : TraceExt P a (GLProgram.Use p b) := by
  unfold GLProgram.Use
  exact TraceExt.step_check hP _ (TraceExt.step_call hp (TraceExt.step_check hP _ h))

theorem GLDrawRectangle_plain (r : PixelRect) {a b : Ctx} (h : TraceExt Ev.isPlain a b) :
    TraceExt Ev.isPlain a (GLDrawRectangle r b) := by
  unfold GLDrawRectangle ScopeVertexPointer.ctor ScopeVertexPointer.Update ScopeVertexPointer.dtor
  dsimp only
  repeat (first
    | (with_reducible exact h)
    | (with_reducible apply TraceExt.step_check isPlain_diag)
    | ((with_reducible refine TraceExt.step_call ?_ ?_); rfl))

theorem Canvas.DrawCircle_plain (center : PixelPoint) (radius : Nat) {a b : Ctx}
    (h : TraceExt Ev.isPlain a b) : TraceExt Ev.isPlain a (Canvas.DrawCircle center radius b) := by
  unfold Canvas.DrawCircle GLProgram.Use
  dsimp only
  split <;>
  repeat (first
    | (with_reducible exact h)
    | (with_reducible apply GLDrawRectangle_plain)
    | (with_reducible apply TraceExt.step_check isPlain_diag)
    | ((with_reducible refine TraceExt.step_call ?_ ?_); rfl)
    | ((with_reducible refine TraceExt.step_lib ?_ ?_); rfl))

theorem Canvas.DrawPolygon_plain (G : Geometry) (points : List PixelPoint) (n : Nat) {a b : Ctx}
    (h : TraceExt Ev.isPlain a b) : TraceExt Ev.isPlain a (Canvas.DrawPolygon G points n b) := by
  unfold Canvas.DrawPolygon GLProgram.Use ScopeVertexPointer.ctor ScopeVertexPointer.Update
    ScopeVertexPointer.dtor
  dsimp only
  repeat' split
  all_goals
    repeat (first
      | (with_reducible exact h)
      | (with_reducible apply TraceExt.step_check isPlain_diag)
      | ((with_reducible refine TraceExt.step_call ?_ ?_); rfl)
      | ((with_reducible refine TraceExt.step_lib ?_ ?_); rfl))

theorem isCheap_diag : AcceptsDiag Ev.isCheap := ⟨fun _ => rfl, fun _ _ => rfl⟩

theorem isSetup_diag : AcceptsDiag Ev.isSetup := ⟨fun _ => rfl, fun _ _ => rfl⟩

theorem isPlain_isCheap (e : Ev) (h : e.isPlain = true) : e.isCheap = true := by
  unfold Ev.isCheap
  split <;> first | rfl | exact h

theorem isPlain_isSetup (e : Ev) (h : e.isPlain = true) : e.isSetup = true := by
  unfold Ev.isSetup
  split <;> first | rfl | exact h

theorem isCheap_isSetup (e : Ev) (h : e.isCheap = true) : e.isSetup = true := by
  unfold Ev.isCheap at h
  split at h
  · rfl
  · rfl
  · rfl
  · exact isPlain_isSetup _ h

theorem isSetup_notEnter (e : Ev) (h : e.isSetup = true) : e.notEnter = true := by
  cases e with
  | enter fn => simp [Ev.isSetup, Ev.isPlain] at h
  | gl s k => rfl
  | log t k => rfl
  | lib k => rfl

theorem isCheap_not_touchesStencil (e : Ev) (h : e.isCheap = true) :
    e.touchesStencil = false := by
  cases e with
  | enter fn => rfl
  | log t k => rfl
  | lib k => rfl
  | gl s k =>
    cases s <;> cases k <;> first
      | rfl
      | (simp [Ev.isCheap, Ev.isPlain] at h; done)
      | (rename_i cap; cases cap <;> first | rfl | (simp [Ev.isCheap, Ev.isPlain] at h; done))

theorem isSetup_noDirectCapChange (e : Ev) (h : e.isSetup = true) :
    e.noDirectCapChange = true := by
  cases e with
  | enter fn => rfl
  | log t k => rfl
  | lib k => rfl
  | gl s k =>
    cases s <;> cases k <;> first
      | rfl
      | (simp [Ev.isSetup, Ev.isPlain] at h; done)

/-- Lifting the trace lemma of an operation to a weaker predicate, in step
form. -/
theorem TraceExt.step_of {P Q : Ev → Bool} (hPQ : ∀ e, P e = true → Q e = true)
    {f : Ctx → Ctx} (hf : ∀ b, TraceExt P b (f b)) {a b : Ctx} (h : TraceExt Q a b) :
    TraceExt Q a (f b) :=
  h.trans ((hf b).mono hPQ)

theorem TraceExt.filterMap_eq {α : Type} (f : Ev → Option α) {P : Ev → Bool}
    (hP : ∀ e, P e = true → f e = none) {a b : Ctx} (h : TraceExt P a b) :
    b.trace.filterMap f = a.trace.filterMap f := by
  obtain ⟨evs, t, p⟩ := h
  rw [t, List.filterMap_append]
  have : evs.filterMap f = [] := by
    rw [List.filterMap_eq_nil_iff]
    rw [List.all_eq_true] at p
    exact fun e he => hP e (p e he)
  rw [this, List.append_nil]

theorem GLEnable.ctor_blend_cheap {a b : Ctx} (h : TraceExt Ev.isCheap a b) :
    TraceExt Ev.isCheap a (GLEnable.ctor Cap.GL_BLEND b) := by
  unfold GLEnable.ctor
  exact TraceExt.step_check isCheap_diag _ (TraceExt.step_emit rfl h)

theorem GLEnable.dtor_blend_cheap {a b : Ctx} (h : TraceExt Ev.isCheap a b) :
    TraceExt Ev.isCheap a (GLEnable.dtor Cap.GL_BLEND b) := by
  unfold GLEnable.dtor
  exact TraceExt.step_check isCheap_diag _ (TraceExt.step_emit rfl h)

theorem GLEnable.ctor_setup (cap : Cap) {a b : Ctx} (h : TraceExt Ev.isSetup a b) :
    TraceExt Ev.isSetup a (GLEnable.ctor cap b) := by
  unfold GLEnable.ctor
  exact TraceExt.step_check isSetup_diag _ (TraceExt.step_emit rfl h)

theorem GLEnable.dtor_setup (cap : Cap) {a b : Ctx} (h : TraceExt Ev.isSetup a b) :
    TraceExt Ev.isSetup a (GLEnable.dtor cap b) := by
  unfold GLEnable.dtor
  exact TraceExt.step_check isSetup_diag _ (TraceExt.step_emit rfl h)

theorem DrawPrepared_plain (m : MapCanvas) (pts : List PixelPoint) (b : Ctx) :
    TraceExt Ev.isPlain b (m.DrawPrepared pts b) :=
  Canvas.DrawPolygon_plain _ _ _ (TraceExt.refl _ _)

theorem DrawCircle_plain_refl (center : PixelPoint) (radius : Nat) (b : Ctx) :
    TraceExt Ev.isPlain b (Canvas.DrawCircle center radius b) :=
  Canvas.DrawCircle_plain _ _ (TraceExt.refl _ _)

theorem TraceExt.step_glGetError {P : Ev → Bool} (hP : AcceptsDiag P) {a b : Ctx}
    (h : TraceExt P a b) : TraceExt P a (glGetError b).2 :=
  h.trans ⟨[Ev.gl Site.direct (GLCall.glGetError b.nextError)], by simp [glGetError],
    by simp [hP.1]⟩

theorem TraceExt.step_LogFormat {P : Ev → Bool} (hP : AcceptsDiag P) (tag : String) (code : Nat)
    {a b : Ctx} (h : TraceExt P a b) : TraceExt P a (LogFormat tag code b) :=
  TraceExt.step_emit (hP.2 tag code) h

theorem isPrecise_diag : AcceptsDiag Ev.isPrecise := ⟨fun _ => rfl, fun _ _ => rfl⟩

theorem isSetup_isPrecise (e : Ev) (h : e.isSetup = true) : e.isPrecise = true := by
  unfold Ev.isPrecise
  split <;> first | rfl | exact h

theorem isPrecise_notVisit (e : Ev) (h : e.isPrecise = true) : e.notVisit = true := by
  cases e with
  | enter fn => cases fn <;> first | rfl | (simp [Ev.isPrecise, Ev.isSetup, Ev.isPlain] at h)
  | gl s k => rfl
  | log t k => rfl
  | lib k => rfl

theorem isPrecise_noDirectCapChange (e : Ev) (h : e.isPrecise = true) :
    e.noDirectCapChange = true := by
  cases e with
  | enter fn => rfl
  | log t k => rfl
  | lib k => rfl
  | gl s k =>
    cases s <;> cases k <;> first
      | rfl
      | (simp [Ev.isPrecise, Ev.isSetup, Ev.isPlain] at h)

theorem TraceExt.step_SelectPen {P : Ev → Bool} (p : Pen) {a b : Ctx} (h : TraceExt P a b) :
    TraceExt P a (Canvas.SelectPen p b) := h

theorem TraceExt.step_SelectBrush {P : Ev → Bool} (p : Brush) {a b : Ctx} (h : TraceExt P a b) :
    TraceExt P a (Canvas.SelectBrush p b) := h

theorem TraceExt.step_SelectHollowBrush {P : Ev → Bool} {a b : Ctx} (h : TraceExt P a b) :
    TraceExt P a (Canvas.SelectHollowBrush b) := h

theorem TraceExt.step_SelectNullPen {P : Ev → Bool} {a b : Ctx} (h : TraceExt P a b) :
    TraceExt P a (Canvas.SelectNullPen b) := h

theorem TraceExt.step_SelectBlackPen {P : Ev → Bool} {a b : Ctx} (h : TraceExt P a b) :
    TraceExt P a (Canvas.SelectBlackPen b) := h

namespace AirspaceVisitorRenderer

theorem SetupInterior_setup (self : Renderer) (airspace : AbstractAirspace) (check : Bool)
    (b : Ctx) : TraceExt Ev.isSetup b (SetupInterior self airspace check b) := by
  unfold SetupInterior
  dsimp only
  refine TraceExt.step_SelectNullPen (TraceExt.step_SelectBrush _ ?_)
  refine TraceExt.step_check isSetup_diag _ ?_
  refine TraceExt.step_call (by rfl) ?_
  refine TraceExt.step_check isSetup_diag _ ?_
  repeat' split
  all_goals
    repeat (first
      | (with_reducible exact TraceExt.refl _ _)
      | (with_reducible apply TraceExt.step_LogFormat isSetup_diag)
      | (with_reducible apply TraceExt.step_glGetError isSetup_diag)
      | ((with_reducible refine TraceExt.step_call ?_ ?_); rfl))

theorem SetupOutline_setup (self : Renderer) (airspace : AbstractAirspace) (b : Ctx) :
    TraceExt Ev.isSetup b (SetupOutline self airspace b).2 := by
  unfold SetupOutline
  dsimp only
  split
  · exact TraceExt.refl _ _
  · rename_i c hc
    have hb : b.trace = c.trace := by
      split at hc
      · injection hc with hc; rw [← hc]; rfl
      · split at hc
        · cases hc
        · injection hc with hc; rw [← hc]; rfl
    dsimp only
    refine TraceExt.step_check isSetup_diag _ ?_
    refine TraceExt.step_call (by rfl) ?_
    refine TraceExt.step_check isSetup_diag _ ?_
    refine TraceExt.step_call (by rfl) ?_
    refine TraceExt.step_check isSetup_diag _ ?_
    refine TraceExt.step_call (by rfl) ?_
    refine TraceExt.step_SelectHollowBrush ?_
    exact ⟨[], by simp [hb], rfl⟩

theorem SetFillStencil_setup (self : Renderer) (b : Ctx) :
    TraceExt Ev.isSetup (b.emit (Ev.enter Fn.SetFillStencil)) (SetFillStencil self b) := by
  unfold SetFillStencil
  dsimp only
  refine TraceExt.step_SelectPen _ (TraceExt.step_SelectHollowBrush ?_)
  refine TraceExt.step_check isSetup_diag _ ?_
  refine TraceExt.step_call (by rfl) ?_
  refine TraceExt.step_check isSetup_diag _ ?_
  refine TraceExt.step_call (by rfl) ?_
  refine TraceExt.step_check isSetup_diag _ ?_
  refine TraceExt.step_call (by rfl) ?_
  refine TraceExt.step_check isSetup_diag _ ?_
  exact TraceExt.step_call (by rfl) (TraceExt.refl _ _)

theorem ClearFillStencil_setup (self : Renderer) (b : Ctx) :
    TraceExt Ev.isSetup (b.emit (Ev.enter Fn.ClearFillStencil)) (ClearFillStencil self b) := by
  unfold ClearFillStencil
  dsimp only
  refine TraceExt.step_SelectPen _ (TraceExt.step_SelectHollowBrush ?_)
  refine TraceExt.step_check isSetup_diag _ ?_
  refine TraceExt.step_call (by rfl) ?_
  refine TraceExt.step_check isSetup_diag _ ?_
  refine TraceExt.step_call (by rfl) ?_
  refine TraceExt.step_check isSetup_diag _ ?_
  refine TraceExt.step_call (by rfl) ?_
  refine TraceExt.step_check isSetup_diag _ ?_
  exact TraceExt.step_call (by rfl) (TraceExt.refl _ _)

theorem isPlain_isPrecise (e : Ev) (h : e.isPlain = true) : e.isPrecise = true :=
  isSetup_isPrecise e (isPlain_isSetup e h)

theorem precise_SetupInterior (self : Renderer) (airspace : AbstractAirspace) (check : Bool)
    {a b : Ctx} (h : TraceExt Ev.isPrecise a b) :
    TraceExt Ev.isPrecise a (SetupInterior self airspace check b) :=
  h.trans ((SetupInterior_setup self airspace check b).mono isSetup_isPrecise)

theorem precise_SetupOutline (self : Renderer) (airspace : AbstractAirspace)
    {a b : Ctx} (h : TraceExt Ev.isPrecise a b) :
    TraceExt Ev.isPrecise a (SetupOutline self airspace b).2 :=
  h.trans ((SetupOutline_setup self airspace b).mono isSetup_isPrecise)

theorem precise_SetFillStencil (self : Renderer) {a b : Ctx} (h : TraceExt Ev.isPrecise a b) :
    TraceExt Ev.isPrecise a (SetFillStencil self b) :=
  (TraceExt.step_emit (by rfl) h).trans ((SetFillStencil_setup self b).mono isSetup_isPrecise)

theorem precise_ClearFillStencil (self : Renderer) {a b : Ctx} (h : TraceExt Ev.isPrecise a b) :
    TraceExt Ev.isPrecise a (ClearFillStencil self b) :=
  (TraceExt.step_emit (by rfl) h).trans ((ClearFillStencil_setup self b).mono isSetup_isPrecise)

theorem precise_ctor (cap : Cap) {a b : Ctx} (h : TraceExt Ev.isPrecise a b) :
    TraceExt Ev.isPrecise a (GLEnable.ctor cap b) :=
  h.trans ((GLEnable.ctor_setup cap (TraceExt.refl _ b)).mono isSetup_isPrecise)

theorem precise_dtor (cap : Cap) {a b : Ctx} (h : TraceExt Ev.isPrecise a b) :
    TraceExt Ev.isPrecise a (GLEnable.dtor cap b) :=
  h.trans ((GLEnable.dtor_setup cap (TraceExt.refl _ b)).mono isSetup_isPrecise)

theorem precise_DrawPrepared (m : MapCanvas) (pts : List PixelPoint) {a b : Ctx}
    (h : TraceExt Ev.isPrecise a b) : TraceExt Ev.isPrecise a (m.DrawPrepared pts b) :=
  h.trans ((DrawPrepared_plain m pts b).mono isPlain_isPrecise)

theorem precise_DrawCircle (center : PixelPoint) (radius : Nat) {a b : Ctx}
    (h : TraceExt Ev.isPrecise a b) : TraceExt Ev.isPrecise a (Canvas.DrawCircle center radius b) :=
  h.trans ((DrawCircle_plain_refl center radius b).mono isPlain_isPrecise)

theorem VisitCircle_precise (self : Renderer) (airspace : AbstractAirspace) (c : Ctx) :
    TraceExt Ev.isPrecise c (VisitCircle self airspace c) := by
  unfold VisitCircle
  dsimp only
  repeat' split
  all_goals
    repeat (first
      | (with_reducible exact TraceExt.refl _ _)
      | (with_reducible apply precise_SetupOutline)
      | (with_reducible apply precise_SetupInterior)
      | (with_reducible apply precise_ctor)
      | (with_reducible apply precise_dtor)
      | (with_reducible apply precise_DrawCircle)
      | (with_reducible apply TraceExt.step_SelectPen)
      | (with_reducible apply TraceExt.step_SelectHollowBrush))

theorem VisitPolygon_precise (self : Renderer) (airspace : AbstractAirspace) (c : Ctx) :
    TraceExt Ev.isPrecise c (VisitPolygon self airspace c) := by
  unfold VisitPolygon
  dsimp only
  repeat' split
  all_goals
    repeat (first
      | (with_reducible exact TraceExt.refl _ _)
      | (with_reducible apply precise_SetupOutline)
      | (with_reducible apply precise_SetupInterior)
      | (with_reducible apply precise_SetFillStencil)
      | (with_reducible apply precise_ClearFillStencil)
      | (with_reducible apply precise_ctor)
      | (with_reducible apply precise_dtor)
      | (with_reducible apply precise_DrawPrepared)
      | (with_reducible apply TraceExt.step_check isPrecise_diag)
      | ((with_reducible refine TraceExt.step_call ?_ ?_); rfl))

theorem Visit_precise (self : Renderer) (airspace : AbstractAirspace) (c : Ctx) :
    TraceExt Ev.isPrecise (c.emit (Ev.enter (Fn.Visit airspace))) (Visit self airspace c) := by
  unfold Visit
  dsimp only
  split
  · exact VisitCircle_precise _ _ _
  · exact VisitPolygon_precise _ _ _

theorem ctor_precise (c : Ctx) : TraceExt Ev.isPrecise c (ctor c) := by
  unfold ctor
  dsimp only
  repeat (first
    | (with_reducible exact TraceExt.refl _ _)
    | (with_reducible apply TraceExt.step_check isPrecise_diag)
    | ((with_reducible refine TraceExt.step_call ?_ ?_); rfl))

theorem dtor_precise (c : Ctx) : TraceExt Ev.isPrecise c (dtor c) := by
  unfold dtor
  exact TraceExt.step_check isPrecise_diag _ (TraceExt.step_call (by rfl) (TraceExt.refl _ _))

end AirspaceVisitorRenderer

namespace AirspaceFillRenderer

theorem SetupOutline_trace (self : Renderer) (airspace : AbstractAirspace) (b : Ctx) :
    (SetupOutline self airspace b).2.trace = b.trace := by
  unfold SetupOutline
  dsimp only
  split
  · rfl
  · rename_i c hc
    split at hc
    · injection hc with hc; rw [← hc]; rfl
    · split at hc
      · cases hc
      · injection hc with hc; rw [← hc]; rfl

theorem SetupInterior_trace (self : Renderer) (airspace : AbstractAirspace) (b : Ctx) :
    (SetupInterior self airspace b).2.trace = b.trace := by
  unfold SetupInterior
  dsimp only
  split <;> rfl

theorem cheap_SetupOutline (self : Renderer) (airspace : AbstractAirspace) {a b : Ctx}
    (h : TraceExt Ev.isCheap a b) : TraceExt Ev.isCheap a (SetupOutline self airspace b).2 :=
  TraceExt.of_trace_eq (SetupOutline_trace self airspace b) h

theorem cheap_SetupInterior (self : Renderer) (airspace : AbstractAirspace) {a b : Ctx}
    (h : TraceExt Ev.isCheap a b) : TraceExt Ev.isCheap a (SetupInterior self airspace b).2 :=
  TraceExt.of_trace_eq (SetupInterior_trace self airspace b) h

theorem cheap_DrawPrepared (m : MapCanvas) (pts : List PixelPoint) {a b : Ctx}
    (h : TraceExt Ev.isCheap a b) : TraceExt Ev.isCheap a (m.DrawPrepared pts b) :=
  h.trans ((DrawPrepared_plain m pts b).mono isPlain_isCheap)

theorem cheap_DrawCircle (center : PixelPoint) (radius : Nat) {a b : Ctx}
    (h : TraceExt Ev.isCheap a b) : TraceExt Ev.isCheap a (Canvas.DrawCircle center radius b) :=
  h.trans ((DrawCircle_plain_refl center radius b).mono isPlain_isCheap)

theorem VisitCircle_cheap (self : Renderer) (airspace : AbstractAirspace) (c : Ctx) :
    TraceExt Ev.isCheap c (VisitCircle self airspace c) := by
  unfold VisitCircle
  dsimp only
  repeat' split
  all_goals
    repeat (first
      | (with_reducible exact TraceExt.refl _ _)
      | (with_reducible apply cheap_SetupOutline)
      | (with_reducible apply cheap_SetupInterior)
      | (with_reducible apply GLEnable.ctor_blend_cheap)
      | (with_reducible apply GLEnable.dtor_blend_cheap)
      | (with_reducible apply cheap_DrawCircle))

theorem VisitPolygon_cheap (self : Renderer) (airspace : AbstractAirspace) (c : Ctx) :
    TraceExt Ev.isCheap c (VisitPolygon self airspace c) := by
  unfold VisitPolygon
  dsimp only
  repeat' split
  all_goals
    repeat (first
      | (with_reducible exact TraceExt.refl _ _)
      | (with_reducible apply cheap_SetupOutline)
      | (with_reducible apply cheap_SetupInterior)
      | (with_reducible apply GLEnable.ctor_blend_cheap)
      | (with_reducible apply GLEnable.dtor_blend_cheap)
      | (with_reducible apply cheap_DrawPrepared))

theorem Visit_cheap (self : Renderer) (airspace : AbstractAirspace) (c : Ctx) :
    TraceExt Ev.isCheap (c.emit (Ev.enter (Fn.Visit airspace))) (Visit self airspace c) := by
  unfold Visit
  dsimp only
  split
  · exact VisitCircle_cheap _ _ _
  · exact VisitPolygon_cheap _ _ _

theorem ctor_cheap (c : Ctx) : TraceExt Ev.isCheap c (ctor c) := by
  unfold ctor
  exact TraceExt.step_check isCheap_diag _ (TraceExt.step_call (by rfl) (TraceExt.refl _ _))

end AirspaceFillRenderer

/-! ## Passes over a sequence of shapes -/

theorem foldl_visit_ext {P : Ev → Bool} (visit : AbstractAirspace → Ctx → Ctx)
    (hmark : ∀ a, P (Ev.enter (Fn.Visit a)) = true)
    (hvisit : ∀ a c, TraceExt P (c.emit (Ev.enter (Fn.Visit a))) (visit a c))
    (shapes : List AbstractAirspace) (c : Ctx) :
    TraceExt P c (shapes.foldl (fun c a => visit a c) c) := by
  induction shapes generalizing c with
  | nil => exact TraceExt.refl _ _
  | cons a rest ih =>
    rw [List.foldl_cons]
    exact ((TraceExt.step_emit (hmark a) (TraceExt.refl _ c)).trans (hvisit a c)).trans (ih _)

theorem visited_append (xs ys : List Ev) : visited (xs ++ ys) = visited xs ++ visited ys := by
  simp [visited, List.filterMap_append]

theorem foldl_visit_visited {P : Ev → Bool} (visit : AbstractAirspace → Ctx → Ctx)
    (hP : ∀ e, P e = true → e.notVisit = true)
    (hvisit : ∀ a c, TraceExt P (c.emit (Ev.enter (Fn.Visit a))) (visit a c))
    (shapes : List AbstractAirspace) (c : Ctx) :
    visited (shapes.foldl (fun c a => visit a c) c).trace = visited c.trace ++ shapes := by
  induction shapes generalizing c with
  | nil => simp
  | cons a rest ih =>
    rw [List.foldl_cons, ih]
    have h := TraceExt.filterMap_eq (fun e => match e with
      | Ev.enter (Fn.Visit a) => some a
      | _ => none) (P := P) (fun e he => by
        have := hP e he
        cases e with
        | enter fn => cases fn <;> first | rfl | (simp [Ev.notVisit] at this)
        | gl s k => rfl
        | log t k => rfl
        | lib k => rfl) (hvisit a c)
    unfold visited
    rw [h]
    simp [List.filterMap_append]

theorem foldl_filter_visit (visit : AbstractAirspace → Ctx → Ctx)
    (visible : AbstractAirspace → Bool) (range : List AbstractAirspace) (c : Ctx) :
    range.foldl (fun c a => if visible a then visit a c else c) c =
      (range.filter visible).foldl (fun c a => visit a c) c := by
  induction range generalizing c with
  | nil => rfl
  | cons a rest ih =>
    rw [List.foldl_cons, ih]
    by_cases h : visible a = true
    · simp [h]
    · simp [h]

/-! ## The recorded function entries of `VisitPolygon` -/

theorem entered_of_ext {a b : Ctx} (h : TraceExt Ev.isSetup a b) :
    entered b.trace = entered a.trace :=
  TraceExt.filterMap_eq _ (fun e he => by
    have := isSetup_notEnter e he
    cases e with
    | enter fn => simp [Ev.notEnter] at this
    | gl s k => rfl
    | log t k => rfl
    | lib k => rfl) h

theorem entered_emit_enter (fn : Fn) (c : Ctx) :
    entered (c.emit (Ev.enter fn)).trace = entered c.trace ++ [fn] := by
  simp [entered, List.filterMap_append]

@[simp] theorem entered_append (xs ys : List Ev) :
    entered (xs ++ ys) = entered xs ++ entered ys := by
  simp [entered, List.filterMap_append]

@[simp] theorem entered_gl (s : Site) (k : GLCall) : entered [Ev.gl s k] = [] := rfl

namespace AirspaceVisitorRenderer

@[simp] theorem entered_ctor (cap : Cap) (c : Ctx) :
    entered (GLEnable.ctor cap c).trace = entered c.trace :=
  entered_of_ext (GLEnable.ctor_setup cap (TraceExt.refl _ c))

@[simp] theorem entered_dtor (cap : Cap) (c : Ctx) :
    entered (GLEnable.dtor cap c).trace = entered c.trace :=
  entered_of_ext (GLEnable.dtor_setup cap (TraceExt.refl _ c))

@[simp] theorem entered_SetupInterior (self : Renderer) (airspace : AbstractAirspace)
    (check : Bool) (c : Ctx) :
    entered (SetupInterior self airspace check c).trace = entered c.trace :=
  entered_of_ext (SetupInterior_setup self airspace check c)

@[simp] theorem entered_SetupOutline (self : Renderer) (airspace : AbstractAirspace) (c : Ctx) :
    entered (SetupOutline self airspace c).2.trace = entered c.trace :=
  entered_of_ext (SetupOutline_setup self airspace c)

@[simp] theorem entered_DrawPrepared (m : MapCanvas) (pts : List PixelPoint) (c : Ctx) :
    entered (m.DrawPrepared pts c).trace = entered c.trace :=
  entered_of_ext ((DrawPrepared_plain m pts c).mono isPlain_isSetup)

@[simp] theorem entered_colorMask (r g b a : Bool) (c : Ctx) :
    entered (Ctx.call (GLCall.glColorMask r g b a) c).trace = entered c.trace :=
  entered_of_ext (TraceExt.step_call (by rfl) (TraceExt.refl _ c))

@[simp] theorem entered_checkError (tag : String) (c : Ctx) :
    entered (checkError tag c).trace = entered c.trace :=
  entered_of_ext (TraceExt.step_check isSetup_diag tag (TraceExt.refl _ c))

@[simp] theorem entered_SetFillStencil (self : Renderer) (c : Ctx) :
    entered (SetFillStencil self c).trace = entered c.trace ++ [Fn.SetFillStencil] := by
  rw [entered_of_ext (SetFillStencil_setup self c), entered_emit_enter]

@[simp] theorem entered_ClearFillStencil (self : Renderer) (c : Ctx) :
    entered (ClearFillStencil self c).trace = entered c.trace ++ [Fn.ClearFillStencil] := by
  rw [entered_of_ext (ClearFillStencil_setup self c), entered_emit_enter]

theorem entered_outline (self : Renderer) (airspace : AbstractAirspace)
    (pts : List PixelPoint) (c : Ctx) :
    entered (if (SetupOutline self airspace c).1 then
        self.map.DrawPrepared pts (SetupOutline self airspace c).2
      else (SetupOutline self airspace c).2).trace = entered c.trace := by
  split <;> simp

/-- The recorded entries of `VisitPolygon`: `SetFillStencil` followed by
`ClearFillStencil` when the reservation is made, nothing otherwise. -/
theorem VisitPolygon_entered (self : Renderer) (airspace : AbstractAirspace) (c : Ctx) :
    entered (VisitPolygon self airspace c).trace = entered c.trace ++
      (if reserves self airspace then [Fn.SetFillStencil, Fn.ClearFillStencil] else []) := by
  unfold VisitPolygon reserves
  dsimp only
  cases hp : self.map.PreparePolygon airspace.points with
  | none => simp
  | some pts =>
    dsimp only
    rw [entered_outline]
    by_cases hb : fillBlockEntered self airspace = true
    · have hb2 := hb
      unfold fillBlockEntered at hb2
      rw [if_pos hb2]
      by_cases hf : fill_airspace self airspace = true
      · have hf2 := hf
        unfold fill_airspace at hf2
        simp [hf2, hf, hb]
      · have hf2 := hf
        unfold fill_airspace at hf2
        simp only [Bool.not_eq_true] at hf hf2
        simp [hf2, hf, hb]
    · have hb2 := hb
      unfold fillBlockEntered at hb2
      rw [if_neg hb2]
      simp only [Bool.not_eq_true] at hb
      simp [hb]

end AirspaceVisitorRenderer

/-! ## The claims -/

namespace AirspaceVisitorRenderer

theorem ctor_stencil (c : Ctx) (p : PixelPoint) :
    (ctor c).gl.fillBit p = false ∧ (ctor c).gl.outlineBit p = false ∧
      (ctor c).gl.frag.caps = c.gl.frag.caps := by
  have t0 : Nat.testBit 255 0 = true := by decide
  have t1 : Nat.testBit 255 1 = true := by decide
  have z0 : Nat.testBit 0 0 = false := by decide
  have z1 : Nat.testBit 0 1 = false := by decide
  simp only [ctor, checkError_gl, Ctx.call_gl, GLState.apply, FragState.apply, GLState.fillBit,
    GLState.outlineBit, maskedWrite_testBit, t0, t1, z0, z1, if_true, and_self]

theorem Visit_invariant (self : Renderer) (airspace : AbstractAirspace) (c : Ctx)
    (h : c.gl.frag.caps Cap.GL_STENCIL_TEST = false)
    (hz : ∀ p, c.gl.fillBit p = false ∧ c.gl.outlineBit p = false) :
    (Visit self airspace c).gl.frag.caps Cap.GL_STENCIL_TEST = false ∧
      ∀ p, (Visit self airspace c).gl.fillBit p = false ∧
        (Visit self airspace c).gl.outlineBit p = false := by
  unfold Visit
  dsimp only
  have hm : (c.emit (Ev.enter (Fn.Visit airspace))).gl = c.gl := rfl
  generalize c.emit (Ev.enter (Fn.Visit airspace)) = c1 at hm
  rw [← hm] at h hz
  split
  · obtain ⟨h1, h2⟩ := VisitCircle_stencil self airspace c1 h
    refine ⟨h2, fun p => ?_⟩
    unfold GLState.fillBit GLState.outlineBit at *
    rw [h1]
    exact hz p
  · obtain ⟨h1, h2⟩ := VisitPolygon_outlineBit self airspace c1 h
    refine ⟨h2, fun p => ⟨?_, ?_⟩⟩
    · rw [VisitPolygon_fillBit, (hz p).1, Bool.false_and]
    · rw [h1 p, (hz p).2]

end AirspaceVisitorRenderer

/-- C1: stencil invariant of the precise-mode pass. For every sequence of
circles and polygons visited by `AirspaceVisitorRenderer` (constructed, `Visit`
called for each shape, destroyed), every setting, look and warning state,
every sequence of `glGetError` results and every pixel, both reserved stencil
bits (bit 0, the fill mask, and bit 1, the outline mask) are zero after the
pass, provided the stencil test is disabled when the pass begins (the state
in which the GL starts and in which every `GLEnable` guard leaves it). -/
theorem C1_stencil_bits_zero_after_pass (self : Renderer) (shapes : List AbstractAirspace)
    (c : Ctx) (h : c.gl.frag.caps Cap.GL_STENCIL_TEST = false) (p : PixelPoint) :
    (AirspaceVisitorRenderer.pass self shapes c).gl.fillBit p = false ∧
      (AirspaceVisitorRenderer.pass self shapes c).gl.outlineBit p = false := by
  unfold AirspaceVisitorRenderer.pass
  have h0 : (AirspaceVisitorRenderer.ctor c).gl.frag.caps Cap.GL_STENCIL_TEST = false := by
    rw [(AirspaceVisitorRenderer.ctor_stencil c p).2.2, h]
  have hz0 : ∀ q, (AirspaceVisitorRenderer.ctor c).gl.fillBit q = false ∧
      (AirspaceVisitorRenderer.ctor c).gl.outlineBit q = false :=
    fun q => ⟨(AirspaceVisitorRenderer.ctor_stencil c q).1,
      (AirspaceVisitorRenderer.ctor_stencil c q).2.1⟩
  generalize AirspaceVisitorRenderer.ctor c = c0 at h0 hz0
  have key : ∀ (l : List AbstractAirspace) (x : Ctx),
      x.gl.frag.caps Cap.GL_STENCIL_TEST = false →
      (∀ q, x.gl.fillBit q = false ∧ x.gl.outlineBit q = false) →
      ∀ q, (l.foldl (fun c airspace => AirspaceVisitorRenderer.Visit self airspace c) x).gl.fillBit
          q = false ∧
        (l.foldl (fun c airspace => AirspaceVisitorRenderer.Visit self airspace c) x).gl.outlineBit
          q = false := by
    intro l
    induction l with
    | nil => intro x _ hx; exact hx
    | cons a rest ih =>
      intro x hx hxz
      rw [List.foldl_cons]
      obtain ⟨h1, h2⟩ := AirspaceVisitorRenderer.Visit_invariant self a x hx hxz
      exact ih _ h1 h2
  have := key shapes c0 h0 hz0 p
  simpa [AirspaceVisitorRenderer.dtor, GLState.apply, GLState.fillBit, GLState.outlineBit]
    using this

/-- C1, at a concrete input: a pass over a circle and a polygon whose thick
border is reserved and cleared at the pixel (0, 0). -/
theorem C1_stencil_bits_zero_after_pass_witness :
    (exCtx []).gl.frag.caps Cap.GL_STENCIL_TEST = false ∧
      ((AirspaceVisitorRenderer.pass (exRenderer FillMode.PADDING 1) [exCircle, exPolygon]
          (exCtx [])).gl.fillBit ⟨0, 0⟩ = false ∧
        (AirspaceVisitorRenderer.pass (exRenderer FillMode.PADDING 1) [exCircle, exPolygon]
          (exCtx [])).gl.outlineBit ⟨0, 0⟩ = false) :=
  ⟨rfl, C1_stencil_bits_zero_after_pass (exRenderer FillMode.PADDING 1) [exCircle, exPolygon]
    (exCtx []) rfl ⟨0, 0⟩⟩

namespace AirspaceVisitorRenderer

/-- The two stencil passes of `VisitPolygon` on a context with the stencil
test enabled: the first sets the fill-mask bit exactly on the fragments of the
thick border, the second clears it exactly there, and neither touches the
outline bit. -/
theorem passes_bits (self : Renderer) (pts : List PixelPoint) (x : Ctx) (p : PixelPoint) :
    (self.map.DrawPrepared pts (SetFillStencil self x)).gl.outlineBit p = x.gl.outlineBit p ∧
    (self.map.DrawPrepared pts (ClearFillStencil self x)).gl.outlineBit p = x.gl.outlineBit p ∧
    (x.gl.frag.caps Cap.GL_STENCIL_TEST = true →
      (self.map.DrawPrepared pts (SetFillStencil self x)).gl.fillBit p =
        (x.gl.fillBit p || Canvas.hollowPolygonFrags self.map.geometry pts pts.length
          self.look.thick_pen x.gl p) ∧
      (self.map.DrawPrepared pts (ClearFillStencil self x)).gl.fillBit p =
        (x.gl.fillBit p && !Canvas.hollowPolygonFrags self.map.geometry pts pts.length
          self.look.thick_pen x.gl p)) := by
  have t1 : Nat.testBit 1 1 = false := by decide
  have t10 : Nat.testBit 1 0 = true := by decide
  have t30 : Nat.testBit 3 0 = true := by decide
  have t00 : Nat.testBit 0 0 = false := by decide
  unfold MapCanvas.DrawPrepared GLState.outlineBit GLState.fillBit
  refine ⟨?_, ?_, fun hc => ⟨?_, ?_⟩⟩
  · rw [Canvas.DrawPolygon_testBit]
    · rw [SetFillStencil_gl]
    · rw [SetFillStencil_gl]; exact t1
  · rw [Canvas.DrawPolygon_testBit]
    · rw [ClearFillStencil_gl]
    · rw [ClearFillStencil_gl]; exact t1
  · rw [Canvas.DrawPolygon_hollow _ _ _ _ (SetFillStencil_brush self x), SetFillStencil_pen]
    have e : Canvas.hollowPolygonFrags self.map.geometry pts pts.length self.look.thick_pen
        (SetFillStencil self x).gl = Canvas.hollowPolygonFrags self.map.geometry pts pts.length
        self.look.thick_pen x.gl := by
      apply hollowPolygonFrags_congr
      rw [SetFillStencil_gl]
      exact ⟨rfl, rfl, rfl⟩
    rw [e]
    dsimp only
    split
    · rename_i hF
      rw [stencilAfter_replace, maskedWrite_testBit, hF] <;>
        simp [SetFillStencil_gl, hc, t10, t30]
    · rename_i hF
      simp only [Bool.not_eq_true] at hF
      rw [hF, SetFillStencil_gl, Bool.or_false]
  · rw [Canvas.DrawPolygon_hollow _ _ _ _ (ClearFillStencil_brush self x), ClearFillStencil_pen]
    have e : Canvas.hollowPolygonFrags self.map.geometry pts pts.length self.look.thick_pen
        (ClearFillStencil self x).gl = Canvas.hollowPolygonFrags self.map.geometry pts pts.length
        self.look.thick_pen x.gl := by
      apply hollowPolygonFrags_congr
      rw [ClearFillStencil_gl]
      exact ⟨rfl, rfl, rfl⟩
    rw [e]
    dsimp only
    split
    · rename_i hF
      rw [stencilAfter_zero, maskedWrite_testBit, hF] <;>
        simp [ClearFillStencil_gl, hc, t10, t00]
    · rename_i hF
      simp only [Bool.not_eq_true] at hF
      rw [hF, ClearFillStencil_gl, Bool.not_false, Bool.and_true]

end AirspaceVisitorRenderer

/-- C3: the reservation is cleared exactly when it was made. In
`AirspaceVisitorRenderer::VisitPolygon` the entries of `SetFillStencil` and
`ClearFillStencil` are `SetFillStencil, ClearFillStencil` when the polygon is
prepared, the fill block is entered and the polygon is not fully filled, and
none otherwise; both functions select the hollow brush and the thick pen,
disable colour writes and set the stencil write mask to 1; drawing the
prepared polygon after either leaves the outline bit of every pixel alone, and
under the stencil test the first sets and the second clears the fill-mask bit
on exactly the fragments of that draw; and when the fill-mask bit is zero on
entry (as it is throughout a pass) it is zero for every pixel after
`VisitPolygon` returns. -/
theorem C3_reservation_cleared_when_made (self : Renderer) (airspace : AbstractAirspace)
    (c : Ctx) (h0 : ∀ p, c.gl.fillBit p = false) :
    stencilPasses (Ctx.issued (AirspaceVisitorRenderer.VisitPolygon self airspace) c) =
      (if AirspaceVisitorRenderer.reserves self airspace then
        [Fn.SetFillStencil, Fn.ClearFillStencil] else []) ∧
    (∀ x : Ctx,
      (AirspaceVisitorRenderer.SetFillStencil self x).brush.hollow = true ∧
      (AirspaceVisitorRenderer.SetFillStencil self x).pen = self.look.thick_pen ∧
      (AirspaceVisitorRenderer.SetFillStencil self x).gl.frag.color_mask = ColorMask.none ∧
      (AirspaceVisitorRenderer.SetFillStencil self x).gl.frag.stencil_writemask = 1 ∧
      (AirspaceVisitorRenderer.ClearFillStencil self x).brush.hollow = true ∧
      (AirspaceVisitorRenderer.ClearFillStencil self x).pen = self.look.thick_pen ∧
      (AirspaceVisitorRenderer.ClearFillStencil self x).gl.frag.color_mask = ColorMask.none ∧
      (AirspaceVisitorRenderer.ClearFillStencil self x).gl.frag.stencil_writemask = 1) ∧
    (∀ (x : Ctx) (pts : List PixelPoint) (p : PixelPoint),
      (self.map.DrawPrepared pts (AirspaceVisitorRenderer.SetFillStencil self x)).gl.outlineBit p
        = x.gl.outlineBit p ∧
      (self.map.DrawPrepared pts (AirspaceVisitorRenderer.ClearFillStencil self x)).gl.outlineBit p
        = x.gl.outlineBit p ∧
      (x.gl.frag.caps Cap.GL_STENCIL_TEST = true →
        (self.map.DrawPrepared pts (AirspaceVisitorRenderer.SetFillStencil self x)).gl.fillBit p =
          (x.gl.fillBit p || Canvas.hollowPolygonFrags self.map.geometry pts pts.length
            self.look.thick_pen x.gl p) ∧
        (self.map.DrawPrepared pts (AirspaceVisitorRenderer.ClearFillStencil self x)).gl.fillBit p =
          (x.gl.fillBit p && !Canvas.hollowPolygonFrags self.map.geometry pts pts.length
            self.look.thick_pen x.gl p))) ∧
    (∀ p, (AirspaceVisitorRenderer.VisitPolygon self airspace c).gl.fillBit p = false) := by
  refine ⟨?_, fun x => ?_, fun x pts p => AirspaceVisitorRenderer.passes_bits self pts x p,
    fun p => ?_⟩
  · unfold stencilPasses Ctx.issued
    rw [AirspaceVisitorRenderer.VisitPolygon_entered]
    split <;> simp [entered]
  · refine ⟨AirspaceVisitorRenderer.SetFillStencil_brush self x,
      AirspaceVisitorRenderer.SetFillStencil_pen self x, ?_, ?_,
      AirspaceVisitorRenderer.ClearFillStencil_brush self x,
      AirspaceVisitorRenderer.ClearFillStencil_pen self x, ?_, ?_⟩
    · rw [AirspaceVisitorRenderer.SetFillStencil_gl]
    · rw [AirspaceVisitorRenderer.SetFillStencil_gl]
    · rw [AirspaceVisitorRenderer.ClearFillStencil_gl]
    · rw [AirspaceVisitorRenderer.ClearFillStencil_gl]
  · rw [AirspaceVisitorRenderer.VisitPolygon_fillBit, h0 p, Bool.false_and]

/-- C3, at a concrete input: a polygon whose thick border is reserved, from a
fresh GL state. -/
theorem C3_reservation_cleared_when_made_witness :
    (∀ p, (exCtx []).gl.fillBit p = false) ∧
    stencilPasses (Ctx.issued
        (AirspaceVisitorRenderer.VisitPolygon (exRenderer FillMode.PADDING 1) exPolygon)
        (exCtx [])) =
      [Fn.SetFillStencil, Fn.ClearFillStencil] ∧
    (AirspaceVisitorRenderer.VisitPolygon (exRenderer FillMode.PADDING 1) exPolygon
      (exCtx [])).gl.fillBit ⟨0, 0⟩ = false :=
  ⟨fun _ => Nat.zero_testBit 0,
    (C3_reservation_cleared_when_made (exRenderer FillMode.PADDING 1) exPolygon (exCtx [])
      (fun _ => Nat.zero_testBit 0)).1,
    (C3_reservation_cleared_when_made (exRenderer FillMode.PADDING 1) exPolygon (exCtx [])
      (fun _ => Nat.zero_testBit 0)).2.2.2 ⟨0, 0⟩⟩

/-- C2, evaluated where it fails: `SetupInterior(airspace, false)` with the
first `glGetError` returning `GL_INVALID_OPERATION` (0x502) calls no
`glStencilFunc`, the function in force stays `GL_ALWAYS`, which passes on a
pixel whose stencil value 2 has the outline bit set; and `VisitCircle` run
with that error on a buffer whose outline bits are set writes the fill colour
to the pixel (0, 0) (border width 0, so no outline is drawn by this visit). -/
theorem C2_fill_passes_on_outline_pixel :
    (AirspaceVisitorRenderer.SetupInterior (exRenderer FillMode.PADDING 0) exCircle false
      (exCtx [0x502])).gl.frag.stencil_func = StencilFunc.GL_ALWAYS ∧
    (AirspaceVisitorRenderer.SetupInterior (exRenderer FillMode.PADDING 0) exCircle false
      (exCtx [0x502])).gl.frag.stencilPasses 2 = true ∧
    (exOutlinedCtx [0, 0, 0x502]).gl.outlineBit ⟨0, 0⟩ = true ∧
    (exOutlinedCtx [0, 0, 0x502]).gl.color ⟨0, 0⟩ = [] ∧
    ((AirspaceVisitorRenderer.VisitCircle (exRenderer FillMode.PADDING 0) exCircle
      (exOutlinedCtx [0, 0, 0x502])).gl.color ⟨0, 0⟩).length = 1 := by
  refine ⟨?_, ?_, ?_, ?_, ?_⟩
  · rw [AirspaceVisitorRenderer.SetupInterior_gl]; rfl
  · rw [AirspaceVisitorRenderer.SetupInterior_gl]; rfl
  · decide
  · rfl
  · decide

/-- C4, evaluated where it fails: from a fresh GL state (stencil test
disabled) `Visit` of a circle with border width 1 draws the outline
(`SetupOutline` returns true, colour writes are enabled on all four channels
and the draw writes the colour of the pixel (0, 0) it covers), but the
`GLEnable<GL_STENCIL_TEST>` guard of the fill block is destroyed before the
outline is drawn, so the draw runs with the stencil test disabled and the
outline bit of the covered pixel stays zero. -/
theorem C4_outline_draw_does_not_stamp :
    (AirspaceVisitorRenderer.SetupOutline (exRenderer FillMode.PADDING 1) exCircle
      (exCtx [])).1 = true ∧
    (∀ i, exRaster i ⟨0, 0⟩ = true) ∧
    (AirspaceVisitorRenderer.Visit (exRenderer FillMode.PADDING 1) exCircle
      (exCtx [])).gl.frag.color_mask = ColorMask.all ∧
    (AirspaceVisitorRenderer.Visit (exRenderer FillMode.PADDING 1) exCircle
      (exCtx [])).gl.frag.caps Cap.GL_STENCIL_TEST = false ∧
    ((AirspaceVisitorRenderer.Visit (exRenderer FillMode.PADDING 1) exCircle
      (exCtx [])).gl.color ⟨0, 0⟩).length = 2 ∧
    (AirspaceVisitorRenderer.Visit (exRenderer FillMode.PADDING 1) exCircle
      (exCtx [])).gl.outlineBit ⟨0, 0⟩ = false := by
  refine ⟨by decide, fun _ => by simp [exRaster], by decide, by decide, by decide, by decide⟩

/-- C6: scoped guard semantics. For every capability and every prior
context, constructing `GLEnable<cap>` leaves `cap` enabled and every other
capability as it was; destroying it leaves `cap` disabled (whatever its value
before the guard was constructed) and every other capability as it was; in
particular, of two nested guards of the same capability, destroying the inner
one leaves the capability disabled while the outer guard is still alive. The
guard changes nothing else of the GL state. -/
theorem C6_GLEnable_scoped_guard (cap : Cap) (c : Ctx) :
    (∀ k, (GLEnable.ctor cap c).gl.frag.caps k = if k = cap then true else c.gl.frag.caps k) ∧
    (∀ k, (GLEnable.dtor cap c).gl.frag.caps k = if k = cap then false else c.gl.frag.caps k) ∧
    (GLEnable.dtor cap (GLEnable.ctor cap c)).gl.frag.caps cap = false ∧
    (GLEnable.dtor cap (GLEnable.ctor cap (GLEnable.ctor cap c))).gl.frag.caps cap = false ∧
    (GLEnable.ctor cap c).gl = { c.gl with frag := { c.gl.frag with
      caps := (GLEnable.ctor cap c).gl.frag.caps } } ∧
    (GLEnable.dtor cap c).gl = { c.gl with frag := { c.gl.frag with
      caps := (GLEnable.dtor cap c).gl.frag.caps } } := by
  refine ⟨fun k => ?_, fun k => ?_, ?_, ?_, ?_, ?_⟩ <;> simp [GLEnable.ctor_gl, GLEnable.dtor_gl]

theorem visited_of_ext {P : Ev → Bool} (hP : ∀ e, P e = true → e.notVisit = true) {a b : Ctx}
    (h : TraceExt P a b) : visited b.trace = visited a.trace :=
  TraceExt.filterMap_eq _ (fun e he => by
    have := hP e he
    cases e with
    | enter fn => cases fn <;> first | rfl | (simp [Ev.notVisit] at this)
    | gl s k => rfl
    | log t k => rfl
    | lib k => rfl) h

theorem isCheap_notVisit (e : Ev) (h : e.isCheap = true) : e.notVisit = true :=
  isPrecise_notVisit e (isSetup_isPrecise e (isCheap_isSetup e h))

theorem isCheap_leavesStencil (e : Ev) (h : e.isCheap = true) : e.leavesStencil = true := by
  unfold Ev.leavesStencil
  rw [isCheap_not_touchesStencil e h]
  rfl

theorem TraceExt.mem {P : Ev → Bool} {a b : Ctx} (h : TraceExt P a b) {e : Ev}
    (he : e ∈ a.trace) : e ∈ b.trace := by
  obtain ⟨evs, t, -⟩ := h
  rw [t]
  exact List.mem_append_left _ he

theorem TraceExt.issued_all {P : Ev → Bool} (f : Ctx → Ctx)
    (h : ∀ x, TraceExt P x (f x)) (c : Ctx) : (Ctx.issued f c).all P = true := by
  obtain ⟨evs, t, p⟩ := h { c with trace := [] }
  unfold Ctx.issued
  rw [t]
  simpa using p

theorem AirspaceFillRenderer.pass_leavesStencil (self : Renderer)
    (shapes : List AbstractAirspace) (c : Ctx) :
    TraceExt Ev.leavesStencil c (AirspaceFillRenderer.pass self shapes c) := by
  unfold AirspaceFillRenderer.pass
  exact ((AirspaceFillRenderer.ctor_cheap c).mono isCheap_leavesStencil).trans
    (foldl_visit_ext _ (fun _ => rfl)
      (fun a x => (AirspaceFillRenderer.Visit_cheap self a x).mono isCheap_leavesStencil) _ _)

theorem AirspaceFillRenderer.fill_pass_visited (self : Renderer)
    (shapes : List AbstractAirspace) (c : Ctx) :
    visited (AirspaceFillRenderer.pass self shapes c).trace = visited c.trace ++ shapes := by
  unfold AirspaceFillRenderer.pass
  rw [foldl_visit_visited _ isCheap_notVisit (AirspaceFillRenderer.Visit_cheap self),
    visited_of_ext isCheap_notVisit (AirspaceFillRenderer.ctor_cheap c)]

theorem AirspaceVisitorRenderer.visitor_pass_visited (self : Renderer)
    (shapes : List AbstractAirspace) (c : Ctx) :
    visited (AirspaceVisitorRenderer.pass self shapes c).trace = visited c.trace ++ shapes := by
  unfold AirspaceVisitorRenderer.pass
  rw [visited_of_ext isPrecise_notVisit (AirspaceVisitorRenderer.dtor_precise _),
    foldl_visit_visited _ isPrecise_notVisit (AirspaceVisitorRenderer.Visit_precise self),
    visited_of_ext isPrecise_notVisit (AirspaceVisitorRenderer.ctor_precise c)]

theorem anyEvent_diag : AcceptsDiag (fun _ => true) := ⟨fun _ => rfl, fun _ _ => rfl⟩

theorem AirspaceVisitorRenderer.pass_clears (self : Renderer)
    (shapes : List AbstractAirspace) (c : Ctx) :
    Ev.gl Site.direct GLCall.glClear_STENCIL_BUFFER_BIT ∈
      (AirspaceVisitorRenderer.pass self shapes c).trace := by
  unfold AirspaceVisitorRenderer.pass
  refine TraceExt.mem ((AirspaceVisitorRenderer.dtor_precise _).mono (fun _ _ => rfl)) ?_
  refine TraceExt.mem (foldl_visit_ext (fun a x => AirspaceVisitorRenderer.Visit self a x)
    (fun _ => rfl)
    (fun a x => (AirspaceVisitorRenderer.Visit_precise self a x).mono (fun _ _ => rfl)) _ _) ?_
  unfold AirspaceVisitorRenderer.ctor
  dsimp only
  refine TraceExt.mem (TraceExt.step_check anyEvent_diag _ (TraceExt.step_call (by rfl)
    (TraceExt.step_check anyEvent_diag _ (TraceExt.refl _ _)))) ?_
  simp

/-- C5: mode selection. `AirspaceRenderer::DrawInternal` runs the cheap
renderer (`AirspaceFillRenderer`) when the global `settings.fill_mode` is
`ALL` or `NONE` and the precise renderer otherwise, in both cases over the
airspaces of the range that satisfy the visible predicate, in range order: the
airspaces `Visit` is entered for are exactly those. In the cheap mode no
event touches stencil state (no `glStencilFunc`, `glStencilMask`,
`glStencilOp`, no stencil clear, no switching of the stencil test), whatever
the shapes; in the other mode the stencil clear of the precise renderer is
issued, so the cheap renderer runs if and only if the mode is `ALL` or
`NONE`. -/
theorem C5_mode_selection (self : Renderer) (range : List AbstractAirspace)
    (visible : AbstractAirspace → Bool) (c : Ctx) :
    AirspaceRenderer.DrawInternal self range visible c =
      (if self.settings.fill_mode = FillMode.ALL ∨ self.settings.fill_mode = FillMode.NONE then
        AirspaceFillRenderer.pass self (range.filter visible) c
      else AirspaceVisitorRenderer.pass self (range.filter visible) c) ∧
    (if self.settings.fill_mode = FillMode.ALL ∨ self.settings.fill_mode = FillMode.NONE then
      (Ctx.issued (AirspaceRenderer.DrawInternal self range visible) c).all Ev.leavesStencil = true
    else
      (Ctx.issued (AirspaceRenderer.DrawInternal self range visible) c).any Ev.isStencilClear
        = true) ∧
    visited (Ctx.issued (AirspaceRenderer.DrawInternal self range visible) c) =
      range.filter visible := by
  have e : ∀ x : Ctx, AirspaceRenderer.DrawInternal self range visible x =
      (if self.settings.fill_mode = FillMode.ALL ∨ self.settings.fill_mode = FillMode.NONE then
        AirspaceFillRenderer.pass self (range.filter visible) x
      else AirspaceVisitorRenderer.pass self (range.filter visible) x) := by
    intro x
    unfold AirspaceRenderer.DrawInternal AirspaceFillRenderer.pass AirspaceVisitorRenderer.pass
    dsimp only
    split
    · rw [foldl_filter_visit (fun a c => AirspaceFillRenderer.Visit self a c)]
    · rw [foldl_filter_visit (fun a c => AirspaceVisitorRenderer.Visit self a c)]
  refine ⟨e c, ?_, ?_⟩
  · unfold Ctx.issued
    rw [e]
    split
    · obtain ⟨evs, t, p⟩ := AirspaceFillRenderer.pass_leavesStencil self (range.filter visible)
        { c with trace := [] }
      rw [t]
      simpa using p
    · rw [List.any_eq_true]
      exact ⟨_, AirspaceVisitorRenderer.pass_clears self _ _, by simp [Ev.isStencilClear]⟩
  · unfold Ctx.issued
    rw [e]
    split
    · rw [AirspaceFillRenderer.fill_pass_visited]
      simp [visited]
    · rw [AirspaceVisitorRenderer.visitor_pass_visited]
      simp [visited]

/-- C5, at concrete inputs: in mode `ALL` a circle and a polygon are drawn by
the cheap renderer without touching stencil state. -/
theorem C5_mode_selection_witness :
    (Ctx.issued (AirspaceRenderer.DrawInternal (exRenderer FillMode.ALL 1)
      [exCircle, exPolygon] (fun _ => true)) (exCtx [])).all Ev.leavesStencil = true ∧
    visited (Ctx.issued (AirspaceRenderer.DrawInternal (exRenderer FillMode.ALL 1)
      [exCircle, exPolygon] (fun _ => true)) (exCtx [])) = [exCircle, exPolygon] :=
  ⟨(C5_mode_selection (exRenderer FillMode.ALL 1) [exCircle, exPolygon] (fun _ => true)
      (exCtx [])).2.1,
    (C5_mode_selection (exRenderer FillMode.ALL 1) [exCircle, exPolygon] (fun _ => true)
      (exCtx [])).2.2⟩

/-! ## Traces of the canvas operations -/

theorem plain_Use (p : Shader) {a b : Ctx} (h : TraceExt Ev.isPlain a b) :
    TraceExt Ev.isPlain a (GLProgram.Use p b) :=
  TraceExt.step_Use isPlain_diag p (by rfl) h

theorem plain_vp_Update (t : VType) (d : List Vertex) {a b : Ctx} (h : TraceExt Ev.isPlain a b) :
    TraceExt Ev.isPlain a (ScopeVertexPointer.Update t d b) := by
  unfold ScopeVertexPointer.Update
  exact TraceExt.step_check isPlain_diag _ (TraceExt.step_call (by rfl) h)

theorem plain_vp_ctor (t : VType) (d : List Vertex) {a b : Ctx} (h : TraceExt Ev.isPlain a b) :
    TraceExt Ev.isPlain a (ScopeVertexPointer.ctor t d b) := by
  unfold ScopeVertexPointer.ctor
  exact plain_vp_Update _ _ (TraceExt.step_check isPlain_diag _ (TraceExt.step_call (by rfl) h))

theorem plain_vp_dtor {a b : Ctx} (h : TraceExt Ev.isPlain a b) :
    TraceExt Ev.isPlain a (ScopeVertexPointer.dtor b) := by
  unfold ScopeVertexPointer.dtor
  exact TraceExt.step_check isPlain_diag _ (TraceExt.step_call (by rfl) h)

theorem plain_DrawFilledRectangle (r : PixelRect) (color : Color) {a b : Ctx}
    (h : TraceExt Ev.isPlain a b) : TraceExt Ev.isPlain a (Canvas.DrawFilledRectangle r color b) := by
  unfold Canvas.DrawFilledRectangle
  exact GLDrawRectangle_plain _ (TraceExt.step_lib (by rfl) (plain_Use _ h))

theorem plain_DrawOutlineRectangleGL (r : PixelRect) {a b : Ctx}
    (h : TraceExt Ev.isPlain a b) : TraceExt Ev.isPlain a (Canvas.DrawOutlineRectangleGL r b) := by
  unfold Canvas.DrawOutlineRectangleGL
  exact plain_vp_dtor (TraceExt.step_check isPlain_diag _ (TraceExt.step_call (by rfl)
    (plain_vp_ctor _ _ h)))

theorem plain_DrawOutlineRectangle (r : PixelRect) {a b : Ctx}
    (h : TraceExt Ev.isPlain a b) : TraceExt Ev.isPlain a (Canvas.DrawOutlineRectangle r b) := by
  unfold Canvas.DrawOutlineRectangle
  exact TraceExt.step_lib (by rfl) (plain_DrawOutlineRectangleGL _
    (TraceExt.step_lib (by rfl) (plain_Use _ h)))

theorem plain_DrawOutlineRectangleColor (r : PixelRect) (color : Color) {a b : Ctx}
    (h : TraceExt Ev.isPlain a b) :
    TraceExt Ev.isPlain a (Canvas.DrawOutlineRectangleColor r color b) := by
  unfold Canvas.DrawOutlineRectangleColor
  exact plain_DrawOutlineRectangleGL _ (TraceExt.step_check isPlain_diag _
    (TraceExt.step_call (by rfl) (TraceExt.step_lib (by rfl) (plain_Use _ h))))

theorem plain_DrawPolyline (points : List PixelPoint) (n : Nat) {a b : Ctx}
    (h : TraceExt Ev.isPlain a b) : TraceExt Ev.isPlain a (Canvas.DrawPolyline points n b) := by
  unfold Canvas.DrawPolyline
  exact plain_vp_dtor (TraceExt.step_lib (by rfl) (TraceExt.step_check isPlain_diag _
    (TraceExt.step_call (by rfl) (plain_vp_ctor _ _ (TraceExt.step_lib (by rfl)
      (plain_Use _ h))))))

theorem plain_DrawTriangleFan (G : Geometry) (points : List PixelPoint) (n : Nat) {a b : Ctx}
    (h : TraceExt Ev.isPlain a b) : TraceExt Ev.isPlain a (Canvas.DrawTriangleFan G points n b) := by
  unfold Canvas.DrawTriangleFan
  dsimp only
  repeat' split
  all_goals
    repeat (first
      | (with_reducible exact h)
      | (with_reducible apply plain_vp_dtor)
      | (with_reducible apply plain_vp_ctor)
      | (with_reducible apply plain_vp_Update)
      | (with_reducible apply plain_Use)
      | (with_reducible apply TraceExt.step_check isPlain_diag)
      | ((with_reducible refine TraceExt.step_call ?_ ?_); rfl)
      | ((with_reducible refine TraceExt.step_lib ?_ ?_); rfl))

theorem plain_DrawHLine (x1 x2 y : Int) (color : Color) {a b : Ctx}
    (h : TraceExt Ev.isPlain a b) : TraceExt Ev.isPlain a (Canvas.DrawHLine x1 x2 y color b) := by
  unfold Canvas.DrawHLine
  exact plain_vp_dtor (TraceExt.step_check isPlain_diag _ (TraceExt.step_call (by rfl)
    (plain_vp_ctor _ _ (TraceExt.step_lib (by rfl) h))))

theorem plain_DrawLine (L : CanvasLib) (p q : PixelPoint) {a b : Ctx}
    (h : TraceExt Ev.isPlain a b) : TraceExt Ev.isPlain a (Canvas.DrawLine L p q b) := by
  unfold Canvas.DrawLine
  dsimp only
  repeat' split
  all_goals
    repeat (first
      | (with_reducible exact h)
      | (with_reducible apply plain_vp_dtor)
      | (with_reducible apply plain_vp_ctor)
      | (with_reducible apply plain_Use)
      | (with_reducible apply TraceExt.step_check isPlain_diag)
      | ((with_reducible refine TraceExt.step_call ?_ ?_); rfl)
      | ((with_reducible refine TraceExt.step_lib ?_ ?_); rfl))

theorem plain_DrawExactLine (p q : PixelPoint) {a b : Ctx}
    (h : TraceExt Ev.isPlain a b) : TraceExt Ev.isPlain a (Canvas.DrawExactLine p q b) := by
  unfold Canvas.DrawExactLine
  exact plain_vp_dtor (TraceExt.step_lib (by rfl) (TraceExt.step_check isPlain_diag _
    (TraceExt.step_call (by rfl) (plain_vp_ctor _ _ (TraceExt.step_lib (by rfl)
      (plain_Use _ h))))))

theorem plain_DrawLinePiece (G : Geometry) (p q : PixelPoint) {a b : Ctx}
    (h : TraceExt Ev.isPlain a b) : TraceExt Ev.isPlain a (Canvas.DrawLinePiece G p q b) := by
  unfold Canvas.DrawLinePiece
  dsimp only
  repeat' split
  all_goals
    repeat (first
      | (with_reducible exact h)
      | (with_reducible apply plain_vp_dtor)
      | (with_reducible apply plain_vp_ctor)
      | (with_reducible apply plain_Use)
      | (with_reducible apply TraceExt.step_check isPlain_diag)
      | ((with_reducible refine TraceExt.step_call ?_ ?_); rfl)
      | ((with_reducible refine TraceExt.step_lib ?_ ?_); rfl))

theorem plain_DrawTwoLines (p q r : PixelPoint) {a b : Ctx}
    (h : TraceExt Ev.isPlain a b) : TraceExt Ev.isPlain a (Canvas.DrawTwoLines p q r b) := by
  unfold Canvas.DrawTwoLines
  exact plain_vp_dtor (TraceExt.step_lib (by rfl) (TraceExt.step_check isPlain_diag _
    (TraceExt.step_call (by rfl) (plain_vp_ctor _ _ (TraceExt.step_lib (by rfl)
      (plain_Use _ h))))))

theorem plain_DrawTwoLinesExact (p q r : PixelPoint) {a b : Ctx}
    (h : TraceExt Ev.isPlain a b) : TraceExt Ev.isPlain a (Canvas.DrawTwoLinesExact p q r b) := by
  unfold Canvas.DrawTwoLinesExact
  exact plain_vp_dtor (TraceExt.step_lib (by rfl) (TraceExt.step_check isPlain_diag _
    (TraceExt.step_call (by rfl) (plain_vp_ctor _ _ (TraceExt.step_lib (by rfl)
      (plain_Use _ h))))))

theorem plain_TextureDraw (t : GLTexture) (dest src : PixelRect) {a b : Ctx}
    (h : TraceExt Ev.isPlain a b) : TraceExt Ev.isPlain a (t.Draw dest src b) := by
  unfold GLTexture.Draw
  dsimp only
  repeat (first
    | (with_reducible exact h)
    | (with_reducible apply plain_vp_dtor)
    | (with_reducible apply plain_vp_ctor)
    | (with_reducible apply TraceExt.step_check isPlain_diag)
    | ((with_reducible refine TraceExt.step_call ?_ ?_); rfl))

theorem plain_TextureBind (t : GLTexture) {a b : Ctx}
    (h : TraceExt Ev.isPlain a b) : TraceExt Ev.isPlain a (t.Bind b) :=
  TraceExt.step_lib (by rfl) h

theorem plain_PrepareColoredAlphaTexture (color : Color) {a b : Ctx}
    (h : TraceExt Ev.isPlain a b) : TraceExt Ev.isPlain a (PrepareColoredAlphaTexture color b) :=
  TraceExt.step_lib (by rfl) (plain_Use _ h)

theorem setup_of_plain {f : Ctx → Ctx} (hf : ∀ b, TraceExt Ev.isPlain b (f b)) {a b : Ctx}
    (h : TraceExt Ev.isSetup a b) : TraceExt Ev.isSetup a (f b) :=
  h.trans ((hf b).mono isPlain_isSetup)

theorem setup_ScopeAlphaBlend_ctor {a b : Ctx} (h : TraceExt Ev.isSetup a b) :
    TraceExt Ev.isSetup a (ScopeAlphaBlend.ctor b) := by
  unfold ScopeAlphaBlend.ctor GLBlend.ctor
  exact TraceExt.step_check isSetup_diag _ (TraceExt.step_call (by rfl)
    (GLEnable.ctor_setup _ h))

theorem setup_ScopeAlphaBlend_dtor {a b : Ctx} (h : TraceExt Ev.isSetup a b) :
    TraceExt Ev.isSetup a (ScopeAlphaBlend.dtor b) := by
  unfold ScopeAlphaBlend.dtor GLBlend.dtor
  exact GLEnable.dtor_setup _ h

theorem setup_TextureDraw (t : GLTexture) (dest src : PixelRect) {a b : Ctx}
    (h : TraceExt Ev.isSetup a b) : TraceExt Ev.isSetup a (t.Draw dest src b) :=
  setup_of_plain (fun b => plain_TextureDraw t dest src (TraceExt.refl _ b)) h

theorem setup_TextureBind (t : GLTexture) {a b : Ctx}
    (h : TraceExt Ev.isSetup a b) : TraceExt Ev.isSetup a (t.Bind b) :=
  setup_of_plain (fun b => plain_TextureBind t (TraceExt.refl _ b)) h

theorem setup_PrepareColoredAlphaTexture (color : Color) {a b : Ctx}
    (h : TraceExt Ev.isSetup a b) : TraceExt Ev.isSetup a (PrepareColoredAlphaTexture color b) :=
  setup_of_plain (fun b => plain_PrepareColoredAlphaTexture color (TraceExt.refl _ b)) h

theorem setup_DrawFilledRectangle (r : PixelRect) (color : Color) {a b : Ctx}
    (h : TraceExt Ev.isSetup a b) : TraceExt Ev.isSetup a (Canvas.DrawFilledRectangle r color b) :=
  setup_of_plain (fun b => plain_DrawFilledRectangle r color (TraceExt.refl _ b)) h

theorem setup_FadeToWhite (alpha : Nat) (b : Ctx) :
    TraceExt Ev.isSetup b (Canvas.FadeToWhite alpha b) := by
  unfold Canvas.FadeToWhite
  exact setup_ScopeAlphaBlend_dtor (TraceExt.step_lib (by rfl)
    (setup_ScopeAlphaBlend_ctor (TraceExt.refl _ _)))

theorem setup_FadeToWhiteRect (rc : PixelRect) (alpha : Nat) (b : Ctx) :
    TraceExt Ev.isSetup b (Canvas.FadeToWhiteRect rc alpha b) := by
  unfold Canvas.FadeToWhiteRect
  exact setup_ScopeAlphaBlend_dtor (setup_DrawFilledRectangle _ _
    (setup_ScopeAlphaBlend_ctor (TraceExt.refl _ _)))

theorem setup_DrawText (L : CanvasLib) (p : PixelPoint) (text : Text) (b : Ctx) :
    TraceExt Ev.isSetup b (Canvas.DrawText L p text b) := by
  unfold Canvas.DrawText GLTexture.DrawAt
  dsimp only
  repeat' split
  all_goals
    repeat (first
      | (with_reducible exact TraceExt.refl _ _)
      | (with_reducible apply setup_ScopeAlphaBlend_dtor)
      | (with_reducible apply setup_ScopeAlphaBlend_ctor)
      | (with_reducible apply setup_TextureDraw)
      | (with_reducible apply setup_TextureBind)
      | (with_reducible apply setup_PrepareColoredAlphaTexture)
      | (with_reducible apply setup_DrawFilledRectangle))

theorem setup_DrawTransparentText (L : CanvasLib) (p : PixelPoint) (text : Text) (b : Ctx) :
    TraceExt Ev.isSetup b (Canvas.DrawTransparentText L p text b) := by
  unfold Canvas.DrawTransparentText GLTexture.DrawAt
  dsimp only
  repeat' split
  all_goals
    repeat (first
      | (with_reducible exact TraceExt.refl _ _)
      | (with_reducible apply setup_ScopeAlphaBlend_dtor)
      | (with_reducible apply setup_ScopeAlphaBlend_ctor)
      | (with_reducible apply setup_TextureDraw)
      | (with_reducible apply setup_TextureBind)
      | (with_reducible apply setup_PrepareColoredAlphaTexture))

theorem setup_DrawClippedText (L : CanvasLib) (p : PixelPoint) (size : PixelSize) (text : Text)
    (b : Ctx) : TraceExt Ev.isSetup b (Canvas.DrawClippedText L p size text b) := by
  unfold Canvas.DrawClippedText
  dsimp only
  split
  · exact TraceExt.refl _ _
  · split
    · exact TraceExt.refl _ _
    · split
      · exact TraceExt.refl _ _
      · exact setup_ScopeAlphaBlend_dtor (setup_TextureDraw _ _ _ (setup_TextureBind _
          (setup_ScopeAlphaBlend_ctor (setup_PrepareColoredAlphaTexture _ (TraceExt.refl _ _)))))

theorem setup_StretchMono (dp : PixelPoint) (ds : PixelSize) (src : Bitmap) (sp : PixelPoint)
    (ss : PixelSize) (fg : Color) (b : Ctx) :
    TraceExt Ev.isSetup b (Canvas.StretchMono dp ds src sp ss fg b) := by
  unfold Canvas.StretchMono
  exact setup_ScopeAlphaBlend_dtor (setup_TextureDraw _ _ _ (setup_TextureBind _
    (setup_ScopeAlphaBlend_ctor (setup_PrepareColoredAlphaTexture _ (TraceExt.refl _ _)))))

/-- Every canvas operation other than `InvertRectangle` issues only plain
drawing events, guard events and blend-function calls. -/
theorem perform_setup (L : CanvasLib) (op : CanvasOp) (h : op.isInvertRectangle = false)
    (b : Ctx) : TraceExt Ev.isSetup b (Canvas.perform L op b) := by
  cases op with
  | InvertRectangle r => simp [CanvasOp.isInvertRectangle] at h
  | DrawFilledRectangle r color => exact setup_DrawFilledRectangle r color (TraceExt.refl _ _)
  | DrawOutlineRectangle r =>
    exact (plain_DrawOutlineRectangle r (TraceExt.refl _ b)).mono isPlain_isSetup
  | DrawOutlineRectangleColor r color =>
    exact (plain_DrawOutlineRectangleColor r color (TraceExt.refl _ b)).mono isPlain_isSetup
  | FadeToWhite alpha => exact setup_FadeToWhite alpha b
  | FadeToWhiteRect rc alpha => exact setup_FadeToWhiteRect rc alpha b
  | DrawPolyline points n =>
    exact (plain_DrawPolyline points n (TraceExt.refl _ b)).mono isPlain_isSetup
  | DrawPolygon points n =>
    exact (Canvas.DrawPolygon_plain L.geometry points n (TraceExt.refl _ b)).mono isPlain_isSetup
  | DrawTriangleFan points n =>
    exact (plain_DrawTriangleFan L.geometry points n (TraceExt.refl _ b)).mono isPlain_isSetup
  | DrawHLine x1 x2 y color =>
    exact (plain_DrawHLine x1 x2 y color (TraceExt.refl _ b)).mono isPlain_isSetup
  | DrawLine p q => exact (plain_DrawLine L p q (TraceExt.refl _ b)).mono isPlain_isSetup
  | DrawExactLine p q => exact (plain_DrawExactLine p q (TraceExt.refl _ b)).mono isPlain_isSetup
  | DrawLinePiece p q =>
    exact (plain_DrawLinePiece L.geometry p q (TraceExt.refl _ b)).mono isPlain_isSetup
  | DrawTwoLines p q r =>
    exact (plain_DrawTwoLines p q r (TraceExt.refl _ b)).mono isPlain_isSetup
  | DrawTwoLinesExact p q r =>
    exact (plain_DrawTwoLinesExact p q r (TraceExt.refl _ b)).mono isPlain_isSetup
  | DrawCircle center radius =>
    exact (DrawCircle_plain_refl center radius b).mono isPlain_isSetup
  | DrawSegment center radius start stop horizon =>
    exact TraceExt.step_lib (by rfl) (TraceExt.refl _ _)
  | DrawArc center radius start stop => exact TraceExt.step_lib (by rfl) (TraceExt.refl _ _)
  | DrawAnnulus center small big start stop =>
    exact TraceExt.step_lib (by rfl) (TraceExt.refl _ _)
  | DrawKeyhole center small big start stop =>
    exact TraceExt.step_lib (by rfl) (TraceExt.refl _ _)
  | DrawFocusRectangle rc =>
    exact (plain_DrawOutlineRectangleColor rc L.COLOR_DARK_GRAY (TraceExt.refl _ b)).mono
      isPlain_isSetup
  | DrawText p text => exact setup_DrawText L p text b
  | DrawTransparentText p text => exact setup_DrawTransparentText L p text b
  | DrawClippedText p size text => exact setup_DrawClippedText L p size text b
  | StretchTexturePart dp ds texture sp ss =>
    exact setup_TextureDraw _ _ _ (setup_of_plain (fun b => plain_Use _ (TraceExt.refl _ b))
      (TraceExt.refl _ _))
  | StretchTexture dp ds texture =>
    exact setup_TextureDraw _ _ _ (setup_of_plain (fun b => plain_Use _ (TraceExt.refl _ b))
      (TraceExt.refl _ _))
  | StretchBitmapPart dp ds src sp ss =>
    exact setup_TextureDraw _ _ _ (setup_TextureBind _
      (setup_of_plain (fun b => plain_Use _ (TraceExt.refl _ b)) (TraceExt.refl _ _)))
  | StretchBitmap dp ds src =>
    exact setup_TextureDraw _ _ _ (setup_TextureBind _
      (setup_of_plain (fun b => plain_Use _ (TraceExt.refl _ b)) (TraceExt.refl _ _)))
  | CopyPart dp ds src sp =>
    exact setup_TextureDraw _ _ _ (setup_TextureBind _
      (setup_of_plain (fun b => plain_Use _ (TraceExt.refl _ b)) (TraceExt.refl _ _)))
  | Copy src =>
    exact setup_TextureDraw _ _ _ (setup_TextureBind _
      (setup_of_plain (fun b => plain_Use _ (TraceExt.refl _ b)) (TraceExt.refl _ _)))
  | StretchNot src =>
    exact setup_TextureDraw _ _ _ (setup_TextureBind _
      (setup_of_plain (fun b => plain_Use _ (TraceExt.refl _ b)) (TraceExt.refl _ _)))
  | StretchMono dp ds src sp ss fg => exact setup_StretchMono dp ds src sp ss fg b
  | CopyToTexture texture src_rc =>
    exact TraceExt.step_check isSetup_diag _ (TraceExt.step_call (by rfl)
      (setup_TextureBind _ (TraceExt.refl _ _)))
  | DrawRoundRectangle r ellipse_size => exact TraceExt.step_lib (by rfl) (TraceExt.refl _ _)

theorem any_of_plain {f : Ctx → Ctx} (hf : ∀ b, TraceExt Ev.isPlain b (f b)) {a b : Ctx}
    (h : TraceExt (fun _ => true) a b) : TraceExt (fun _ => true) a (f b) :=
  h.trans ((hf b).mono (fun _ _ => rfl))

theorem all_false_of_mem {P : Ev → Bool} {l : List Ev} {e : Ev} (he : e ∈ l)
    (hP : P e = false) : l.all P = false := by
  cases h : l.all P with
  | false => rfl
  | true =>
    rw [List.all_eq_true] at h
    rw [h e he] at hP
    exact absurd hP (by decide)

theorem InvertRectangle_direct (r : PixelRect) (c : Ctx) :
    (Ctx.issued (Canvas.InvertRectangle r) c).all Ev.noDirectCapChange = false := by
  refine all_false_of_mem (e := Ev.gl Site.direct (GLCall.glEnable Cap.GL_BLEND)) ?_ rfl
  unfold Ctx.issued Canvas.InvertRectangle
  dsimp only
  refine TraceExt.mem (TraceExt.step_check anyEvent_diag _ (TraceExt.step_call (by rfl)
    (TraceExt.step_check anyEvent_diag _ (TraceExt.step_call (by rfl)
      (any_of_plain (fun b => plain_DrawFilledRectangle r _ (TraceExt.refl _ b))
        (TraceExt.step_check anyEvent_diag _ (TraceExt.step_call (by rfl)
          (TraceExt.step_check anyEvent_diag _ (TraceExt.refl _ _))))))))) ?_
  simp [Ctx.call]

theorem DrawInternal_guarded (self : Renderer) (range : List AbstractAirspace)
    (visible : AbstractAirspace → Bool) (c : Ctx) :
    TraceExt Ev.noDirectCapChange c (AirspaceRenderer.DrawInternal self range visible c) := by
  unfold AirspaceRenderer.DrawInternal
  dsimp only
  split
  · rw [foldl_filter_visit (fun a c => AirspaceFillRenderer.Visit self a c)]
    exact ((AirspaceFillRenderer.ctor_cheap c).mono
        (fun e h => isSetup_noDirectCapChange e (isCheap_isSetup e h))).trans
      (foldl_visit_ext _ (fun _ => rfl)
        (fun a x => (AirspaceFillRenderer.Visit_cheap self a x).mono
          (fun e h => isSetup_noDirectCapChange e (isCheap_isSetup e h))) _ _)
  · rw [foldl_filter_visit (fun a c => AirspaceVisitorRenderer.Visit self a c)]
    exact (((AirspaceVisitorRenderer.ctor_precise c).mono isPrecise_noDirectCapChange).trans
      (foldl_visit_ext _ (fun _ => rfl)
        (fun a x => (AirspaceVisitorRenderer.Visit_precise self a x).mono
          isPrecise_noDirectCapChange) _ _)).trans
      ((AirspaceVisitorRenderer.dtor_precise _).mono isPrecise_noDirectCapChange)

theorem TextureAlpha_ctor_direct (use_texture_alpha : Bool) (alpha : GLfloat) (c : Ctx) :
    (Ctx.issued (ScopeTextureConstantAlpha.ctor use_texture_alpha alpha) c).all
      Ev.noDirectCapChange = !ScopeTextureConstantAlpha.enabled use_texture_alpha alpha := by
  cases hen : ScopeTextureConstantAlpha.enabled use_texture_alpha alpha with
  | false =>
    refine TraceExt.issued_all _ (fun x => ?_) c
    unfold ScopeTextureConstantAlpha.ctor
    simp only [hen, Bool.not_false, if_true]
    exact (plain_Use _ (TraceExt.refl _ x)).mono
      (fun e h => isSetup_noDirectCapChange e (isPlain_isSetup e h))
  | true =>
    refine all_false_of_mem (e := Ev.gl Site.direct (GLCall.glEnable Cap.GL_BLEND)) ?_ rfl
    unfold Ctx.issued ScopeTextureConstantAlpha.ctor CombineAlpha
    simp only [hen, Bool.not_true, Bool.false_eq_true, if_false]
    have base : ∀ x : Ctx, Ev.gl Site.direct (GLCall.glEnable Cap.GL_BLEND) ∈
        (checkError "DXDX" (Ctx.call (GLCall.glEnable Cap.GL_BLEND) x)).trace := by
      intro x
      refine TraceExt.mem (TraceExt.step_check anyEvent_diag _ (TraceExt.refl _ _)) ?_
      simp [Ctx.call]
    repeat' split
    all_goals
      refine TraceExt.mem (P := fun _ => true) ?_ (base (GLProgram.Use Shader.texture_shader { c with trace := [] }))
      repeat (first
        | (with_reducible exact TraceExt.refl _ _)
        | (with_reducible apply TraceExt.step_check anyEvent_diag)
        | (with_reducible refine any_of_plain (fun b => plain_Use _ (TraceExt.refl _ b)) ?_)
        | ((with_reducible refine TraceExt.step_call ?_ ?_); rfl))

theorem TextureAlpha_dtor_direct (enabled : Bool) (c : Ctx) :
    (Ctx.issued (ScopeTextureConstantAlpha.dtor enabled) c).all Ev.noDirectCapChange =
      !enabled := by
  cases enabled with
  | false =>
    refine TraceExt.issued_all _ (fun x => ?_) c
    unfold ScopeTextureConstantAlpha.dtor
    simp only [Bool.false_eq_true, if_false]
    exact (plain_Use _ (TraceExt.step_check isPlain_diag _ (TraceExt.refl _ x))).mono
      (fun e h => isSetup_noDirectCapChange e (isPlain_isSetup e h))
  | true =>
    refine all_false_of_mem (e := Ev.gl Site.direct (GLCall.glDisable Cap.GL_BLEND)) ?_ rfl
    unfold Ctx.issued ScopeTextureConstantAlpha.dtor
    simp only [if_true]
    refine TraceExt.mem (any_of_plain (fun b => plain_Use _ (TraceExt.refl _ b))
      (TraceExt.step_check anyEvent_diag _ (TraceExt.refl _ _))) ?_
    simp [Ctx.call]

theorem caps_change_by_switch (g : GLState) (e : Ev) :
    (g.step e).frag.caps = g.frag.caps ∨ e.isGuardChange = true ∨
      e.noDirectCapChange = false := by
  cases e with
  | gl site call =>
    cases site <;> cases call <;>
      simp [GLState.step, GLState.apply, FragState.apply, Ev.isGuardChange,
        Ev.noDirectCapChange, GLState.draw]
  | log tag code => exact Or.inl rfl
  | lib call => cases call <;> exact Or.inl rfl
  | enter fn => exact Or.inl rfl

/-- C7, as stated, fails at `Canvas::InvertRectangle` and at
`ScopeTextureConstantAlpha`: inverting the rectangle (0,0)-(10,10) issues a
direct `glEnable(GL_BLEND)` and a direct `glDisable(GL_BLEND)`, and so do the
constructor and the destructor of an enabled `ScopeTextureConstantAlpha`;
none of these capability changes is made by a `GLEnable` guard. -/
theorem C7_direct_blend_switch_in_InvertRectangle :
    Ev.gl Site.direct (GLCall.glEnable Cap.GL_BLEND) ∈
      Ctx.issued (Canvas.perform exLib (CanvasOp.InvertRectangle ⟨0, 0, 10, 10⟩)) (exCtx []) ∧
    Ev.gl Site.direct (GLCall.glDisable Cap.GL_BLEND) ∈
      Ctx.issued (Canvas.perform exLib (CanvasOp.InvertRectangle ⟨0, 0, 10, 10⟩)) (exCtx []) ∧
    (Ctx.issued (Canvas.perform exLib (CanvasOp.InvertRectangle ⟨0, 0, 10, 10⟩))
      (exCtx [])).all Ev.noDirectCapChange = false ∧
    Ev.gl Site.direct (GLCall.glEnable Cap.GL_BLEND) ∈
      Ctx.issued (ScopeTextureConstantAlpha.ctor true 1) (exCtx []) ∧
    Ev.gl Site.direct (GLCall.glDisable Cap.GL_BLEND) ∈
      Ctx.issued (ScopeTextureConstantAlpha.dtor true) (exCtx []) := by
  decide

/-- C7, amended: capability state is switched only through `GLEnable` guards
by every operation of `Canvas.cpp` except `InvertRectangle`, by both airspace
renderers, and by a `ScopeTextureConstantAlpha` that is not enabled. For each
canvas operation the GL call trace is free of direct `glEnable`/`glDisable`
calls exactly when the operation is not `InvertRectangle`; the trace of
`AirspaceRenderer::DrawInternal` (either renderer, any range) is free of them;
the constructor and the destructor of `ScopeTextureConstantAlpha` are free of
them exactly when the object is not enabled (no texture alpha and alpha at
least 1). An event changes the capability flags of the GL context only if it
is a guard switch or such a direct call. -/
theorem C7_capabilities_switched_by_guards (L : CanvasLib) (op : CanvasOp) (self : Renderer)
    (range : List AbstractAirspace) (visible : AbstractAirspace → Bool)
    (use_texture_alpha : Bool) (alpha : GLfloat) (c : Ctx) (g : GLState) (e : Ev) :
    (Ctx.issued (Canvas.perform L op) c).all Ev.noDirectCapChange = !op.isInvertRectangle ∧
    (Ctx.issued (AirspaceRenderer.DrawInternal self range visible) c).all
      Ev.noDirectCapChange = true ∧
    (Ctx.issued (ScopeTextureConstantAlpha.ctor use_texture_alpha alpha) c).all
      Ev.noDirectCapChange = !ScopeTextureConstantAlpha.enabled use_texture_alpha alpha ∧
    (Ctx.issued (ScopeTextureConstantAlpha.dtor
      (ScopeTextureConstantAlpha.enabled use_texture_alpha alpha)) c).all
      Ev.noDirectCapChange = !ScopeTextureConstantAlpha.enabled use_texture_alpha alpha ∧
    ((g.step e).frag.caps = g.frag.caps ∨ e.isGuardChange = true ∨
      e.noDirectCapChange = false) := by
  refine ⟨?_, TraceExt.issued_all _ (DrawInternal_guarded self range visible) c,
    TextureAlpha_ctor_direct use_texture_alpha alpha c, TextureAlpha_dtor_direct _ c,
    caps_change_by_switch g e⟩
  cases hop : op.isInvertRectangle with
  | false =>
    exact TraceExt.issued_all _
      (fun x => (perform_setup L op hop x).mono isSetup_noDirectCapChange) c
  | true =>
    cases op <;> simp [CanvasOp.isInvertRectangle] at hop
    exact InvertRectangle_direct _ c

/-! ## The write cycle of `GLBuffer` -/

theorem le_foldr_max (l : List Nat) (x : Nat) (h : x ∈ l) : x ≤ l.foldr max 0 := by
  induction l with
  | nil => cases h
  | cons a rest ih =>
    rw [List.foldr_cons]
    rcases List.mem_cons.1 h with h | h
    · subst h
      exact le_max_left _ _
    · exact le_trans (ih h) (le_max_right _ _)

theorem freshName_not_mem (l : List Nat) : freshName l ∉ l := by
  intro h
  have := le_foldr_max l _ h
  unfold freshName at this
  omega

theorem freshName_ne_zero (l : List Nat) : freshName l ≠ 0 := by
  unfold freshName
  omega

theorem fillBlock_self (junk : Nat → Byte) (d : List Byte) : fillBlock junk d.length d = d := by
  simp [fillBlock]

theorem fillBlock_length (junk : Nat → Byte) (n : Nat) : (fillBlock junk n []).length = n := by
  simp [fillBlock]

theorem overwrite_full (old new : List Byte) (h : old.length = new.length) :
    overwrite old new = new := by
  simp [overwrite, h]

theorem GLsizeiptr.ofSize_small (bits size : Nat) (h : size < 2 ^ (bits - 1)) :
    GLsizeiptr.ofSize bits size = (size : Int) := by
  have h2 : 2 ^ (bits - 1) ≤ 2 ^ bits := Nat.pow_le_pow_right (by decide) (Nat.sub_le _ _)
  have h3 : size % 2 ^ bits = size := Nat.mod_eq_of_lt (lt_of_lt_of_le h h2)
  unfold GLsizeiptr.ofSize
  simp only [h3, h, if_true]

theorem lookup_setBuffer (id : Nat) (o : BufferObject) (l : List (Nat × BufferObject)) :
    (setBuffer id o l).lookup id = (l.lookup id).map (fun _ => o) := by
  induction l with
  | nil => rfl
  | cons e rest ih =>
    obtain ⟨k, v⟩ := e
    unfold setBuffer at ih ⊢
    rw [List.map_cons]
    by_cases hk : k = id
    · subst hk
      rw [if_pos rfl]
      simp [List.lookup]
    · have hk2 : (id == k) = false := by simpa using fun h => hk h.symm
      rw [if_neg hk]
      simp only [List.lookup, hk2]
      exact ih

theorem setBuffer_setBuffer (id : Nat) (o1 o2 : BufferObject) (l : List (Nat × BufferObject)) :
    setBuffer id o2 (setBuffer id o1 l) = setBuffer id o2 l := by
  unfold setBuffer
  rw [List.map_map]
  refine List.map_congr_left (fun e _ => ?_)
  by_cases h : e.1 = id <;> simp [h]

theorem setBuffer_fst (id : Nat) (o : BufferObject) (l : List (Nat × BufferObject)) :
    (setBuffer id o l).map Prod.fst = l.map Prod.fst := by
  unfold setBuffer
  rw [List.map_map]
  refine List.map_congr_left (fun e _ => ?_)
  by_cases h : e.1 = id <;> simp [h]

theorem writeMapped_setBuffer (id : Nat) (d bytes : List Byte) (l : List (Nat × BufferObject)) :
    (setBuffer id ⟨d, true⟩ l).map (fun e =>
      if e.1 = id ∧ e.2.mapped = true then (e.1, { e.2 with data := overwrite e.2.data bytes })
      else e) = setBuffer id ⟨overwrite d bytes, true⟩ l := by
  unfold setBuffer
  rw [List.map_map]
  refine List.map_congr_left (fun e _ => ?_)
  by_cases h : e.1 = id <;> simp [h]

theorem lookup_ne_none_iff (id : Nat) (l : List (Nat × BufferObject)) :
    l.lookup id ≠ none ↔ id ∈ l.map Prod.fst := by
  induction l with
  | nil => simp
  | cons e rest ih =>
    obtain ⟨k, v⟩ := e
    by_cases hk : id = k
    · subst hk
      simp [List.lookup]
    · have hk2 : (id == k) = false := by simpa using hk
      simp only [List.lookup, hk2, List.map_cons, List.mem_cons, hk, false_or]
      exact ih

theorem checkError_clean (tag : String) (s : Machine) (h : s.error = GL_NO_ERROR) :
    s.checkError tag = s := by
  cases s
  simp_all [Machine.checkError, Machine.glGetError]

theorem checkError_error (tag : String) (s : Machine) :
    (s.checkError tag).error = GL_NO_ERROR := by
  unfold Machine.checkError Machine.glGetError
  dsimp only
  split <;> rfl

theorem checkError_fields (tag : String) (s : Machine) :
    (s.checkError tag).buffers = s.buffers ∧
    (s.checkError tag).array_buffer_binding = s.array_buffer_binding ∧
    (s.checkError tag).shaders = s.shaders ∧ (s.checkError tag).programs = s.programs ∧
    (s.checkError tag).created = s.created ∧ (s.checkError tag).deleted = s.deleted ∧
    (s.checkError tag).ignored = s.ignored ∧ (s.checkError tag).heap = s.heap := by
  unfold Machine.checkError Machine.glGetError Machine.LogFormat
  dsimp only
  split <;> exact ⟨rfl, rfl, rfl, rfl, rfl, rfl, rfl, rfl⟩

theorem Data_eq (E : MachineEnv) (id : Nat) (s : Machine) (size : Nat) (data : Ptr)
    (hid : id ≠ 0) (hb : s.array_buffer_binding = id) (he : s.error = GL_NO_ERROR)
    (hsize : size < 2 ^ (E.bits - 1)) :
    GLBuffer.Data E (GLsizeiptr.ofSize E.bits size) data s =
      { s with buffers := (setBuffer id
        ⟨fillBlock E.store_junk size ((s.deref data).getD []), false⟩ s.buffers) } := by
  have hn : ¬ ((size : Int) < 0) := by omega
  unfold GLBuffer.Data
  rw [checkError_clean]
  · unfold Machine.glBufferData
    rw [GLsizeiptr.ofSize_small _ _ hsize]
    simp [hb, hid, hn]
  · unfold Machine.glBufferData
    rw [GLsizeiptr.ofSize_small _ _ hsize]
    simp [hb, hid, he, hn]

theorem MapWrite_eq (id : Nat) (s : Machine) (o : BufferObject) (hid : id ≠ 0)
    (hb : s.array_buffer_binding = id) (he : s.error = GL_NO_ERROR)
    (ho : s.buffers.lookup id = some o) (hm : o.mapped = false) :
    GLBuffer.MapWrite s =
      (Ptr.mapped id, { s with buffers := setBuffer id { o with mapped := true } s.buffers }) := by
  unfold GLBuffer.MapWrite Machine.glMapBuffer
  simp only [hb, hid, if_false, ho, hm, Bool.false_eq_true]
  rw [checkError_clean]
  exact he

theorem Unmap_eq (id : Nat) (s : Machine) (o : BufferObject) (hid : id ≠ 0)
    (hb : s.array_buffer_binding = id) (he : s.error = GL_NO_ERROR)
    (ho : s.buffers.lookup id = some o) (hm : o.mapped = true) :
    GLBuffer.Unmap s =
      { s with buffers := setBuffer id { o with mapped := false } s.buffers } := by
  unfold GLBuffer.Unmap Machine.glUnmapBuffer
  simp only [hb, hid, if_false, ho, hm, if_true]
  rw [checkError_clean]
  exact he

theorem Unbind_eq (s : Machine) (he : s.error = GL_NO_ERROR) :
    GLBuffer.Unbind s = { s with array_buffer_binding := 0 } := by
  unfold GLBuffer.Unbind Machine.glBindBuffer
  simp only [if_true]
  rw [checkError_clean]
  exact he

/-- The map path from a state in which the buffer is bound and no error is
pending. -/
theorem map_path (E : MachineEnv) (id : Nat) (s : Machine) (size : Nat)
    (bytes : List Byte) (hid : id ≠ 0) (hb : s.array_buffer_binding = id)
    (he : s.error = GL_NO_ERROR) (hl : s.buffers.lookup id ≠ none)
    (hlen : bytes.length = size) (hsize : size < 2 ^ (E.bits - 1)) :
    GLBuffer.CommitWrite E true size
        (GLBuffer.MapWrite (GLBuffer.Data E (GLsizeiptr.ofSize E.bits size) Ptr.null s)).1
        ⟨id, (GLBuffer.MapWrite (GLBuffer.Data E (GLsizeiptr.ofSize E.bits size) Ptr.null s)).1⟩
        ((GLBuffer.MapWrite
            (GLBuffer.Data E (GLsizeiptr.ofSize E.bits size) Ptr.null s)).2.writeThrough
          (GLBuffer.MapWrite (GLBuffer.Data E (GLsizeiptr.ofSize E.bits size) Ptr.null s)).1
          bytes) =
      some (⟨id, Ptr.null⟩, { s with
        buffers := setBuffer id ⟨bytes, false⟩ s.buffers, array_buffer_binding := 0 }) := by
  obtain ⟨o, ho⟩ := Option.ne_none_iff_exists'.1 hl
  rw [Data_eq E id s size Ptr.null hid hb he hsize]
  rw [MapWrite_eq id _ ⟨fillBlock E.store_junk size [], false⟩ hid]
  rotate_left
  · exact hb
  · exact he
  · show (setBuffer id _ s.buffers).lookup id = _
    rw [lookup_setBuffer, ho]
    rfl
  · rfl
  unfold GLBuffer.CommitWrite Machine.writeThrough
  simp only [ne_eq, not_true_eq_false, if_false, if_true, writeMapped_setBuffer,
    setBuffer_setBuffer]
  rw [overwrite_full _ _ (by rw [fillBlock_length, hlen])]
  rw [Unmap_eq id _ ⟨bytes, true⟩ hid]
  rotate_left
  · exact hb
  · exact he
  · show (setBuffer id _ s.buffers).lookup id = _
    rw [lookup_setBuffer, ho]
    rfl
  · rfl
  rw [Unbind_eq]
  swap
  · exact he
  simp only [setBuffer_setBuffer]

/-- The malloc path from a state in which the buffer is bound and no error is
pending. -/
theorem malloc_path (E : MachineEnv) (id : Nat) (s : Machine) (size : Nat)
    (bytes : List Byte) (hid : id ≠ 0) (hb : s.array_buffer_binding = id)
    (he : s.error = GL_NO_ERROR)
    (hlen : bytes.length = size) (hsize : size < 2 ^ (E.bits - 1)) :
    GLBuffer.CommitWrite E false size (s.malloc E size).1 ⟨id, (s.malloc E size).1⟩
        ((s.malloc E size).2.writeThrough (s.malloc E size).1 bytes) =
      some (⟨id, Ptr.null⟩, { s with
        buffers := setBuffer id ⟨bytes, false⟩ s.buffers, array_buffer_binding := 0 }) := by
  have hfresh : ∀ e ∈ s.heap, e.1 ≠ freshName (s.heap.map Prod.fst) := by
    intro e he2 h
    exact freshName_not_mem (s.heap.map Prod.fst) (h ▸ List.mem_map_of_mem Prod.fst he2)
  have hmap : s.heap.map (fun e => if e.1 = freshName (s.heap.map Prod.fst) then
      (e.1, overwrite e.2 bytes) else e) = s.heap := by
    conv_rhs => rw [← List.map_id s.heap]
    refine List.map_congr_left (fun e he2 => ?_)
    rw [if_neg (hfresh e he2)]
    rfl
  have hfilter : s.heap.filter (fun e => e.1 ≠ freshName (s.heap.map Prod.fst)) = s.heap := by
    rw [List.filter_eq_self]
    intro e he2
    simpa using hfresh e he2
  unfold Machine.malloc
  dsimp only
  unfold GLBuffer.CommitWrite Machine.writeThrough
  simp only [ne_eq, not_true_eq_false, if_false, Bool.false_eq_true, List.map_cons, if_true,
    hmap]
  rw [overwrite_full _ _ (by rw [fillBlock_length, hlen])]
  rw [Data_eq E id _ size _ hid]
  rotate_left
  · exact hb
  · exact he
  · exact hsize
  unfold Machine.free
  simp only [Machine.deref, List.lookup, beq_self_eq_true, Option.getD_some, List.filter_cons,
    ne_eq, not_true_eq_false, decide_False, hfilter, Bool.false_eq_true, if_false]
  rw [Unbind_eq]
  swap
  · exact he
  subst hlen
  rw [fillBlock_self]

theorem Bind_facts (id : Nat) (s : Machine) (hid : id ≠ 0) :
    GLBuffer.Bind ⟨id, Ptr.null⟩ s = some ((s.glBindBuffer id).checkError "CACA") ∧
    ((s.glBindBuffer id).checkError "CACA").array_buffer_binding = id ∧
    ((s.glBindBuffer id).checkError "CACA").error = GL_NO_ERROR ∧
    ((s.glBindBuffer id).checkError "CACA").buffers.lookup id ≠ none ∧
    ((s.glBindBuffer id).checkError "CACA").heap = s.heap := by
  refine ⟨by simp [GLBuffer.Bind], ?_, checkError_error _ _, ?_, ?_⟩
  · rw [(checkError_fields _ _).2.1]
    unfold Machine.glBindBuffer
    rw [if_neg hid]
    split <;> rfl
  · rw [(checkError_fields _ _).1]
    unfold Machine.glBindBuffer
    rw [if_neg hid]
    split
    · simp [List.lookup]
    · assumption
  · rw [(checkError_fields _ _).2.2.2.2.2.2.2]
    unfold Machine.glBindBuffer
    rw [if_neg hid]
    split <;> rfl

/-- C8: write-cycle equivalence of `GLBuffer`. For a buffer wrapper with no
write pending (`p` null) and a non-zero name, every size below the largest
`GLsizeiptr` and every sequence of that many bytes written through the pointer
`BeginWrite(size)` returns, `CommitWrite(size, ptr)` returns and leaves one
and the same machine state whether `OpenGL::mapbuffer` is true (data store
allocated, mapped, written, unmapped) or false (`malloc`, `glBufferData`,
`free`): the buffer object holds exactly the written bytes and is not mapped,
the target binding is 0, the heap is as before, the wrapper is unchanged with
`p` null, so that the assertions of `Bind` and of the destructor hold. -/
theorem C8_write_cycle_equivalence (E : MachineEnv) (b : GLBuffer) (s : Machine) (size : Nat)
    (bytes : List Byte) (hp : b.p = Ptr.null) (hid : b.id ≠ 0) (hlen : bytes.length = size)
    (hsize : size < 2 ^ (E.bits - 1)) :
    ∃ t, b.writeCycle E true size bytes s = some (b, t) ∧
      b.writeCycle E false size bytes s = some (b, t) ∧
      t.buffers.lookup b.id = some ⟨bytes, false⟩ ∧ t.array_buffer_binding = 0 ∧
      t.heap = s.heap ∧ b.p = Ptr.null ∧ (b.Bind t).isSome = true ∧ (b.dtor t).isSome = true := by
  obtain ⟨id, p⟩ := b
  dsimp only at hp hid
  subst hp
  obtain ⟨hB, hb, he, hl, hh⟩ := Bind_facts id s hid
  refine ⟨{ ((s.glBindBuffer id).checkError "CACA") with
    buffers := (setBuffer id ⟨bytes, false⟩ ((s.glBindBuffer id).checkError "CACA").buffers)
    array_buffer_binding := 0 }, ?_, ?_, ?_, ?_, ?_, rfl, by simp [GLBuffer.Bind],
    by simp [GLBuffer.dtor]⟩
  · unfold GLBuffer.writeCycle GLBuffer.BeginWrite
    rw [hB]
    have hm := map_path E id _ size bytes hid hb he hl hlen hsize
    simp only [if_true]
    generalize GLBuffer.MapWrite (GLBuffer.Data E (GLsizeiptr.ofSize E.bits size) Ptr.null
      ((s.glBindBuffer id).checkError "CACA")) = X at hm ⊢
    obtain ⟨r, s2⟩ := X
    exact hm
  · unfold GLBuffer.writeCycle GLBuffer.BeginWrite
    rw [hB]
    have hm := malloc_path E id _ size bytes hid hb he hlen hsize
    simp only [Bool.false_eq_true, if_false]
    generalize Machine.malloc E size ((s.glBindBuffer id).checkError "CACA") = X at hm ⊢
    obtain ⟨r, s2⟩ := X
    exact hm
  · obtain ⟨o, ho⟩ := Option.ne_none_iff_exists'.1 hl
    show (setBuffer id _ _).lookup id = _
    rw [lookup_setBuffer, ho]
    rfl
  · rfl
  · exact hh

/-- C8, at concrete inputs: three bytes written to a freshly constructed
buffer on a 64-bit platform. -/
theorem C8_write_cycle_equivalence_witness :
    ∃ t, exBuffer.writeCycle exEnv true 3 [1, 2, 3] exMachine = some (exBuffer, t) ∧
      exBuffer.writeCycle exEnv false 3 [1, 2, 3] exMachine = some (exBuffer, t) ∧
      t.buffers.lookup exBuffer.id = some ⟨[1, 2, 3], false⟩ ∧ t.array_buffer_binding = 0 ∧
      t.heap = exMachine.heap ∧ exBuffer.p = Ptr.null ∧ (exBuffer.Bind t).isSome = true ∧
      (exBuffer.dtor t).isSome = true :=
  C8_write_cycle_equivalence exEnv exBuffer exMachine 3 [1, 2, 3] (by decide) (by decide)
    (by decide) (by norm_num [exEnv])

/-! ## Pairing of wrappers and GPU objects -/

theorem Machine.SameObjects.sameRefl (s : Machine) : s.SameObjects s :=
  ⟨rfl, rfl, rfl, rfl, rfl, rfl⟩

theorem Machine.SameObjects.sameTrans {s t u : Machine} (h1 : s.SameObjects t)
    (h2 : t.SameObjects u) :
    s.SameObjects u :=
  ⟨h2.1.trans h1.1, h2.2.1.trans h1.2.1, h2.2.2.1.trans h1.2.2.1, h2.2.2.2.1.trans h1.2.2.2.1,
    h2.2.2.2.2.1.trans h1.2.2.2.2.1, h2.2.2.2.2.2.trans h1.2.2.2.2.2⟩

theorem same_raise (code : Nat) (s : Machine) : s.SameObjects (s.raise code) := by
  unfold Machine.raise
  split <;> exact ⟨rfl, rfl, rfl, rfl, rfl, rfl⟩

theorem same_checkError (tag : String) (s : Machine) :
    s.SameObjects (s.checkError tag) := by
  obtain ⟨h1, _, h3, h4, h5, h6, h7, _⟩ := checkError_fields tag s
  exact ⟨by rw [h1], h3, h4, h5, h6, h7⟩

theorem same_glBindBuffer (id : Nat) (s : Machine)
    (h : id = 0 ∨ id ∈ s.buffers.map Prod.fst) : s.SameObjects (s.glBindBuffer id) := by
  unfold Machine.glBindBuffer
  split
  · exact ⟨rfl, rfl, rfl, rfl, rfl, rfl⟩
  · rename_i hid
    have hl := (lookup_ne_none_iff id s.buffers).2 (h.resolve_left hid)
    rw [if_neg hl]
    exact ⟨rfl, rfl, rfl, rfl, rfl, rfl⟩

theorem same_glBufferData (E : MachineEnv) (size : Int) (data : Ptr) (s : Machine) :
    s.SameObjects (s.glBufferData E size data) := by
  unfold Machine.glBufferData
  split
  · exact same_raise _ _
  · split
    · exact same_raise _ _
    · exact ⟨setBuffer_fst _ _ _, rfl, rfl, rfl, rfl, rfl⟩

theorem same_glMapBuffer (s : Machine) : s.SameObjects s.glMapBuffer.2 := by
  unfold Machine.glMapBuffer
  split
  · exact same_raise _ _
  · split
    · exact same_raise _ _
    · split
      · exact same_raise _ _
      · exact ⟨setBuffer_fst _ _ _, rfl, rfl, rfl, rfl, rfl⟩

theorem same_glUnmapBuffer (s : Machine) : s.SameObjects s.glUnmapBuffer := by
  unfold Machine.glUnmapBuffer
  split
  · exact same_raise _ _
  · split
    · exact same_raise _ _
    · split
      · exact ⟨setBuffer_fst _ _ _, rfl, rfl, rfl, rfl, rfl⟩
      · exact same_raise _ _

theorem same_malloc (E : MachineEnv) (size : Nat) (s : Machine) :
    s.SameObjects (s.malloc E size).2 := ⟨rfl, rfl, rfl, rfl, rfl, rfl⟩

theorem same_free (ptr : Ptr) (s : Machine) : s.SameObjects (s.free ptr) := by
  unfold Machine.free
  split <;> exact ⟨rfl, rfl, rfl, rfl, rfl, rfl⟩

theorem same_writeThrough (ptr : Ptr) (bytes : List Byte) (s : Machine) :
    s.SameObjects (s.writeThrough ptr bytes) := by
  unfold Machine.writeThrough
  split
  · exact ⟨rfl, rfl, rfl, rfl, rfl, rfl⟩
  · exact ⟨rfl, rfl, rfl, rfl, rfl, rfl⟩
  · refine ⟨?_, rfl, rfl, rfl, rfl, rfl⟩
    show List.map Prod.fst (List.map _ s.buffers) = _
    rw [List.map_map]
    refine List.map_congr_left (fun e _ => ?_)
    show Prod.fst (if _ then _ else _) = _
    split <;> rfl

theorem same_Unbind (s : Machine) : s.SameObjects (GLBuffer.Unbind s) :=
  (same_glBindBuffer 0 s (Or.inl rfl)).sameTrans (same_checkError _ _)

theorem same_Data (E : MachineEnv) (size : Int) (data : Ptr) (s : Machine) :
    s.SameObjects (GLBuffer.Data E size data s) :=
  (same_glBufferData E size data s).sameTrans (same_checkError _ _)

theorem same_MapWrite (s : Machine) : s.SameObjects (GLBuffer.MapWrite s).2 :=
  (same_glMapBuffer s).sameTrans (same_checkError _ _)

theorem same_Unmap (s : Machine) : s.SameObjects (GLBuffer.Unmap s) :=
  (same_glUnmapBuffer s).sameTrans (same_checkError _ _)

theorem Bind_same (b : GLBuffer) (s : Machine) (hp : b.p = Ptr.null)
    (hid : b.id ∈ s.buffers.map Prod.fst) :
    ∃ t, b.Bind s = some t ∧ s.SameObjects t := by
  refine ⟨(s.glBindBuffer b.id).checkError "CACA", by simp [GLBuffer.Bind, hp], ?_⟩
  exact (same_glBindBuffer _ s (Or.inr hid)).sameTrans (same_checkError _ _)

theorem Load_same (E : MachineEnv) (b : GLBuffer) (size : Int) (data : Ptr) (s : Machine)
    (hp : b.p = Ptr.null) (hid : b.id ∈ s.buffers.map Prod.fst) :
    ∃ t, b.Load E size data s = some t ∧ s.SameObjects t := by
  obtain ⟨t, ht, hs⟩ := Bind_same b s hp hid
  unfold GLBuffer.Load
  rw [ht]
  exact ⟨_, rfl, hs.sameTrans ((same_Data E size data t).sameTrans (same_Unbind _))⟩

theorem writeCycle_same (E : MachineEnv) (mapbuffer : Bool) (size : Nat) (bytes : List Byte)
    (b : GLBuffer) (s : Machine) (hp : b.p = Ptr.null) (hid : b.id ∈ s.buffers.map Prod.fst) :
    ∃ t, b.writeCycle E mapbuffer size bytes s = some (b, t) ∧ s.SameObjects t := by
  obtain ⟨t, ht, hs⟩ := Bind_same b s hp hid
  obtain ⟨id, p⟩ := b
  dsimp only at hp
  subst hp
  unfold GLBuffer.writeCycle GLBuffer.BeginWrite
  rw [ht]
  cases mapbuffer with
  | true =>
    simp only [if_true]
    have h1 := (same_Data E (GLsizeiptr.ofSize E.bits size) Ptr.null t).sameTrans
      (same_MapWrite _)
    generalize GLBuffer.MapWrite (GLBuffer.Data E (GLsizeiptr.ofSize E.bits size) Ptr.null t) = X
      at h1 ⊢
    obtain ⟨r, s2⟩ := X
    refine ⟨GLBuffer.Unbind (GLBuffer.Unmap (s2.writeThrough r bytes)),
      by simp [GLBuffer.CommitWrite], ?_⟩
    exact hs.sameTrans (h1.sameTrans ((same_writeThrough r bytes s2).sameTrans
      ((same_Unmap _).sameTrans (same_Unbind _))))
  | false =>
    simp only [Bool.false_eq_true, if_false]
    have h1 := same_malloc E size t
    generalize Machine.malloc E size t = X at h1 ⊢
    obtain ⟨r, s2⟩ := X
    refine ⟨GLBuffer.Unbind ((GLBuffer.Data E (GLsizeiptr.ofSize E.bits size) r
      (s2.writeThrough r bytes)).free r), by simp [GLBuffer.CommitWrite], ?_⟩
    exact hs.sameTrans (h1.sameTrans ((same_writeThrough r bytes s2).sameTrans
      ((same_Data E _ r _).sameTrans ((same_free r _).sameTrans (same_Unbind _)))))

theorem filter_ne_eq_eraseIdx (l : List Nat) (hnd : l.Nodup) (i x : Nat)
    (h : l.get? i = some x) : l.filter (fun y => decide (y ≠ x)) = l.eraseIdx i := by
  induction l generalizing i with
  | nil => cases h
  | cons a rest ih =>
    rw [List.nodup_cons] at hnd
    cases i with
    | zero =>
      simp only [List.get?_cons_zero, Option.some.injEq] at h
      subst h
      rw [List.eraseIdx_cons_zero, List.filter_cons]
      simp only [ne_eq, not_true_eq_false, decide_False, Bool.false_eq_true, if_false]
      rw [List.filter_eq_self]
      intro y hy
      have : y ≠ a := fun e => hnd.1 (e ▸ hy)
      simpa using this
    | succ j =>
      simp only [List.get?_cons_succ] at h
      have hx : x ∈ rest := List.get?_mem h
      have hax : a ≠ x := fun e => hnd.1 (e ▸ hx)
      rw [List.eraseIdx_cons_succ, List.filter_cons]
      simp only [ne_eq, hax, not_false_eq_true, decide_True, if_true]
      rw [← ih hnd.2 j h]

theorem map_eraseIdx_id {α : Type} (f : α → Nat) (l : List α) (i : Nat) :
    (l.eraseIdx i).map f = (l.map f).eraseIdx i := by
  induction l generalizing i with
  | nil => rfl
  | cons a rest ih =>
    cases i with
    | zero => rfl
    | succ j =>
      simp only [List.eraseIdx_cons_succ, List.map_cons, ih]

theorem set_get_self {α : Type} (l : List α) (i : Nat) (x : α) (h : l.get? i = some x) :
    l.set i x = l := by
  induction l generalizing i with
  | nil => rfl
  | cons a rest ih =>
    cases i with
    | zero =>
      simp only [List.get?_cons_zero, Option.some.injEq] at h
      subst h
      rfl
    | succ j =>
      simp only [List.get?_cons_succ] at h
      simp only [List.set_cons_succ, ih j h]

theorem Paired.eqs {w : World} (h : w.Paired) :
    w.machine.buffers.map Prod.fst = w.buffers.map GLBuffer.id ∧
    w.machine.shaders = w.shaders.map GLShader.id ∧
    w.machine.programs = w.programs.map GLProgram.id := by
  have := h.live_eq_held
  simp only [World.live, World.held, Prod.mk.injEq] at this
  exact this

theorem paired_of_same {w : World} (m : Machine) (h : w.Paired) (hs : w.machine.SameObjects m) :
    World.Paired { w with machine := m } ∧
    World.live { w with machine := m } = w.live ∧
    World.held { w with machine := m } = w.held ∧
    m.created = w.machine.created ∧ m.deleted = w.machine.deleted := by
  obtain ⟨h1, h2, h3, h4, h5, h6⟩ := hs
  have hl : World.live { w with machine := m } = w.live := by
    simp only [World.live, h1, h2, h3]
  refine ⟨⟨?_, h.nodup_buffers, h.nodup_shaders, h.nonzero_buffers, h.nonzero_shaders, h.idle,
    ?_, ?_⟩, hl, rfl, h4, h5⟩
  · rw [hl]
    exact h.live_eq_held
  · show m.ignored = 0
    rw [h6]
    exact h.ignored
  · show m.created = m.deleted + _ + _ + _
    rw [h4, h5]
    exact h.count

/-- What a machine operation does to the objects: the names of the three
classes and the three counters afterwards. -/
theorem objects_eq {t : Machine} {b sh p : List Nat} {c d i : Nat}
    (h : t.buffers.map Prod.fst = b ∧ t.shaders = sh ∧ t.programs = p ∧ t.created = c ∧
      t.deleted = d ∧ t.ignored = i) (tag : String) :
    (t.checkError tag).buffers.map Prod.fst = b ∧ (t.checkError tag).shaders = sh ∧
      (t.checkError tag).programs = p ∧ (t.checkError tag).created = c ∧
      (t.checkError tag).deleted = d ∧ (t.checkError tag).ignored = i := by
  obtain ⟨c1, _, c3, c4, c5, c6, c7, _⟩ := checkError_fields tag t
  rw [c1, c3, c4, c5, c6, c7]
  exact h

theorem GLBuffer_ctor_facts (s : Machine) :
    (GLBuffer.ctor s).1 = ⟨freshName (s.buffers.map Prod.fst), Ptr.null⟩ ∧
    (GLBuffer.ctor s).2.buffers.map Prod.fst =
      freshName (s.buffers.map Prod.fst) :: s.buffers.map Prod.fst ∧
    (GLBuffer.ctor s).2.shaders = s.shaders ∧ (GLBuffer.ctor s).2.programs = s.programs ∧
    (GLBuffer.ctor s).2.created = s.created + 1 ∧ (GLBuffer.ctor s).2.deleted = s.deleted ∧
    (GLBuffer.ctor s).2.ignored = s.ignored :=
  ⟨rfl, objects_eq ⟨rfl, rfl, rfl, rfl, rfl, rfl⟩ "BYBY"⟩

theorem GLShader_ctor_facts (type : ShaderType) (s : Machine) :
    (GLShader.ctor type s).1 = ⟨freshName (s.shaders ++ s.programs)⟩ ∧
    (GLShader.ctor type s).2.buffers.map Prod.fst = s.buffers.map Prod.fst ∧
    (GLShader.ctor type s).2.shaders = freshName (s.shaders ++ s.programs) :: s.shaders ∧
    (GLShader.ctor type s).2.programs = s.programs ∧
    (GLShader.ctor type s).2.created = s.created + 1 ∧
    (GLShader.ctor type s).2.deleted = s.deleted ∧
    (GLShader.ctor type s).2.ignored = s.ignored :=
  ⟨rfl, objects_eq ⟨rfl, rfl, rfl, rfl, rfl, rfl⟩ "EPEP"⟩

theorem GLProgram_ctor_facts (s : Machine) :
    (GLProgram.ctor s).1 = ⟨freshName (s.shaders ++ s.programs)⟩ ∧
    (GLProgram.ctor s).2.buffers.map Prod.fst = s.buffers.map Prod.fst ∧
    (GLProgram.ctor s).2.shaders = s.shaders ∧
    (GLProgram.ctor s).2.programs = freshName (s.shaders ++ s.programs) :: s.programs ∧
    (GLProgram.ctor s).2.created = s.created + 1 ∧
    (GLProgram.ctor s).2.deleted = s.deleted ∧
    (GLProgram.ctor s).2.ignored = s.ignored :=
  ⟨rfl, objects_eq ⟨rfl, rfl, rfl, rfl, rfl, rfl⟩ "EWEW"⟩

theorem exec_newBuffer (E : MachineEnv) (mapbuffer : Bool) (w : World) (h : w.Paired) :
    ∃ t, w.exec E mapbuffer Cmd.newBuffer = some t ∧ t.Paired ∧ Cmd.newBuffer.effect w t := by
  obtain ⟨e1, e2, e3⟩ := Paired.eqs h
  obtain ⟨f0, f1, f2, f3, f4, f5, f6⟩ := GLBuffer_ctor_facts w.machine
  have hfresh := freshName_not_mem (w.machine.buffers.map Prod.fst)
  have hlive : World.live (World.mk (GLBuffer.ctor w.machine).2
      ((GLBuffer.ctor w.machine).1 :: w.buffers) w.shaders w.programs) =
      (freshName (w.machine.buffers.map Prod.fst) :: w.live.1, w.live.2.1, w.live.2.2) := by
    simp only [World.live, f1, f2, f3]
  have hheld : World.held (World.mk (GLBuffer.ctor w.machine).2
      ((GLBuffer.ctor w.machine).1 :: w.buffers) w.shaders w.programs) =
      (freshName (w.machine.buffers.map Prod.fst) :: w.held.1, w.held.2.1, w.held.2.2) := by
    simp only [World.held, List.map_cons, f0]
  refine ⟨(World.mk (GLBuffer.ctor w.machine).2
      ((GLBuffer.ctor w.machine).1 :: w.buffers) w.shaders w.programs), rfl,
    ⟨?_, ?_, h.nodup_shaders, ?_, h.nonzero_shaders, ?_, ?_, ?_⟩,
    freshName (w.machine.buffers.map Prod.fst), hfresh, hlive, hheld, f4, f5⟩
  · rw [hlive, hheld, h.live_eq_held]
  · show (List.map GLBuffer.id (_ :: w.buffers)).Nodup
    rw [List.map_cons, List.nodup_cons, f0]
    refine ⟨?_, h.nodup_buffers⟩
    rw [← e1]
    exact hfresh
  · intro id hid
    rcases List.mem_cons.1 hid with hid | hid
    · rw [hid, f0]
      exact freshName_ne_zero _
    · exact h.nonzero_buffers id hid
  · intro b hb
    rcases List.mem_cons.1 hb with hb | hb
    · rw [hb, f0]
    · exact h.idle b hb
  · show (GLBuffer.ctor w.machine).2.ignored = 0
    rw [f6]
    exact h.ignored
  · show (GLBuffer.ctor w.machine).2.created =
      (GLBuffer.ctor w.machine).2.deleted + (w.buffers.length + 1) +
        w.shaders.length + w.programs.length
    rw [f4, f5, h.count]
    omega

theorem exec_newShader (E : MachineEnv) (mapbuffer : Bool) (type : ShaderType) (w : World)
    (h : w.Paired) :
    ∃ t, w.exec E mapbuffer (Cmd.newShader type) = some t ∧ t.Paired ∧
      (Cmd.newShader type).effect w t := by
  obtain ⟨e1, e2, e3⟩ := Paired.eqs h
  obtain ⟨f0, f1, f2, f3, f4, f5, f6⟩ := GLShader_ctor_facts type w.machine
  have hfresh := freshName_not_mem (w.machine.shaders ++ w.machine.programs)
  have hlive : World.live (World.mk (GLShader.ctor type w.machine).2 w.buffers
      ((GLShader.ctor type w.machine).1 :: w.shaders) w.programs) =
      (w.live.1, freshName (w.machine.shaders ++ w.machine.programs) :: w.live.2.1,
        w.live.2.2) := by
    simp only [World.live, f1, f2, f3]
  have hheld : World.held (World.mk (GLShader.ctor type w.machine).2 w.buffers
      ((GLShader.ctor type w.machine).1 :: w.shaders) w.programs) =
      (w.held.1, freshName (w.machine.shaders ++ w.machine.programs) :: w.held.2.1,
        w.held.2.2) := by
    simp only [World.held, List.map_cons, f0]
  refine ⟨(World.mk (GLShader.ctor type w.machine).2 w.buffers
      ((GLShader.ctor type w.machine).1 :: w.shaders) w.programs), rfl,
    ⟨?_, h.nodup_buffers, ?_, h.nonzero_buffers, ?_, h.idle, ?_, ?_⟩,
    freshName (w.machine.shaders ++ w.machine.programs),
    fun hm => hfresh (List.mem_append_left _ hm), hlive, hheld, f4, f5⟩
  · rw [hlive, hheld, h.live_eq_held]
  · show (List.map GLShader.id (_ :: w.shaders) ++ _).Nodup
    rw [List.map_cons, List.cons_append, List.nodup_cons, f0]
    refine ⟨?_, h.nodup_shaders⟩
    rw [← e2, ← e3]
    exact hfresh
  · intro id hid
    change id ∈ List.map GLShader.id (_ :: w.shaders) ++ _ at hid
    rw [List.map_cons, List.cons_append] at hid
    rcases List.mem_cons.1 hid with hid | hid
    · rw [hid, f0]
      exact freshName_ne_zero _
    · exact h.nonzero_shaders id hid
  · show (GLShader.ctor type w.machine).2.ignored = 0
    rw [f6]
    exact h.ignored
  · show (GLShader.ctor type w.machine).2.created =
      (GLShader.ctor type w.machine).2.deleted + w.buffers.length + (w.shaders.length + 1) +
        w.programs.length
    rw [f4, f5, h.count]
    omega

theorem exec_newProgram (E : MachineEnv) (mapbuffer : Bool) (w : World) (h : w.Paired) :
    ∃ t, w.exec E mapbuffer Cmd.newProgram = some t ∧ t.Paired ∧
      Cmd.newProgram.effect w t := by
  obtain ⟨e1, e2, e3⟩ := Paired.eqs h
  obtain ⟨f0, f1, f2, f3, f4, f5, f6⟩ := GLProgram_ctor_facts w.machine
  have hfresh := freshName_not_mem (w.machine.shaders ++ w.machine.programs)
  have hlive : World.live (World.mk (GLProgram.ctor w.machine).2 w.buffers w.shaders
      ((GLProgram.ctor w.machine).1 :: w.programs)) =
      (w.live.1, w.live.2.1,
        freshName (w.machine.shaders ++ w.machine.programs) :: w.live.2.2) := by
    simp only [World.live, f1, f2, f3]
  have hheld : World.held (World.mk (GLProgram.ctor w.machine).2 w.buffers w.shaders
      ((GLProgram.ctor w.machine).1 :: w.programs)) =
      (w.held.1, w.held.2.1,
        freshName (w.machine.shaders ++ w.machine.programs) :: w.held.2.2) := by
    simp only [World.held, List.map_cons, f0]
  have hperm : (List.map GLShader.id w.shaders ++
      List.map GLProgram.id ((GLProgram.ctor w.machine).1 :: w.programs)).Perm
      (freshName (w.machine.shaders ++ w.machine.programs) ::
        (List.map GLShader.id w.shaders ++ List.map GLProgram.id w.programs)) := by
    rw [List.map_cons, f0]
    exact List.perm_middle
  refine ⟨(World.mk (GLProgram.ctor w.machine).2 w.buffers w.shaders
      ((GLProgram.ctor w.machine).1 :: w.programs)), rfl,
    ⟨?_, h.nodup_buffers, ?_, h.nonzero_buffers, ?_, h.idle, ?_, ?_⟩,
    freshName (w.machine.shaders ++ w.machine.programs),
    fun hm => hfresh (List.mem_append_right _ hm), hlive, hheld, f4, f5⟩
  · rw [hlive, hheld, h.live_eq_held]
  · show (List.map GLShader.id w.shaders ++ List.map GLProgram.id (_ :: w.programs)).Nodup
    rw [hperm.nodup_iff, List.nodup_cons]
    refine ⟨?_, h.nodup_shaders⟩
    rw [← e2, ← e3]
    exact hfresh
  · intro id hid
    change id ∈ List.map GLShader.id w.shaders ++ List.map GLProgram.id (_ :: w.programs) at hid
    rw [hperm.mem_iff] at hid
    rcases List.mem_cons.1 hid with hid | hid
    · rw [hid]
      exact freshName_ne_zero _
    · exact h.nonzero_shaders id hid
  · show (GLProgram.ctor w.machine).2.ignored = 0
    rw [f6]
    exact h.ignored
  · show (GLProgram.ctor w.machine).2.created =
      (GLProgram.ctor w.machine).2.deleted + w.buffers.length + w.shaders.length +
        (w.programs.length + 1)
    rw [f4, f5, h.count]
    omega

theorem GLBuffer_dtor_facts (b : GLBuffer) (s : Machine) (hp : b.p = Ptr.null) (h0 : b.id ≠ 0)
    (hm : b.id ∈ s.buffers.map Prod.fst) :
    ∃ t, b.dtor s = some t ∧
      t.buffers.map Prod.fst = (s.buffers.map Prod.fst).filter (fun x => x ≠ b.id) ∧
      t.shaders = s.shaders ∧ t.programs = s.programs ∧ t.created = s.created ∧
      t.deleted = s.deleted + 1 ∧ t.ignored = s.ignored := by
  refine ⟨(s.glDeleteBuffers b.id).checkError "BZBZ", by simp [GLBuffer.dtor, hp], ?_⟩
  refine objects_eq ?_ "BZBZ"
  have hl := (lookup_ne_none_iff b.id s.buffers).2 hm
  unfold Machine.glDeleteBuffers
  rw [if_neg (by simp [h0, hl])]
  refine ⟨?_, rfl, rfl, rfl, rfl, rfl⟩
  exact (List.filter_map (p := fun x => decide (x ≠ b.id)) Prod.fst s.buffers).symm

theorem GLShader_dtor_facts (sh : GLShader) (s : Machine) (h0 : sh.id ≠ 0)
    (hm : sh.id ∈ s.shaders) :
    (sh.dtor s).buffers.map Prod.fst = s.buffers.map Prod.fst ∧
      (sh.dtor s).shaders = s.shaders.filter (fun x => x ≠ sh.id) ∧
      (sh.dtor s).programs = s.programs ∧ (sh.dtor s).created = s.created ∧
      (sh.dtor s).deleted = s.deleted + 1 ∧ (sh.dtor s).ignored = s.ignored := by
  refine objects_eq ?_ "EQEQ"
  unfold Machine.glDeleteShader
  rw [if_neg h0, if_pos hm]
  exact ⟨rfl, rfl, rfl, rfl, rfl, rfl⟩

theorem GLProgram_dtor_facts (p : GLProgram) (s : Machine) (h0 : p.id ≠ 0)
    (hm : p.id ∈ s.programs) :
    (p.dtor s).buffers.map Prod.fst = s.buffers.map Prod.fst ∧
      (p.dtor s).shaders = s.shaders ∧
      (p.dtor s).programs = s.programs.filter (fun x => x ≠ p.id) ∧
      (p.dtor s).created = s.created ∧
      (p.dtor s).deleted = s.deleted + 1 ∧ (p.dtor s).ignored = s.ignored := by
  refine objects_eq ?_ "EXEX"
  unfold Machine.glDeleteProgram
  rw [if_neg h0, if_pos hm]
  exact ⟨rfl, rfl, rfl, rfl, rfl, rfl⟩

theorem get?_map_some {α : Type} (f : α → Nat) (l : List α) (i : Nat) (x : α)
    (h : l.get? i = some x) : (l.map f).get? i = some (f x) := by
  simp only [List.get?_eq_getElem?, List.getElem?_map] at h ⊢
  rw [h]
  rfl

theorem length_eraseIdx_get? {α : Type} (l : List α) (i : Nat) (x : α)
    (h : l.get? i = some x) : (l.eraseIdx i).length + 1 = l.length := by
  obtain ⟨hi, _⟩ := List.get?_eq_some.1 h
  rw [List.length_eraseIdx_of_lt hi]
  omega

theorem exec_deleteBuffer (E : MachineEnv) (mapbuffer : Bool) (i : Nat) (w : World)
    (h : w.Paired) :
    ∃ t, w.exec E mapbuffer (Cmd.deleteBuffer i) = some t ∧ t.Paired ∧
      (Cmd.deleteBuffer i).effect w t := by
  obtain ⟨e1, e2, e3⟩ := Paired.eqs h
  cases hg : w.buffers.get? i with
  | none =>
    refine ⟨w, by simp only [World.exec, hg], h, ?_⟩
    simp only [Cmd.effect, hg]
  | some b =>
    have hb : b ∈ w.buffers := List.get?_mem hg
    have hid : b.id ∈ w.buffers.map GLBuffer.id := List.mem_map_of_mem _ hb
    obtain ⟨m, hd, f1, f2, f3, f4, f5, f6⟩ := GLBuffer_dtor_facts b w.machine (h.idle b hb)
      (h.nonzero_buffers _ hid) (by rw [e1]; exact hid)
    have hlive : World.live (World.mk m (w.buffers.eraseIdx i) w.shaders w.programs) =
        (w.live.1.filter (fun x => x ≠ b.id), w.live.2.1, w.live.2.2) := by
      simp only [World.live, f1, f2, f3]
    have hheld : World.held (World.mk m (w.buffers.eraseIdx i) w.shaders w.programs) =
        (w.live.1.filter (fun x => x ≠ b.id), w.live.2.1, w.live.2.2) := by
      simp only [World.held, World.live, map_eraseIdx_id, e1, e2, e3]
      rw [filter_ne_eq_eraseIdx _ h.nodup_buffers i b.id (get?_map_some _ _ _ _ hg)]
    refine ⟨World.mk m (w.buffers.eraseIdx i) w.shaders w.programs,
      by simp only [World.exec, hg, hd], ⟨?_, ?_, h.nodup_shaders, ?_, h.nonzero_shaders, ?_,
        ?_, ?_⟩, ?_⟩
    · rw [hlive, hheld]
    · show (List.map GLBuffer.id (w.buffers.eraseIdx i)).Nodup
      rw [map_eraseIdx_id]
      exact h.nodup_buffers.sublist (List.eraseIdx_sublist _ _)
    · intro id hx
      change id ∈ List.map GLBuffer.id (w.buffers.eraseIdx i) at hx
      rw [map_eraseIdx_id] at hx
      exact h.nonzero_buffers id ((List.eraseIdx_sublist _ _).subset hx)
    · intro x hx
      exact h.idle x ((List.eraseIdx_sublist _ _).subset hx)
    · show m.ignored = 0
      rw [f6]
      exact h.ignored
    · show m.created = m.deleted + (w.buffers.eraseIdx i).length + w.shaders.length +
        w.programs.length
      have := length_eraseIdx_get? _ _ _ hg
      rw [f4, f5, h.count]
      omega
    · simp only [Cmd.effect, hg, and_true, true_and]
      exact ⟨by rw [World.live, e1]; exact hid, hlive, f4, f5⟩

theorem exec_deleteShader (E : MachineEnv) (mapbuffer : Bool) (i : Nat) (w : World)
    (h : w.Paired) :
    ∃ t, w.exec E mapbuffer (Cmd.deleteShader i) = some t ∧ t.Paired ∧
      (Cmd.deleteShader i).effect w t := by
  obtain ⟨e1, e2, e3⟩ := Paired.eqs h
  cases hg : w.shaders.get? i with
  | none =>
    refine ⟨w, by simp only [World.exec, hg], h, ?_⟩
    simp only [Cmd.effect, hg]
  | some sh =>
    have hb : sh ∈ w.shaders := List.get?_mem hg
    have hid : sh.id ∈ w.shaders.map GLShader.id := List.mem_map_of_mem _ hb
    obtain ⟨f1, f2, f3, f4, f5, f6⟩ := GLShader_dtor_facts sh w.machine
      (h.nonzero_shaders _ (List.mem_append_left _ hid)) (by rw [e2]; exact hid)
    have hsub : (List.map GLShader.id (w.shaders.eraseIdx i) ++
        List.map GLProgram.id w.programs).Sublist
        (List.map GLShader.id w.shaders ++ List.map GLProgram.id w.programs) :=
      List.Sublist.append ((List.eraseIdx_sublist _ _).map _) (List.Sublist.refl _)
    have hlive : World.live (World.mk (sh.dtor w.machine) w.buffers (w.shaders.eraseIdx i)
        w.programs) = (w.live.1, w.live.2.1.filter (fun x => x ≠ sh.id), w.live.2.2) := by
      simp only [World.live, f1, f2, f3]
    have hheld : World.held (World.mk (sh.dtor w.machine) w.buffers (w.shaders.eraseIdx i)
        w.programs) = (w.live.1, w.live.2.1.filter (fun x => x ≠ sh.id), w.live.2.2) := by
      simp only [World.held, World.live, map_eraseIdx_id, e1, e2, e3]
      rw [filter_ne_eq_eraseIdx _ (List.Nodup.of_append_left h.nodup_shaders) i sh.id
        (get?_map_some _ _ _ _ hg)]
    refine ⟨World.mk (sh.dtor w.machine) w.buffers (w.shaders.eraseIdx i) w.programs,
      by simp only [World.exec, hg], ⟨?_, h.nodup_buffers, ?_, h.nonzero_buffers, ?_, h.idle,
        ?_, ?_⟩, ?_⟩
    · rw [hlive, hheld]
    · exact h.nodup_shaders.sublist hsub
    · intro id hx
      exact h.nonzero_shaders id (hsub.subset hx)
    · show (sh.dtor w.machine).ignored = 0
      rw [f6]
      exact h.ignored
    · show (sh.dtor w.machine).created =
        (sh.dtor w.machine).deleted + w.buffers.length + (w.shaders.eraseIdx i).length +
          w.programs.length
      have := length_eraseIdx_get? _ _ _ hg
      rw [f4, f5, h.count]
      omega
    · simp only [Cmd.effect, hg, and_true, true_and]
      exact ⟨by rw [World.live, e2]; exact hid, hlive, f4, f5⟩

theorem exec_deleteProgram (E : MachineEnv) (mapbuffer : Bool) (i : Nat) (w : World)
    (h : w.Paired) :
    ∃ t, w.exec E mapbuffer (Cmd.deleteProgram i) = some t ∧ t.Paired ∧
      (Cmd.deleteProgram i).effect w t := by
  obtain ⟨e1, e2, e3⟩ := Paired.eqs h
  cases hg : w.programs.get? i with
  | none =>
    refine ⟨w, by simp only [World.exec, hg], h, ?_⟩
    simp only [Cmd.effect, hg]
  | some p =>
    have hb : p ∈ w.programs := List.get?_mem hg
    have hid : p.id ∈ w.programs.map GLProgram.id := List.mem_map_of_mem _ hb
    obtain ⟨f1, f2, f3, f4, f5, f6⟩ := GLProgram_dtor_facts p w.machine
      (h.nonzero_shaders _ (List.mem_append_right _ hid)) (by rw [e3]; exact hid)
    have hsub : (List.map GLShader.id w.shaders ++
        List.map GLProgram.id (w.programs.eraseIdx i)).Sublist
        (List.map GLShader.id w.shaders ++ List.map GLProgram.id w.programs) :=
      List.Sublist.append (List.Sublist.refl _) ((List.eraseIdx_sublist _ _).map _)
    have hlive : World.live (World.mk (p.dtor w.machine) w.buffers w.shaders
        (w.programs.eraseIdx i)) =
        (w.live.1, w.live.2.1, w.live.2.2.filter (fun x => x ≠ p.id)) := by
      simp only [World.live, f1, f2, f3]
    have hheld : World.held (World.mk (p.dtor w.machine) w.buffers w.shaders
        (w.programs.eraseIdx i)) =
        (w.live.1, w.live.2.1, w.live.2.2.filter (fun x => x ≠ p.id)) := by
      simp only [World.held, World.live, map_eraseIdx_id, e1, e2, e3]
      rw [filter_ne_eq_eraseIdx _ (List.Nodup.of_append_right h.nodup_shaders) i p.id
        (get?_map_some _ _ _ _ hg)]
    refine ⟨World.mk (p.dtor w.machine) w.buffers w.shaders (w.programs.eraseIdx i),
      by simp only [World.exec, hg], ⟨?_, h.nodup_buffers, ?_, h.nonzero_buffers, ?_, h.idle,
        ?_, ?_⟩, ?_⟩
    · rw [hlive, hheld]
    · exact h.nodup_shaders.sublist hsub
    · intro id hx
      exact h.nonzero_shaders id (hsub.subset hx)
    · show (p.dtor w.machine).ignored = 0
      rw [f6]
      exact h.ignored
    · show (p.dtor w.machine).created =
        (p.dtor w.machine).deleted + w.buffers.length + w.shaders.length +
          (w.programs.eraseIdx i).length
      have := length_eraseIdx_get? _ _ _ hg
      rw [f4, f5, h.count]
      omega
    · simp only [Cmd.effect, hg, and_true, true_and]
      exact ⟨by rw [World.live, e3]; exact hid, hlive, f4, f5⟩

theorem exec_same (w : World) (m : Machine) (h : w.Paired) (hs : w.machine.SameObjects m) :
    World.Paired { w with machine := m } ∧
      (World.live { w with machine := m } = w.live ∧
        World.held { w with machine := m } = w.held ∧
        m.created = w.machine.created ∧ m.deleted = w.machine.deleted) :=
  paired_of_same m h hs

theorem exec_other (E : MachineEnv) (mapbuffer : Bool) (cmd : Cmd) (w : World) (h : w.Paired)
    (hc : (∃ i, cmd = Cmd.Bind i) ∨ cmd = Cmd.Unbind ∨ (∃ i size data, cmd = Cmd.Load i size data) ∨
      ∃ i size bytes, cmd = Cmd.Write i size bytes) :
    ∃ t, w.exec E mapbuffer cmd = some t ∧ t.Paired ∧ cmd.effect w t := by
  obtain ⟨e1, e2, e3⟩ := Paired.eqs h
  have hw : w.Paired ∧ (w.live = w.live ∧ w.held = w.held ∧
      w.machine.created = w.machine.created ∧ w.machine.deleted = w.machine.deleted) :=
    ⟨h, rfl, rfl, rfl, rfl⟩
  rcases hc with ⟨i, rfl⟩ | rfl | ⟨i, size, data, rfl⟩ | ⟨i, size, bytes, rfl⟩
  · cases hg : w.buffers.get? i with
    | none => exact ⟨w, by simp only [World.exec, hg], hw⟩
    | some b =>
      have hb : b ∈ w.buffers := List.get?_mem hg
      obtain ⟨m, hm, hs⟩ := Bind_same b w.machine (h.idle b hb)
        (by rw [e1]; exact List.mem_map_of_mem _ hb)
      exact ⟨_, by simp only [World.exec, hg, hm], exec_same w m h hs⟩
  · exact ⟨_, rfl, exec_same w _ h (same_Unbind _)⟩
  · cases hg : w.buffers.get? i with
    | none => exact ⟨w, by simp only [World.exec, hg], hw⟩
    | some b =>
      have hb : b ∈ w.buffers := List.get?_mem hg
      obtain ⟨m, hm, hs⟩ := Load_same E b size data w.machine (h.idle b hb)
        (by rw [e1]; exact List.mem_map_of_mem _ hb)
      exact ⟨_, by simp only [World.exec, hg, hm], exec_same w m h hs⟩
  · cases hg : w.buffers.get? i with
    | none => exact ⟨w, by simp only [World.exec, hg], hw⟩
    | some b =>
      have hb : b ∈ w.buffers := List.get?_mem hg
      obtain ⟨m, hm, hs⟩ := writeCycle_same E mapbuffer size bytes b w.machine (h.idle b hb)
        (by rw [e1]; exact List.mem_map_of_mem _ hb)
      refine ⟨{ w with machine := m }, ?_, exec_same w m h hs⟩
      simp only [World.exec, hg, hm, set_get_self _ _ _ hg]

theorem exec_paired (E : MachineEnv) (mapbuffer : Bool) (cmd : Cmd) (w : World) (h : w.Paired) :
    ∃ t, w.exec E mapbuffer cmd = some t ∧ t.Paired ∧ cmd.effect w t := by
  cases cmd with
  | newBuffer => exact exec_newBuffer E mapbuffer w h
  | newShader type => exact exec_newShader E mapbuffer type w h
  | newProgram => exact exec_newProgram E mapbuffer w h
  | deleteBuffer i => exact exec_deleteBuffer E mapbuffer i w h
  | deleteShader i => exact exec_deleteShader E mapbuffer i w h
  | deleteProgram i => exact exec_deleteProgram E mapbuffer i w h
  | Bind i => exact exec_other E mapbuffer _ w h (Or.inl ⟨i, rfl⟩)
  | Unbind => exact exec_other E mapbuffer _ w h (Or.inr (Or.inl rfl))
  | Load i size data => exact exec_other E mapbuffer _ w h (Or.inr (Or.inr (Or.inl ⟨_, _, _, rfl⟩)))
  | Write i size bytes =>
    exact exec_other E mapbuffer _ w h (Or.inr (Or.inr (Or.inr ⟨_, _, _, rfl⟩)))

theorem initial_paired : World.initial.Paired :=
  ⟨rfl, List.nodup_nil, List.nodup_nil, (fun _ h => nomatch h), (fun _ h => nomatch h),
    (fun _ h => nomatch h), rfl, rfl⟩

theorem run_paired (E : MachineEnv) (mapbuffer : Bool) (cmds : List Cmd) (w : World)
    (h : w.Paired) : ∃ t, World.run E mapbuffer cmds w = some t ∧ t.Paired := by
  induction cmds generalizing w with
  | nil => exact ⟨w, rfl, h⟩
  | cons cmd rest ih =>
    obtain ⟨t, ht, hp, _⟩ := exec_paired E mapbuffer cmd w h
    obtain ⟨u, hu, hq⟩ := ih t hp
    exact ⟨u, by simp only [World.run, ht, hu], hq⟩

/-- C9: resource pairing. For every sequence of constructions, destructions,
`Bind`, `Unbind`, `Load` calls and write cycles on `GLBuffer`, `GLShader` and
`GLProgram` wrappers, started without objects and whatever `OpenGL::mapbuffer`
is, the sequence runs to a world `w` (no assertion fails), every further
operation runs to a world `t`, and there: the names of the live GPU objects
are the names held by the live wrappers, class by class, no name is held
twice, no delete call has named a missing object (none is silently ignored,
so no double delete), and the objects created are those deleted and those
still held. The operation itself, by `Cmd.effect`: a construction creates
exactly one object, under a name not alive before; the destruction of a
wrapper deletes exactly one object, the one named by the wrapper, which was
alive; `Bind`, `Unbind`, `Load` and the write cycle create and delete
nothing. -/
theorem C9_resource_pairing (E : MachineEnv) (mapbuffer : Bool) (cmds : List Cmd) (cmd : Cmd) :
    ∃ w t, World.run E mapbuffer cmds World.initial = some w ∧
      w.exec E mapbuffer cmd = some t ∧
      w.live = w.held ∧ t.live = t.held ∧
      t.held.1.Nodup ∧ (t.held.2.1 ++ t.held.2.2).Nodup ∧
      t.machine.ignored = 0 ∧
      t.machine.created =
        t.machine.deleted + t.buffers.length + t.shaders.length + t.programs.length ∧
      cmd.effect w t := by
  obtain ⟨w, hw, hp⟩ := run_paired E mapbuffer cmds World.initial initial_paired
  obtain ⟨t, ht, hq, he⟩ := exec_paired E mapbuffer cmd w hp
  exact ⟨w, t, hw, ht, hp.live_eq_held, hq.live_eq_held, hq.nodup_buffers, hq.nodup_shaders,
    hq.ignored, hq.count, he⟩


/-! ## `ImportTexture` -/

theorem NextPowerOfTwo.loop_terminates (i : Nat) (hi : i ≤ 2 ^ 31) (fuel k : Nat)
    (hk : k ≤ 31) (hf : 32 ≤ fuel + k) : ∃ p, NextPowerOfTwo.loop i fuel (2 ^ k) = some p := by
  induction fuel generalizing k with
  | zero => omega
  | succ fuel ih =>
    unfold NextPowerOfTwo.loop
    split
    · rename_i hlt
      have hk1 : k < 31 := by
        by_contra hge
        have : k = 31 := by omega
        subst this
        omega
      have hpos : 2 ^ k ≠ 0 := by positivity
      rw [if_neg hpos]
      have hdouble : u32 (2 ^ k <<< 1) = 2 ^ (k + 1) := by
        have h32 : 2 ^ (k + 1) < 2 ^ 32 := Nat.pow_lt_pow_right (by decide) (by omega)
        rw [Nat.shiftLeft_eq, pow_one, ← pow_succ]
        exact Nat.mod_eq_of_lt h32
      rw [hdouble]
      exact ih (k + 1) (by omega) (by omega)
    · exact ⟨_, rfl⟩

theorem NextPowerOfTwo_terminates (i : Nat) (hi : i ≤ 2 ^ 31) : ∃ p, NextPowerOfTwo i = some p :=
  NextPowerOfTwo.loop_terminates i hi 33 0 (by decide) (by decide)

theorem ValidateTextureSize_terminates (G : OpenGLGlobals) (size : PixelSize)
    (h : G.texture_non_power_of_two = true ∨ (size.width ≤ 2 ^ 31 ∧ size.height ≤ 2 ^ 31)) :
    ∃ v, ValidateTextureSize.ofSize G size = some v := by
  unfold ValidateTextureSize.ofSize ValidateTextureSize
  cases hG : G.texture_non_power_of_two with
  | true =>
    simp only [if_true]
    exact ⟨_, rfl⟩
  | false =>
    rcases h with h | ⟨hw, hh⟩
    · rw [hG] at h
      exact absurd h (by decide)
    · obtain ⟨p, hp⟩ := NextPowerOfTwo_terminates _ hw
      obtain ⟨q, hq⟩ := NextPowerOfTwo_terminates _ hh
      simp only [Bool.false_eq_true, if_false, hp, hq]
      exact ⟨_, rfl⟩

theorem texImageWith_diag (format type : GLenum) : AcceptsDiag (Ev.texImageWith format type) :=
  ⟨fun _ => rfl, fun _ _ => rfl⟩

theorem checkError_clean_of_nil (tag : String) (c : Ctx) (h : c.errs = []) :
    checkError tag c = Ctx.call (GLCall.glGetError GL_NO_ERROR) c := by
  unfold checkError glGetError Ctx.nextError
  simp [h, GL_NO_ERROR, Ctx.call, Ctx.emit]

/-- `LoadTextureAutoAlign` returns once the size is validated; every texture
image call it makes carries the formats it was given; when no GL error is
reported the padded upload is made. -/
theorem LoadTextureAutoAlign_spec (G : OpenGLGlobals) (format type : GLenum) (size v : PixelSize)
    (pixels : List Byte) (c : Ctx) (hv : ValidateTextureSize.ofSize G size = some v) :
    ∃ c', LoadTextureAutoAlign G format size format type pixels c = some c' ∧
      TraceExt (Ev.texImageWith format type) c c' ∧
      (c.errs = [] →
        Ev.gl Site.direct (GLCall.glTexImage2D format (toInt v.width) (toInt v.height)
          format type none) ∈ c'.trace ∧
        Ev.gl Site.direct (GLCall.glTexSubImage2D 0 0 (toInt size.width) (toInt size.height)
          format type pixels) ∈ c'.trace) := by
  have hd := texImageWith_diag format type
  have hP1 : ∀ w h p, Ev.texImageWith format type
      (Ev.gl Site.direct (GLCall.glTexImage2D format w h format type p)) = true := by
    intro w h p
    simp [Ev.texImageWith]
  have hP2 : ∀ x y w h p, Ev.texImageWith format type
      (Ev.gl Site.direct (GLCall.glTexSubImage2D x y w h format type p)) = true := by
    intro x y w h p
    simp [Ev.texImageWith]
  unfold LoadTextureAutoAlign
  rw [hv]
  dsimp only
  have h1 : TraceExt (Ev.texImageWith format type) c
      (if v = size then Ctx.call (GLCall.glTexImage2D format (toInt size.width)
        (toInt size.height) format type (some pixels)) c else c) := by
    split
    · exact TraceExt.step_call (hP1 _ _ _) (TraceExt.refl _ _)
    · exact TraceExt.refl _ _
  have herrs : (if v = size then Ctx.call (GLCall.glTexImage2D format (toInt size.width)
        (toInt size.height) format type (some pixels)) c else c).errs = c.errs := by
    split <;> rfl
  generalize (if v = size then Ctx.call (GLCall.glTexImage2D format (toInt size.width)
        (toInt size.height) format type (some pixels)) c else c) = c1 at h1 herrs
  split
  · rename_i herr
    refine ⟨_, rfl, TraceExt.step_LogFormat hd _ _ (TraceExt.step_glGetError hd h1), ?_⟩
    intro hnil
    exfalso
    apply herr
    simp [Ctx.nextError, herrs, hnil]
  · refine ⟨_, rfl, TraceExt.step_check hd _ (TraceExt.step_call (hP2 _ _ _ _ _)
      (TraceExt.step_check hd _ (TraceExt.step_call (hP1 _ _ _)
        (TraceExt.step_glGetError hd h1)))), ?_⟩
    intro _
    have hany : AcceptsDiag (fun _ : Ev => true) := ⟨fun _ => rfl, fun _ _ => rfl⟩
    constructor
    · refine TraceExt.mem (P := fun _ => true) (TraceExt.step_check hany _
        (TraceExt.step_call (by rfl) (TraceExt.step_check hany _ (TraceExt.refl _ _)))) ?_
      simp
    · refine TraceExt.mem (P := fun _ => true) (TraceExt.step_check hany _
        (TraceExt.refl _ _)) ?_
      simp

/-- Above 2^31 the loop of `NextPowerOfTwo` does not end: `p` doubles up to
2^31, which is still below `i`, and the next shift gives 0. -/
theorem NextPowerOfTwo.loop_diverges (i : Nat) (hi : 2 ^ 31 < i) (fuel k : Nat) (hk : k ≤ 31) :
    NextPowerOfTwo.loop i fuel (2 ^ k) = none := by
  induction fuel generalizing k with
  | zero => rfl
  | succ fuel ih =>
    unfold NextPowerOfTwo.loop
    have hle : 2 ^ k ≤ 2 ^ 31 := Nat.pow_le_pow_right (by decide) hk
    have hlt : 2 ^ k < i := lt_of_le_of_lt hle hi
    have hpos : 2 ^ k ≠ 0 := by positivity
    rw [if_pos hlt, if_neg hpos]
    by_cases hk1 : k < 31
    · have hdouble : u32 (2 ^ k <<< 1) = 2 ^ (k + 1) := by
        have h32 : 2 ^ (k + 1) < 2 ^ 32 := Nat.pow_lt_pow_right (by decide) (by omega)
        rw [Nat.shiftLeft_eq, pow_one, ← pow_succ]
        exact Nat.mod_eq_of_lt h32
      rw [hdouble]
      exact ih (k + 1) (by omega)
    · have hk31 : k = 31 := by omega
      subst hk31
      have hzero : u32 (2 ^ 31 <<< 1) = 0 := by decide
      rw [hzero]
      cases fuel with
      | zero => rfl
      | succ fuel =>
        unfold NextPowerOfTwo.loop
        have h0 : 0 < i := by omega
        rw [if_pos h0, if_pos rfl]

theorem NextPowerOfTwo_diverges (i : Nat) (hi : 2 ^ 31 < i) : NextPowerOfTwo i = none :=
  NextPowerOfTwo.loop_diverges i hi 33 0 (by decide)

/-- `ValidateTextureSize(PixelSize)` returns exactly when non-power-of-two
textures are supported or both dimensions are at most 2^31. -/
theorem ValidateTextureSize_returns_iff (G : OpenGLGlobals) (size : PixelSize) :
    (∃ v, ValidateTextureSize.ofSize G size = some v) ↔
      (G.texture_non_power_of_two = true ∨ (size.width ≤ 2 ^ 31 ∧ size.height ≤ 2 ^ 31)) := by
  constructor
  · rintro ⟨v, hv⟩
    cases hG : G.texture_non_power_of_two with
    | true => exact Or.inl rfl
    | false =>
      right
      unfold ValidateTextureSize.ofSize ValidateTextureSize at hv
      simp only [hG, Bool.false_eq_true, if_false] at hv
      constructor
      · by_contra hw
        rw [NextPowerOfTwo_diverges _ (by omega)] at hv
        exact nomatch hv
      · by_contra hh
        rw [NextPowerOfTwo_diverges size.height (by omega)] at hv
        split at hv <;> exact nomatch hv
  · exact ValidateTextureSize_terminates G size

/-- The calls of `ImportTexture` that return are those on an `INVALID` image
and those on an image whose size the validation can handle: for `GRAY`, `RGB`
and `RGBA`, without support of non-power-of-two textures and with a dimension
above 2^31, `ImportTexture` does not return. -/
theorem ImportTexture_returns_iff (G : OpenGLGlobals) (image : UncompressedImage) (c : Ctx) :
    (∃ r, ImportTexture G image c = some r) ↔
      (image.format = UncompressedImage.Format.INVALID ∨
        G.texture_non_power_of_two = true ∨
        (image.size.width ≤ 2 ^ 31 ∧ image.size.height ≤ 2 ^ 31)) := by
  have hnone : ∀ (f : GLenum) (x : Ctx),
      ¬ (G.texture_non_power_of_two = true ∨
        (image.size.width ≤ 2 ^ 31 ∧ image.size.height ≤ 2 ^ 31)) →
      GLTexture.ctorData G f image.size f GL_UNSIGNED_BYTE image.data image.flipped x = none := by
    intro f x h
    have hv : ValidateTextureSize.ofSize G image.size = none := by
      cases hv : ValidateTextureSize.ofSize G image.size with
      | none => rfl
      | some v => exact absurd ((ValidateTextureSize_returns_iff G image.size).1 ⟨v, hv⟩) h
    unfold GLTexture.ctorData
    rw [hv]
  have hsome : ∀ (f : GLenum) (x : Ctx),
      (G.texture_non_power_of_two = true ∨
        (image.size.width ≤ 2 ^ 31 ∧ image.size.height ≤ 2 ^ 31)) →
      ∃ r, GLTexture.ctorData G f image.size f GL_UNSIGNED_BYTE image.data image.flipped x
        = some r := by
    intro f x h
    obtain ⟨v, hv⟩ := ValidateTextureSize_terminates G image.size h
    obtain ⟨c', hc', _⟩ := LoadTextureAutoAlign_spec G f GL_UNSIGNED_BYTE image.size v
      image.data (GLTexture.Initialise G x).2 hv
    refine ⟨(⟨(GLTexture.Initialise G x).1, image.size, v, image.flipped⟩, c'), ?_⟩
    unfold GLTexture.ctorData
    rw [hv]
    dsimp only
    rw [hc']
  by_cases hs : G.texture_non_power_of_two = true ∨
      (image.size.width ≤ 2 ^ 31 ∧ image.size.height ≤ 2 ^ 31)
  · cases hf : image.format with
    | INVALID =>
      refine ⟨fun _ => Or.inl rfl, fun _ => ⟨(none, c), ?_⟩⟩
      unfold ImportTexture
      simp only [hf]
    | RGB =>
      obtain ⟨⟨t, c2⟩, hr⟩ := hsome GL_RGB (checkError "JJJ" (Ctx.call
        (GLCall.glPixelStorei GL_UNPACK_ALIGNMENT 1) (checkError "JJJbefore" c))) hs
      refine ⟨fun _ => Or.inr hs, fun _ => ⟨(some t, c2), ?_⟩⟩
      unfold ImportTexture
      simp only [hf, hr]
    | RGBA =>
      obtain ⟨⟨t, c2⟩, hr⟩ := hsome GL_RGBA (checkError "JJJ" (Ctx.call
        (GLCall.glPixelStorei GL_UNPACK_ALIGNMENT 1) (checkError "JJJbefore" c))) hs
      refine ⟨fun _ => Or.inr hs, fun _ => ⟨(some t, c2), ?_⟩⟩
      unfold ImportTexture
      simp only [hf, hr]
    | GRAY =>
      obtain ⟨⟨t, c2⟩, hr⟩ := hsome GL_LUMINANCE (checkError "JJJ" (Ctx.call
        (GLCall.glPixelStorei GL_UNPACK_ALIGNMENT 1) (checkError "JJJbefore" c))) hs
      refine ⟨fun _ => Or.inr hs, fun _ => ⟨(some t, c2), ?_⟩⟩
      unfold ImportTexture
      simp only [hf, hr]
  · cases hf : image.format with
    | INVALID =>
      refine ⟨fun _ => Or.inl rfl, fun _ => ⟨(none, c), ?_⟩⟩
      unfold ImportTexture
      simp only [hf]
    | RGB =>
      have hi : ImportTexture G image c = none := by
        unfold ImportTexture
        simp only [hf, hnone GL_RGB _ hs]
      rw [hi]
      refine ⟨?_, ?_⟩
      · rintro ⟨r, h⟩
        exact Option.noConfusion h
      · intro h
        rcases h with h | h
        · exact absurd h (by decide)
        · exact absurd h hs
    | RGBA =>
      have hi : ImportTexture G image c = none := by
        unfold ImportTexture
        simp only [hf, hnone GL_RGBA _ hs]
      rw [hi]
      refine ⟨?_, ?_⟩
      · rintro ⟨r, h⟩
        exact Option.noConfusion h
      · intro h
        rcases h with h | h
        · exact absurd h (by decide)
        · exact absurd h hs
    | GRAY =>
      have hi : ImportTexture G image c = none := by
        unfold ImportTexture
        simp only [hf, hnone GL_LUMINANCE _ hs]
      rw [hi]
      refine ⟨?_, ?_⟩
      · rintro ⟨r, h⟩
        exact Option.noConfusion h
      · intro h
        rcases h with h | h
        · exact absurd h (by decide)
        · exact absurd h hs

@[simp] theorem essential_nil : essential [] = [] := rfl

theorem essential_cons (e : Ev) (rest : List Ev) :
    essential (e :: rest) = if e.isDiag = true then essential rest else e :: essential rest := by
  cases h : e.isDiag <;> simp [essential, List.filter_cons, h]

@[simp] theorem essential_append (xs ys : List Ev) :
    essential (xs ++ ys) = essential xs ++ essential ys := by
  simp [essential]

@[simp] theorem draws_nil : draws [] = [] := rfl

theorem draws_cons (e : Ev) (rest : List Ev) :
    draws (e :: rest) = (match e.drawCall with
      | some k => k :: draws rest
      | none => draws rest) := by
  cases h : e.drawCall <;> simp [draws, List.filterMap_cons, h]

@[simp] theorem draws_append (xs ys : List Ev) : draws (xs ++ ys) = draws xs ++ draws ys := by
  simp [draws]

theorem draws_essential (evs : List Ev) : draws (essential evs) = draws evs := by
  induction evs with
  | nil => rfl
  | cons e rest ih =>
    cases e with
    | gl s k =>
      cases k <;> simp_all [essential_cons, draws_cons, Ev.isDiag, Ev.drawCall]
    | log t k => simp_all [essential_cons, draws_cons, Ev.isDiag, Ev.drawCall]
    | lib k => simp_all [essential_cons, draws_cons, Ev.isDiag, Ev.drawCall]
    | enter f => simp_all [essential_cons, draws_cons, Ev.isDiag, Ev.drawCall]

@[simp] theorem checkError_essential (tag : String) (c : Ctx) :
    essential (checkError tag c).trace = essential c.trace := by
  unfold checkError glGetError LogFormat
  dsimp only
  split <;> simp [essential_cons, Ev.isDiag, Ctx.call, Ctx.emit]

@[simp] theorem checkError_draws (tag : String) (c : Ctx) :
    draws (checkError tag c).trace = draws c.trace := by
  rw [← draws_essential, checkError_essential, draws_essential]

@[simp] theorem Use_essential (p : Shader) (c : Ctx) :
    essential (GLProgram.Use p c).trace =
      essential c.trace ++ [Ev.gl Site.direct (GLCall.glUseProgram p)] := by
  simp [GLProgram.Use, essential_cons, Ev.isDiag]

@[simp] theorem Use_draws (p : Shader) (c : Ctx) :
    draws (GLProgram.Use p c).trace = draws c.trace := by
  simp [GLProgram.Use, draws_cons, Ev.drawCall]

@[simp] theorem Use_pen (p : Shader) (c : Ctx) : (GLProgram.Use p c).pen = c.pen := by
  simp [GLProgram.Use]

@[simp] theorem Use_brush (p : Shader) (c : Ctx) : (GLProgram.Use p c).brush = c.brush := by
  simp [GLProgram.Use]

@[simp] theorem vp_ctor_essential (t : VType) (d : List Vertex) (c : Ctx) :
    essential (ScopeVertexPointer.ctor t d c).trace =
      essential c.trace ++ [Ev.gl Site.direct (GLCall.glEnableVertexAttribArray Attribute.POSITION),
        Ev.gl Site.direct (GLCall.glVertexAttribPointer Attribute.POSITION t d)] := by
  simp [ScopeVertexPointer.ctor, ScopeVertexPointer.Update, essential_cons, Ev.isDiag]

@[simp] theorem vp_Update_essential (t : VType) (d : List Vertex) (c : Ctx) :
    essential (ScopeVertexPointer.Update t d c).trace =
      essential c.trace ++ [Ev.gl Site.direct (GLCall.glVertexAttribPointer Attribute.POSITION t d)] := by
  simp [ScopeVertexPointer.Update, essential_cons, Ev.isDiag]

@[simp] theorem vp_dtor_essential (c : Ctx) :
    essential (ScopeVertexPointer.dtor c).trace =
      essential c.trace ++
        [Ev.gl Site.direct (GLCall.glDisableVertexAttribArray Attribute.POSITION)] := by
  simp [ScopeVertexPointer.dtor, essential_cons, Ev.isDiag]

@[simp] theorem vp_ctor_draws (t : VType) (d : List Vertex) (c : Ctx) :
    draws (ScopeVertexPointer.ctor t d c).trace = draws c.trace := by
  rw [← draws_essential, vp_ctor_essential, draws_append, draws_essential]
  simp [draws_cons, Ev.drawCall]

@[simp] theorem vp_Update_draws (t : VType) (d : List Vertex) (c : Ctx) :
    draws (ScopeVertexPointer.Update t d c).trace = draws c.trace := by
  rw [← draws_essential, vp_Update_essential, draws_append, draws_essential]
  simp [draws_cons, Ev.drawCall]

@[simp] theorem vp_dtor_draws (c : Ctx) :
    draws (ScopeVertexPointer.dtor c).trace = draws c.trace := by
  rw [← draws_essential, vp_dtor_essential, draws_append, draws_essential]
  simp [draws_cons, Ev.drawCall]

@[simp] theorem vp_ctor_pen (t : VType) (d : List Vertex) (c : Ctx) :
    (ScopeVertexPointer.ctor t d c).pen = c.pen := by
  simp [ScopeVertexPointer.ctor, ScopeVertexPointer.Update]

@[simp] theorem vp_ctor_brush (t : VType) (d : List Vertex) (c : Ctx) :
    (ScopeVertexPointer.ctor t d c).brush = c.brush := by
  simp [ScopeVertexPointer.ctor, ScopeVertexPointer.Update]

@[simp] theorem vp_Update_pen (t : VType) (d : List Vertex) (c : Ctx) :
    (ScopeVertexPointer.Update t d c).pen = c.pen := by
  simp [ScopeVertexPointer.Update]

@[simp] theorem vp_Update_brush (t : VType) (d : List Vertex) (c : Ctx) :
    (ScopeVertexPointer.Update t d c).brush = c.brush := by
  simp [ScopeVertexPointer.Update]

@[simp] theorem vp_dtor_pen (c : Ctx) : (ScopeVertexPointer.dtor c).pen = c.pen := by
  simp [ScopeVertexPointer.dtor]

@[simp] theorem vp_dtor_brush (c : Ctx) : (ScopeVertexPointer.dtor c).brush = c.brush := by
  simp [ScopeVertexPointer.dtor]

/-- The essential events an operation issues. -/
theorem issued_essential (f : Ctx → Ctx) (c : Ctx) :
    essential (Ctx.issued f c) = essential (f { c with trace := [] }).trace := rfl

theorem issued_draws (f : Ctx → Ctx) (c : Ctx) :
    draws (Ctx.issued f c) = draws (f { c with trace := [] }).trace := rfl

/-- The draw calls of `Canvas::DrawLinePiece`. -/
theorem DrawLinePiece_draws (G : Geometry) (a b : PixelPoint) (c : Ctx) :
    draws (Ctx.issued (Canvas.DrawLinePiece G a b) c) =
      if 2 < c.pen.width then
        if 0 < (G.LineToTriangles [a, b] 2 c.pen.width false true).length then
          [GLCall.glDrawArrays Prim.GL_TRIANGLE_STRIP 0
             (G.LineToTriangles [a, b] 2 c.pen.width false true).length]
        else []
      else [GLCall.glDrawArrays Prim.GL_LINE_STRIP 0 2] := by
  rw [issued_draws]
  unfold Canvas.DrawLinePiece
  by_cases hw : 2 < c.pen.width
  · by_cases hl : 0 < (G.LineToTriangles [a, b] 2 c.pen.width false true).length
    · simp [hw, hl, draws_cons, Ev.drawCall]
    · simp [hw, hl, draws_cons, Ev.drawCall]
  · simp [hw, draws_cons, Ev.drawCall]

/-- The draw calls of `Canvas::DrawLine`. -/
theorem DrawLine_draws (L : CanvasLib) (a b : PixelPoint) (c : Ctx) :
    draws (Ctx.issued (Canvas.DrawLine L a b) c) = [GLCall.glDrawArrays Prim.GL_LINE_STRIP 0 2] := by
  rw [issued_draws]
  unfold Canvas.DrawLine
  by_cases hs : c.pen.style = PenStyle.SOLID
  · simp [hs, draws_cons, Ev.drawCall]
  · simp [hs, draws_cons, Ev.drawCall]

/-- The draw calls of `Canvas::DrawExactLine`. -/
theorem DrawExactLine_draws (a b : PixelPoint) (c : Ctx) :
    draws (Ctx.issued (Canvas.DrawExactLine a b) c) =
      [GLCall.glDrawArrays Prim.GL_LINE_STRIP 0 2] := by
  rw [issued_draws]
  unfold Canvas.DrawExactLine
  simp [draws_cons, Ev.drawCall]

/-- The draw calls of `Canvas::DrawTwoLines`. -/
theorem DrawTwoLines_draws (a b d : PixelPoint) (c : Ctx) :
    draws (Ctx.issued (Canvas.DrawTwoLines a b d) c) =
      [GLCall.glDrawArrays Prim.GL_LINE_STRIP 0 3] := by
  rw [issued_draws]
  unfold Canvas.DrawTwoLines
  simp [draws_cons, Ev.drawCall]

/-- The draw calls of `Canvas::DrawPolyline`. -/
theorem DrawPolyline_draws (points : List PixelPoint) (n : Nat) (c : Ctx) :
    draws (Ctx.issued (Canvas.DrawPolyline points n) c) =
      [GLCall.glDrawArrays Prim.GL_LINE_STRIP 0 n] := by
  rw [issued_draws]
  unfold Canvas.DrawPolyline
  simp [draws_cons, Ev.drawCall]

/-- The draw calls of `Canvas::DrawOutlineRectangle`. -/
theorem DrawOutlineRectangle_draws (r : PixelRect) (c : Ctx) :
    draws (Ctx.issued (Canvas.DrawOutlineRectangle r) c) =
      [GLCall.glDrawArrays Prim.GL_LINE_LOOP 0 4] := by
  rw [issued_draws]
  unfold Canvas.DrawOutlineRectangle Canvas.DrawOutlineRectangleGL
  simp [draws_cons, Ev.drawCall]

/-- The draw calls of `Canvas::DrawPolygon`: the fill, then the outline. -/
theorem DrawPolygon_draws (G : Geometry) (points : List PixelPoint) (n : Nat) (c : Ctx) :
    draws (Ctx.issued (Canvas.DrawPolygon G points n) c) =
      (if c.brush.IsHollow = false ∧ 3 ≤ n ∧ 0 < (G.PolygonToTriangles points n).length then
        [GLCall.glDrawElements Prim.GL_TRIANGLES (G.PolygonToTriangles points n).length
          (G.PolygonToTriangles points n)]
       else [])
      ++ (if Canvas.IsPenOverBrush c = true then Canvas.outlineDraws G points n c else []) := by
  rw [issued_draws]
  unfold Canvas.DrawPolygon Canvas.outlineDraws Canvas.IsPenOverBrush
  by_cases hb : c.brush.IsHollow = true <;> by_cases hp : c.pen.IsDefined = true <;>
    by_cases hn : 3 ≤ n <;> by_cases hi : 0 < (G.PolygonToTriangles points n).length <;>
    by_cases hw : c.pen.width ≤ 2 <;>
    by_cases hl : 0 < (G.LineToTriangles points n c.pen.width true false).length <;>
    by_cases hc : c.brush.color = c.pen.color <;>
    simp [hb, hp, hn, hi, hw, hl, hc, Canvas.IsPenOverBrush, draws_cons, Ev.drawCall]

/-- The draw calls of `Canvas::DrawTriangleFan`: the fill, then the outline. -/
theorem DrawTriangleFan_draws (G : Geometry) (points : List PixelPoint) (n : Nat) (c : Ctx) :
    draws (Ctx.issued (Canvas.DrawTriangleFan G points n) c) =
      (if c.brush.IsHollow = false ∧ 3 ≤ n then [GLCall.glDrawArrays Prim.GL_TRIANGLE_FAN 0 n]
       else [])
      ++ (if Canvas.IsPenOverBrush c = true then Canvas.outlineDraws G points n c else []) := by
  rw [issued_draws]
  unfold Canvas.DrawTriangleFan Canvas.outlineDraws Canvas.IsPenOverBrush
  by_cases hb : c.brush.IsHollow = true <;> by_cases hp : c.pen.IsDefined = true <;>
    by_cases hn : 3 ≤ n <;>
    by_cases hw : c.pen.width ≤ 2 <;>
    by_cases hl : 0 < (G.LineToTriangles points n c.pen.width true false).length <;>
    by_cases hc : c.brush.color = c.pen.color <;>
    simp [hb, hp, hn, hw, hl, hc, Canvas.IsPenOverBrush, draws_cons, Ev.drawCall]

/-- The essential events of `Canvas::DrawCircle`. -/
theorem DrawCircle_essential (center : PixelPoint) (radius : Nat) (c : Ctx) :
    essential (Ctx.issued (Canvas.DrawCircle center radius) c) =
      (if c.brush.IsHollow = true then
        [Ev.gl Site.direct (GLCall.glUseProgram Shader.circle_outline_shader),
         Ev.lib (LibCall.Color_Uniform Uniform.circle_outline_color c.pen.color),
         Ev.gl Site.direct (GLCall.glUniform2f Uniform.circle_outline_center center.x center.y),
         Ev.gl Site.direct (GLCall.glUniform1f Uniform.circle_outline_radius2 radius),
         Ev.gl Site.direct (GLCall.glUniform1f Uniform.circle_outline_radius1
           (usub radius c.pen.width))]
       else
        [Ev.gl Site.direct (GLCall.glUseProgram Shader.filled_circle_shader),
         Ev.lib (LibCall.Color_Uniform Uniform.filled_circle_color2 c.pen.color),
         Ev.lib (LibCall.Brush_BindUniform Uniform.filled_circle_color1 c.brush),
         Ev.gl Site.direct (GLCall.glUniform2f Uniform.filled_circle_center center.x center.y),
         Ev.gl Site.direct (GLCall.glUniform1f Uniform.filled_circle_radius2 radius),
         Ev.gl Site.direct (GLCall.glUniform1f Uniform.filled_circle_radius1
           (usub radius c.pen.width))])
      ++ [Ev.gl Site.direct (GLCall.glEnableVertexAttribArray Attribute.POSITION),
          Ev.gl Site.direct (GLCall.glVertexAttribPointer Attribute.POSITION VType.GL_VALUE
            [((center.x - radius : Int), (center.y - radius : Int)),
             ((center.x + radius : Int), (center.y - radius : Int)),
             ((center.x - radius : Int), (center.y + radius : Int)),
             ((center.x + radius : Int), (center.y + radius : Int))]),
          Ev.gl Site.direct (GLCall.glDrawArrays Prim.GL_TRIANGLE_STRIP 0 4),
          Ev.gl Site.direct (GLCall.glDisableVertexAttribArray Attribute.POSITION)] := by
  rw [issued_essential]
  unfold Canvas.DrawCircle GLDrawRectangle PixelRect.aroundWithMargin
  by_cases hb : c.brush.IsHollow = true
  · simp [hb, essential_cons, Ev.isDiag]
  · simp [hb, essential_cons, Ev.isDiag]

/-! ## Polygons, lines and circles -/

/-- C12: `Canvas::DrawPolygon` with a hollow brush and an undefined pen is a
no-op: it returns the context unchanged and issues no event, whatever the
points. -/
theorem C12_DrawPolygon_hollow_undefined_noop (G : Geometry) (points : List PixelPoint)
    (n : Nat) (c : Ctx) (hb : c.brush.IsHollow = true) (hp : c.pen.IsDefined = false) :
    Canvas.DrawPolygon G points n c = c ∧ Ctx.issued (Canvas.DrawPolygon G points n) c = [] := by
  constructor
  · unfold Canvas.DrawPolygon
    simp [hb, hp]
  · unfold Ctx.issued Canvas.DrawPolygon
    simp [hb, hp]

/-- C12, at a concrete input: a triangle drawn with the null pen and a hollow
brush. -/
theorem C12_DrawPolygon_hollow_undefined_noop_witness :
    (Canvas.SelectNullPen (exCtx [])).brush.IsHollow = true ∧
    (Canvas.SelectNullPen (exCtx [])).pen.IsDefined = false ∧
    Canvas.DrawPolygon exGeometry [⟨0, 0⟩, ⟨4, 0⟩, ⟨0, 4⟩] 3 (Canvas.SelectNullPen (exCtx [])) =
      Canvas.SelectNullPen (exCtx []) ∧
    Ctx.issued (Canvas.DrawPolygon exGeometry [⟨0, 0⟩, ⟨4, 0⟩, ⟨0, 4⟩] 3)
      (Canvas.SelectNullPen (exCtx [])) = [] :=
  ⟨rfl, rfl, C12_DrawPolygon_hollow_undefined_noop exGeometry [⟨0, 0⟩, ⟨4, 0⟩, ⟨0, 4⟩] 3
    (Canvas.SelectNullPen (exCtx [])) rfl rfl⟩

/-- C13, as stated, fails: a polygon of two points drawn with the black pen of
width 1 and a hollow brush issues a `GL_LINE_LOOP` draw, and so does a polygon
of three points for which the triangulation returns no index, drawn with a
white brush. -/
theorem C13_degenerate_polygon_outline_is_drawn :
    draws (Ctx.issued (Canvas.DrawPolygon exGeometry [⟨0, 0⟩, ⟨4, 0⟩] 2) (exCtx [])) =
      [GLCall.glDrawArrays Prim.GL_LINE_LOOP 0 2] ∧
    (exFlatGeometry.PolygonToTriangles [⟨0, 0⟩, ⟨1, 0⟩, ⟨2, 0⟩] 3).length = 0 ∧
    draws (Ctx.issued (Canvas.DrawPolygon exFlatGeometry [⟨0, 0⟩, ⟨1, 0⟩, ⟨2, 0⟩] 3)
      (Canvas.SelectBrush exWhiteBrush (exCtx []))) =
      [GLCall.glDrawArrays Prim.GL_LINE_LOOP 0 3] := by
  refine ⟨?_, rfl, ?_⟩
  · rw [DrawPolygon_draws]
    decide
  · rw [DrawPolygon_draws]
    decide

/-- C13, amended: for a degenerate polygon (fewer than 3 points, or a
triangulation that returns zero indices) `Canvas::DrawPolygon` issues no fill
draw, whatever pen and brush: its draw calls are those of the outline alone,
which is drawn when the pen is over the brush, so no draw call at all is
issued exactly when the pen is not over the brush or the wide outline has no
vertices. -/
theorem C13_degenerate_polygon_fill_not_drawn (G : Geometry) (points : List PixelPoint)
    (n : Nat) (c : Ctx) (h : n < 3 ∨ (G.PolygonToTriangles points n).length = 0) :
    draws (Ctx.issued (Canvas.DrawPolygon G points n) c) =
      (if Canvas.IsPenOverBrush c = true then
        (if c.pen.width ≤ 2 then [GLCall.glDrawArrays Prim.GL_LINE_LOOP 0 n]
         else if 0 < (G.LineToTriangles points n c.pen.width true false).length then
           [GLCall.glDrawArrays Prim.GL_TRIANGLE_STRIP 0
             (G.LineToTriangles points n c.pen.width true false).length]
         else [])
       else []) := by
  rw [DrawPolygon_draws]
  have h0 : ¬ (c.brush.IsHollow = false ∧ 3 ≤ n ∧ 0 < (G.PolygonToTriangles points n).length) := by
    rintro ⟨_, h1, h2⟩
    omega
  rw [if_neg h0]
  rfl

/-- C13, at a concrete input: two points, the null pen and a white brush give
no draw call. -/
theorem C13_degenerate_polygon_fill_not_drawn_witness :
    draws (Ctx.issued (Canvas.DrawPolygon exGeometry [⟨0, 0⟩, ⟨4, 0⟩] 2)
      (Canvas.SelectNullPen (Canvas.SelectBrush exWhiteBrush (exCtx [])))) = [] :=
  (C13_degenerate_polygon_fill_not_drawn exGeometry [⟨0, 0⟩, ⟨4, 0⟩] 2
    (Canvas.SelectNullPen (Canvas.SelectBrush exWhiteBrush (exCtx [])))
    (Or.inl (by decide))).trans (by decide)

/-- C14, as stated, fails: `DrawLine(a, a)`, `DrawExactLine(a, a)` and
`DrawLinePiece(a, a)` each issue a `GL_LINE_STRIP` draw with the pen of
width 1. -/
theorem C14_zero_length_line_is_drawn :
    draws (Ctx.issued (Canvas.DrawLine exLib ⟨3, 4⟩ ⟨3, 4⟩) (exCtx [])) =
      [GLCall.glDrawArrays Prim.GL_LINE_STRIP 0 2] ∧
    draws (Ctx.issued (Canvas.DrawExactLine ⟨3, 4⟩ ⟨3, 4⟩) (exCtx [])) =
      [GLCall.glDrawArrays Prim.GL_LINE_STRIP 0 2] ∧
    draws (Ctx.issued (Canvas.DrawLinePiece exGeometry ⟨3, 4⟩ ⟨3, 4⟩) (exCtx [])) =
      [GLCall.glDrawArrays Prim.GL_LINE_STRIP 0 2] := by
  refine ⟨DrawLine_draws _ _ _ _, DrawExactLine_draws _ _ _, ?_⟩
  rw [DrawLinePiece_draws]
  decide

/-- C14, amended: no operation checks the length of the line. `DrawLine(a, a)`
and `DrawExactLine(a, a)` issue one `GL_LINE_STRIP` draw of two vertices, and
so does `DrawLinePiece(a, a)` for a pen width up to 2; for a wider pen
`DrawLinePiece(a, a)` issues no draw call exactly when `LineToTriangles`
returns no vertex for the two equal points, and one `GL_TRIANGLE_STRIP` draw
otherwise. -/
theorem C14_zero_length_lines (L : CanvasLib) (G : Geometry) (a : PixelPoint) (c : Ctx) :
    draws (Ctx.issued (Canvas.DrawLine L a a) c) = [GLCall.glDrawArrays Prim.GL_LINE_STRIP 0 2] ∧
    draws (Ctx.issued (Canvas.DrawExactLine a a) c) =
      [GLCall.glDrawArrays Prim.GL_LINE_STRIP 0 2] ∧
    draws (Ctx.issued (Canvas.DrawLinePiece G a a) c) =
      (if 2 < c.pen.width then
        if 0 < (G.LineToTriangles [a, a] 2 c.pen.width false true).length then
          [GLCall.glDrawArrays Prim.GL_TRIANGLE_STRIP 0
            (G.LineToTriangles [a, a] 2 c.pen.width false true).length]
        else []
       else [GLCall.glDrawArrays Prim.GL_LINE_STRIP 0 2]) :=
  ⟨DrawLine_draws L a a c, DrawExactLine_draws a a c, DrawLinePiece_draws G a a c⟩

/-- C16, as stated, fails: with a pen of width 5, `DrawLine`, `DrawPolyline`,
`DrawTwoLines` and `DrawOutlineRectangle` each issue a draw call with a line
primitive. -/
theorem C16_thick_line_drawn_as_line_primitive :
    2 < (exThickCtx []).pen.width ∧
    draws (Ctx.issued (Canvas.DrawLine exLib ⟨0, 0⟩ ⟨10, 0⟩) (exThickCtx [])) =
      [GLCall.glDrawArrays Prim.GL_LINE_STRIP 0 2] ∧
    draws (Ctx.issued (Canvas.DrawPolyline [⟨0, 0⟩, ⟨10, 0⟩, ⟨10, 10⟩] 3) (exThickCtx [])) =
      [GLCall.glDrawArrays Prim.GL_LINE_STRIP 0 3] ∧
    draws (Ctx.issued (Canvas.DrawTwoLines ⟨0, 0⟩ ⟨10, 0⟩ ⟨10, 10⟩) (exThickCtx [])) =
      [GLCall.glDrawArrays Prim.GL_LINE_STRIP 0 3] ∧
    draws (Ctx.issued (Canvas.DrawOutlineRectangle ⟨0, 0, 10, 10⟩) (exThickCtx [])) =
      [GLCall.glDrawArrays Prim.GL_LINE_LOOP 0 4] ∧
    (GLCall.glDrawArrays Prim.GL_LINE_STRIP 0 2).isLineDraw = true ∧
    (GLCall.glDrawArrays Prim.GL_LINE_STRIP 0 3).isLineDraw = true ∧
    (GLCall.glDrawArrays Prim.GL_LINE_LOOP 0 4).isLineDraw = true :=
  ⟨by decide, DrawLine_draws _ _ _ _, DrawPolyline_draws _ _ _, DrawTwoLines_draws _ _ _ _,
    DrawOutlineRectangle_draws _ _, rfl, rfl, rfl⟩

/-- C16, amended: with a pen width above 2, `DrawLinePiece` and the outlines
of `DrawPolygon` and `DrawTriangleFan` are not drawn as line primitives: the
stroke is drawn, if at all, as one `GL_TRIANGLE_STRIP` of the vertices
`LineToTriangles` returns. `DrawLine`, `DrawPolyline`, `DrawTwoLines` and
`DrawOutlineRectangle` draw one line primitive (`GL_LINE_STRIP` or
`GL_LINE_LOOP`) at every pen width. -/
theorem C16_thick_strokes (L : CanvasLib) (G : Geometry) (a b d : PixelPoint)
    (points : List PixelPoint) (n : Nat) (r : PixelRect) (c : Ctx) :
    (2 < c.pen.width →
      (draws (Ctx.issued (Canvas.DrawLinePiece G a b) c)).all (fun k => !k.isLineDraw) = true ∧
      (draws (Ctx.issued (Canvas.DrawPolygon G points n) c)).all (fun k => !k.isLineDraw)
        = true ∧
      (draws (Ctx.issued (Canvas.DrawTriangleFan G points n) c)).all (fun k => !k.isLineDraw)
        = true ∧
      draws (Ctx.issued (Canvas.DrawLinePiece G a b) c) =
        (if 0 < (G.LineToTriangles [a, b] 2 c.pen.width false true).length then
          [GLCall.glDrawArrays Prim.GL_TRIANGLE_STRIP 0
            (G.LineToTriangles [a, b] 2 c.pen.width false true).length]
         else []) ∧
      (draws (Ctx.issued (Canvas.DrawPolygon G points n) c)).filter GLCall.isStripDraw =
        (if Canvas.IsPenOverBrush c = true ∧
            0 < (G.LineToTriangles points n c.pen.width true false).length then
          [GLCall.glDrawArrays Prim.GL_TRIANGLE_STRIP 0
            (G.LineToTriangles points n c.pen.width true false).length]
         else []) ∧
      (draws (Ctx.issued (Canvas.DrawTriangleFan G points n) c)).filter GLCall.isStripDraw =
        (if Canvas.IsPenOverBrush c = true ∧
            0 < (G.LineToTriangles points n c.pen.width true false).length then
          [GLCall.glDrawArrays Prim.GL_TRIANGLE_STRIP 0
            (G.LineToTriangles points n c.pen.width true false).length]
         else [])) ∧
    draws (Ctx.issued (Canvas.DrawLine L a b) c) = [GLCall.glDrawArrays Prim.GL_LINE_STRIP 0 2] ∧
    draws (Ctx.issued (Canvas.DrawPolyline points n) c) =
      [GLCall.glDrawArrays Prim.GL_LINE_STRIP 0 n] ∧
    draws (Ctx.issued (Canvas.DrawTwoLines a b d) c) =
      [GLCall.glDrawArrays Prim.GL_LINE_STRIP 0 3] ∧
    draws (Ctx.issued (Canvas.DrawOutlineRectangle r) c) =
      [GLCall.glDrawArrays Prim.GL_LINE_LOOP 0 4] := by
  refine ⟨fun hw => ?_, DrawLine_draws L a b c, DrawPolyline_draws points n c,
    DrawTwoLines_draws a b d c, DrawOutlineRectangle_draws r c⟩
  have hw2 : ¬ c.pen.width ≤ 2 := by omega
  refine ⟨?_, ?_, ?_, ?_, ?_, ?_⟩
  · rw [DrawLinePiece_draws, if_pos hw]
    split <;> simp [GLCall.isLineDraw, Prim.isLine]
  · rw [DrawPolygon_draws]
    unfold Canvas.outlineDraws
    rw [if_neg hw2]
    repeat' split
    all_goals simp [GLCall.isLineDraw, Prim.isLine]
  · rw [DrawTriangleFan_draws]
    unfold Canvas.outlineDraws
    rw [if_neg hw2]
    repeat' split
    all_goals simp [GLCall.isLineDraw, Prim.isLine]
  · rw [DrawLinePiece_draws, if_pos hw]
  · rw [DrawPolygon_draws]
    unfold Canvas.outlineDraws
    rw [if_neg hw2]
    by_cases h1 : c.brush.IsHollow = false ∧ 3 ≤ n ∧ 0 < (G.PolygonToTriangles points n).length <;>
      by_cases h2 : Canvas.IsPenOverBrush c = true <;>
      by_cases h3 : 0 < (G.LineToTriangles points n c.pen.width true false).length <;>
      simp [h1, h2, h3, GLCall.isStripDraw]
  · rw [DrawTriangleFan_draws]
    unfold Canvas.outlineDraws
    rw [if_neg hw2]
    by_cases h1 : c.brush.IsHollow = false ∧ 3 ≤ n <;>
      by_cases h2 : Canvas.IsPenOverBrush c = true <;>
      by_cases h3 : 0 < (G.LineToTriangles points n c.pen.width true false).length <;>
      simp [h1, h2, h3, GLCall.isStripDraw]

/-- C16, at a concrete input: a line piece drawn with a pen of width 5 is one
triangle strip of four vertices. -/
theorem C16_thick_strokes_witness :
    2 < (exThickCtx []).pen.width ∧
    draws (Ctx.issued (Canvas.DrawLinePiece exGeometry ⟨0, 0⟩ ⟨10, 0⟩) (exThickCtx [])) =
      [GLCall.glDrawArrays Prim.GL_TRIANGLE_STRIP 0 4] :=
  ⟨by decide, ((C16_thick_strokes exLib exGeometry ⟨0, 0⟩ ⟨10, 0⟩ ⟨10, 10⟩ [] 0 ⟨0, 0, 1, 1⟩
    (exThickCtx [])).1 (by decide)).2.2.2.1.trans (by decide)⟩

/-- For a pen width up to 2, `Canvas::DrawLinePiece` does not use
`LineToTriangles`. -/
theorem DrawLinePiece_thin_indep (G : Geometry) (f : List PixelPoint → Nat → Nat → Bool → Bool →
    List Vertex) (a b : PixelPoint) (c : Ctx) (hw : c.pen.width ≤ 2) :
    Canvas.DrawLinePiece ⟨G.PolygonToTriangles, f⟩ a b c = Canvas.DrawLinePiece G a b c := by
  have hw2 : ¬ 2 < c.pen.width := by omega
  unfold Canvas.DrawLinePiece
  simp [hw2]

/-- For a pen width up to 2, `Canvas::DrawPolygon` does not use
`LineToTriangles`. -/
theorem DrawPolygon_thin_indep (G : Geometry) (f : List PixelPoint → Nat → Nat → Bool → Bool →
    List Vertex) (points : List PixelPoint) (n : Nat) (c : Ctx) (hw : c.pen.width ≤ 2) :
    Canvas.DrawPolygon ⟨G.PolygonToTriangles, f⟩ points n c = Canvas.DrawPolygon G points n c := by
  unfold Canvas.DrawPolygon
  by_cases hb : c.brush.IsHollow = true <;> by_cases hp : c.pen.IsDefined = true <;>
    by_cases hn : 3 ≤ n <;> by_cases hi : 0 < (G.PolygonToTriangles points n).length <;>
    by_cases hc : c.brush.color = c.pen.color <;>
    simp [hb, hp, hn, hi, hw, hc, Canvas.IsPenOverBrush]

/-- For a pen width up to 2, `Canvas::DrawTriangleFan` does not use
`LineToTriangles`. -/
theorem DrawTriangleFan_thin_indep (G : Geometry) (f : List PixelPoint → Nat → Nat → Bool →
    Bool → List Vertex) (points : List PixelPoint) (n : Nat) (c : Ctx) (hw : c.pen.width ≤ 2) :
    Canvas.DrawTriangleFan ⟨G.PolygonToTriangles, f⟩ points n c =
      Canvas.DrawTriangleFan G points n c := by
  unfold Canvas.DrawTriangleFan
  by_cases hb : c.brush.IsHollow = true <;> by_cases hp : c.pen.IsDefined = true <;>
    by_cases hn : 3 ≤ n <;>
    by_cases hc : c.brush.color = c.pen.color <;>
    simp [hb, hp, hn, hw, hc, Canvas.IsPenOverBrush]

/-- C17: the width threshold of `DrawLinePiece` and of the outlines of
`DrawPolygon` and `DrawTriangleFan` (drawn when the pen is over the brush).
A pen width up to 2, 2 included, gives exactly one draw call with a line
primitive and no triangle strip, and the result does not depend on
`LineToTriangles`. A pen width above 2 gives no draw call with a line
primitive; the only triangle strip drawn is the one `LineToTriangles`
returns, with exactly its vertex count, when that count is not zero, and for
two distinct points of a line piece it is not zero. -/
theorem C17_width_threshold (G : Geometry) (a b : PixelPoint) (points : List PixelPoint)
    (n : Nat) (c : Ctx) (hG : G.NonEmptyStrip) :
    (c.pen.width ≤ 2 →
      draws (Ctx.issued (Canvas.DrawLinePiece G a b) c) =
        [GLCall.glDrawArrays Prim.GL_LINE_STRIP 0 2] ∧
      (∀ f, Canvas.DrawLinePiece ⟨G.PolygonToTriangles, f⟩ a b c =
        Canvas.DrawLinePiece G a b c) ∧
      (∀ f, Canvas.DrawPolygon ⟨G.PolygonToTriangles, f⟩ points n c =
        Canvas.DrawPolygon G points n c) ∧
      (∀ f, Canvas.DrawTriangleFan ⟨G.PolygonToTriangles, f⟩ points n c =
        Canvas.DrawTriangleFan G points n c) ∧
      (Canvas.IsPenOverBrush c = true →
        (draws (Ctx.issued (Canvas.DrawPolygon G points n) c)).filter GLCall.isLineDraw =
          [GLCall.glDrawArrays Prim.GL_LINE_LOOP 0 n] ∧
        (draws (Ctx.issued (Canvas.DrawPolygon G points n) c)).filter GLCall.isStripDraw = [] ∧
        (draws (Ctx.issued (Canvas.DrawTriangleFan G points n) c)).filter GLCall.isLineDraw =
          [GLCall.glDrawArrays Prim.GL_LINE_LOOP 0 n] ∧
        (draws (Ctx.issued (Canvas.DrawTriangleFan G points n) c)).filter GLCall.isStripDraw
          = [])) ∧
    (2 < c.pen.width →
      draws (Ctx.issued (Canvas.DrawLinePiece G a b) c) =
        (if 0 < (G.LineToTriangles [a, b] 2 c.pen.width false true).length then
          [GLCall.glDrawArrays Prim.GL_TRIANGLE_STRIP 0
            (G.LineToTriangles [a, b] 2 c.pen.width false true).length]
         else []) ∧
      (a ≠ b → 0 < (G.LineToTriangles [a, b] 2 c.pen.width false true).length ∧
        draws (Ctx.issued (Canvas.DrawLinePiece G a b) c) =
          [GLCall.glDrawArrays Prim.GL_TRIANGLE_STRIP 0
            (G.LineToTriangles [a, b] 2 c.pen.width false true).length]) ∧
      (Canvas.IsPenOverBrush c = true →
        (draws (Ctx.issued (Canvas.DrawPolygon G points n) c)).filter GLCall.isLineDraw = [] ∧
        (draws (Ctx.issued (Canvas.DrawPolygon G points n) c)).filter GLCall.isStripDraw =
          (if 0 < (G.LineToTriangles points n c.pen.width true false).length then
            [GLCall.glDrawArrays Prim.GL_TRIANGLE_STRIP 0
              (G.LineToTriangles points n c.pen.width true false).length]
           else []) ∧
        (draws (Ctx.issued (Canvas.DrawTriangleFan G points n) c)).filter GLCall.isLineDraw = [] ∧
        (draws (Ctx.issued (Canvas.DrawTriangleFan G points n) c)).filter GLCall.isStripDraw =
          (if 0 < (G.LineToTriangles points n c.pen.width true false).length then
            [GLCall.glDrawArrays Prim.GL_TRIANGLE_STRIP 0
              (G.LineToTriangles points n c.pen.width true false).length]
           else []))) := by
  constructor
  · intro hw
    have hw2 : ¬ 2 < c.pen.width := by omega
    refine ⟨?_, fun f => DrawLinePiece_thin_indep G f a b c hw,
      fun f => DrawPolygon_thin_indep G f points n c hw,
      fun f => DrawTriangleFan_thin_indep G f points n c hw, ?_⟩
    · rw [DrawLinePiece_draws, if_neg hw2]
    · intro hover
      rw [DrawPolygon_draws, DrawTriangleFan_draws]
      unfold Canvas.outlineDraws
      rw [if_pos hover, if_pos hw]
      refine ⟨?_, ?_, ?_, ?_⟩ <;> (repeat' split) <;>
        simp [GLCall.isLineDraw, GLCall.isStripDraw, Prim.isLine]
  · intro hw
    have hw2 : ¬ c.pen.width ≤ 2 := by omega
    refine ⟨?_, ?_, ?_⟩
    · rw [DrawLinePiece_draws, if_pos hw]
    · intro hab
      have hl := hG a b c.pen.width false true hab hw
      refine ⟨hl, ?_⟩
      rw [DrawLinePiece_draws, if_pos hw, if_pos hl]
    · intro hover
      rw [DrawPolygon_draws, DrawTriangleFan_draws]
      unfold Canvas.outlineDraws
      rw [if_pos hover, if_neg hw2]
      refine ⟨?_, ?_, ?_, ?_⟩ <;> (repeat' split) <;>
        simp [GLCall.isLineDraw, GLCall.isStripDraw, Prim.isLine]

/-- C17, at concrete inputs: a pen of width 2 draws the line piece as one
line strip, a pen of width 5 as the strip of four vertices of the example
triangulation. -/
theorem C17_width_threshold_witness :
    exGeometry.NonEmptyStrip ∧
    draws (Ctx.issued (Canvas.DrawLinePiece exGeometry ⟨0, 0⟩ ⟨10, 0⟩)
      (Canvas.SelectPen ⟨2, COLOR_BLACK, PenStyle.SOLID⟩ (exCtx []))) =
        [GLCall.glDrawArrays Prim.GL_LINE_STRIP 0 2] ∧
    draws (Ctx.issued (Canvas.DrawLinePiece exGeometry ⟨0, 0⟩ ⟨10, 0⟩) (exThickCtx [])) =
      [GLCall.glDrawArrays Prim.GL_TRIANGLE_STRIP 0 4] :=
  ⟨fun _ _ _ _ _ _ _ => Nat.zero_lt_succ 3,
    ((C17_width_threshold exGeometry ⟨0, 0⟩ ⟨10, 0⟩ [] 0
      (Canvas.SelectPen ⟨2, COLOR_BLACK, PenStyle.SOLID⟩ (exCtx []))
      (fun _ _ _ _ _ _ _ => Nat.zero_lt_succ 3)).1 (by decide)).1,
    (((C17_width_threshold exGeometry ⟨0, 0⟩ ⟨10, 0⟩ [] 0 (exThickCtx [])
      (fun _ _ _ _ _ _ _ => Nat.zero_lt_succ 3)).2 (by decide)).2.1 (by decide)).2⟩

/-- C20: the inner radius of `Canvas::DrawCircle` wraps. For a circle of
radius 1 drawn with a pen of width 5 and a hollow brush, the events issued
are those of the outline circle shader with outer radius 1 and inner radius
4294967292, which is not at most the outer radius, and one rectangle draw
over the square of half-side 1 around the centre. -/
theorem C20_DrawCircle_inner_radius_wraps :
    essential (Ctx.issued (Canvas.DrawCircle ⟨0, 0⟩ 1) (exThickCtx [])) =
      [Ev.gl Site.direct (GLCall.glUseProgram Shader.circle_outline_shader),
       Ev.lib (LibCall.Color_Uniform Uniform.circle_outline_color COLOR_BLACK),
       Ev.gl Site.direct (GLCall.glUniform2f Uniform.circle_outline_center 0 0),
       Ev.gl Site.direct (GLCall.glUniform1f Uniform.circle_outline_radius2 1),
       Ev.gl Site.direct (GLCall.glUniform1f Uniform.circle_outline_radius1 4294967292),
       Ev.gl Site.direct (GLCall.glEnableVertexAttribArray Attribute.POSITION),
       Ev.gl Site.direct (GLCall.glVertexAttribPointer Attribute.POSITION VType.GL_VALUE
         [(-1, -1), (1, -1), (-1, 1), (1, 1)]),
       Ev.gl Site.direct (GLCall.glDrawArrays Prim.GL_TRIANGLE_STRIP 0 4),
       Ev.gl Site.direct (GLCall.glDisableVertexAttribArray Attribute.POSITION)] ∧
    usub 1 (exThickCtx []).pen.width = 4294967292 ∧ ¬ (usub 1 (exThickCtx []).pen.width ≤ 1) := by
  refine ⟨?_, by decide, by decide⟩
  rw [DrawCircle_essential]
  decide


/-! ## Text -/

theorem DrawText_skipped (L : CanvasLib) (p : PixelPoint) (text : Text) (c : Ctx)
    (h : Canvas.NothingToDraw L c p.x c.text.size.width text) : Canvas.DrawText L p text c = c := by
  unfold Canvas.DrawText
  rcases h with h | ⟨font, hf, h | h⟩
  · simp [h]
  · simp [hf, h]
  · simp only [hf, h]
    split <;> rfl

theorem DrawTransparentText_skipped (L : CanvasLib) (p : PixelPoint) (text : Text) (c : Ctx)
    (h : Canvas.NothingToDraw L c p.x c.text.size.width text) :
    Canvas.DrawTransparentText L p text c = c := by
  unfold Canvas.DrawTransparentText
  rcases h with h | ⟨font, hf, h | h⟩
  · simp [h]
  · simp [hf, h]
  · simp only [hf, h]
    split <;> rfl

theorem DrawClippedText_skipped (L : CanvasLib) (p : PixelPoint) (size : PixelSize) (text : Text)
    (c : Ctx) (h : Canvas.NothingToDraw L c 0 size.width text) :
    Canvas.DrawClippedText L p size text c = c := by
  unfold Canvas.DrawClippedText
  rcases h with h | ⟨font, hf, h | h⟩
  · simp [h]
  · simp [hf, h]
  · simp only [hf, h]
    split <;> rfl

/-- An operation that returns the context it is given issues no event. -/
theorem issued_of_unchanged (f : Ctx → Ctx) (c : Ctx) (h : f { c with trace := [] } =
    { c with trace := [] }) : Ctx.issued f c = [] := by
  unfold Ctx.issued
  rw [h]

/-- C15: text that cannot be drawn is skipped silently. `Canvas::DrawText`,
`DrawTransparentText` and `DrawClippedText` return the context unchanged and
issue no event at all (so no GL call) whenever no font is selected, or
`ClipText` yields the empty string, or the glyph cache returns no texture.
`ClipText` yields the empty string when the text is empty, when the start `x`
is at or beyond the clipping width, and when fewer than one estimated
character of width `max(font height / 4, 1)` fits; its divisor is never zero
and its result is always a prefix of its input. -/
theorem C15_text_skipped_silently (L : CanvasLib) (p : PixelPoint) (size : PixelSize)
    (text : Text) (c : Ctx) (font : Font) (x : Int) (width : Nat)
    (hL : L.TruncatesToNothing) :
    (Canvas.NothingToDraw L c p.x c.text.size.width text →
      Canvas.DrawText L p text c = c ∧ Ctx.issued (Canvas.DrawText L p text) c = [] ∧
      Canvas.DrawTransparentText L p text c = c ∧
      Ctx.issued (Canvas.DrawTransparentText L p text) c = []) ∧
    (Canvas.NothingToDraw L c 0 size.width text →
      Canvas.DrawClippedText L p size text c = c ∧
      Ctx.issued (Canvas.DrawClippedText L p size text) c = []) ∧
    (text = [] → ClipText L font text x width = []) ∧
    (x ≥ toInt width → ClipText L font text x width = []) ∧
    (usub width (ofInt x) < max (u32 font.height / 4) 1 → ClipText L font text x width = []) ∧
    0 < max (u32 font.height / 4) 1 ∧
    ClipText L font text x width <+: text := by
  refine ⟨fun h => ⟨DrawText_skipped L p text c h, ?_, DrawTransparentText_skipped L p text c h, ?_⟩,
    fun h => ⟨DrawClippedText_skipped L p size text c h, ?_⟩, ?_, ?_, ?_, ?_, ?_⟩
  · exact issued_of_unchanged _ c (DrawText_skipped L p text { c with trace := [] } h)
  · exact issued_of_unchanged _ c (DrawTransparentText_skipped L p text { c with trace := [] } h)
  · exact issued_of_unchanged _ c (DrawClippedText_skipped L p size text { c with trace := [] } h)
  · intro h
    simp [ClipText, h]
  · intro h
    simp [ClipText, h]
  · intro h
    unfold ClipText
    split
    · rfl
    · simp only [Nat.div_eq_of_lt h, hL text, List.take_zero]
  · exact lt_of_lt_of_le Nat.zero_lt_one (le_max_right _ _)
  · unfold ClipText
    split
    · exact List.nil_prefix
    · exact List.take_prefix _ _

/-- C15, at a concrete input: with a font of height 16 on a canvas 640 wide,
a text starting at x = 639 has room for less than one character of the
estimated width 4 and nothing is issued. -/
theorem C15_text_skipped_silently_witness :
    exLib.TruncatesToNothing ∧
    ClipText exLib ⟨16⟩ ['a', 'b', 'c'] 639 640 = [] ∧
    Canvas.DrawText exLib ⟨639, 0⟩ ['a', 'b', 'c'] (exTextCtx []) = exTextCtx [] ∧
    Ctx.issued (Canvas.DrawText exLib ⟨639, 0⟩ ['a', 'b', 'c']) (exTextCtx []) = [] :=
  ⟨fun _ => rfl,
    (C15_text_skipped_silently exLib ⟨639, 0⟩ ⟨640, 480⟩ ['a', 'b', 'c'] (exTextCtx []) ⟨16⟩ 639 640
      (fun _ => rfl)).2.2.2.2.1 (by decide),
    ((C15_text_skipped_silently exLib ⟨639, 0⟩ ⟨640, 480⟩ ['a', 'b', 'c'] (exTextCtx []) ⟨16⟩ 639
      640 (fun _ => rfl)).1 (Or.inr ⟨⟨16⟩, rfl, Or.inl (by decide)⟩)).1,
    ((C15_text_skipped_silently exLib ⟨639, 0⟩ ⟨640, 480⟩ ['a', 'b', 'c'] (exTextCtx []) ⟨16⟩ 639
      640 (fun _ => rfl)).1 (Or.inr ⟨⟨16⟩, rfl, Or.inl (by decide)⟩)).2.1⟩


/-! ## The allocated size of a texture -/

theorem NextPowerOfTwo.loop_least (i : Nat) (hi : i ≤ 2 ^ 31) (fuel k : Nat)
    (hk : k ≤ 31) (hf : 32 ≤ fuel + k) (hinv : ∀ j, j < k → 2 ^ j < i) :
    ∃ p, NextPowerOfTwo.loop i fuel (2 ^ k) = some p ∧ IsLeastPowerOfTwo p i := by
  induction fuel generalizing k with
  | zero => omega
  | succ fuel ih =>
    unfold NextPowerOfTwo.loop
    split
    · rename_i hlt
      have hk1 : k < 31 := by
        by_contra hge
        have : k = 31 := by omega
        subst this
        omega
      have hpos : 2 ^ k ≠ 0 := by positivity
      rw [if_neg hpos]
      have hdouble : u32 (2 ^ k <<< 1) = 2 ^ (k + 1) := by
        have h32 : 2 ^ (k + 1) < 2 ^ 32 := Nat.pow_lt_pow_right (by decide) (by omega)
        rw [Nat.shiftLeft_eq, pow_one, ← pow_succ]
        exact Nat.mod_eq_of_lt h32
      rw [hdouble]
      refine ih (k + 1) (by omega) (by omega) ?_
      intro j hj
      rcases Nat.lt_succ_iff_lt_or_eq.1 hj with h | h
      · exact hinv j h
      · rw [h]
        exact hlt
    · rename_i hge
      refine ⟨_, rfl, ⟨k, rfl⟩, Nat.le_of_not_lt hge, ?_⟩
      intro j hj
      by_cases hjk : j < k
      · have := hinv j hjk
        omega
      · exact Nat.pow_le_pow_right (by decide) (Nat.le_of_not_lt hjk)

/-- For a value of at most 2^31, `NextPowerOfTwo` returns the least power of
two greater than or equal to it. -/
theorem NextPowerOfTwo_least (i : Nat) (hi : i ≤ 2 ^ 31) :
    ∃ p, NextPowerOfTwo i = some p ∧ IsLeastPowerOfTwo p i :=
  NextPowerOfTwo.loop_least i hi 33 0 (by decide) (by decide) (fun j hj => absurd hj (by omega))

theorem LoadTextureAutoAlign_returns (G : OpenGLGlobals) (internal_format format type : GLenum)
    (size v : PixelSize) (pixels : List Byte) (c : Ctx)
    (hv : ValidateTextureSize.ofSize G size = some v) :
    ∃ c', LoadTextureAutoAlign G internal_format size format type pixels c = some c' := by
  unfold LoadTextureAutoAlign
  rw [hv]
  dsimp only
  split <;> split <;> exact ⟨_, rfl⟩

/-- What `ValidateTextureSize` returns for a size it can handle. -/
theorem ValidateTextureSize_value (G : OpenGLGlobals) (size : PixelSize)
    (h : G.texture_non_power_of_two = true ∨ (size.width ≤ 2 ^ 31 ∧ size.height ≤ 2 ^ 31)) :
    ∃ v, ValidateTextureSize.ofSize G size = some v ∧
      (G.texture_non_power_of_two = true → v = size) ∧
      (G.texture_non_power_of_two = false →
        NextPowerOfTwo size.width = some v.width ∧ NextPowerOfTwo size.height = some v.height ∧
        IsLeastPowerOfTwo v.width size.width ∧ IsLeastPowerOfTwo v.height size.height) ∧
      size.width ≤ v.width ∧ size.height ≤ v.height := by
  unfold ValidateTextureSize.ofSize ValidateTextureSize
  cases hG : G.texture_non_power_of_two with
  | true =>
    simp only [if_true]
    exact ⟨_, rfl, fun _ => rfl, fun hf => absurd hf (by decide), le_refl _, le_refl _⟩
  | false =>
    rcases h with h | ⟨hw, hh⟩
    · rw [hG] at h
      exact absurd h (by decide)
    · obtain ⟨p, hp, hpl⟩ := NextPowerOfTwo_least _ hw
      obtain ⟨q, hq, hql⟩ := NextPowerOfTwo_least _ hh
      simp only [Bool.false_eq_true, if_false, hp, hq]
      exact ⟨_, rfl, fun hf => absurd hf (by decide), fun _ => ⟨rfl, rfl, hpl, hql⟩,
        hpl.2.1, hql.2.1⟩

/-- C11, as stated, fails for a dimension above 2^31 when non-power-of-two
textures are not supported: no power of two that fits 32 bits is at least
3000000000, `NextPowerOfTwo(3000000000)` shifts `p` to 0 and does not
return, and neither constructor of `GLTexture` returns an allocated size for
the logical size 3000000000 x 1. -/
theorem C11_allocated_size_not_computed :
    3000000000 < 2 ^ 32 ∧
    (∀ k, 2 ^ k < 2 ^ 32 → 2 ^ k < 3000000000) ∧
    NextPowerOfTwo 3000000000 = none ∧
    (GLTexture.ctor (exGlobals false) GL_RGBA ⟨3000000000, 1⟩ GL_RGBA GL_UNSIGNED_BYTE false
      (exCtx [])).isNone = true ∧
    (GLTexture.ctorData (exGlobals false) GL_RGBA ⟨3000000000, 1⟩ GL_RGBA GL_UNSIGNED_BYTE
      [0, 0, 0, 0] false (exCtx [])).isNone = true := by
  have h1 : NextPowerOfTwo 3000000000 = none := by decide
  have h2 : ValidateTextureSize.ofSize (exGlobals false) ⟨3000000000, 1⟩ = none := by
    unfold ValidateTextureSize.ofSize ValidateTextureSize
    simp only [exGlobals, Bool.false_eq_true, if_false, h1]
  refine ⟨by decide, ?_, h1, ?_, ?_⟩
  · intro k hk
    have hk32 : k < 32 := (Nat.pow_lt_pow_iff_right (by decide)).1 hk
    have : 2 ^ k ≤ 2 ^ 31 := Nat.pow_le_pow_right (by decide) (by omega)
    omega
  · unfold GLTexture.ctor
    rw [h2]
    rfl
  · unfold GLTexture.ctorData
    rw [h2]
    rfl

/-- C11, amended: for every logical size given to a `GLTexture` constructor,
the allocated size equals the logical size when non-power-of-two textures are
supported; otherwise, for dimensions of at most 2^31, each allocated dimension
is `NextPowerOfTwo` of the logical dimension, which is the least power of two
greater than or equal to it (1 for 0). In both cases both constructors return
a texture of the given logical size whose allocated width and height are at
least the logical ones. -/
theorem C11_allocated_size (G : OpenGLGlobals) (internal_format format type : GLenum)
    (size : PixelSize) (data : List Byte) (flipped : Bool) (c : Ctx)
    (h : G.texture_non_power_of_two = true ∨ (size.width ≤ 2 ^ 31 ∧ size.height ≤ 2 ^ 31)) :
    ∃ t c1 t2 c2,
      GLTexture.ctor G internal_format size format type flipped c = some (t, c1) ∧
      GLTexture.ctorData G internal_format size format type data flipped c = some (t2, c2) ∧
      t.size = size ∧ t2.size = size ∧ t2.allocated_size = t.allocated_size ∧
      (G.texture_non_power_of_two = true → t.allocated_size = size) ∧
      (G.texture_non_power_of_two = false →
        NextPowerOfTwo size.width = some t.allocated_size.width ∧
        NextPowerOfTwo size.height = some t.allocated_size.height ∧
        IsLeastPowerOfTwo t.allocated_size.width size.width ∧
        IsLeastPowerOfTwo t.allocated_size.height size.height) ∧
      NextPowerOfTwo 0 = some 1 ∧
      size.width ≤ t.allocated_size.width ∧ size.height ≤ t.allocated_size.height := by
  obtain ⟨v, hv, h1, h2, h3, h4⟩ := ValidateTextureSize_value G size h
  obtain ⟨c', hc'⟩ := LoadTextureAutoAlign_returns G internal_format format type size v data
    (GLTexture.Initialise G c).2 hv
  refine ⟨⟨(GLTexture.Initialise G c).1, size, v, flipped⟩,
    checkError "DDD" (Ctx.call (GLCall.glTexImage2D internal_format (toInt v.width)
      (toInt v.height) format type none) (GLTexture.Initialise G c).2),
    ⟨(GLTexture.Initialise G c).1, size, v, flipped⟩, c', ?_, ?_, rfl, rfl, rfl, h1, h2,
    by decide, h3, h4⟩
  · unfold GLTexture.ctor
    rw [hv]
  · unfold GLTexture.ctorData
    rw [hv]
    dsimp only
    rw [hc']

/-- C11, at concrete inputs: without non-power-of-two support the logical
size 3 x 2 is allocated as 4 x 2. -/
theorem C11_allocated_size_witness :
    ∃ t c1 t2 c2,
      GLTexture.ctor (exGlobals false) GL_RGBA ⟨3, 2⟩ GL_RGBA GL_UNSIGNED_BYTE false (exCtx []) =
        some (t, c1) ∧
      GLTexture.ctorData (exGlobals false) GL_RGBA ⟨3, 2⟩ GL_RGBA GL_UNSIGNED_BYTE
        [0, 0, 0, 0, 0, 0] false (exCtx []) = some (t2, c2) ∧
      t.allocated_size = ⟨4, 2⟩ ∧ t2.allocated_size = ⟨4, 2⟩ := by
  obtain ⟨t, c1, t2, c2, h1, h2, _, _, h5, _, h7, _, _, _⟩ :=
    C11_allocated_size (exGlobals false) GL_RGBA GL_RGBA GL_UNSIGNED_BYTE ⟨3, 2⟩
      [0, 0, 0, 0, 0, 0] false (exCtx []) (Or.inr ⟨by decide, by decide⟩)
  obtain ⟨hw, hh, _, _⟩ := h7 rfl
  have hw2 : NextPowerOfTwo 3 = some 4 := by decide
  have hh2 : NextPowerOfTwo 2 = some 2 := by decide
  have e1 : t.allocated_size.width = 4 := by
    have := hw.symm.trans hw2
    exact Option.some.inj this
  have e2 : t.allocated_size.height = 2 := by
    have := hh.symm.trans hh2
    exact Option.some.inj this
  have e : t.allocated_size = ⟨4, 2⟩ := by
    cases ha : t.allocated_size with
    | mk w h2 =>
      rw [ha] at e1 e2
      simp only at e1 e2
      rw [e1, e2]
  exact ⟨t, c1, t2, c2, h1, h2, e, h5.trans e⟩


/-! ## The donut table -/

/-- Within epsilon of a full turn, `AngleToDonutVertices` returns the whole
table. -/
theorem AngleToDonutVertices_full_circle (D : DonutLib) (start stop : Angle)
    (h : |D.AsDelta (stop - start)| ≤ D.FullCircle / ((D.CIRCLE_SIZE * 4 : Nat) : Rat)) :
    AngleToDonutVertices D start stop = (0, D.MAX_ANGLE) := by
  unfold AngleToDonutVertices
  simp only [h, if_true]

/-- Two angles with different table indices, not within epsilon, keep their
indices. -/
theorem AngleToDonutVertices_distinct (D : DonutLib) (start stop : Angle)
    (hfar : ¬ |D.AsDelta (stop - start)| ≤ D.FullCircle / ((D.CIRCLE_SIZE * 4 : Nat) : Rat))
    (hne : AngleToDonutVertex D start ≠ AngleToDonutVertex D stop) :
    AngleToDonutVertices D start stop = (AngleToDonutVertex D start, AngleToDonutVertex D stop) := by
  unfold AngleToDonutVertices
  simp only [hfar, if_false, hne, false_and]

/-- Two angles with the same table index whose difference `end - start` is
not above epsilon, without being within epsilon of a full turn, get the same
index twice. -/
theorem AngleToDonutVertices_same_index (D : DonutLib) (start stop : Angle)
    (hfar : ¬ |D.AsDelta (stop - start)| ≤ D.FullCircle / ((D.CIRCLE_SIZE * 4 : Nat) : Rat))
    (hsame : AngleToDonutVertex D start = AngleToDonutVertex D stop)
    (hneg : ¬ stop - start > D.FullCircle / ((D.CIRCLE_SIZE * 4 : Nat) : Rat)) :
    AngleToDonutVertices D start stop =
      (AngleToDonutVertex D start, AngleToDonutVertex D start) := by
  unfold AngleToDonutVertices
  simp only [hfar, if_false, hneg, and_false, hsame]

theorem exDonut_AsDelta_neg5 : exDonut.AsDelta (0 - 5) = -5 := by
  have hc : ⌈((0 : Rat) - 5 - 180) / 360⌉ = 0 := by
    rw [Int.ceil_eq_iff]
    constructor <;> norm_num
  show (0 : Rat) - 5 - 360 * ((⌈((0 : Rat) - 5 - 180) / 360⌉ : Int) : Rat) = -5
  rw [hc]
  norm_num

theorem exDonut_vertex_5 : AngleToDonutVertex exDonut 5 = 48 := by
  have hf : ⌊(5 : Rat) * 4096 / 360 + 1 / 2⌋ = 57 := by
    rw [Int.floor_eq_iff]
    constructor <;> norm_num
  have ht : Int.toNat 57 = 57 := rfl
  simp only [AngleToDonutVertex, exDonut, hf]
  norm_num [ht]

theorem exDonut_vertex_0 : AngleToDonutVertex exDonut 0 = 48 := by
  have hf : ⌊(0 : Rat) * 4096 / 360 + 1 / 2⌋ = 0 := by
    rw [Int.floor_eq_iff]
    constructor <;> norm_num
  have ht : Int.toNat 0 = 0 := rfl
  simp only [AngleToDonutVertex, exDonut, hf]
  norm_num [ht]

theorem exDonut_vertex_90 : AngleToDonutVertex exDonut 90 = 0 := by
  have hf : ⌊(90 : Rat) * 4096 / 360 + 1 / 2⌋ = 1024 := by
    rw [Int.floor_eq_iff]
    constructor <;> norm_num
  have ht : Int.toNat 1024 = 1024 := rfl
  simp only [AngleToDonutVertex, exDonut, hf]
  norm_num [ht]

theorem exDonut_AsDelta_90 : exDonut.AsDelta (90 - 0) = 90 := by
  have hc : ⌈((90 : Rat) - 0 - 180) / 360⌉ = 0 := by
    rw [Int.ceil_eq_iff]
    constructor <;> norm_num
  show (90 : Rat) - 0 - 360 * ((⌈((90 : Rat) - 0 - 180) / 360⌉ : Int) : Rat) = 90
  rw [hc]
  norm_num

theorem exDonut_epsilon :
    exDonut.FullCircle / ((exDonut.CIRCLE_SIZE * 4 : Nat) : Rat) = 45 / 16 := by
  show (360 : Rat) / ((32 * 4 : Nat) : Rat) = 45 / 16
  norm_num

/-- In the example table the annulus from 0 to 90 degrees wraps: its start
index is 48 and its end index 0. -/
theorem exDonut_vertices_0_90 : AngleToDonutVertices exDonut 0 90 = (48, 0) := by
  rw [AngleToDonutVertices_distinct, exDonut_vertex_0, exDonut_vertex_90]
  · rw [exDonut_AsDelta_90, exDonut_epsilon]
    norm_num
  · rw [exDonut_vertex_0, exDonut_vertex_90]
    decide

/-- C18: `AngleToDonutVertices` returns the same index twice for a negative
`end - start`. In the example table, for start 5 degrees and end 0 degrees the
normalised delta, -5 degrees, is not within epsilon (360 / 128 degrees) of
zero, both angles have the table index 48, and the result is (48, 48): the
test `delta > epsilon` that moves the end index looks at the difference that
is not normalised. -/
theorem C18_same_index_for_negative_delta :
    exDonut.AsDelta (0 - 5) = -5 ∧
    ¬ (|exDonut.AsDelta (0 - 5)| ≤ exDonut.FullCircle / ((exDonut.CIRCLE_SIZE * 4 : Nat) : Rat)) ∧
    AngleToDonutVertex exDonut 5 = 48 ∧ AngleToDonutVertex exDonut 0 = 48 ∧
    AngleToDonutVertices exDonut 5 0 = (48, 48) := by
  have hfar : ¬ (|exDonut.AsDelta (0 - 5)| ≤
      exDonut.FullCircle / ((exDonut.CIRCLE_SIZE * 4 : Nat) : Rat)) := by
    rw [exDonut_AsDelta_neg5, exDonut_epsilon]
    norm_num
  refine ⟨exDonut_AsDelta_neg5, hfar, exDonut_vertex_5, exDonut_vertex_0, ?_⟩
  rw [AngleToDonutVertices_same_index exDonut 5 0 hfar
    (exDonut_vertex_5.trans exDonut_vertex_0.symm) ?_, exDonut_vertex_5]
  rw [exDonut_epsilon]
  norm_num

/-! ## `DrawAnnulus` -/

@[simp] theorem vp_ctorDefault_draws (c : Ctx) :
    draws (ScopeVertexPointer.ctorDefault c).trace = draws c.trace := by
  simp [ScopeVertexPointer.ctorDefault, draws_cons, Ev.drawCall]

@[simp] theorem vp_ctorDefault_pen (c : Ctx) : (ScopeVertexPointer.ctorDefault c).pen = c.pen := by
  simp [ScopeVertexPointer.ctorDefault]

@[simp] theorem vp_ctorDefault_brush (c : Ctx) :
    (ScopeVertexPointer.ctorDefault c).brush = c.brush := by
  simp [ScopeVertexPointer.ctorDefault]

/-- The test `1 == 1` of `Canvas::DrawAnnulus`: every annulus goes to the generic
`::Annulus` routine. -/
theorem DrawAnnulus_generic (D : DonutLib) (center : PixelPoint) (small_radius big_radius : Nat)
    (start stop : Angle) (c : Ctx) :
    Canvas.DrawAnnulus D center small_radius big_radius start stop c =
      Ctx.lib (LibCall.Annulus center big_radius start stop small_radius) c := by
  unfold Canvas.DrawAnnulus
  rw [if_pos rfl]

/-- The triangle strips of the donut code for a wrapping annulus and a brush
that is not hollow. -/
theorem DrawAnnulus_donut_strips (D : DonutLib) (center : PixelPoint)
    (small_radius big_radius : Nat) (start stop : Angle) (c : Ctx)
    (hb : c.brush.IsHollow = false)
    (hwrap : (AngleToDonutVertices D start stop).2 < (AngleToDonutVertices D start stop).1) :
    (draws (Ctx.issued (Canvas.DrawAnnulus.donut D center small_radius big_radius start stop)
      c)).filter GLCall.isStripDraw =
      [GLCall.glDrawArrays Prim.GL_TRIANGLE_STRIP (AngleToDonutVertices D start stop).1
         (u32 (usub D.MAX_ANGLE (AngleToDonutVertices D start stop).1 + 2)),
       GLCall.glDrawArrays Prim.GL_TRIANGLE_STRIP 0
         (u32 ((AngleToDonutVertices D start stop).2 + 2))] := by
  rw [issued_draws]
  unfold Canvas.DrawAnnulus.donut
  generalize AngleToDonutVertices D start stop = i at hwrap ⊢
  obtain ⟨istart, iend⟩ := i
  simp only at hwrap
  by_cases hp : c.pen.IsDefined = true <;> by_cases hc : c.brush.color = c.pen.color <;>
    by_cases h1 : istart ≠ iend ∧ iend ≠ D.MAX_ANGLE <;> by_cases h2 : istart / 2 < iend / 2 <;>
    simp [hb, hwrap, hp, hc, h1, h2, Canvas.IsPenOverBrush, draws_cons, Ev.drawCall,
      GLCall.isStripDraw, List.filter_cons]

/-- C19, as stated, fails: in the example table the annulus from 0 to 90
degrees has the start index 48 and the end index 0, and `Canvas::DrawAnnulus`
with a white brush issues the call of the generic `::Annulus` routine and no
draw call of its own, so no triangle strip from the donut table. -/
theorem C19_DrawAnnulus_issues_no_strip :
    (AngleToDonutVertices exDonut 0 90).2 < (AngleToDonutVertices exDonut 0 90).1 ∧
    (Canvas.SelectBrush exWhiteBrush (exCtx [])).brush.IsHollow = false ∧
    Ctx.issued (Canvas.DrawAnnulus exDonut ⟨0, 0⟩ 5 10 0 90)
      (Canvas.SelectBrush exWhiteBrush (exCtx [])) = [Ev.lib (LibCall.Annulus ⟨0, 0⟩ 10 0 90 5)] ∧
    draws (Ctx.issued (Canvas.DrawAnnulus exDonut ⟨0, 0⟩ 5 10 0 90)
      (Canvas.SelectBrush exWhiteBrush (exCtx []))) = [] := by
  have e : Ctx.issued (Canvas.DrawAnnulus exDonut ⟨0, 0⟩ 5 10 0 90)
      (Canvas.SelectBrush exWhiteBrush (exCtx [])) = [Ev.lib (LibCall.Annulus ⟨0, 0⟩ 10 0 90 5)] := by
    unfold Ctx.issued
    rw [DrawAnnulus_generic]
    rfl
  refine ⟨?_, rfl, e, ?_⟩
  · rw [exDonut_vertices_0_90]
    decide
  · rw [e]
    rfl

/-- C19, amended: `Canvas::DrawAnnulus` never reaches its donut code: the
test `if (1 == 1)` hands every annulus to the generic `::Annulus` routine and
returns, so `DrawAnnulus` issues that call and no draw call of its own. The
donut code after that test is the part that, for an annulus whose end angle
maps to a smaller vertex index than its start angle (indices within the
table) and a brush that is not hollow, draws the fill in two parts: a
triangle strip from the start index covering `MAX_ANGLE - istart + 2`
vertices, then a triangle strip from index 0 covering `iend + 2` vertices. -/
theorem C19_annulus_generic_and_donut_fill (D : DonutLib) (center : PixelPoint)
    (small_radius big_radius : Nat) (start stop : Angle) (c : Ctx) :
    Canvas.DrawAnnulus D center small_radius big_radius start stop c =
      Ctx.lib (LibCall.Annulus center big_radius start stop small_radius) c ∧
    Ctx.issued (Canvas.DrawAnnulus D center small_radius big_radius start stop) c =
      [Ev.lib (LibCall.Annulus center big_radius start stop small_radius)] ∧
    draws (Ctx.issued (Canvas.DrawAnnulus D center small_radius big_radius start stop) c) = [] ∧
    (c.brush.IsHollow = false →
      (AngleToDonutVertices D start stop).2 < (AngleToDonutVertices D start stop).1 →
      (AngleToDonutVertices D start stop).1 ≤ D.MAX_ANGLE → D.MAX_ANGLE + 2 < 2 ^ 32 →
      (draws (Ctx.issued (Canvas.DrawAnnulus.donut D center small_radius big_radius start stop)
        c)).filter GLCall.isStripDraw =
        [GLCall.glDrawArrays Prim.GL_TRIANGLE_STRIP (AngleToDonutVertices D start stop).1
           (D.MAX_ANGLE - (AngleToDonutVertices D start stop).1 + 2),
         GLCall.glDrawArrays Prim.GL_TRIANGLE_STRIP 0
           ((AngleToDonutVertices D start stop).2 + 2)]) := by
  have e : Ctx.issued (Canvas.DrawAnnulus D center small_radius big_radius start stop) c =
      [Ev.lib (LibCall.Annulus center big_radius start stop small_radius)] := by
    unfold Ctx.issued
    rw [DrawAnnulus_generic]
    rfl
  refine ⟨DrawAnnulus_generic D center small_radius big_radius start stop c, e, ?_, ?_⟩
  · rw [e]
    rfl
  · intro hb hwrap hle hmax
    rw [DrawAnnulus_donut_strips D center small_radius big_radius start stop c hb hwrap]
    have h1 : u32 (usub D.MAX_ANGLE (AngleToDonutVertices D start stop).1 + 2) =
        D.MAX_ANGLE - (AngleToDonutVertices D start stop).1 + 2 := by
      unfold u32 usub
      omega
    have h2 : u32 ((AngleToDonutVertices D start stop).2 + 2) =
        (AngleToDonutVertices D start stop).2 + 2 := by
      unfold u32
      omega
    rw [h1, h2]

/-- C19, at a concrete input: in the example table the donut code draws the
fill of the annulus from 0 to 90 degrees as a strip of 18 vertices from
index 48 and a strip of 2 vertices from index 0, while `DrawAnnulus` itself
issues no draw call. -/
theorem C19_annulus_generic_and_donut_fill_witness :
    draws (Ctx.issued (Canvas.DrawAnnulus exDonut ⟨0, 0⟩ 5 10 0 90)
      (Canvas.SelectBrush exWhiteBrush (exCtx []))) = [] ∧
    (draws (Ctx.issued (Canvas.DrawAnnulus.donut exDonut ⟨0, 0⟩ 5 10 0 90)
      (Canvas.SelectBrush exWhiteBrush (exCtx [])))).filter GLCall.isStripDraw =
      [GLCall.glDrawArrays Prim.GL_TRIANGLE_STRIP 48 18,
       GLCall.glDrawArrays Prim.GL_TRIANGLE_STRIP 0 2] := by
  have h := C19_annulus_generic_and_donut_fill exDonut ⟨0, 0⟩ 5 10 0 90
    (Canvas.SelectBrush exWhiteBrush (exCtx []))
  refine ⟨h.2.2.1, ?_⟩
  have h4 := h.2.2.2 rfl (by rw [exDonut_vertices_0_90]; decide)
    (by rw [exDonut_vertices_0_90]; decide) (by decide)
  rw [exDonut_vertices_0_90] at h4
  exact h4


/-! ## The window system -/

@[simp] theorem sysCalls_nil : sysCalls [] = [] := rfl

@[simp] theorem sysCalls_append (xs ys : List Ev) :
    sysCalls (xs ++ ys) = sysCalls xs ++ sysCalls ys := by
  simp [sysCalls]

@[simp] theorem sysCalls_sys (call : SysCall) : sysCalls [Ev.lib (LibCall.System call)] = [call] :=
  rfl

@[simp] theorem sysCalls_cons_sys (call : SysCall) (rest : List Ev) :
    sysCalls (Ev.lib (LibCall.System call) :: rest) = call :: sysCalls rest := rfl

@[simp] theorem Ctx.sys_trace (call : SysCall) (c : Ctx) :
    (Ctx.sys call c).trace = c.trace ++ [Ev.lib (LibCall.System call)] := rfl

@[simp] theorem Ctx.sys_errs (call : SysCall) (c : Ctx) : (Ctx.sys call c).errs = c.errs := rfl

@[simp] theorem Ctx.sys_nextError (call : SysCall) (c : Ctx) :
    (Ctx.sys call c).nextError = c.nextError := rfl

@[simp] theorem checkError_sysCalls (tag : String) (c : Ctx) :
    sysCalls (checkError tag c).trace = sysCalls c.trace := by
  unfold checkError glGetError LogFormat
  dsimp only
  split <;> simp [sysCalls, Ctx.call, Ctx.emit]

@[simp] theorem logged_nil : logged [] = [] := rfl

@[simp] theorem logged_append (xs ys : List Ev) : logged (xs ++ ys) = logged xs ++ logged ys := by
  simp [logged]

@[simp] theorem logged_sys (call : SysCall) (c : Ctx) :
    logged (Ctx.sys call c).trace = logged c.trace := by
  simp [logged, Ctx.sys]

/-- The line a check adds to the log: none for `GL_NO_ERROR`, else its tag with
the code read. -/
theorem checkError_logged (tag : String) (c : Ctx) :
    logged (checkError tag c).trace =
      logged c.trace ++ (if c.nextError ≠ GL_NO_ERROR then [(tag, c.nextError)] else []) := by
  unfold checkError glGetError LogFormat
  dsimp only
  split <;> simp_all [logged, Ctx.call, Ctx.emit]

/-- The size `TopCanvas::GetNativeSize` returns. -/
theorem GetNativeSize_fst (X : GLXServer) (c : Ctx) :
    (TopCanvas.GetNativeSize X c).1 =
      (if u32 (X.width.getD 0) = 0 ∨ u32 (X.height.getD 0) = 0 then ⟨0, 0⟩
       else ⟨u32 (X.width.getD 0), u32 (X.height.getD 0)⟩) := by
  unfold TopCanvas.GetNativeSize
  simp only [Nat.le_zero]
  split <;> rfl

theorem GetNativeSize_sysCalls (X : GLXServer) (c : Ctx) :
    sysCalls (TopCanvas.GetNativeSize X c).2.trace =
      sysCalls c.trace ++ [SysCall.glXQueryDrawable GLXAttribute.GLX_WIDTH,
        SysCall.glXQueryDrawable GLXAttribute.GLX_HEIGHT] := by
  unfold TopCanvas.GetNativeSize
  simp only [Nat.le_zero]
  split <;> simp

/-- C21: surface size and fatal initialisation. `TopCanvas::GetNativeSize`
returns (0, 0) whenever the queried width or height is zero and the queried
(width, height) otherwise, so its result never has exactly one zero
component. The constructor of `TopCanvas` throws if and only if attaching
the GLX context fails or the native size has a zero dimension; when it throws
no `SetupViewport` call was made, and when it returns the calls it made end
with `SetupViewport` of the native size. -/
theorem C21_native_size_and_fatal_init (X : GLXServer) (c : Ctx) :
    (TopCanvas.GetNativeSize X c).1 =
      (if u32 (X.width.getD 0) = 0 ∨ u32 (X.height.getD 0) = 0 then ⟨0, 0⟩
       else ⟨u32 (X.width.getD 0), u32 (X.height.getD 0)⟩) ∧
    ((TopCanvas.GetNativeSize X c).1.width = 0 ↔ (TopCanvas.GetNativeSize X c).1.height = 0) ∧
    ((∃ e, TopCanvas.ctor X c = Except.error e) ↔
      (X.glXMakeContextCurrent = false ∨ (TopCanvas.GetNativeSize X c).1.width = 0 ∨
        (TopCanvas.GetNativeSize X c).1.height = 0)) ∧
    (∀ e, TopCanvas.ctor X { c with trace := [] } = Except.error e →
      (e.1 = "Failed to attach GLX context to GLX window" ∨
        e.1 = "Failed to query GLX drawable size") ∧
      ∀ size, SysCall.SetupViewport size ∉ sysCalls e.2.trace) ∧
    (∀ c', TopCanvas.ctor X { c with trace := [] } = Except.ok c' →
      sysCalls c'.trace = [SysCall.glXCreateWindow, SysCall.XSync, SysCall.glXMakeContextCurrent,
        SysCall.glXQueryDrawable GLXAttribute.GLX_WIDTH,
        SysCall.glXQueryDrawable GLXAttribute.GLX_HEIGHT,
        SysCall.SetupViewport (TopCanvas.GetNativeSize X c).1]) := by
  have hsize : ∀ x : Ctx, (TopCanvas.GetNativeSize X x).1 = (TopCanvas.GetNativeSize X c).1 := by
    intro x
    rw [GetNativeSize_fst, GetNativeSize_fst]
  refine ⟨GetNativeSize_fst X c, ?_, ?_, ?_, ?_⟩
  · rw [GetNativeSize_fst]
    split
    · simp
    · rename_i h
      simp only [not_or] at h
      simp [h.1, h.2]
  · unfold TopCanvas.ctor
    simp only [hsize]
    cases hA : X.glXMakeContextCurrent
    · simp
    · by_cases hz : (TopCanvas.GetNativeSize X c).1.width = 0 ∨
          (TopCanvas.GetNativeSize X c).1.height = 0
      · simp [hz]
      · simp [hz]
  · intro e he
    unfold TopCanvas.ctor at he
    simp only [hsize] at he
    cases hA : X.glXMakeContextCurrent
    · simp [hA] at he
      subst he
      simp
    · by_cases hz : (TopCanvas.GetNativeSize X c).1.width = 0 ∨
          (TopCanvas.GetNativeSize X c).1.height = 0
      · simp [hA, hz] at he
        subst he
        simp [GetNativeSize_sysCalls]
      · simp [hA, hz] at he
  · intro c' hc
    unfold TopCanvas.ctor at hc
    simp only [hsize] at hc
    cases hA : X.glXMakeContextCurrent
    · simp [hA] at hc
    · by_cases hz : (TopCanvas.GetNativeSize X c).1.width = 0 ∨
          (TopCanvas.GetNativeSize X c).1.height = 0
      · simp [hA, hz] at hc
      · simp [hA, hz] at hc
        subst hc
        simp [GetNativeSize_sysCalls]

/-- C21, at concrete inputs: on a server with a drawable of 640 x 480 the
constructor returns after setting up the viewport; when the height cannot be
queried it throws. -/
theorem C21_native_size_and_fatal_init_witness :
    (TopCanvas.GetNativeSize exServer (exCtx [])).1 = ⟨640, 480⟩ ∧
    (TopCanvas.GetNativeSize ⟨true, some 640, none⟩ (exCtx [])).1 = ⟨0, 0⟩ ∧
    (∃ e, TopCanvas.ctor ⟨true, some 640, none⟩ (exCtx []) = Except.error e) :=
  ⟨(C21_native_size_and_fatal_init exServer (exCtx [])).1.trans (by decide),
    (C21_native_size_and_fatal_init ⟨true, some 640, none⟩ (exCtx [])).1.trans (by decide),
    (C21_native_size_and_fatal_init ⟨true, some 640, none⟩ (exCtx [])).2.2.1.2
      (Or.inr (Or.inr (by decide)))⟩


/-- The calls `TopWindow::Expose` makes: the screen is locked, painted and
unlocked only on a defined canvas, and flipped in every case. -/
theorem Expose_sysCalls (E : TopWindowEnv) (c : Ctx) :
    sysCalls (TopWindow.Expose E c).trace = sysCalls c.trace ++
      ((if E.HAVE_CPU_FREQUENCY = true then [SysCall.ScopeLockCPU_ctor] else []) ++
       [SysCall.Screen_Lock] ++
       (if E.LockDefined = true then
         [SysCall.OnPaint] ++
         (if E.DRAW_MOUSE_CURSOR = true ∧ E.cursor_visible = true then [SysCall.DrawMouseCursor]
          else []) ++
         [SysCall.Screen_Unlock]
        else []) ++
       [SysCall.Screen_Flip] ++
       (if E.GL_EXT_discard_framebuffer = true ∧ E.discard_framebuffer = true then
         [SysCall.discard_framebuffer] else []) ++
       (if E.HAVE_CPU_FREQUENCY = true then [SysCall.ScopeLockCPU_dtor] else [])) := by
  unfold TopWindow.Expose
  cases E.HAVE_CPU_FREQUENCY <;> cases E.LockDefined <;> cases E.DRAW_MOUSE_CURSOR <;>
    cases E.cursor_visible <;> cases E.GL_EXT_discard_framebuffer <;>
    cases E.discard_framebuffer <;> simp

/-- C22, as stated, fails: when `screen->Lock()` yields an undefined canvas,
`TopWindow::Expose`, also when called by `TopWindow::Refresh`, does not call
`OnPaint` and still calls `screen->Flip()`. -/
theorem C22_flip_without_paint :
    (exWindow false).LockDefined = false ∧
    sysCalls (Ctx.issued (TopWindow.Expose (exWindow false)) (exCtx [])) =
      [SysCall.Screen_Lock, SysCall.Screen_Flip] ∧
    sysCalls (Ctx.issued (fun c => (TopWindow.Refresh (exWindow false) true c).2) (exCtx [])) =
      [SysCall.Screen_Lock, SysCall.Screen_Flip] := by
  refine ⟨rfl, ?_, ?_⟩
  · decide
  · decide

/-- C22, amended: in every execution of `TopWindow::Expose`, `OnPaint` is
called if and only if `screen->Lock()` returned a defined canvas, and then it
is followed by `screen->Unlock()` before `screen->Flip()`; `screen->Flip()` is
called exactly once in every execution, also when the lock yields an
undefined canvas. `TopWindow::Refresh` runs `Expose` when the screen is
ready, the window is visible (under X11) and invalidated, clearing
`invalidated`, and makes no call otherwise. -/
theorem C22_paint_then_flip (E : TopWindowEnv) (invalidated : Bool) (c : Ctx) :
    sysCalls (Ctx.issued (TopWindow.Expose E) c) =
      (if E.HAVE_CPU_FREQUENCY = true then [SysCall.ScopeLockCPU_ctor] else []) ++
       [SysCall.Screen_Lock] ++
       (if E.LockDefined = true then
         [SysCall.OnPaint] ++
         (if E.DRAW_MOUSE_CURSOR = true ∧ E.cursor_visible = true then [SysCall.DrawMouseCursor]
          else []) ++
         [SysCall.Screen_Unlock]
        else []) ++
       [SysCall.Screen_Flip] ++
       (if E.GL_EXT_discard_framebuffer = true ∧ E.discard_framebuffer = true then
         [SysCall.discard_framebuffer] else []) ++
       (if E.HAVE_CPU_FREQUENCY = true then [SysCall.ScopeLockCPU_dtor] else []) ∧
    (SysCall.OnPaint ∈ sysCalls (Ctx.issued (TopWindow.Expose E) c) ↔ E.LockDefined = true) ∧
    (sysCalls (Ctx.issued (TopWindow.Expose E) c)).count SysCall.Screen_Flip = 1 ∧
    sysCalls (Ctx.issued (fun x => (TopWindow.Refresh E invalidated x).2) c) =
      (if E.IsReady = true ∧ (E.USE_X11 = true → E.IsVisible = true) ∧ invalidated = true then
        sysCalls (Ctx.issued (TopWindow.Expose E) c)
       else []) ∧
    (TopWindow.Refresh E invalidated c).1 =
      (if E.IsReady = true ∧ (E.USE_X11 = true → E.IsVisible = true) then false
       else invalidated) := by
  have h1 : ∀ x : Ctx, sysCalls (Ctx.issued (TopWindow.Expose E) x) =
      (if E.HAVE_CPU_FREQUENCY = true then [SysCall.ScopeLockCPU_ctor] else []) ++
       [SysCall.Screen_Lock] ++
       (if E.LockDefined = true then
         [SysCall.OnPaint] ++
         (if E.DRAW_MOUSE_CURSOR = true ∧ E.cursor_visible = true then [SysCall.DrawMouseCursor]
          else []) ++
         [SysCall.Screen_Unlock]
        else []) ++
       [SysCall.Screen_Flip] ++
       (if E.GL_EXT_discard_framebuffer = true ∧ E.discard_framebuffer = true then
         [SysCall.discard_framebuffer] else []) ++
       (if E.HAVE_CPU_FREQUENCY = true then [SysCall.ScopeLockCPU_dtor] else []) := by
    intro x
    unfold Ctx.issued
    rw [Expose_sysCalls]
    simp
  refine ⟨h1 c, ?_, ?_, ?_, ?_⟩
  · rw [h1]
    cases E.HAVE_CPU_FREQUENCY <;> cases E.LockDefined <;> cases E.DRAW_MOUSE_CURSOR <;>
      cases E.cursor_visible <;> cases E.GL_EXT_discard_framebuffer <;>
      cases E.discard_framebuffer <;> simp
  · rw [h1]
    cases E.HAVE_CPU_FREQUENCY <;> cases E.LockDefined <;> cases E.DRAW_MOUSE_CURSOR <;>
      cases E.cursor_visible <;> cases E.GL_EXT_discard_framebuffer <;>
      cases E.discard_framebuffer <;> decide
  · rw [h1]
    unfold Ctx.issued TopWindow.Refresh
    cases hr : E.IsReady <;> cases hx : E.USE_X11 <;> cases hv : E.IsVisible <;>
      cases invalidated <;> simp [Expose_sysCalls]
  · unfold TopWindow.Refresh
    cases hr : E.IsReady <;> cases hx : E.USE_X11 <;> cases hv : E.IsVisible <;>
      cases invalidated <;> simp

/-- C22, at a concrete input: with a defined canvas the frame is painted,
unlocked and then flipped. -/
theorem C22_paint_then_flip_witness :
    sysCalls (Ctx.issued (TopWindow.Expose (exWindow true)) (exCtx [])) =
      [SysCall.Screen_Lock, SysCall.OnPaint, SysCall.Screen_Unlock, SysCall.Screen_Flip] :=
  (C22_paint_then_flip (exWindow true) true (exCtx [])).1.trans (by decide)

@[simp] theorem glGetError_logged (c : Ctx) : logged (glGetError c).2.trace = logged c.trace := by
  simp [glGetError, logged]

@[simp] theorem LogFormat_logged (tag : String) (code : Nat) (c : Ctx) :
    logged (LogFormat tag code c).trace = logged c.trace ++ [(tag, code)] := by
  simp [LogFormat, logged]

@[simp] theorem logged_cons_lib (k : LibCall) (rest : List Ev) :
    logged (Ev.lib k :: rest) = logged rest := rfl

@[simp] theorem LogFormat_errs (tag : String) (code : Nat) (c : Ctx) :
    (LogFormat tag code c).errs = c.errs := rfl

theorem head_getD_tails (l : List Nat) :
    l.head?.getD 0 = l.getD 0 0 ∧ l.tail.head?.getD 0 = l.getD 1 0 ∧
    l.tail.tail.head?.getD 0 = l.getD 2 0 ∧ l.tail.tail.tail.head?.getD 0 = l.getD 3 0 ∧
    l.tail.tail.tail.tail.head?.getD 0 = l.getD 4 0 := by
  rcases l with _ | ⟨a, _ | ⟨b, _ | ⟨c, _ | ⟨d, _ | ⟨e, r⟩⟩⟩⟩⟩ <;> simp

/-- The codes read and the lines logged by the constructor of `SDL::Display`
in an OpenGL build, when `SDL_Init` succeeds: the line `BB` depends on the
code read after the first call and carries the code read after the second. -/
theorem Display_ctor_logged (E : SDLEnv) (c : Ctx) (hgl : E.ENABLE_OPENGL = true)
    (hinit : E.SDL_Init (if !E.IsKobo then SDL_INIT_VIDEO ||| SDL_INIT_AUDIO else SDL_INIT_VIDEO)
      = 0) :
    logged (finalCtx (SDL.Display.ctor E c)).trace = logged c.trace ++
      ((if c.errs.getD 0 0 ≠ 0 then [("AA", c.errs.getD 0 0)] else []) ++
       (if c.errs.getD 0 0 ≠ 0 then [("BB", c.errs.getD 1 0)] else []) ++
       (if c.errs.getD 2 0 ≠ 0 then [("CC", c.errs.getD 2 0)] else []) ++
       (if c.errs.getD 3 0 ≠ 0 then [("DD", c.errs.getD 3 0)] else []) ++
       (if c.errs.getD 4 0 ≠ 0 then [("EE", c.errs.getD 4 0)] else [])) := by
  obtain ⟨g0, g1, g2, g3, g4⟩ := head_getD_tails c.errs
  unfold SDL.Display.ctor
  simp only [hinit, hgl, ne_eq, not_true_eq_false, if_false, if_true, finalCtx]
  by_cases h0 : c.errs.getD 0 0 = 0
  · have hh : c.errs.head?.getD 0 = 0 := g0.trans h0
    have h0' : c.errs[0]?.getD 0 = 0 := by simpa using h0
    cases E.HasTouchScreen <;>
      simp [checkError_logged, Ctx.nextError, GL_NO_ERROR, g1, g2, g3, g4, h0', hh]
  · have hh : ¬ c.errs.head?.getD 0 = 0 := fun h => h0 (g0.symm.trans h)
    have h0' : ¬ c.errs[0]?.getD 0 = 0 := by simpa using h0
    cases E.HasTouchScreen <;>
      simp [checkError_logged, Ctx.nextError, GL_NO_ERROR, g1, g2, g3, g4, h0', hh, g0]

/-- C23: the log line after `SDL_GL_SetAttribute(SDL_GL_CONTEXT_MAJOR_VERSION,
2)` tests the code read after the previous call. When the five reads return
0, 0x502, 0, 0, 0 the error code read after the second call is not logged;
when they return 0x502, 0, 0, 0, 0 a line `BB` is logged for the second call
although the code read after it is `GL_NO_ERROR`, and it carries 0. -/
theorem C23_major_version_error_not_logged :
    errorsRead (finalCtx (SDL.Display.ctor exSDL (exCtx [0, 0x502]))).trace =
      [0, 0x502, 0, 0, 0] ∧
    logged (finalCtx (SDL.Display.ctor exSDL (exCtx [0, 0x502]))).trace = [] ∧
    errorsRead (finalCtx (SDL.Display.ctor exSDL (exCtx [0x502]))).trace =
      [0x502, 0, 0, 0, 0] ∧
    logged (finalCtx (SDL.Display.ctor exSDL (exCtx [0x502]))).trace =
      [("AA", 0x502), ("BB", 0)] := by
  refine ⟨by decide, ?_, by decide, ?_⟩
  · rw [Display_ctor_logged exSDL _ rfl rfl]
    decide
  · rw [Display_ctor_logged exSDL _ rfl rfl]
    decide


/-! ## The state a drawing operation leaves behind -/

theorem GLState.apply_frag (g : GLState) (k : GLCall) : (g.apply k).frag = g.frag.apply k := by
  cases k <;> rfl

theorem DrawFilledRectangle_frag (r : PixelRect) (color : Color) (c : Ctx) :
    (Canvas.DrawFilledRectangle r color c).gl.frag = c.gl.frag := by
  unfold Canvas.DrawFilledRectangle
  rw [GLDrawRectangle_frag]
  simp [GLProgram.Use, GLState.apply_frag, GLState.step, FragState.apply]

/-- The per-fragment state `Canvas::InvertRectangle` returns with. -/
theorem InvertRectangle_frag (r : PixelRect) (c : Ctx) :
    (Canvas.InvertRectangle r c).gl.frag = { c.gl.frag with
      caps := fun k => if k = Cap.GL_BLEND then false else c.gl.frag.caps k
      color_mask := ColorMask.all
      blend_src := BlendFactor.GL_ONE_MINUS_DST_COLOR
      blend_dst := BlendFactor.GL_ZERO } := by
  have hcaps : (fun k => if k = Cap.GL_BLEND then false
      else if k = Cap.GL_BLEND then true else c.gl.frag.caps k) =
      fun k => if k = Cap.GL_BLEND then false else c.gl.frag.caps k := by
    funext k
    by_cases hk : k = Cap.GL_BLEND
    · simp [hk]
    · simp [hk]
  simp only [Canvas.InvertRectangle, checkError_gl, Ctx.call_gl, GLState.apply_frag,
    DrawFilledRectangle_frag, FragState.apply, hcaps]
  rfl

/-- C30, as stated, fails: from the fresh GL state, whose blend function is
(`GL_ONE`, `GL_ZERO`), `Canvas::InvertRectangle` returns with the source
factor `GL_ONE_MINUS_DST_COLOR`; entered with blending enabled it returns
with blending disabled; entered with colour writes disabled it returns with
colour writes enabled. -/
theorem C30_state_not_restored :
    (exCtx []).gl.frag.blend_src = BlendFactor.GL_ONE ∧
    (Canvas.InvertRectangle ⟨0, 0, 10, 10⟩ (exCtx [])).gl.frag.blend_src =
      BlendFactor.GL_ONE_MINUS_DST_COLOR ∧
    (Ctx.call (GLCall.glEnable Cap.GL_BLEND) (exCtx [])).gl.frag.caps Cap.GL_BLEND = true ∧
    (Canvas.InvertRectangle ⟨0, 0, 10, 10⟩
      (Ctx.call (GLCall.glEnable Cap.GL_BLEND) (exCtx []))).gl.frag.caps Cap.GL_BLEND = false ∧
    (Ctx.call (GLCall.glColorMask false false false false) (exCtx [])).gl.frag.color_mask =
      ColorMask.none ∧
    (Canvas.InvertRectangle ⟨0, 0, 10, 10⟩
      (Ctx.call (GLCall.glColorMask false false false false) (exCtx []))).gl.frag.color_mask =
      ColorMask.all := by
  refine ⟨rfl, ?_, rfl, ?_, rfl, ?_⟩
  · simp only [InvertRectangle_frag]
  · simp only [InvertRectangle_frag, if_true]
  · simp only [InvertRectangle_frag]

/-- C30, amended: `Canvas::InvertRectangle` resets the state it changes
instead of restoring it. For every rectangle and every prior state, on return
colour writes are enabled on all four channels, blending is disabled and the
blend function is (`GL_ONE_MINUS_DST_COLOR`, `GL_ZERO`); the other
capabilities and the stencil state are as on entry. So the colour mask and
the blend capability equal their values on entry exactly when the canvas was
entered with colour writes enabled and blending disabled, and the blend
function when it was entered with (`GL_ONE_MINUS_DST_COLOR`, `GL_ZERO`). -/
theorem C30_InvertRectangle_resets_state (r : PixelRect) (c : Ctx) :
    (Canvas.InvertRectangle r c).gl.frag.color_mask = ColorMask.all ∧
    (Canvas.InvertRectangle r c).gl.frag.caps Cap.GL_BLEND = false ∧
    (Canvas.InvertRectangle r c).gl.frag.blend_src = BlendFactor.GL_ONE_MINUS_DST_COLOR ∧
    (Canvas.InvertRectangle r c).gl.frag.blend_dst = BlendFactor.GL_ZERO ∧
    (∀ k, k ≠ Cap.GL_BLEND → (Canvas.InvertRectangle r c).gl.frag.caps k = c.gl.frag.caps k) ∧
    ((Canvas.InvertRectangle r c).gl.frag.color_mask = c.gl.frag.color_mask ↔
      c.gl.frag.color_mask = ColorMask.all) ∧
    ((Canvas.InvertRectangle r c).gl.frag.caps Cap.GL_BLEND = c.gl.frag.caps Cap.GL_BLEND ↔
      c.gl.frag.caps Cap.GL_BLEND = false) ∧
    ((Canvas.InvertRectangle r c).gl.frag.blend_src = c.gl.frag.blend_src ∧
      (Canvas.InvertRectangle r c).gl.frag.blend_dst = c.gl.frag.blend_dst ↔
      c.gl.frag.blend_src = BlendFactor.GL_ONE_MINUS_DST_COLOR ∧
      c.gl.frag.blend_dst = BlendFactor.GL_ZERO) := by
  rw [InvertRectangle_frag]
  refine ⟨rfl, by simp, rfl, rfl, fun k hk => by simp [hk], ?_, ?_, ?_⟩
  · exact ⟨fun h => h.symm, fun h => h.symm⟩
  · simp only [if_true]
    exact ⟨fun h => h.symm, fun h => h.symm⟩
  · exact ⟨fun h => ⟨h.1.symm, h.2.symm⟩, fun h => ⟨h.1.symm, h.2.symm⟩⟩

namespace AirspaceVisitorRenderer

theorem SetupInterior_color_mask (self : Renderer) (airspace : AbstractAirspace)
    (check : Bool) (c : Ctx) :
    (SetupInterior self airspace check c).gl.frag.color_mask = c.gl.frag.color_mask := by
  rw [SetupInterior_gl]
  dsimp only
  split
  · split <;> rfl
  · rfl

/-- The outline step keeps capabilities and colour mask. -/
theorem SetupOutline_caps_mask (self : Renderer) (airspace : AbstractAirspace) (c : Ctx) :
    (SetupOutline self airspace c).2.gl.frag.caps = c.gl.frag.caps ∧
    (SetupOutline self airspace c).2.gl.frag.color_mask = c.gl.frag.color_mask := by
  rw [SetupOutline_gl]
  split <;> exact ⟨rfl, rfl⟩

theorem outline_circle_clean (self : Renderer) (airspace : AbstractAirspace)
    (center : PixelPoint) (radius : Nat) (c : Ctx) (h : c.gl.frag.clean) :
    (if (SetupOutline self airspace c).1 then
        Canvas.DrawCircle center radius (SetupOutline self airspace c).2
      else (SetupOutline self airspace c).2).gl.frag.clean := by
  obtain ⟨h1, h2⟩ := SetupOutline_caps_mask self airspace c
  unfold FragState.clean at *
  split
  · rw [Canvas.DrawCircle_frag, h1, h2]
    exact h
  · rw [h1, h2]
    exact h

theorem outline_polygon_clean (self : Renderer) (airspace : AbstractAirspace)
    (pts : List PixelPoint) (c : Ctx) (h : c.gl.frag.clean) :
    (if (SetupOutline self airspace c).1 then
        self.map.DrawPrepared pts (SetupOutline self airspace c).2
      else (SetupOutline self airspace c).2).gl.frag.clean := by
  obtain ⟨h1, h2⟩ := SetupOutline_caps_mask self airspace c
  unfold FragState.clean at *
  split
  · rw [MapCanvas.DrawPrepared, Canvas.DrawPolygon_frag, h1, h2]
    exact h
  · rw [h1, h2]
    exact h

theorem VisitCircle_clean (self : Renderer) (airspace : AbstractAirspace) (c : Ctx)
    (h : c.gl.frag.clean) : (VisitCircle self airspace c).gl.frag.clean := by
  unfold VisitCircle
  dsimp only
  split
  · apply outline_circle_clean
    obtain ⟨_, _, h3⟩ := h
    unfold FragState.clean
    split <;>
      simp [GLEnable.dtor_gl, GLEnable.ctor_gl, Canvas.DrawCircle_frag, SetupInterior_color_mask, h3]
  · exact outline_circle_clean self airspace _ _ c h

theorem VisitPolygon_clean (self : Renderer) (airspace : AbstractAirspace) (c : Ctx)
    (h : c.gl.frag.clean) : (VisitPolygon self airspace c).gl.frag.clean := by
  unfold VisitPolygon
  dsimp only
  split
  · exact h
  · split
    · apply outline_polygon_clean
      obtain ⟨_, _, h3⟩ := h
      unfold FragState.clean
      split <;>
        simp [GLEnable.dtor_gl, GLEnable.ctor_gl, MapCanvas.DrawPrepared, Canvas.DrawPolygon_frag,
          SetupInterior_color_mask, SetupInterior_caps, SetFillStencil_gl, ClearFillStencil_gl,
          GLState.apply, FragState.apply, h3, ColorMask.all]
    · exact outline_polygon_clean self airspace _ c h

end AirspaceVisitorRenderer

/-- C29: a precise-mode shape leaves the capability state clean. If the
stencil test and blending are disabled and colour writes are enabled on all
four channels when `AirspaceVisitorRenderer::Visit` is entered, then for
every shape, every warning state, every settings value and every sequence of
`glGetError` results the same holds on return. -/
theorem C29_visit_leaves_state_clean (self : Renderer) (airspace : AbstractAirspace) (c : Ctx)
    (h : c.gl.frag.clean) : (AirspaceVisitorRenderer.Visit self airspace c).gl.frag.clean := by
  unfold AirspaceVisitorRenderer.Visit
  dsimp only
  have hm : (c.emit (Ev.enter (Fn.Visit airspace))).gl.frag.clean := h
  split
  · exact AirspaceVisitorRenderer.VisitCircle_clean self airspace _ hm
  · exact AirspaceVisitorRenderer.VisitPolygon_clean self airspace _ hm

/-- C29, at a concrete input: the visit of a not fully filled polygon, which
disables colour writes twice, returns with colour writes enabled. -/
theorem C29_visit_leaves_state_clean_witness :
    (exCtx []).gl.frag.clean ∧
    (AirspaceVisitorRenderer.Visit (exRenderer FillMode.PADDING 1) exPolygon
      (exCtx [])).gl.frag.clean :=
  ⟨⟨rfl, rfl, rfl⟩,
    C29_visit_leaves_state_clean (exRenderer FillMode.PADDING 1) exPolygon (exCtx [])
      ⟨rfl, rfl, rfl⟩⟩


/-! ## The outline of a shape -/

/-- `AirspaceVisitorRenderer::VisitCircle` is its fill block followed by the
outline. -/
theorem AirspaceVisitorRenderer.VisitCircle_precise_split (self : Renderer)
    (airspace : AbstractAirspace) (c : Ctx) :
    AirspaceVisitorRenderer.VisitCircle self airspace c =
      if (AirspaceVisitorRenderer.SetupOutline self airspace
          (AirspaceVisitorRenderer.VisitCircle.interior self airspace c)).1 then
        Canvas.DrawCircle (self.map.GeoToScreen airspace.reference_location)
          (u32 (self.map.GeoToScreenDistance airspace.radius))
          (AirspaceVisitorRenderer.SetupOutline self airspace
            (AirspaceVisitorRenderer.VisitCircle.interior self airspace c)).2
      else (AirspaceVisitorRenderer.SetupOutline self airspace
        (AirspaceVisitorRenderer.VisitCircle.interior self airspace c)).2 := rfl

/-- `AirspaceVisitorRenderer::VisitPolygon` is its fill block followed by the
outline. -/
theorem AirspaceVisitorRenderer.VisitPolygon_precise_split (self : Renderer)
    (airspace : AbstractAirspace) (c : Ctx) :
    AirspaceVisitorRenderer.VisitPolygon self airspace c =
      match self.map.PreparePolygon airspace.points with
      | none => c
      | some raster_points =>
        if (AirspaceVisitorRenderer.SetupOutline self airspace
            (AirspaceVisitorRenderer.VisitPolygon.interior self airspace raster_points c)).1 then
          self.map.DrawPrepared raster_points
            (AirspaceVisitorRenderer.SetupOutline self airspace
              (AirspaceVisitorRenderer.VisitPolygon.interior self airspace raster_points c)).2
        else (AirspaceVisitorRenderer.SetupOutline self airspace
          (AirspaceVisitorRenderer.VisitPolygon.interior self airspace raster_points c)).2 := by
  unfold AirspaceVisitorRenderer.VisitPolygon
  split <;> rfl

/-- `AirspaceFillRenderer::VisitCircle` is its fill block followed by the
outline. -/
theorem AirspaceFillRenderer.VisitCircle_cheap_split (self : Renderer)
    (airspace : AbstractAirspace) (c : Ctx) :
    AirspaceFillRenderer.VisitCircle self airspace c =
      if (AirspaceFillRenderer.SetupOutline self airspace
          (AirspaceFillRenderer.VisitCircle.interior self airspace c)).1 then
        Canvas.DrawCircle (self.map.GeoToScreen airspace.reference_location)
          (u32 (self.map.GeoToScreenDistance airspace.radius))
          (AirspaceFillRenderer.SetupOutline self airspace
            (AirspaceFillRenderer.VisitCircle.interior self airspace c)).2
      else (AirspaceFillRenderer.SetupOutline self airspace
        (AirspaceFillRenderer.VisitCircle.interior self airspace c)).2 := rfl

/-- `AirspaceFillRenderer::VisitPolygon` is its fill block followed by the
outline. -/
theorem AirspaceFillRenderer.VisitPolygon_cheap_split (self : Renderer)
    (airspace : AbstractAirspace) (c : Ctx) :
    AirspaceFillRenderer.VisitPolygon self airspace c =
      match self.map.PreparePolygon airspace.points with
      | none => c
      | some raster_points =>
        if (AirspaceFillRenderer.SetupOutline self airspace
            (AirspaceFillRenderer.VisitPolygon.interior self airspace raster_points c)).1 then
          self.map.DrawPrepared raster_points
            (AirspaceFillRenderer.SetupOutline self airspace
              (AirspaceFillRenderer.VisitPolygon.interior self airspace raster_points c)).2
        else (AirspaceFillRenderer.SetupOutline self airspace
          (AirspaceFillRenderer.VisitPolygon.interior self airspace raster_points c)).2 := by
  unfold AirspaceFillRenderer.VisitPolygon
  split <;> rfl

/-- C26, as stated, fails: with `black_outline` set, for a class of border
width 0, `SetupOutline` of both renderers returns true after selecting the
black pen, and the visit of a circle issues the outline draw after the draw of
its fill block. -/
theorem C26_black_outline_ignores_border_width :
    (exBlackRenderer.settings.classes (exBlackRenderer.as_type_or_class exCircle)).border_width
      = 0 ∧
    (AirspaceVisitorRenderer.SetupOutline exBlackRenderer exCircle (exCtx [])).1 = true ∧
    (AirspaceFillRenderer.SetupOutline exBlackRenderer exCircle (exCtx [])).1 = true ∧
    draws (Ctx.issued (AirspaceFillRenderer.VisitCircle.interior exBlackRenderer exCircle)
      (exCtx [])) = [GLCall.glDrawArrays Prim.GL_TRIANGLE_STRIP 0 4] ∧
    draws (Ctx.issued (AirspaceFillRenderer.Visit exBlackRenderer exCircle) (exCtx [])) =
      [GLCall.glDrawArrays Prim.GL_TRIANGLE_STRIP 0 4,
       GLCall.glDrawArrays Prim.GL_TRIANGLE_STRIP 0 4] ∧
    draws (Ctx.issued (AirspaceVisitorRenderer.VisitCircle.interior exBlackRenderer exCircle)
      (exCtx [])) = [GLCall.glDrawArrays Prim.GL_TRIANGLE_STRIP 0 4] ∧
    draws (Ctx.issued (AirspaceVisitorRenderer.Visit exBlackRenderer exCircle) (exCtx [])) =
      [GLCall.glDrawArrays Prim.GL_TRIANGLE_STRIP 0 4,
       GLCall.glDrawArrays Prim.GL_TRIANGLE_STRIP 0 4] := by
  refine ⟨rfl, rfl, rfl, ?_, ?_, ?_, ?_⟩ <;> decide

/-- C26, amended: no outline for zero border width unless black outlines are
switched on. In both renderers, for every airspace whose effective class has
`border_width == 0`, when `settings.black_outline` is off `SetupOutline`
returns false and leaves the context (pen, brush, GL state) untouched, and the
visit of the airspace is its fill block alone: nothing is issued for the
outline. -/
theorem C26_no_outline_for_zero_border_width (self : Renderer) (airspace : AbstractAirspace)
    (c : Ctx) (hb : self.settings.black_outline = false)
    (hw : (self.settings.classes (self.as_type_or_class airspace)).border_width = 0) :
    AirspaceVisitorRenderer.SetupOutline self airspace c = (false, c) ∧
    AirspaceFillRenderer.SetupOutline self airspace c = (false, c) ∧
    AirspaceVisitorRenderer.VisitCircle self airspace c =
      AirspaceVisitorRenderer.VisitCircle.interior self airspace c ∧
    AirspaceVisitorRenderer.VisitPolygon self airspace c =
      (match self.map.PreparePolygon airspace.points with
       | none => c
       | some raster_points =>
         AirspaceVisitorRenderer.VisitPolygon.interior self airspace raster_points c) ∧
    AirspaceFillRenderer.VisitCircle self airspace c =
      AirspaceFillRenderer.VisitCircle.interior self airspace c ∧
    AirspaceFillRenderer.VisitPolygon self airspace c =
      (match self.map.PreparePolygon airspace.points with
       | none => c
       | some raster_points =>
         AirspaceFillRenderer.VisitPolygon.interior self airspace raster_points c) := by
  have h1 : ∀ x : Ctx, AirspaceVisitorRenderer.SetupOutline self airspace x = (false, x) := by
    intro x
    unfold AirspaceVisitorRenderer.SetupOutline
    simp [hb, hw]
  have h2 : ∀ x : Ctx, AirspaceFillRenderer.SetupOutline self airspace x = (false, x) := by
    intro x
    unfold AirspaceFillRenderer.SetupOutline
    simp [hb, hw]
  refine ⟨h1 c, h2 c, ?_, ?_, ?_, ?_⟩
  · rw [AirspaceVisitorRenderer.VisitCircle_precise_split, h1]
    rfl
  · rw [AirspaceVisitorRenderer.VisitPolygon_precise_split]
    split
    · rfl
    · rw [h1]
      rfl
  · rw [AirspaceFillRenderer.VisitCircle_cheap_split, h2]
    rfl
  · rw [AirspaceFillRenderer.VisitPolygon_cheap_split]
    split
    · rfl
    · rw [h2]
      rfl

/-- C26, at a concrete input: with border width 0 and no black outline the
visit of a circle by the cheap renderer issues the draw of its fill block
only. -/
theorem C26_no_outline_for_zero_border_width_witness :
    (exRenderer FillMode.ALL 0).settings.black_outline = false ∧
    AirspaceFillRenderer.SetupOutline (exRenderer FillMode.ALL 0) exCircle (exCtx []) =
      (false, exCtx []) ∧
    AirspaceFillRenderer.VisitCircle (exRenderer FillMode.ALL 0) exCircle (exCtx []) =
      AirspaceFillRenderer.VisitCircle.interior (exRenderer FillMode.ALL 0) exCircle (exCtx []) :=
  ⟨rfl, (C26_no_outline_for_zero_border_width (exRenderer FillMode.ALL 0) exCircle (exCtx [])
      rfl rfl).2.1,
    (C26_no_outline_for_zero_border_width (exRenderer FillMode.ALL 0) exCircle (exCtx [])
      rfl rfl).2.2.2.2.1⟩


/-! ## Where the precise renderer departs from its comments -/

/-- C24: `SetupInterior(airspace, check_fillstencil = true)` does not return
with the function `GL_EQUAL`, 1, 3. When `glGetError` returns `GL_NO_ERROR`
the call `glStencilFunc(GL_EQUAL, 0, 2)` of the `else` branch follows, and the
function in effect is `GL_EQUAL`, reference 0, mask 2, which passes on a pixel
of stencil value 0, whose fill-mask bit is clear. In `VisitPolygon` of a
polygon that is not fully filled, the pixel (0, 0), covered by the fill
triangles but not by the thick border, is written by the fill draw. -/
theorem C24_fill_not_restricted_to_fill_mask :
    (AirspaceVisitorRenderer.SetupInterior (exRenderer FillMode.PADDING 0) exPolygon true
      (exCtx [])).gl.frag.stencil_func = StencilFunc.GL_EQUAL ∧
    (AirspaceVisitorRenderer.SetupInterior (exRenderer FillMode.PADDING 0) exPolygon true
      (exCtx [])).gl.frag.stencil_ref = 0 ∧
    (AirspaceVisitorRenderer.SetupInterior (exRenderer FillMode.PADDING 0) exPolygon true
      (exCtx [])).gl.frag.stencil_value_mask = 2 ∧
    (AirspaceVisitorRenderer.SetupInterior (exRenderer FillMode.PADDING 0) exPolygon true
      (exCtx [])).gl.frag.stencilPasses 0 = true ∧
    AirspaceVisitorRenderer.reserves (exRenderer FillMode.PADDING 0) exPolygon = true ∧
    AirspaceVisitorRenderer.reservation (exRenderer FillMode.PADDING 0) exPolygon
      (exFillCtx []).gl ⟨0, 0⟩ = false ∧
    (exFillCtx []).gl.color ⟨0, 0⟩ = [] ∧
    ((AirspaceVisitorRenderer.VisitPolygon (exRenderer FillMode.PADDING 0) exPolygon
      (exFillCtx [])).gl.color ⟨0, 0⟩).length = 1 := by
  refine ⟨?_, ?_, ?_, ?_, ?_, ?_, ?_, ?_⟩
  · rw [AirspaceVisitorRenderer.SetupInterior_gl]; rfl
  · rw [AirspaceVisitorRenderer.SetupInterior_gl]; rfl
  · rw [AirspaceVisitorRenderer.SetupInterior_gl]; rfl
  · rw [AirspaceVisitorRenderer.SetupInterior_gl]; rfl
  · decide
  · decide
  · rfl
  · set_option maxRecDepth 20000 in decide

/-- The ring radius of `VisitCircle` does not wrap: in the ring branch the
thick pen is narrower than twice the radius, so a quarter of its width is at
most the radius. -/
theorem ring_radius_no_wrap (screen_radius w : Nat) (hr : screen_radius < 2 ^ 32)
    (h : ¬ u32 w ≥ umul 2 screen_radius) (hw : w < 2 ^ 32) :
    w / 4 ≤ screen_radius ∧ usub screen_radius (w / 4) = screen_radius - w / 4 := by
  unfold u32 umul at h
  unfold usub
  have h1 : w % 2 ^ 32 = w := Nat.mod_eq_of_lt hw
  have h2 : 2 * screen_radius % 2 ^ 32 ≤ 2 * screen_radius := Nat.mod_le _ _
  omega

/-- C27: the inner radius of the ring wraps. For a circle of screen radius 6
and a thick pen of width 11, `VisitCircle` takes the ring branch (11 < 12)
and the ring radius 6 - 11 / 4 = 4 is computed without wrap-around, but the
pen of the ring has width 11 / 2 = 5, which is more than 4, and the inner
radius `Canvas::DrawCircle` hands to the shader is 4 - 5 in unsigned
arithmetic, 4294967295. -/
theorem C27_ring_inner_radius_wraps :
    exThickRenderer.look.thick_pen.width = 11 ∧
    u32 (exThickRenderer.map.GeoToScreenDistance exSmallCircle.radius) = 6 ∧
    11 < 2 * 6 ∧ 11 / 4 ≤ 6 ∧ ¬ (11 / 2 ≤ 6 - 11 / 4) ∧
    (AirspaceVisitorRenderer.VisitCircle exThickRenderer exSmallCircle (exCtx [])).gl.vtx.program
      = some Shader.circle_outline_shader ∧
    (AirspaceVisitorRenderer.VisitCircle exThickRenderer exSmallCircle (exCtx [])).gl.vtx.uniform1
      Uniform.circle_outline_radius2 = 4 ∧
    (AirspaceVisitorRenderer.VisitCircle exThickRenderer exSmallCircle (exCtx [])).gl.vtx.uniform1
      Uniform.circle_outline_radius1 = 4294967295 := by
  refine ⟨rfl, rfl, by decide, by decide, by decide, ?_, ?_, ?_⟩
  · decide
  · decide
  · decide

/-- C28: the outline draw runs with the stencil test disabled. From the fresh
GL state, `Visit` of a circle with border width 1 makes two draw calls, the
fill under the stencil test and the outline, after `SetupOutline` returned
true, with the stencil test disabled; `Visit` of a polygon that is not fully
filled makes four, of which the last, the outline, runs with the stencil test
disabled. -/
theorem C28_outline_drawn_without_stencil_test :
    (AirspaceVisitorRenderer.SetupOutline (exRenderer FillMode.PADDING 1) exCircle
      (exCtx [])).1 = true ∧
    draws (Ctx.issued (AirspaceVisitorRenderer.VisitCircle.interior
      (exRenderer FillMode.PADDING 1) exCircle) (exCtx [])) =
        [GLCall.glDrawArrays Prim.GL_TRIANGLE_STRIP 0 4] ∧
    draws (Ctx.issued (AirspaceVisitorRenderer.Visit (exRenderer FillMode.PADDING 1) exCircle)
      (exCtx [])) = [GLCall.glDrawArrays Prim.GL_TRIANGLE_STRIP 0 4,
        GLCall.glDrawArrays Prim.GL_TRIANGLE_STRIP 0 4] ∧
    GLState.capAtDraws Cap.GL_STENCIL_TEST (exCtx []).gl
      (Ctx.issued (AirspaceVisitorRenderer.Visit (exRenderer FillMode.PADDING 1) exCircle)
        (exCtx [])) = [true, false] ∧
    (AirspaceVisitorRenderer.SetupOutline (exRenderer FillMode.PADDING 1) exPolygon
      (exCtx [])).1 = true ∧
    GLState.capAtDraws Cap.GL_STENCIL_TEST (exCtx []).gl
      (Ctx.issued (AirspaceVisitorRenderer.Visit (exRenderer FillMode.PADDING 1) exPolygon)
        (exCtx [])) = [true, true, true, false] := by
  refine ⟨rfl, ?_, ?_, ?_, rfl, ?_⟩
  · decide
  · decide
  · decide
  · set_option maxRecDepth 20000 in decide

/-- C25: `LoadTextureAutoAlign` does not always load the data, and pads also
when the sizes agree. Without support of non-power-of-two textures the size
3 x 2 is validated to 4 x 2; when `glGetError` then returns 0x502 no texture
image call is made at all and the bound texture has no image. For the size
4 x 2, which is its own validated size, and no GL error, the direct upload
is followed by the allocation with a null pointer and `glTexSubImage2D`. -/
theorem C25_upload_depends_on_error_code :
    ValidateTextureSize.ofSize (exGlobals false) ⟨3, 2⟩ = some ⟨4, 2⟩ ∧
    (LoadTextureAutoAlign (exGlobals false) GL_LUMINANCE ⟨3, 2⟩ GL_LUMINANCE GL_UNSIGNED_BYTE
      [10, 20, 30, 40, 50, 60] (exCtx [0x502])).map (fun c => texCalls c.trace) = some [] ∧
    (LoadTextureAutoAlign (exGlobals false) GL_LUMINANCE ⟨3, 2⟩ GL_LUMINANCE GL_UNSIGNED_BYTE
      [10, 20, 30, 40, 50, 60] (exCtx [0x502])).map (fun c => boundImage c.trace) = some none ∧
    ValidateTextureSize.ofSize (exGlobals false) ⟨4, 2⟩ = some ⟨4, 2⟩ ∧
    (LoadTextureAutoAlign (exGlobals false) GL_LUMINANCE ⟨4, 2⟩ GL_LUMINANCE GL_UNSIGNED_BYTE
      [10, 20, 30, 40, 50, 60, 70, 80] (exCtx [])).map (fun c => texCalls c.trace) =
      some [GLCall.glTexImage2D GL_LUMINANCE 4 2 GL_LUMINANCE GL_UNSIGNED_BYTE
              (some [10, 20, 30, 40, 50, 60, 70, 80]),
            GLCall.glTexImage2D GL_LUMINANCE 4 2 GL_LUMINANCE GL_UNSIGNED_BYTE none,
            GLCall.glTexSubImage2D 0 0 4 2 GL_LUMINANCE GL_UNSIGNED_BYTE
              [10, 20, 30, 40, 50, 60, 70, 80]] := by
  refine ⟨by decide, ?_, ?_, by decide, ?_⟩ <;> decide

end XCSoar
